import Mathlib

/-!
bellhopcuda: boundary reflection and reflection-coefficient tables.

A shallow embedding of `src/src/reflect.hpp` and `src/src/refcoef.hpp`.

* `real` is modelled by an arbitrary linearly ordered field `K`, so every
  statement is about exact arithmetic; instantiating `K := ℚ` makes the
  definitions evaluable.
* `cpx` (`std::complex<real>`) is the structure `Cpx K` with the textbook
  operations.
* The routines of `<cmath>` / `<complex>` that are not field operations
  (`sqrt`, `atan2`, ...) are collected in the record `STD K` and passed in.
* `int32_t` indices and counters are modelled in `ℤ`.
* A loop that is not bounded by its own text takes a fuel argument that
  counts iterations; `bail()` / an out-of-range read / exhausted fuel are
  values of `Fault`.
-/

namespace bhc

/-! ## glm vectors -/

/-- The glm type `vec2` over the scalar type `K`. -/
structure Vec2 (K : Type) where
  x : K
  y : K
deriving DecidableEq

/-- The glm type `vec3` over the scalar type `K`. -/
structure Vec3 (K : Type) where
  x : K
  y : K
  z : K
deriving DecidableEq

/-- The glm type `mat2x2`, stored by columns: `M[0] = c0`, `M[1] = c1`. -/
structure Mat2 (K : Type) where
  c0 : Vec2 K
  c1 : Vec2 K
deriving DecidableEq

/-- The type `cpx`, that is `std::complex<real>`. -/
structure Cpx (K : Type) where
  re : K
  im : K
deriving DecidableEq

/-- The preprocessor definition `SQ(a)`, which expands to `a * a`. -/
def SQ {α : Type} [Mul α] (a : α) : α := a * a

namespace Vec2

variable {K : Type} [LinearOrderedField K]

instance : Add (Vec2 K) := ⟨fun a b => ⟨a.x + b.x, a.y + b.y⟩⟩
instance : Sub (Vec2 K) := ⟨fun a b => ⟨a.x - b.x, a.y - b.y⟩⟩
instance : Neg (Vec2 K) := ⟨fun a => ⟨-a.x, -a.y⟩⟩
instance : SMul K (Vec2 K) := ⟨fun s a => ⟨s * a.x, s * a.y⟩⟩

/-- The glm function `glm::dot` on `vec2`. -/
def dot (a b : Vec2 K) : K := a.x * b.x + a.y * b.y

end Vec2

namespace Vec3

variable {K : Type} [LinearOrderedField K]

instance : Add (Vec3 K) := ⟨fun a b => ⟨a.x + b.x, a.y + b.y, a.z + b.z⟩⟩
instance : Sub (Vec3 K) := ⟨fun a b => ⟨a.x - b.x, a.y - b.y, a.z - b.z⟩⟩
instance : Neg (Vec3 K) := ⟨fun a => ⟨-a.x, -a.y, -a.z⟩⟩
instance : SMul K (Vec3 K) := ⟨fun s a => ⟨s * a.x, s * a.y, s * a.z⟩⟩

/-- The glm function `glm::dot` on `vec3`. -/
def dot (a b : Vec3 K) : K := a.x * b.x + a.y * b.y + a.z * b.z

/-- The preprocessor definition `XYCOMP(v)`: the first two components of a `vec3`. -/
def XYCOMP (a : Vec3 K) : Vec2 K := ⟨a.x, a.y⟩

end Vec3

namespace Mat2

variable {K : Type} [LinearOrderedField K]

instance : SMul K (Mat2 K) := ⟨fun s a => ⟨s • a.c0, s • a.c1⟩⟩

/-- Matrix times column vector, `M * v = v.x * M[0] + v.y * M[1]`. -/
def mulVec (a : Mat2 K) (v : Vec2 K) : Vec2 K := v.x • a.c0 + v.y • a.c1

/-- Matrix product of glm: column `j` of `A * B` is `A * B[j]`. -/
def mul (a b : Mat2 K) : Mat2 K := ⟨mulVec a b.c0, mulVec a b.c1⟩

/-- The glm function `glm::transpose`. -/
def transpose (a : Mat2 K) : Mat2 K := ⟨⟨a.c0.x, a.c1.x⟩, ⟨a.c0.y, a.c1.y⟩⟩

end Mat2

namespace Cpx

variable {K : Type} [LinearOrderedField K]

/-- Conversion `real -> cpx`. -/
def ofReal (a : K) : Cpx K := ⟨a, 0⟩

/-- The imaginary unit `J`. -/
def J : Cpx K := ⟨0, 1⟩

instance : Add (Cpx K) := ⟨fun a b => ⟨a.re + b.re, a.im + b.im⟩⟩
instance : Sub (Cpx K) := ⟨fun a b => ⟨a.re - b.re, a.im - b.im⟩⟩
instance : Neg (Cpx K) := ⟨fun a => ⟨-a.re, -a.im⟩⟩
instance : Mul (Cpx K) :=
  ⟨fun a b => ⟨a.re * b.re - a.im * b.im, a.re * b.im + a.im * b.re⟩⟩
instance : Div (Cpx K) :=
  ⟨fun a b => ⟨(a.re * b.re + a.im * b.im) / (b.re * b.re + b.im * b.im),
               (a.im * b.re - a.re * b.im) / (b.re * b.re + b.im * b.im)⟩⟩
/-- Mixed product `real * cpx`. -/
instance : SMul K (Cpx K) := ⟨fun s a => ⟨s * a.re, s * a.im⟩⟩

/-- Mixed quotient `cpx / real`. -/
def divReal (a : Cpx K) (s : K) : Cpx K := ⟨a.re / s, a.im / s⟩

/-- The function `std::conj`. -/
def conj (a : Cpx K) : Cpx K := ⟨a.re, -a.im⟩

/-- Squared modulus, the argument of the square root in `std::abs`. -/
def normSq (a : Cpx K) : K := a.re * a.re + a.im * a.im

end Cpx

/-- The non-algebraic routines and constants of the C++ standard library
that the embedded code calls (`STD::` in the source). They are parameters
of the model: nothing is assumed about them unless a theorem says so. -/
structure STD (K : Type) where
  /-- The constant `REAL_PI`. -/
  pi : K
  /-- The constant `REAL_MINPOS`. -/
  minpos : K
  /-- The real `STD::sqrt`. -/
  sqrt : K → K
  /-- The function `STD::atan2(y, x)`. -/
  atan2 : K → K → K
  /-- The function `STD::atan`. -/
  atan : K → K
  /-- The function `STD::cos`. -/
  cos : K → K
  /-- The function `STD::sin`. -/
  sin : K → K
  /-- The complex `STD::sqrt`. -/
  csqrt : Cpx K → Cpx K
  /-- The function `STD::exp`. -/
  exp : K → K

namespace STD

variable {K : Type} [LinearOrderedField K]

/-- The constant `RadDeg = 180 / pi`. -/
def RadDeg (m : STD K) : K := 180 / m.pi

/-- The constant `DegRad = pi / 180`. -/
def DegRad (m : STD K) : K := m.pi / 180

/-- The complex `STD::abs`. -/
def cabs (m : STD K) (a : Cpx K) : K := m.sqrt (Cpx.normSq a)

/-- The function `glm::length` on `vec2`. -/
def length2 (m : STD K) (a : Vec2 K) : K := m.sqrt (Vec2.dot a a)

/-- The function `glm::length` on `vec3`. -/
def length3 (m : STD K) (a : Vec3 K) : K := m.sqrt (Vec3.dot a a)

end STD

/-- The ways in which an embedded routine fails to return. -/
inductive Fault where
  /-- `bail()` after "Reflect: Unknown boundary condition type". -/
  | unknownBC
  /-- A read of a table entry outside `0 .. length-1`. -/
  | outOfBounds
  /-- The loop was still running when the fuel ran out. -/
  | loopFuel
deriving DecidableEq

/-! ## Reflection-coefficient table (`refcoef.hpp`, `reflect.hpp`) -/

/-- The struct `ReflectionCoef` of `refcoef.hpp`. -/
structure ReflectionCoef (K : Type) where
  theta : K
  r : K
  phi : K
deriving DecidableEq

/-- The struct `ReflectionInfoTopBot`: a table `r` and its length `NPts`. -/
structure ReflectionInfoTopBot (K : Type) where
  NPts : Int
  r : List (ReflectionCoef K)

/-- The arguments of the one `GlobalLog` warning of
`InterpolateReflectionCoefficient` ("Refl. Coef. being set to 0 outside
tabulated domain : angle = %f, lower limit = %f"). -/
structure LogWarning (K : Type) where
  angle : K
  lowerLimit : K
deriving DecidableEq

section RC

variable {K : Type} [LinearOrderedField K]

/-- The read `rtb.r[i]` with an `int32_t` index. -/
def ReflectionInfoTopBot.entry (rtb : ReflectionInfoTopBot K) (i : Int) :
    Except Fault (ReflectionCoef K) :=
  if 0 ≤ i then
    match rtb.r[i.toNat]? with
    | some e => .ok e
    | none => .error .outOfBounds
  else .error .outOfBounds

/-- The `while(iLeft != iRight - 1)` loop of
`InterpolateReflectionCoefficient`; `fuel` bounds the number of iterations. -/
def bisectLoop (rtb : ReflectionInfoTopBot K) (thetaIntr : K) :
    Nat → Int → Int → Except Fault (Int × Int)
  | 0, iLeft, iRight =>
    if iLeft ≠ iRight - 1 then .error .loopFuel else .ok (iLeft, iRight)
  | fuel + 1, iLeft, iRight =>
    if iLeft ≠ iRight - 1 then
      let iMid := Int.tdiv (iLeft + iRight) 2
      match rtb.entry iMid with
      | .error e => .error e
      | .ok m =>
        if m.theta > thetaIntr then bisectLoop rtb thetaIntr fuel iLeft iMid
        else bisectLoop rtb thetaIntr fuel iMid iRight
    else .ok (iLeft, iRight)

/-- The function `InterpolateReflectionCoefficient` of `reflect.hpp`.
Returns the updated `RInt` and the warnings passed to `GlobalLog`. -/
def InterpolateReflectionCoefficient (fuel : Nat) (RInt : ReflectionCoef K)
    (rtb : ReflectionInfoTopBot K) :
    Except Fault (ReflectionCoef K × List (LogWarning K)) :=
  let iLeft : Int := 0
  let iRight : Int := rtb.NPts - 1
  let thetaIntr := RInt.theta
  match rtb.entry iLeft with
  | .error e => .error e
  | .ok eLeft =>
    if thetaIntr < eLeft.theta then
      .ok ({ RInt with r := 0, phi := 0 }, [⟨thetaIntr, eLeft.theta⟩])
    else
      match rtb.entry iRight with
      | .error e => .error e
      | .ok eRight =>
        if thetaIntr > eRight.theta then
          .ok ({ RInt with r := 0, phi := 0 }, [])
        else
          match bisectLoop rtb thetaIntr fuel iLeft iRight with
          | .error e => .error e
          | .ok (iL, iR) =>
            match rtb.entry iL, rtb.entry iR with
            | .ok eL, .ok eR =>
              let alpha := (RInt.theta - eL.theta) / (eR.theta - eL.theta)
              .ok ({ RInt with
                      r := (1 - alpha) * eL.r + alpha * eR.r,
                      phi := (1 - alpha) * eL.phi + alpha * eR.phi }, [])
            | _, _ => .error .outOfBounds

/-- The function `InterpolateReflectionCoefficient` of `refcoef.hpp`: the
same statements as the `reflect.hpp` version, with the table passed as the
pair `(r, NPts)` and `printf` in place of `GlobalLog`. -/
def refcoef_InterpolateReflectionCoefficient (fuel : Nat) (RInt : ReflectionCoef K)
    (r : List (ReflectionCoef K)) (NPts : Int) :
    Except Fault (ReflectionCoef K × List (LogWarning K)) :=
  InterpolateReflectionCoefficient fuel RInt ⟨NPts, r⟩

end RC

/-! ## Data read and written by `Reflect` -/

/-- The struct `HSInfo` of `ssp.hpp`: half-space properties. -/
structure HSInfo (K : Type) where
  alphaR : K
  betaR : K
  alphaI : K
  betaI : K
  cP : Cpx K
  cS : Cpx K
  rho : K
  Depth : K
  bc : Char
  Opt : List Char

/-- The part of `BeamStructure` that `Reflect` reads: the option string
`Beam->Type`, a `char[4]`. -/
structure BeamStructure where
  Type_ : Fin 4 → Char

/-- Modelled from the spec: the struct `rayPt<false>` is not among the
sources; section 3 (RayPoint) lists its members. The paraxial variables
`p`, `q` have a type `P` on which `Reflect` only uses `+` and the product
with a `real`. -/
structure rayPt2 (K P : Type) where
  NumTopBnc : Int
  NumBotBnc : Int
  x : Vec2 K
  t : Vec2 K
  p : P
  q : P
  c : K
  Amp : K
  Phase : K
  tau : Cpx K

/-- Modelled from the spec: the struct `rayPt<true>` is not among the
sources; section 3 (RayPoint) lists its members, with the auxiliary angle
`phi` in 3D. -/
structure rayPt3 (K P : Type) where
  NumTopBnc : Int
  NumBotBnc : Int
  x : Vec3 K
  t : Vec3 K
  p : P
  q : P
  c : K
  Amp : K
  Phase : K
  tau : Cpx K
  phi : K

/-- The outputs of the 2D-ray SSP evaluator (`SSP_FN_ARGS` of `ssp.hpp`). -/
structure SSPOutputs2 (K : Type) where
  ccpx : Cpx K
  gradc : Vec2 K
  crr : K
  crz : K
  czz : K
  rho : K

/-- Modelled from the spec: `SSPOutputs<true>` is not among the sources; the
evaluator of section 4.A gives complex speed, gradient, second derivatives
and density. -/
structure SSPOutputs3 (K : Type) where
  ccpx : Cpx K
  gradc : Vec3 K
  cxx : K
  cyy : K
  czz : K
  cxy : K
  cxz : K
  cyz : K
  rho : K

/-- The struct `ReflCurvature<false>`: the scalar curvature `kappa`. -/
structure ReflCurvature2 (K : Type) where
  kappa : K

/-- The struct `ReflCurvature<true>`: the second-derivative moments. -/
structure ReflCurvature3 (K : Type) where
  z_xx : K
  z_xy : K
  z_yy : K
  kappa_xx : K
  kappa_xy : K
  kappa_yy : K

/-- The struct `Origin<true, false>` of an Nx2D ray fan: source position
and radial direction. -/
structure Origin (K : Type) where
  xs : Vec3 K
  tradial : Vec2 K

section Reflect

variable {K : Type} [LinearOrderedField K]

/-- The instance `OceanToRayCurvature<false, false>`. -/
def OceanToRayCurvature2D (rcurv : ReflCurvature2 K) (_isTop : Bool) :
    ReflCurvature2 K := rcurv

/-- The instance `OceanToRayCurvature<true, false>`. -/
def OceanToRayCurvatureNx2D (rcurv : ReflCurvature3 K) (org : Origin K)
    (isTop : Bool) : ReflCurvature2 K :=
  let kappa := rcurv.kappa_xx * SQ org.tradial.x
    + 2 * rcurv.kappa_xy * org.tradial.x * org.tradial.y
    + rcurv.kappa_yy * SQ org.tradial.y
  ⟨if isTop then -kappa else kappa⟩

/-- The instance `OceanToRayCurvature<true, true>`. -/
def OceanToRayCurvature3D (rcurv : ReflCurvature3 K) (_isTop : Bool) :
    ReflCurvature3 K := rcurv

/-- Modelled from the spec: `RayToOceanT<false, false>` is not among the
sources; section 4.E item 1 takes `Th = t · n` with `n` the boundary normal
itself, so with 2D ocean and 2D rays the conversion changes nothing. -/
def RayToOceanT2D (t : Vec2 K) : Vec2 K := t

/-- Modelled from the spec: `RayToOceanT<true, true>` is not among the
sources; section 4.E item 1 takes `Th = t · n` with `n` the boundary normal
itself, so with 3D ocean and 3D rays the conversion changes nothing. -/
def RayToOceanT3D (t : Vec3 K) : Vec3 K := t

/-- The conversion `(int)isTop`. -/
def boolToInt (b : Bool) : Int := if b then 1 else 0

/-- Lines 353-382 of `Reflect`: the complex reflection coefficient of a
half-space when `O3D` is false. -/
def ReflCoef2D (m : STD K) (hs : HSInfo K) (rho : K) (omega Th Tg : K) : Cpx K :=
  let kx : Cpx K := Cpx.ofReal (omega * Tg)
  let kz : Cpx K := Cpx.ofReal (omega * Th)
  let kx2 := SQ kx
  let fg : Cpx K × Cpx K :=
    if hs.cS.re > 0 then
      let kzS2 := kx2 - SQ (Cpx.ofReal omega / hs.cS)
      let kzP2 := kx2 - SQ (Cpx.ofReal omega / hs.cP)
      let kzS := m.csqrt kzS2
      let kzP := m.csqrt kzP2
      let mu := hs.rho • SQ hs.cS
      let y2 := (SQ (kzS2 + kx2) - ((4 : K) • kzS) * kzP * kx2) * mu
      let y4 := kzP * (kx2 - kzS2)
      (SQ omega • y4, y2)
    else
      let kzP0 := m.csqrt (kx2 - SQ (Cpx.ofReal omega / hs.cP))
      let kzP := if kzP0.re = 0 ∧ kzP0.im < 0 then -kzP0 else kzP0
      (kzP, Cpx.ofReal hs.rho)
  let f := fg.1
  let g := fg.2
  (-(rho • f - Cpx.J * kz * g)) / (rho • f + Cpx.J * kz * g)

/-- Lines 337-344 of `Reflect`: the complex reflection coefficient of a
half-space when `O3D` is true (`c` is `o.ccpx.real()`, `rho` is `o.rho`). -/
def ReflCoefO3D (m : STD K) (hs : HSInfo K) (c rho : K) (omega Tg : K) : Cpx K :=
  let gk : Cpx K := Cpx.ofReal (omega * Tg)
  let gamma1Sq := Cpx.ofReal (SQ (omega / c)) - SQ gk - m.minpos • Cpx.J
  let gamma2Sq := SQ (Cpx.ofReal omega / hs.cP) - SQ gk - m.minpos • Cpx.J
  let gamma1 := m.csqrt (-gamma1Sq)
  let gamma2 := m.csqrt (-gamma2Sq)
  (hs.rho • gamma1 - rho • gamma2) / (hs.rho • gamma1 + rho • gamma2)

/-- Lines 346-351 of `Reflect` (3D only): the wall hack applied to the
coefficient. -/
def wallHack (m : STD K) (nBdry : Vec3 K) (Refl : Cpx K) : Cpx K :=
  if |m.RadDeg * m.atan2 nBdry.z (m.length2 ⟨nBdry.x, nBdry.y⟩)| < 0 then
    Cpx.ofReal 1
  else Refl

/-- The angle handed to the interpolator, lines 328-329 of `Reflect`. -/
def incidenceAngle (m : STD K) (Th Tg : K) : K :=
  let theta := m.RadDeg * |m.atan2 Th Tg|
  if theta > 90 then 180 - theta else theta

/-- Lines 413-462 of `Reflect`: beam displacement and width change
(Seongil), for `R3D` false; `O3D` selects the displacement of `x`. -/
def beamDisplacement {P : Type} [Add P] [SMul K P] (m : STD K) (O3D : Bool)
    (oldPoint : rayPt2 K P) (hs : HSInfo K) (occpx : Cpx K) (omega : K)
    (tBdry : Vec2 K) (newPoint : rayPt2 K P) : rayPt2 K P :=
  let ch : Cpx K := Cpx.ofReal oldPoint.c / Cpx.conj hs.cP
  let co : K := oldPoint.t.x * oldPoint.c
  let si : K := oldPoint.t.y * oldPoint.c
  let ck : K := omega / oldPoint.c
  let a : Cpx K := (2 * hs.rho) • (Cpx.ofReal 1 - SQ ch)
  let b : Cpx K := Cpx.ofReal (SQ co) - SQ ch
  let d : Cpx K := Cpx.ofReal (SQ hs.rho * SQ si) + b
  let sb : Cpx K := m.csqrt b
  let cco : K := SQ co
  let ssi : K := SQ si
  let delta : Cpx K :=
    if si ≠ 0 then Cpx.divReal (co • a) si / ((ck • sb) * d) else Cpx.ofReal 0
  let pdelta : K := delta.re / (oldPoint.c / co)
  let cksbd : Cpx K := (ck • sb) * d
  let ddelta : Cpx K := a * (Cpx.ofReal cco / (cksbd * b)
    - Cpx.ofReal (1 + (cco / ssi)) / cksbd
    - Cpx.ofReal (2 * SQ co * (SQ hs.rho - 1)) / (cksbd * d))
  let rddelta : K := -ddelta.re
  let sddelta : K := rddelta / |rddelta|
  let x : Vec2 K :=
    if O3D then ⟨newPoint.x.x + delta.re, newPoint.x.y⟩
    else
      let theta_bot := m.atan (tBdry.y / tBdry.x)
      ⟨newPoint.x.x + delta.re * m.cos theta_bot,
       newPoint.x.y + delta.re * m.sin theta_bot⟩
  { newPoint with
    x := x
    tau := newPoint.tau + Cpx.ofReal pdelta
    q := newPoint.q + (sddelta * rddelta * si * occpx.re) • oldPoint.p }

/-- Lines 318-468 of `Reflect` for `R3D` false: the amplitude and phase
change, with `O3D` the other template argument and `o` the SSP output. The
local `RInt` is handed to the interpolator with `r`, `phi` not yet set (here
0); every returning path of the interpolator writes both. -/
def ampPhase2 {P : Type} [Add P] [SMul K P] (m : STD K) (O3D : Bool) (fuel : Nat)
    (oldPoint : rayPt2 K P) (hs : HSInfo K) (Th Tg : K) (tBdry : Vec2 K)
    (o : SSPOutputs2 K) (freq : K) (rtb : ReflectionInfoTopBot K)
    (Beam : BeamStructure) (newPoint : rayPt2 K P) : Except Fault (rayPt2 K P) :=
  if hs.bc = 'R' then
    .ok { newPoint with Amp := oldPoint.Amp, Phase := oldPoint.Phase }
  else if hs.bc = 'V' then
    .ok { newPoint with Amp := oldPoint.Amp, Phase := oldPoint.Phase + m.pi }
  else if hs.bc = 'F' then
    match InterpolateReflectionCoefficient fuel
        { theta := incidenceAngle m Th Tg, r := 0, phi := 0 } rtb with
    | .error e => .error e
    | .ok (RInt, _) =>
      .ok { newPoint with Amp := oldPoint.Amp * RInt.r,
                          Phase := oldPoint.Phase + RInt.phi }
  else if hs.bc = 'A' ∨ hs.bc = 'G' then
    let omega := 2 * m.pi * freq
    let Refl : Cpx K :=
      if O3D then ReflCoefO3D m hs o.ccpx.re o.rho omega Tg
      else ReflCoef2D m hs o.rho omega Th Tg
    if m.cabs Refl < 1e-5 then
      .ok { newPoint with Amp := 0, Phase := oldPoint.Phase }
    else
      let np : rayPt2 K P :=
        { newPoint with Amp := m.cabs Refl * oldPoint.Amp,
                        Phase := oldPoint.Phase + m.atan2 Refl.im Refl.re }
      if Beam.Type_ 3 = 'S' then
        .ok (beamDisplacement m O3D oldPoint hs o.ccpx omega tBdry np)
      else .ok np
  else .error .unknownBC

/-- The instance `Reflect<false, false>` (2D) of `reflect.hpp`.

* `EvaluateSSP x t` is the output `o` of the call
  `EvaluateSSP<O3D, R3D>(x, t, o, org, ssp, iSeg)`; the templated evaluator
  is not among the sources and is a parameter (a call in which the
  evaluator bails never reaches the statements after it).
* `RayToOceanT<false, false>` is `RayToOceanT2D`.
* `newPoint` is the value the reference holds on entry. -/
def Reflect2D {P : Type} [Add P] [SMul K P] (m : STD K)
    (EvaluateSSP : Vec2 K → Vec2 K → SSPOutputs2 K) (fuel : Nat)
    (oldPoint newPoint : rayPt2 K P) (hs : HSInfo K) (isTop : Bool)
    (tBdry nBdry : Vec2 K) (rcurv : ReflCurvature2 K) (freq : K)
    (rtb : ReflectionInfoTopBot K) (Beam : BeamStructure) :
    Except Fault (rayPt2 K P) :=
  let nBdry_ray : Vec2 K := RayToOceanT2D nBdry
  let Th := Vec2.dot oldPoint.t nBdry_ray
  let Tg := Vec2.dot oldPoint.t tBdry
  let rcurv_ray := OceanToRayCurvature2D rcurv isTop
  let newPoint : rayPt2 K P :=
    { newPoint with
      NumTopBnc := oldPoint.NumTopBnc + boolToInt isTop
      NumBotBnc := oldPoint.NumBotBnc + (1 - boolToInt isTop)
      x := oldPoint.x
      t := oldPoint.t - (2 * Th) • nBdry_ray }
  let o := EvaluateSSP oldPoint.x oldPoint.t
  let newPoint : rayPt2 K P :=
    { newPoint with c := o.ccpx.re, tau := oldPoint.tau }
  let rayt : Vec2 K := o.ccpx.re • oldPoint.t
  let rayn : Vec2 K := ⟨-rayt.y, rayt.x⟩
  let rayt_tilde : Vec2 K := o.ccpx.re • newPoint.t
  let rayn_tilde : Vec2 K := -(⟨-rayt_tilde.y, rayt_tilde.x⟩ : Vec2 K)
  let rn := 2 * rcurv_ray.kappa / SQ o.ccpx.re / Th
  let cnjump := -Vec2.dot o.gradc (rayn_tilde - rayn)
  let csjump := -Vec2.dot o.gradc (rayt_tilde - rayt)
  let cnjump := if isTop then -cnjump else cnjump
  let rn := if isTop then -rn else rn
  let rm := Tg / Th
  let rn := rn + rm * (2 * cnjump - rm * csjump) / SQ o.ccpx.re
  let rn := if Beam.Type_ 2 = 'D' then rn * 2
            else if Beam.Type_ 2 = 'Z' then 0 else rn
  let newPoint : rayPt2 K P :=
    { newPoint with p := oldPoint.p + rn • oldPoint.q, q := oldPoint.q }
  ampPhase2 m false fuel oldPoint hs Th Tg tBdry o freq rtb Beam newPoint

/-- The instance `Reflect<true, false>` (Nx2D) of `reflect.hpp`.
`RayToOceanT<true, false>` is not among the sources and is a parameter;
the argument `tBdry` is overwritten before it is read. -/
def ReflectNx2D {P : Type} [Add P] [SMul K P] (m : STD K)
    (RayToOceanT : Vec3 K → Origin K → Vec2 K)
    (EvaluateSSP : Vec2 K → Vec2 K → SSPOutputs2 K) (fuel : Nat)
    (oldPoint newPoint : rayPt2 K P) (hs : HSInfo K) (isTop : Bool)
    (_tBdry : Vec2 K) (nBdry : Vec3 K) (rcurv : ReflCurvature3 K) (freq : K)
    (rtb : ReflectionInfoTopBot K) (Beam : BeamStructure) (org : Origin K) :
    Except Fault (rayPt2 K P) :=
  let nBdry_ray : Vec2 K := RayToOceanT nBdry org
  let nBdry_ray : Vec2 K := (1 / m.length2 nBdry_ray) • nBdry_ray
  let Th := Vec2.dot oldPoint.t nBdry_ray
  let tBdry : Vec2 K := oldPoint.t - Th • nBdry_ray
  let tBdry : Vec2 K := (1 / m.length2 tBdry) • tBdry
  let Tg := Vec2.dot oldPoint.t tBdry
  let rcurv_ray := OceanToRayCurvatureNx2D rcurv org isTop
  let newPoint : rayPt2 K P :=
    { newPoint with
      NumTopBnc := oldPoint.NumTopBnc + boolToInt isTop
      NumBotBnc := oldPoint.NumBotBnc + (1 - boolToInt isTop)
      x := oldPoint.x
      t := oldPoint.t - (2 * Th) • nBdry_ray }
  let o := EvaluateSSP oldPoint.x newPoint.t
  let newPoint : rayPt2 K P :=
    { newPoint with c := o.ccpx.re, tau := oldPoint.tau }
  let rayt : Vec2 K := o.ccpx.re • oldPoint.t
  let rayn : Vec2 K := ⟨-rayt.y, rayt.x⟩
  let rayt_tilde : Vec2 K := o.ccpx.re • newPoint.t
  let rayn_tilde : Vec2 K := -(⟨-rayt_tilde.y, rayt_tilde.x⟩ : Vec2 K)
  let rn := 2 * rcurv_ray.kappa / SQ o.ccpx.re / Th
  let cnjump := -Vec2.dot o.gradc (rayn_tilde - rayn)
  let csjump := -Vec2.dot o.gradc (rayt_tilde - rayt)
  let cnjump := if isTop then -cnjump else cnjump
  let rn := if isTop then -rn else rn
  let rm := Tg / Th
  let rn := rn + rm * (2 * cnjump - rm * csjump) / SQ o.ccpx.re
  let rn := if Beam.Type_ 2 = 'D' then rn * 2
            else if Beam.Type_ 2 = 'Z' then 0 else rn
  let newPoint : rayPt2 K P :=
    { newPoint with p := oldPoint.p + rn • oldPoint.q, q := oldPoint.q }
  ampPhase2 m true fuel oldPoint hs Th Tg tBdry o freq rtb Beam newPoint

/-- Lines 318-468 of `Reflect` for `R3D` true (and so `O3D` true): the
amplitude and phase change; there is no beam displacement in 3D. -/
def ampPhase3 {P : Type} (m : STD K) (fuel : Nat)
    (oldPoint : rayPt3 K P) (hs : HSInfo K) (Th Tg : K) (nBdry : Vec3 K)
    (o : SSPOutputs3 K) (freq : K) (rtb : ReflectionInfoTopBot K)
    (newPoint : rayPt3 K P) : Except Fault (rayPt3 K P) :=
  if hs.bc = 'R' then
    .ok { newPoint with Amp := oldPoint.Amp, Phase := oldPoint.Phase }
  else if hs.bc = 'V' then
    .ok { newPoint with Amp := oldPoint.Amp, Phase := oldPoint.Phase + m.pi }
  else if hs.bc = 'F' then
    match InterpolateReflectionCoefficient fuel
        { theta := incidenceAngle m Th Tg, r := 0, phi := 0 } rtb with
    | .error e => .error e
    | .ok (RInt, _) =>
      .ok { newPoint with Amp := oldPoint.Amp * RInt.r,
                          Phase := oldPoint.Phase + RInt.phi }
  else if hs.bc = 'A' ∨ hs.bc = 'G' then
    let omega := 2 * m.pi * freq
    let Refl : Cpx K :=
      wallHack m nBdry (ReflCoefO3D m hs o.ccpx.re o.rho omega Tg)
    if m.cabs Refl < 1e-5 then
      .ok { newPoint with Amp := 0, Phase := oldPoint.Phase }
    else
      .ok { newPoint with Amp := m.cabs Refl * oldPoint.Amp,
                          Phase := oldPoint.Phase + m.atan2 Refl.im Refl.re }
  else .error .unknownBC

/-- The routines of the 3D ray code that `Reflect<true, true>` calls and
that are not among the sources.

Modelled from the spec: `CurvatureCorrection3D` is the update of section
4.E item 4, the 3D analogue of `p' = p + q·rn`; it receives the point that
`Reflect` has prepared and gives back the paraxial members `(p, q, phi)`
that `Reflect` copied in for it. -/
structure Ray3D (K P : Type) where
  /-- The routine `CalcTangent_Normals(point, c, nBdry, rayt, rayn1, rayn2, sign)`. -/
  CalcTangent_Normals : rayPt3 K P → K → Vec3 K → K → Vec3 K × Vec3 K × Vec3 K
  /-- The routine `RayNormal(t, phi, c, e1, e2)`. -/
  RayNormal : Vec3 K → K → K → Vec3 K × Vec3 K
  /-- The routine `CurvatureCorrection3D<true>`. -/
  CurvatureCorrection3D : rayPt3 K P → Mat2 K → K → K → K → K → K →
    Vec3 K → Vec3 K → Vec3 K → Vec3 K → P × P × K

/-- The instance `Reflect<true, true>` (3D) of `reflect.hpp`.
`RayToOceanT<true, true>` is `RayToOceanT3D`; the argument `tBdry` is
overwritten before it is read. -/
def Reflect3D {P : Type} (m : STD K) (ray : Ray3D K P)
    (EvaluateSSP : Vec3 K → Vec3 K → SSPOutputs3 K) (fuel : Nat)
    (oldPoint newPoint : rayPt3 K P) (hs : HSInfo K) (isTop : Bool)
    (_tBdry : Vec3 K) (nBdry : Vec3 K) (rcurv : ReflCurvature3 K) (freq : K)
    (rtb : ReflectionInfoTopBot K) :
    Except Fault (rayPt3 K P) :=
  let nBdry_ray : Vec3 K := RayToOceanT3D nBdry
  let Th := Vec3.dot oldPoint.t nBdry_ray
  let tBdry : Vec3 K := oldPoint.t - Th • nBdry_ray
  let tBdry : Vec3 K := (1 / m.length3 tBdry) • tBdry
  let Tg := Vec3.dot oldPoint.t tBdry
  let rcurv_ray := OceanToRayCurvature3D rcurv isTop
  let newPoint : rayPt3 K P :=
    { newPoint with
      NumTopBnc := oldPoint.NumTopBnc + boolToInt isTop
      NumBotBnc := oldPoint.NumBotBnc + (1 - boolToInt isTop)
      x := oldPoint.x
      t := oldPoint.t - (2 * Th) • nBdry_ray }
  let o := EvaluateSSP oldPoint.x newPoint.t
  let newPoint : rayPt3 K P :=
    { newPoint with c := o.ccpx.re, tau := oldPoint.tau }
  let inc := ray.CalcTangent_Normals oldPoint o.ccpx.re nBdry (-1)
  let rft := ray.CalcTangent_Normals newPoint o.ccpx.re nBdry (-1)
  let rayt := inc.1
  let rayn1 := inc.2.1
  let rayn2 := inc.2.2
  let rayt_tilde := rft.1
  let rayn1_tilde := rft.2.1
  let rayn2_tilde := rft.2.2
  let t_rot : Vec2 K := Vec3.XYCOMP rayt
  let t_rot : Vec2 K := (1 / m.length2 t_rot) • t_rot
  let n_rot : Vec2 K := Vec3.XYCOMP rayn2
  let n_rot : Vec2 K := (1 / m.length2 n_rot) • n_rot
  let RotMat : Mat2 K := ⟨t_rot, n_rot⟩
  let kappaMat : Mat2 K :=
    ⟨⟨rcurv_ray.z_xx / 2, rcurv_ray.z_xy / 2⟩,
     ⟨rcurv_ray.z_xy / 2, rcurv_ray.z_yy / 2⟩⟩
  let DMatTemp : Mat2 K := Mat2.mul ((2 : K) • kappaMat) RotMat
  let DMat : Mat2 K := Mat2.mul (Mat2.transpose RotMat) DMatTemp
  let cn1jump := Vec3.dot o.gradc (-rayn1_tilde - rayn1)
  let cn2jump := Vec3.dot o.gradc (-rayn2_tilde - rayn2)
  let csjump := -Vec3.dot o.gradc (rayt_tilde - rayt)
  let e := ray.RayNormal oldPoint.t oldPoint.phi oldPoint.c
  let newPoint : rayPt3 K P :=
    { newPoint with p := oldPoint.p, q := oldPoint.q, phi := oldPoint.phi }
  let pq := ray.CurvatureCorrection3D newPoint DMat Tg Th cn1jump cn2jump csjump
    rayn1 rayn2 e.1 e.2
  let newPoint : rayPt3 K P :=
    { newPoint with p := pq.1, q := pq.2.1, phi := pq.2.2 }
  ampPhase3 m fuel oldPoint hs Th Tg nBdry o freq rtb newPoint

/-! ## Named intermediate values of `Reflect` -/

/-- The local `Th` of `Reflect<false, false>`. -/
def Th2D {P : Type} (oldPoint : rayPt2 K P) (nBdry : Vec2 K) : K :=
  Vec2.dot oldPoint.t nBdry

/-- The local `Tg` of `Reflect<false, false>`. -/
def Tg2D {P : Type} (oldPoint : rayPt2 K P) (tBdry : Vec2 K) : K :=
  Vec2.dot oldPoint.t tBdry

/-- The local `Refl` of `Reflect<false, false>` in the half-space branch. -/
def Refl2D {P : Type} (m : STD K) (EvaluateSSP : Vec2 K → Vec2 K → SSPOutputs2 K)
    (oldPoint : rayPt2 K P) (hs : HSInfo K) (tBdry nBdry : Vec2 K) (freq : K) : Cpx K :=
  ReflCoef2D m hs (EvaluateSSP oldPoint.x oldPoint.t).rho (2 * m.pi * freq)
    (Th2D oldPoint nBdry) (Tg2D oldPoint tBdry)

/-- The local `nBdry_ray` of `Reflect<true, false>` after normalisation. -/
def nBdry_rayNx2D (m : STD K) (RayToOceanT : Vec3 K → Origin K → Vec2 K)
    (nBdry : Vec3 K) (org : Origin K) : Vec2 K :=
  (1 / m.length2 (RayToOceanT nBdry org)) • RayToOceanT nBdry org

/-- The local `Th` of `Reflect<true, false>`. -/
def ThNx2D {P : Type} (m : STD K) (RayToOceanT : Vec3 K → Origin K → Vec2 K)
    (oldPoint : rayPt2 K P) (nBdry : Vec3 K) (org : Origin K) : K :=
  Vec2.dot oldPoint.t (nBdry_rayNx2D m RayToOceanT nBdry org)

/-- The local `tBdry` of `Reflect<true, false>` after normalisation. -/
def tBdryNx2D {P : Type} (m : STD K) (RayToOceanT : Vec3 K → Origin K → Vec2 K)
    (oldPoint : rayPt2 K P) (nBdry : Vec3 K) (org : Origin K) : Vec2 K :=
  (1 / m.length2 (oldPoint.t - ThNx2D m RayToOceanT oldPoint nBdry org
      • nBdry_rayNx2D m RayToOceanT nBdry org))
    • (oldPoint.t - ThNx2D m RayToOceanT oldPoint nBdry org
      • nBdry_rayNx2D m RayToOceanT nBdry org)

/-- The local `Tg` of `Reflect<true, false>`. -/
def TgNx2D {P : Type} (m : STD K) (RayToOceanT : Vec3 K → Origin K → Vec2 K)
    (oldPoint : rayPt2 K P) (nBdry : Vec3 K) (org : Origin K) : K :=
  Vec2.dot oldPoint.t (tBdryNx2D m RayToOceanT oldPoint nBdry org)

/-- The local `Refl` of `Reflect<true, false>` in the half-space branch. -/
def ReflNx2D {P : Type} (m : STD K) (RayToOceanT : Vec3 K → Origin K → Vec2 K)
    (EvaluateSSP : Vec2 K → Vec2 K → SSPOutputs2 K)
    (oldPoint : rayPt2 K P) (hs : HSInfo K) (nBdry : Vec3 K) (org : Origin K)
    (freq : K) : Cpx K :=
  let o := EvaluateSSP oldPoint.x
    (oldPoint.t - (2 * ThNx2D m RayToOceanT oldPoint nBdry org)
      • nBdry_rayNx2D m RayToOceanT nBdry org)
  ReflCoefO3D m hs o.ccpx.re o.rho (2 * m.pi * freq)
    (TgNx2D m RayToOceanT oldPoint nBdry org)

/-- The local `Th` of `Reflect<true, true>`. -/
def Th3D {P : Type} (oldPoint : rayPt3 K P) (nBdry : Vec3 K) : K :=
  Vec3.dot oldPoint.t nBdry

/-- The local `tBdry` of `Reflect<true, true>` after normalisation. -/
def tBdry3D {P : Type} (m : STD K) (oldPoint : rayPt3 K P) (nBdry : Vec3 K) : Vec3 K :=
  (1 / m.length3 (oldPoint.t - Th3D oldPoint nBdry • nBdry))
    • (oldPoint.t - Th3D oldPoint nBdry • nBdry)

/-- The local `Tg` of `Reflect<true, true>`. -/
def Tg3D {P : Type} (m : STD K) (oldPoint : rayPt3 K P) (nBdry : Vec3 K) : K :=
  Vec3.dot oldPoint.t (tBdry3D m oldPoint nBdry)

/-- The local `Refl` of `Reflect<true, true>` in the half-space branch. -/
def Refl3D {P : Type} (m : STD K) (EvaluateSSP : Vec3 K → Vec3 K → SSPOutputs3 K)
    (oldPoint : rayPt3 K P) (hs : HSInfo K) (nBdry : Vec3 K) (freq : K) : Cpx K :=
  let o := EvaluateSSP oldPoint.x (oldPoint.t - (2 * Th3D oldPoint nBdry) • nBdry)
  wallHack m nBdry
    (ReflCoefO3D m hs o.ccpx.re o.rho (2 * m.pi * freq) (Tg3D m oldPoint nBdry))

/-! ## Sequences of calls -/

/-- The warnings in the log after the queries `thetas`, made in order
against one table. -/
def queryWarnings (fuel : Nat) (rtb : ReflectionInfoTopBot K) :
    List K → List (LogWarning K)
  | [] => []
  | theta :: rest =>
    (match InterpolateReflectionCoefficient fuel
        { theta := theta, r := 0, phi := 0 } rtb with
      | .ok (_, w) => w
      | .error _ => [])
    ++ queryWarnings fuel rtb rest

/-- A sequence of calls of `step`, each fed the point the previous one
returned; the first fault ends the sequence. -/
def runSeq {A Pt : Type} (step : A → Pt → Except Fault Pt) :
    List A → Pt → Except Fault Pt
  | [], p => .ok p
  | a :: rest, p =>
    match step a p with
    | .error e => .error e
    | .ok q => runSeq step rest q

/-- The boundary data of one reflection of a 2D ray. -/
structure Bounce2D (K : Type) where
  hs : HSInfo K
  isTop : Bool
  tBdry : Vec2 K
  nBdry : Vec2 K
  rcurv : ReflCurvature2 K

/-- The boundary data of one reflection of an Nx2D or 3D ray. -/
structure Bounce3D (K : Type) where
  hs : HSInfo K
  isTop : Bool
  nBdry : Vec3 K
  rcurv : ReflCurvature3 K

end Reflect

/-! ## Concrete inputs over `ℚ` -/

/-- A three-point table: `R` falls from 1 to 0 over `0 .. 90` degrees. -/
def exTable : ReflectionInfoTopBot ℚ :=
  ⟨3, [⟨0, 1, 0⟩, ⟨45, 1 / 2, 1⟩, ⟨90, 0, 2⟩]⟩

/-- A table with a single entry. -/
def exTable1 : ReflectionInfoTopBot ℚ := ⟨1, [⟨0, 1, 0⟩]⟩

/-- Stand-ins over `ℚ` for the library routines: `pi` is 3, `atan2` gives
the quadrant angles `0`, `3/2`, `-3/2`, `3`, the square roots are the
identity. -/
def exSTD : STD ℚ where
  pi := 3
  minpos := 0
  sqrt := fun a => a
  atan2 := fun y x =>
    if y > 0 then 3 / 2 else if y < 0 then -(3 / 2) else if x < 0 then 3 else 0
  atan := fun _ => 0
  cos := fun _ => 1
  sin := fun _ => 0
  csqrt := fun a => a
  exp := fun _ => 1

/-- A rigid half-space. -/
def exHS (bc : Char) : HSInfo ℚ where
  alphaR := 1600
  betaR := 0
  alphaI := 0
  betaI := 0
  cP := ⟨1600, 0⟩
  cS := ⟨0, 0⟩
  rho := 9 / 5
  Depth := 5000
  bc := bc
  Opt := []

/-- A ray point travelling down and to the right, `|t| = 1/c` with `c = 5`. -/
def exPoint : rayPt2 ℚ ℚ where
  NumTopBnc := 0
  NumBotBnc := 0
  x := ⟨100, 50⟩
  t := ⟨3 / 25, 4 / 25⟩
  p := 1
  q := 0
  c := 5
  Amp := 1
  Phase := 0
  tau := ⟨1, 0⟩

/-- A homogeneous medium: `c = 5`, no gradient, unit density. -/
def exSSP : Vec2 ℚ → Vec2 ℚ → SSPOutputs2 ℚ :=
  fun _ _ => ⟨⟨5, 0⟩, ⟨0, 0⟩, 0, 0, 0, 1⟩

/-- The beam option string `GGGG`: no `D`, `Z` or `S` option. -/
def exBeam : BeamStructure := ⟨fun _ => 'G'⟩

/-- The same homogeneous medium for 3D rays. -/
def exSSP3 : Vec3 ℚ → Vec3 ℚ → SSPOutputs3 ℚ :=
  fun _ _ => ⟨⟨5, 0⟩, ⟨0, 0, 0⟩, 0, 0, 0, 0, 0, 0, 1⟩

/-- An Nx2D fan along the `x` axis from the origin. -/
def exOrigin : Origin ℚ := ⟨⟨0, 0, 0⟩, ⟨1, 0⟩⟩

/-- A stand-in for `RayToOceanT<true, false>`: the `(x, z)` components. -/
def exRayToOceanT : Vec3 ℚ → Origin ℚ → Vec2 ℚ := fun n _ => ⟨n.x, n.z⟩

/-- Stand-ins for the 3D ray routines: fixed frames, no curvature change. -/
def exRay3D : Ray3D ℚ ℚ where
  CalcTangent_Normals := fun _ _ _ _ => (⟨1, 0, 0⟩, ⟨0, 1, 0⟩, ⟨0, 0, 1⟩)
  RayNormal := fun _ _ _ => (⟨0, 1, 0⟩, ⟨0, 0, 1⟩)
  CurvatureCorrection3D := fun p _ _ _ _ _ _ _ _ _ _ => (p.p, p.q, p.phi)

/-! ## More named intermediate values of `Reflect` (2D rays) -/

section ReflectRn

variable {K : Type} [LinearOrderedField K]

/-- Lines 286-306 of `Reflect` (`R3D` false): the curvature change `rn`
before the beam-type adjustment. `c` is `o.ccpx.real()`, `t` the incident
and `tNew` the reflected tangent, `kappa` is `rcurv_ray.kappa`. -/
def rnBase (c : K) (gradc t tNew : Vec2 K) (kappa Th Tg : K) (isTop : Bool) : K :=
  let rayt : Vec2 K := c • t
  let rayn : Vec2 K := ⟨-rayt.y, rayt.x⟩
  let rayt_tilde : Vec2 K := c • tNew
  let rayn_tilde : Vec2 K := -(⟨-rayt_tilde.y, rayt_tilde.x⟩ : Vec2 K)
  let rn := 2 * kappa / SQ c / Th
  let cnjump := -Vec2.dot gradc (rayn_tilde - rayn)
  let csjump := -Vec2.dot gradc (rayt_tilde - rayt)
  let cnjump := if isTop then -cnjump else cnjump
  let rn := if isTop then -rn else rn
  let rm := Tg / Th
  rn + rm * (2 * cnjump - rm * csjump) / SQ c

/-- Lines 308-312 of `Reflect`: the adjustment of `rn` for the beam type. -/
def rnApplied (Beam : BeamStructure) (rn : K) : K :=
  if Beam.Type_ 2 = 'D' then rn * 2
  else if Beam.Type_ 2 = 'Z' then 0 else rn

/-- The reflected tangent `newPoint.t` of `Reflect<false, false>`. -/
def tNew2D {P : Type} (oldPoint : rayPt2 K P) (nBdry : Vec2 K) : Vec2 K :=
  oldPoint.t - (2 * Th2D oldPoint nBdry) • nBdry

/-- The local `rn` of `Reflect<false, false>` before the beam-type
adjustment. -/
def rnBase2D {P : Type} (EvaluateSSP : Vec2 K → Vec2 K → SSPOutputs2 K)
    (oldPoint : rayPt2 K P) (isTop : Bool) (tBdry nBdry : Vec2 K)
    (rcurv : ReflCurvature2 K) : K :=
  rnBase (EvaluateSSP oldPoint.x oldPoint.t).ccpx.re
    (EvaluateSSP oldPoint.x oldPoint.t).gradc oldPoint.t (tNew2D oldPoint nBdry)
    (OceanToRayCurvature2D rcurv isTop).kappa (Th2D oldPoint nBdry) (Tg2D oldPoint tBdry)
    isTop

/-- The reflected tangent `newPoint.t` of `Reflect<true, false>`. -/
def tNewNx2D {P : Type} (m : STD K) (RayToOceanT : Vec3 K → Origin K → Vec2 K)
    (oldPoint : rayPt2 K P) (nBdry : Vec3 K) (org : Origin K) : Vec2 K :=
  oldPoint.t - (2 * ThNx2D m RayToOceanT oldPoint nBdry org)
    • nBdry_rayNx2D m RayToOceanT nBdry org

/-- The local `rn` of `Reflect<true, false>` before the beam-type
adjustment. -/
def rnBaseNx2D {P : Type} (m : STD K) (RayToOceanT : Vec3 K → Origin K → Vec2 K)
    (EvaluateSSP : Vec2 K → Vec2 K → SSPOutputs2 K)
    (oldPoint : rayPt2 K P) (isTop : Bool) (nBdry : Vec3 K)
    (rcurv : ReflCurvature3 K) (org : Origin K) : K :=
  rnBase (EvaluateSSP oldPoint.x (tNewNx2D m RayToOceanT oldPoint nBdry org)).ccpx.re
    (EvaluateSSP oldPoint.x (tNewNx2D m RayToOceanT oldPoint nBdry org)).gradc oldPoint.t
    (tNewNx2D m RayToOceanT oldPoint nBdry org)
    (OceanToRayCurvatureNx2D rcurv org isTop).kappa
    (ThNx2D m RayToOceanT oldPoint nBdry org) (TgNx2D m RayToOceanT oldPoint nBdry org)
    isTop

/-- The factor of `oldPoint.p` in the beam-width change of line 461 of
`Reflect`: `sddelta * rddelta * si * o.ccpx.real()`. -/
def beamWidthChange {P : Type} (m : STD K) (oldPoint : rayPt2 K P) (hs : HSInfo K)
    (occpx : Cpx K) (omega : K) : K :=
  let ch : Cpx K := Cpx.ofReal oldPoint.c / Cpx.conj hs.cP
  let co : K := oldPoint.t.x * oldPoint.c
  let si : K := oldPoint.t.y * oldPoint.c
  let ck : K := omega / oldPoint.c
  let a : Cpx K := (2 * hs.rho) • (Cpx.ofReal 1 - SQ ch)
  let b : Cpx K := Cpx.ofReal (SQ co) - SQ ch
  let d : Cpx K := Cpx.ofReal (SQ hs.rho * SQ si) + b
  let sb : Cpx K := m.csqrt b
  let cco : K := SQ co
  let ssi : K := SQ si
  let cksbd : Cpx K := (ck • sb) * d
  let ddelta : Cpx K := a * (Cpx.ofReal cco / (cksbd * b)
    - Cpx.ofReal (1 + (cco / ssi)) / cksbd
    - Cpx.ofReal (2 * SQ co * (SQ hs.rho - 1)) / (cksbd * d))
  let rddelta : K := -ddelta.re
  let sddelta : K := rddelta / |rddelta|
  sddelta * rddelta * si * occpx.re

end ReflectRn

/-! ## Sound-speed profile (`ssp.hpp`) -/

/-- The struct `rxyz_vector` of `ssp.hpp`. An array is a map from the index
to the value stored there. -/
structure rxyz_vector (K : Type) where
  r : Int → K
  x : Int → K
  y : Int → K
  z : Int → K

/-- The struct `SSPStructure` of `ssp.hpp`. The arrays (`z[MaxSSP]`, ...,
`cMat`, ...) are maps from the `int32_t` index to the value stored there;
nothing is assumed about a value outside the part that was filled. -/
structure SSPStructure (K : Type) where
  NPts : Int
  Nr : Int
  Nx : Int
  Ny : Int
  Nz : Int
  z : Int → K
  rho : Int → K
  c : Int → Cpx K
  cz : Int → Cpx K
  n2 : Int → Cpx K
  n2z : Int → Cpx K
  cSpline : Fin 4 → Int → Cpx K
  cCoef : Fin 4 → Int → Cpx K
  CSWork : Fin 4 → Int → Cpx K
  cMat : Int → K
  czMat : Int → K
  cMat3 : Int → K
  czMat3 : Int → K
  Seg : rxyz_vector K
  Type_ : Char
  AttenUnit : Fin 2 → Char

/-- What the SSP routines of `ssp.hpp` leave in their reference arguments:
the outputs and the two segment cursors. -/
structure SSPResult (K : Type) where
  o : SSPOutputs2 K
  iSegz : Int
  iSegr : Int

/-- The `bail()` exits of `ssp.hpp`. -/
inductive SSPFault where
  /-- "Quad: ray is outside the box where the soundspeed is defined". -/
  | quadOutsideBox
  /-- "iSeg error in Quad". -/
  | quadSegError
  /-- "EvaluateSSP: Invalid profile option". -/
  | invalidProfile
deriving DecidableEq

section SSP

variable {K : Type} [LinearOrderedField K]

/-- The loop `while(cond(i) && i > 0) --i;`. The first argument bounds the
number of iterations; started at `i.toNat` it is never the reason to stop,
since `i` cannot be decremented more often than that. -/
def whileDec (cond : Int → Prop) [DecidablePred cond] : Nat → Int → Int
  | 0, i => i
  | n + 1, i => if cond i ∧ i > 0 then whileDec cond n (i - 1) else i

/-- The loop `while(cond(i) && i < hi) ++i;`. The first argument bounds the
number of iterations; started at `(hi - i).toNat` it is never the reason to
stop. -/
def whileInc (cond : Int → Prop) [DecidablePred cond] (hi : Int) : Nat → Int → Int
  | 0, i => i
  | n + 1, i => if cond i ∧ i < hi then whileInc cond hi n (i + 1) else i

/-- The function `UpdateDepthSegmentT` of `ssp.hpp`; returns the new
`iSegz`. -/
def UpdateDepthSegmentT (x t : Vec2 K) (ssp : SSPStructure K) (iSegz : Int) : Int :=
  if t.y ≥ 0 then
    let iSegz := whileDec (fun i => x.y < ssp.z i) iSegz.toNat iSegz
    whileInc (fun i => x.y ≥ ssp.z (i + 1)) (ssp.NPts - 2) (ssp.NPts - 2 - iSegz).toNat iSegz
  else
    let iSegz := whileInc (fun i => x.y > ssp.z (i + 1)) (ssp.NPts - 2)
      (ssp.NPts - 2 - iSegz).toNat iSegz
    whileDec (fun i => x.y ≤ ssp.z i) iSegz.toNat iSegz

/-- The function `UpdateRangeSegmentT` of `ssp.hpp`; returns the new
`iSegr`. -/
def UpdateRangeSegmentT (x t : Vec2 K) (ssp : SSPStructure K) (iSegr : Int) : Int :=
  if t.x ≥ 0 then
    let iSegr := whileDec (fun i => x.x < ssp.Seg.r i) iSegr.toNat iSegr
    whileInc (fun i => x.x ≥ ssp.Seg.r (i + 1)) (ssp.Nr - 2) (ssp.Nr - 2 - iSegr).toNat iSegr
  else
    let iSegr := whileInc (fun i => x.x > ssp.Seg.r (i + 1)) (ssp.Nr - 2)
      (ssp.Nr - 2 - iSegr).toNat iSegr
    whileDec (fun i => x.x ≤ ssp.Seg.r i) iSegr.toNat iSegr

/-- The function `LinInterpDensity` of `ssp.hpp`; returns `(w, rho)`: the
value it returns and the density it stores. -/
def LinInterpDensity (x : Vec2 K) (ssp : SSPStructure K) (iSegz : Int) : K × K :=
  let w := (x.y - ssp.z iSegz) / (ssp.z (iSegz + 1) - ssp.z iSegz)
  (w, (1 - w) * ssp.rho iSegz + w * ssp.rho (iSegz + 1))

/-- The function `n2Linear` of `ssp.hpp`. -/
def n2Linear (m : STD K) (x t : Vec2 K) (_freq : K) (ssp : SSPStructure K)
    (iSegz iSegr : Int) : SSPResult K :=
  let iSegz := UpdateDepthSegmentT x t ssp iSegz
  let wrho := LinInterpDensity x ssp iSegz
  let w := wrho.1
  let ccpx : Cpx K := Cpx.ofReal 1 / m.csqrt ((1 - w) • ssp.n2 iSegz + w • ssp.n2 (iSegz + 1))
  let c := ccpx.re
  let gradc : Vec2 K := ⟨0, -0.5 * c * c * c * (ssp.n2z iSegz).re⟩
  { o := { ccpx := ccpx, gradc := gradc, crr := 0, crz := 0,
           czz := 3 * gradc.y * gradc.y / c, rho := wrho.2 },
    iSegz := iSegz, iSegr := iSegr }

/-- The function `cLinear` of `ssp.hpp`. -/
def cLinear (x t : Vec2 K) (_freq : K) (ssp : SSPStructure K)
    (iSegz iSegr : Int) : SSPResult K :=
  let iSegz := UpdateDepthSegmentT x t ssp iSegz
  let wrho := LinInterpDensity x ssp iSegz
  { o := { ccpx := ssp.c iSegz + (x.y - ssp.z iSegz) • ssp.cz iSegz,
           gradc := ⟨0, (ssp.cz iSegz).re⟩, crr := 0, crz := 0, czz := 0, rho := wrho.2 },
    iSegz := iSegz, iSegr := iSegr }

/-- The function `cPCHIP` of `ssp.hpp`. The two `printf` diagnostics
("Invalid xt", "Invalid ssp->cCoef") change no value and are left out. -/
def cPCHIP (x t : Vec2 K) (_freq : K) (ssp : SSPStructure K)
    (iSegz iSegr : Int) : SSPResult K :=
  let iSegz := UpdateDepthSegmentT x t ssp iSegz
  let wrho := LinInterpDensity x ssp iSegz
  let xt := x.y - ssp.z iSegz
  let ccpx : Cpx K := ssp.cCoef 0 iSegz
    + xt • (ssp.cCoef 1 iSegz
    + xt • (ssp.cCoef 2 iSegz
    + xt • ssp.cCoef 3 iSegz))
  let gradc : Vec2 K := ⟨0, (ssp.cCoef 1 iSegz
    + xt • ((2 : K) • ssp.cCoef 2 iSegz
    + xt • ((3 : K) • ssp.cCoef 3 iSegz))).re⟩
  { o := { ccpx := ccpx, gradc := gradc, crr := 0, crz := 0,
           czz := ((2 : K) • ssp.cCoef 2 iSegz + xt • ((6 : K) • ssp.cCoef 3 iSegz)).re,
           rho := wrho.2 },
    iSegz := iSegz, iSegr := iSegr }

/-- The function `cCubic` of `ssp.hpp`. `SplineALL` (of `curves.hpp`, not
among the sources) is a parameter: from the four coefficients and the
offset it gives `(ccpx, czcpx, czzcpx)`. -/
def cCubic (SplineALL : Cpx K → Cpx K → Cpx K → Cpx K → K → Cpx K × Cpx K × Cpx K)
    (x t : Vec2 K) (_freq : K) (ssp : SSPStructure K)
    (iSegz iSegr : Int) : SSPResult K :=
  let iSegz := UpdateDepthSegmentT x t ssp iSegz
  let wrho := LinInterpDensity x ssp iSegz
  let hSpline := x.y - ssp.z iSegz
  let s := SplineALL (ssp.cSpline 0 iSegz) (ssp.cSpline 1 iSegz) (ssp.cSpline 2 iSegz)
    (ssp.cSpline 3 iSegz) hSpline
  { o := { ccpx := s.1, gradc := ⟨0, s.2.1.re⟩, crr := 0, crz := 0, czz := s.2.2.re,
           rho := wrho.2 },
    iSegz := iSegz, iSegr := iSegr }

/-- The function `Quad` of `ssp.hpp`. -/
def Quad (x t : Vec2 K) (_freq : K) (ssp : SSPStructure K)
    (iSegz iSegr : Int) : Except SSPFault (SSPResult K) :=
  if x.x < ssp.Seg.r 0 ∨ x.x > ssp.Seg.r (ssp.Nr - 1) then .error .quadOutsideBox
  else
    let iSegz := UpdateDepthSegmentT x t ssp iSegz
    let iSegr := UpdateRangeSegmentT x t ssp iSegr
    let wrho := LinInterpDensity x ssp iSegz
    if iSegz ≥ ssp.Nz - 1 ∨ iSegr ≥ ssp.Nr - 1 then .error .quadSegError
    else
      let Nr := ssp.Nr
      let cz1 := ssp.czMat (iSegz * Nr + iSegr)
      let cz2 := ssp.czMat (iSegz * Nr + iSegr + 1)
      let s2 := x.y - ssp.z iSegz
      let delta_z := ssp.z (iSegz + 1) - ssp.z iSegz
      let c1 := ssp.cMat (iSegz * Nr + iSegr) + s2 * cz1
      let c2 := ssp.cMat (iSegz * Nr + iSegr + 1) + s2 * cz2
      let delta_r := ssp.Seg.r (iSegr + 1) - ssp.Seg.r iSegr
      let s1 := (x.x - ssp.Seg.r iSegr) / delta_r
      let s1 := min s1 1
      let s1 := max s1 0
      let c := (1 - s1) * c1 + s1 * c2
      let s2 := s2 / delta_z
      let cimag := ((1 - s2) • ssp.c iSegz + s2 • ssp.c (iSegz + 1)).im
      let cz := (1 - s1) * cz1 + s1 * cz2
      let cr := (c2 - c1) / delta_r
      let crz := (cz2 - cz1) / delta_r
      .ok { o := { ccpx := ⟨c, cimag⟩, gradc := ⟨cr, cz⟩, crr := 0, crz := crz, czz := 0,
                   rho := wrho.2 },
            iSegz := iSegz, iSegr := iSegr }

/-- The function `Analytic` of `ssp.hpp`. -/
def Analytic (m : STD K) (x _t : Vec2 K) (_freq : K) (_ssp : SSPStructure K)
    (_iSegz iSegr : Int) : SSPResult K :=
  let c0 : K := 1500
  let unk1 : K := 1300
  let unk2 : K := 0.00737
  let xt := 2 * (x.y - unk1) / unk1
  let emxt := m.exp (-xt)
  let DxtDz := 2 / unk1
  let ccpx : Cpx K := ⟨c0 * (1 + unk2 * (xt - 1 + emxt)), 0⟩
  let cz := c0 * unk2 * (1 - emxt) * DxtDz
  let czz := c0 * unk2 * emxt * SQ DxtDz
  let cr : K := 0
  { o := { ccpx := ccpx, gradc := ⟨cr, cz⟩, crr := 0, crz := 0, czz := czz, rho := 1 },
    iSegz := 0, iSegr := iSegr }

/-- The function `EvaluateSSP` of `ssp.hpp`. -/
def EvaluateSSP (m : STD K)
    (SplineALL : Cpx K → Cpx K → Cpx K → Cpx K → K → Cpx K × Cpx K × Cpx K)
    (x t : Vec2 K) (freq : K) (ssp : SSPStructure K)
    (iSegz iSegr : Int) : Except SSPFault (SSPResult K) :=
  if ssp.Type_ = 'N' then .ok (n2Linear m x t freq ssp iSegz iSegr)
  else if ssp.Type_ = 'C' then .ok (cLinear x t freq ssp iSegz iSegr)
  else if ssp.Type_ = 'P' then .ok (cPCHIP x t freq ssp iSegz iSegr)
  else if ssp.Type_ = 'S' then .ok (cCubic SplineALL x t freq ssp iSegz iSegr)
  else if ssp.Type_ = 'Q' then Quad x t freq ssp iSegz iSegr
  else if ssp.Type_ = 'A' then .ok (Analytic m x t freq ssp iSegz iSegr)
  else .error .invalidProfile

end SSP

/-! ## Reading the reflection-coefficient files -/

/-- Modelled from the spec: the reader `LDIFile` is not among the sources;
section 6.3 gives the record order of a `.brc` / `.trc` file, a header count
followed by records `(theta, R, phi)`. A file is the count it starts with
and the records that follow. -/
structure RCFile (K : Type) where
  NPts : Int
  records : List (K × K × K)

/-- The struct `ReflectionInfo`: the bottom and the top table. -/
structure ReflectionInfo (K : Type) where
  bot : ReflectionInfoTopBot K
  top : ReflectionInfoTopBot K

/-- The ways in which `ReadReflectionCoefficient` does not return. -/
inductive ReadFault where
  /-- `std::abort()` after "Unable to open Bottom Reflection Coefficient file". -/
  | cannotOpenBottom
  /-- `std::abort()` after "Unable to open Top Reflection Coefficient file". -/
  | cannotOpenTop
  /-- Modelled from the spec: a `Read` for which the file holds no record. -/
  | readPastEnd
  /-- `std::abort()` after "Internal reflections not supported by BELLHOP". -/
  | internalReflections
deriving DecidableEq

section ReadRC

variable {K : Type} [LinearOrderedField K]

/-- What `checkallocate(r, n)` / `allocate(n)` leaves: `n` entries that are
not yet written (here 0). -/
def allocateRC (n : Int) : List (ReflectionCoef K) :=
  List.replicate n.toNat ⟨0, 0, 0⟩

/-- The loop `for(itheta = 0; itheta < NPts; ++itheta)` of `reflect.hpp`,
from `itheta` on with `n` iterations to go: each reads one record into
`r[itheta]` and converts that entry's `phi` to radians. -/
def readRecords (DegRad : K) (file : RCFile K) :
    Nat → Nat → List (ReflectionCoef K) → Except ReadFault (List (ReflectionCoef K))
  | 0, _, r => .ok r
  | n + 1, itheta, r =>
    match file.records[itheta]? with
    | none => .error .readPastEnd
    | some rec =>
      readRecords DegRad file n (itheta + 1)
        (r.set itheta ⟨rec.1, rec.2.1, rec.2.2 * DegRad⟩)

/-- One of the two halves of `ReadReflectionCoefficient` of `reflect.hpp`:
`RC` is the option, `file` the `.brc` or `.trc` file if it can be opened,
`rtb` the table on entry, `noFile` the abort for a file that cannot. -/
def readTopBot (m : STD K) (RC : Char) (file : Option (RCFile K))
    (rtb : ReflectionInfoTopBot K) (noFile : ReadFault) :
    Except ReadFault (ReflectionInfoTopBot K) :=
  if RC = 'F' then
    match file with
    | none => .error noFile
    | some f =>
      match readRecords m.DegRad f f.NPts.toNat 0 (allocateRC f.NPts) with
      | .error e => .error e
      | .ok r => .ok { NPts := f.NPts, r := r }
  else .ok { rtb with r := allocateRC 1 }

/-- The function `ReadReflectionCoefficient` of `reflect.hpp`. `BRCFile`,
`TRCFile` are the files `FileRoot.brc`, `FileRoot.trc` if they can be
opened; the text written to `PRTFile` is left out. -/
def ReadReflectionCoefficient (m : STD K) (BRCFile TRCFile : Option (RCFile K))
    (BotRC TopRC : Char) (refl : ReflectionInfo K) :
    Except ReadFault (ReflectionInfo K) :=
  match readTopBot m BotRC BRCFile refl.bot .cannotOpenBottom with
  | .error e => .error e
  | .ok bot =>
    match readTopBot m TopRC TRCFile refl.top .cannotOpenTop with
    | .error e => .error e
    | .ok top =>
      if BotRC = 'P' then .error .internalReflections
      else .ok { bot := bot, top := top }

/-- The reading loop of `refcoef.hpp`: each iteration reads one record into
`r[itheta]` and then multiplies `r->phi`, the `phi` of entry 0, by
`DegRad`. -/
def refcoef_readRecords (DegRad : K) (file : RCFile K) :
    Nat → Nat → List (ReflectionCoef K) → Except ReadFault (List (ReflectionCoef K))
  | 0, _, r => .ok r
  | n + 1, itheta, r =>
    match file.records[itheta]? with
    | none => .error .readPastEnd
    | some rec =>
      let r1 := r.set itheta ⟨rec.1, rec.2.1, rec.2.2⟩
      let r2 := match r1[0]? with
        | some e0 => r1.set 0 { e0 with phi := e0.phi * DegRad }
        | none => r1
      refcoef_readRecords DegRad file n (itheta + 1) r2

/-- One of the two halves of `ReadReflectionCoefficient` of `refcoef.hpp`. -/
def refcoef_readTopBot (m : STD K) (RC : Char) (file : Option (RCFile K))
    (rtb : ReflectionInfoTopBot K) (noFile : ReadFault) :
    Except ReadFault (ReflectionInfoTopBot K) :=
  if RC = 'F' then
    match file with
    | none => .error noFile
    | some f =>
      match refcoef_readRecords m.DegRad f f.NPts.toNat 0 (allocateRC f.NPts) with
      | .error e => .error e
      | .ok r => .ok { NPts := f.NPts, r := r }
  else .ok { rtb with r := allocateRC 1 }

/-- The function `ReadReflectionCoefficient` of `refcoef.hpp`; the pairs
`(RBot, NBotPts)` and `(RTop, NTopPts)` are the two tables of `refl`. -/
def refcoef_ReadReflectionCoefficient (m : STD K) (BRCFile TRCFile : Option (RCFile K))
    (BotRC TopRC : Char) (refl : ReflectionInfo K) :
    Except ReadFault (ReflectionInfo K) :=
  match refcoef_readTopBot m BotRC BRCFile refl.bot .cannotOpenBottom with
  | .error e => .error e
  | .ok bot =>
    match refcoef_readTopBot m TopRC TRCFile refl.top .cannotOpenTop with
    | .error e => .error e
    | .ok top =>
      if BotRC = 'P' then .error .internalReflections
      else .ok { bot := bot, top := top }

end ReadRC

/-! ## More named intermediate values and example inputs -/

/-- The local `csjump` of `Reflect<false, false>`, line 302. -/
def csjump2D {K : Type} [LinearOrderedField K] {P : Type}
    (EvaluateSSP : Vec2 K → Vec2 K → SSPOutputs2 K)
    (oldPoint : rayPt2 K P) (nBdry : Vec2 K) : K :=
  -Vec2.dot (EvaluateSSP oldPoint.x oldPoint.t).gradc
    ((EvaluateSSP oldPoint.x oldPoint.t).ccpx.re • tNew2D oldPoint nBdry
      - (EvaluateSSP oldPoint.x oldPoint.t).ccpx.re • oldPoint.t)

/-- A ray point travelling straight down, `|t| = 1/c` with `c = 5`, with
`p = q = 1`. -/
def exPointDown : rayPt2 ℚ ℚ where
  NumTopBnc := 0
  NumBotBnc := 0
  x := ⟨100, 50⟩
  t := ⟨0, 1 / 5⟩
  p := 1
  q := 1
  c := 5
  Amp := 1
  Phase := 0
  tau := ⟨1, 0⟩

/-- The point `exPoint` with `q = 1`. -/
def exPointQ : rayPt2 ℚ ℚ := { exPoint with q := 1 }

/-- A medium with `c = 5` and the gradient `(0, 1)`, unit density. -/
def exSSPgrad : Vec2 ℚ → Vec2 ℚ → SSPOutputs2 ℚ :=
  fun _ _ => ⟨⟨5, 0⟩, ⟨0, 1⟩, 0, 0, 0, 1⟩

/-- The stand-ins `exSTD` with square roots that are exact where the
examples take them: `sqrt (9/625) = 3/25`, and the complex
`sqrt (81/625) = 9/25`, `sqrt (11664/25) = 108/5`, `sqrt (-2304) = 48 i`. -/
def exSTDroot : STD ℚ :=
  { exSTD with
    sqrt := fun a => if a = 9 / 625 then 3 / 25 else a
    csqrt := fun a =>
      if a = ⟨81 / 625, 0⟩ then ⟨9 / 25, 0⟩
      else if a = ⟨11664 / 25, 0⟩ then ⟨108 / 5, 0⟩
      else if a = ⟨-2304, 0⟩ then ⟨0, 48⟩ else a }

/-- A fluid half-space with `cP = 125/12` and density `9/5`. -/
def exHSslow : HSInfo ℚ := { exHS 'A' with cP := ⟨125 / 12, 0⟩ }

/-- The half-space `exHSslow` with the shear speed `cS = 5`. -/
def exHSshear : HSInfo ℚ := { exHSslow with cS := ⟨5, 0⟩ }

/-- The beam option string `GGGS`: beam displacement is on. -/
def exBeamS : BeamStructure := ⟨fun i => if i = 3 then 'S' else 'G'⟩

/-- The two tables before anything is read: one entry each. -/
def exReflInfo : ReflectionInfo ℚ := ⟨exTable1, exTable1⟩

/-- A profile of kind `kind` with three nodes at the depths 0, 10, 20
(`z[i] = 10 i`), density 2 at every node, `n2 = 1/25` (so `c = 5`) and no
gradient. -/
def exProfile (kind : Char) : SSPStructure ℚ where
  NPts := 3
  Nr := 2
  Nx := 0
  Ny := 0
  Nz := 3
  z := fun i => 10 * i
  rho := fun _ => 2
  c := fun _ => ⟨5, 0⟩
  cz := fun _ => ⟨0, 0⟩
  n2 := fun _ => ⟨1 / 25, 0⟩
  n2z := fun _ => ⟨0, 0⟩
  cSpline := fun _ _ => ⟨0, 0⟩
  cCoef := fun _ _ => ⟨0, 0⟩
  CSWork := fun _ _ => ⟨0, 0⟩
  cMat := fun _ => 5
  czMat := fun _ => 0
  cMat3 := fun _ => 5
  czMat3 := fun _ => 0
  Seg := ⟨fun i => 100 * i, fun _ => 0, fun _ => 0, fun _ => 0⟩
  Type_ := kind
  AttenUnit := fun _ => 'W'

/-- A stand-in for `SplineALL`: the first three coefficients. -/
def exSplineALL : Cpx ℚ → Cpx ℚ → Cpx ℚ → Cpx ℚ → ℚ → Cpx ℚ × Cpx ℚ × Cpx ℚ :=
  fun a b c _ _ => (a, b, c)

/-! ## Command line (`cmdline.cpp`) -/

/-- Modelled from the spec: the struct `bhcInit` is not among the sources;
section 6.2 lists what the command line sets. These are the members `main`
writes. A `std::string` or `char *` is the list of its characters; `size_t`
is taken to be 64 bits wide. -/
structure bhcInit where
  FileRoot : List Char
  numThreads : Int
  gpuIndex : Int
  maxMemory : Nat
deriving DecidableEq

/-- The preprocessor symbols of the build that `main` reads. They are set by
the build system, not by the sources, and are parameters of the model. -/
structure BuildConfig where
  BHC_DIM_ONLY : Int
  BHC_ENABLE_2D : Bool
  BHC_ENABLE_3D : Bool
  BHC_ENABLE_NX2D : Bool

/-- The helpers `main` calls that are not among the sources: `bhc::isInt`,
`bhc::endswith` and the library function `std::stoi` (`none` when it
throws). They are parameters of the model: nothing is assumed about them
unless a theorem says so. -/
structure CmdLib where
  isInt : List Char → Bool → Bool
  endswith : List Char → List Char → Bool
  stoi : List Char → Option Int

/-- The ways in which `main` ends without calling `mainmain`. -/
inductive CmdFault where
  /-- `std::abort()` after "Unknown command-line option" for an option without `=`. -/
  | unknownOption
  /-- `std::abort()` after "Value ... for --gpu argument is invalid". -/
  | invalidGpu
  /-- `std::abort()` after "Value ... for --memory argument is invalid". -/
  | invalidMemory
  /-- `std::abort()` after "Unknown command-line option" for an option `key=value`. -/
  | unknownKey
  /-- `std::abort()` after "Intepreting both ... as FileRoot, error". -/
  | twoFileRoots
  /-- `std::abort()` after "Must provide FileRoot as command-line parameter". -/
  | noFileRoot
  /-- `std::abort()` after "This version ... was compiled to only support ...". -/
  | dimNotSupported
  /-- The `std::abort()` that ends `main` when no `mainmain` was called. -/
  | dimDisabled
  /-- The exception `std::stoi` throws is not caught. -/
  | stoiThrows
deriving DecidableEq

/-- The locals of `main` and the global `init` while the arguments are read. -/
structure MainState where
  init : bhcInit
  dimmode : Int
  FileRoot : List Char
deriving DecidableEq

/-- The call `mainmain<O3D, R3D>()` that `main` returns, with the global
`init` it finds. The routines `mainmain` calls are not among the sources. -/
structure MainCall where
  O3D : Bool
  R3D : Bool
  init : bhcInit
deriving DecidableEq

/-- The call `s.find("=")`: the position of the first `c`, `none` for
`std::string::npos`. -/
def strFind (c : Char) : List Char → Option Nat
  | [] => none
  | a :: s => if a = c then some 0 else (strFind c s).map (fun n => n + 1)

/-- The conversion of an `int` to `size_t`. -/
def toSizeT (v : Int) : Nat := (v % 2 ^ 64).toNat

/-- Lines 67-92 of `main`: the option `-mem=value` or `--memory=value`. -/
def parseMemory (lib : CmdLib) (st : MainState) (value : List Char) :
    Except CmdFault MainState :=
  let multiplier : Nat := 1
  let base : Nat := 1000
  let value :=
    if lib.endswith value "B".toList ∨ lib.endswith value "b".toList then
      value.take (value.length - 1)
    else value
  let bv : Nat × List Char :=
    if lib.endswith value "i".toList then (1024, value.take (value.length - 1))
    else (base, value)
  let base := bv.1
  let value := bv.2
  let mv : Nat × List Char :=
    if lib.endswith value "k".toList ∨ lib.endswith value "K".toList then
      (base, value.take (value.length - 1))
    else if lib.endswith value "M".toList then
      (base * base % 2 ^ 64, value.take (value.length - 1))
    else if lib.endswith value "G".toList then
      (base * base % 2 ^ 64 * base % 2 ^ 64, value.take (value.length - 1))
    else (multiplier, value)
  let multiplier := mv.1
  let value := mv.2
  if ¬ lib.isInt value false then .error .invalidMemory
  else
    match lib.stoi value with
    | none => .error .stoiThrows
    | some v =>
      .ok { st with init := { st.init with maxMemory := multiplier * toSizeT v % 2 ^ 64 } }

/-- The body of the loop `for(int32_t i = 1; i < argc; ++i)` of `main` for
the argument `arg = argv[i]`. -/
def parseArg (lib : CmdLib) (st : MainState) (arg : List Char) :
    Except CmdFault MainState :=
  if arg.head? = some '-' then
    let s := if arg.length ≥ 2 ∧ arg[1]? = some '-' then arg.drop 1 else arg
    if s = "-1".toList ∨ s = "-singlethread".toList then
      .ok { st with init := { st.init with numThreads := 1 } }
    else if s = "-2".toList ∨ s = "-2D".toList then
      .ok { st with dimmode := 2 }
    else if s = "-Nx2D".toList ∨ s = "-2D3D".toList ∨ s = "-2.5D".toList
        ∨ s = "-4".toList then
      .ok { st with dimmode := 4 }
    else if s = "-3".toList ∨ s = "-3D".toList then
      .ok { st with dimmode := 3 }
    else
      match strFind '=' s with
      | none => .error .unknownOption
      | some equalspos =>
        let key := s.take equalspos
        let value := s.drop (equalspos + 1)
        if key = "-gpu".toList then
          if ¬ lib.isInt value false then .error .invalidGpu
          else
            match lib.stoi value with
            | none => .error .stoiThrows
            | some v => .ok { st with init := { st.init with gpuIndex := v } }
        else if key = "-mem".toList ∨ key = "--memory".toList then
          parseMemory lib st value
        else .error .unknownKey
  else
    if st.FileRoot = [] then .ok { st with FileRoot := arg }
    else .error .twoFileRoots

/-- The loop over `argv[1 .. argc-1]`. -/
def parseArgs (lib : CmdLib) : MainState → List (List Char) → Except CmdFault MainState
  | st, [] => .ok st
  | st, arg :: rest =>
    match parseArg lib st arg with
    | .error e => .error e
    | .ok st1 => parseArgs lib st1 rest

/-- Lines 113-157 of `main`: the choice of `mainmain` from `dimmode`. -/
def dispatch (b : BuildConfig) (init : bhcInit) (dimmode : Int) :
    Except CmdFault MainCall :=
  let checked : Except CmdFault Int :=
    if b.BHC_DIM_ONLY > 0 then
      if dimmode ≠ b.BHC_DIM_ONLY then .error .dimNotSupported else .ok dimmode
    else if dimmode < 2 ∨ dimmode > 4 then .ok 2
    else .ok dimmode
  match checked with
  | .error e => .error e
  | .ok dimmode =>
    if dimmode = 2 ∧ b.BHC_ENABLE_2D then .ok ⟨false, false, init⟩
    else if dimmode = 3 ∧ b.BHC_ENABLE_3D then .ok ⟨true, true, init⟩
    else if dimmode = 4 ∧ b.BHC_ENABLE_NX2D then .ok ⟨true, false, init⟩
    else .error .dimDisabled

/-- The function `main` of `cmdline.cpp`, for the arguments
`argv[1 .. argc-1]`, the build symbols `b` and the value `init0` of the global
`init` before `main` runs. -/
def main (lib : CmdLib) (b : BuildConfig) (init0 : bhcInit) (argv : List (List Char)) :
    Except CmdFault MainCall :=
  match parseArgs lib ⟨init0, b.BHC_DIM_ONLY, []⟩ argv with
  | .error e => .error e
  | .ok st =>
    if st.FileRoot = [] then .error .noFileRoot
    else dispatch b { st.init with FileRoot := st.FileRoot } st.dimmode

/-- The flags of section 6.2 of the spec that force one worker, in the form
the spec lists them and with a single leading dash. -/
def spec_isThreadFlag (a : List Char) : Bool :=
  a = "--1".toList ∨ a = "--singlethread".toList ∨ a = "-1".toList ∨ a = "-singlethread".toList

/-- The dimension flags of section 6.2 of the spec, in the form the spec
lists them and with a single leading dash, with the value of `dimmode` each
stands for: 2 for 2D, 4 for Nx2D, 3 for 3D. -/
def spec_dimFlag (a : List Char) : Option Int :=
  if a = "--2".toList ∨ a = "--2D".toList ∨ a = "-2".toList ∨ a = "-2D".toList then some 2
  else if a = "--Nx2D".toList ∨ a = "--2D3D".toList ∨ a = "--2.5D".toList ∨ a = "--4".toList
      ∨ a = "-Nx2D".toList ∨ a = "-2D3D".toList ∨ a = "-2.5D".toList ∨ a = "-4".toList then
    some 4
  else if a = "--3".toList ∨ a = "--3D".toList ∨ a = "-3".toList ∨ a = "-3D".toList then some 3
  else none

/-- The exponent the spec gives to a unit letter of `--mem`: 1 for `k` or
`K`, 2 for `M`, 3 for `G`, 0 without unit. -/
def spec_unitExponent (unit : List Char) : Nat :=
  if unit = "k".toList ∨ unit = "K".toList then 1
  else if unit = "M".toList then 2
  else if unit = "G".toList then 3
  else 0

/-- The base the spec gives to `--mem`: 1024 with the letter `i`, 1000
without. -/
def spec_memBase (bin : List Char) : Nat := if bin = "i".toList then 1024 else 1000

/-- Stand-ins for the helpers of `main`: `isInt` accepts the non-empty
digit strings, `endswith` is the suffix test, `stoi` reads a non-empty digit
string that fits in an `int`. -/
def exCmdLib : CmdLib where
  isInt := fun s _ => !s.isEmpty && s.all Char.isDigit
  endswith := fun s suf => suf.isSuffixOf s
  stoi := fun s =>
    if !s.isEmpty && s.all Char.isDigit then
      let n : Nat := s.foldl (fun n c => 10 * n + (c.toNat - 48)) 0
      if n < 2 ^ 31 then some (n : Int) else none
    else none

/-- A build with every mode compiled in. -/
def exBuild : BuildConfig := ⟨0, true, true, true⟩

/-- The global `init` before `main` runs: no file root, the worker count
`-1`, GPU 0 and a budget of `4 · 10⁹` bytes. -/
def exInit : bhcInit := ⟨[], -1, 0, 4000000000⟩

/-! ## Further example inputs and the loop body of the table search -/

/-- A profile of kind `kind` with three nodes at the depths 0, 10, 20 and
values that change from node to node: `rho[i] = 1 + i`,
`c[i] = 1500 + 10 i` with the slope `cz = 1`, `n2[i] = 1 + i`, PCHIP
coefficients `(c[i], 1, 1/2, 1/4)`, and a `Quad` grid with the ranges
`r[i] = 100 i`, `cMat[j] = 1500 + j` and `czMat[j] = j / 10`. -/
def exProfileVar (kind : Char) : SSPStructure ℚ where
  NPts := 3
  Nr := 2
  Nx := 0
  Ny := 0
  Nz := 3
  z := fun i => 10 * i
  rho := fun i => 1 + i
  c := fun i => ⟨1500 + 10 * i, 0⟩
  cz := fun _ => ⟨1, 0⟩
  n2 := fun i => ⟨1 + i, 0⟩
  n2z := fun _ => ⟨1 / 10, 0⟩
  cSpline := fun _ _ => ⟨0, 0⟩
  cCoef := fun j i =>
    if j = 0 then ⟨1500 + 10 * i, 0⟩ else if j = 1 then ⟨1, 0⟩
    else if j = 2 then ⟨1 / 2, 0⟩ else ⟨1 / 4, 0⟩
  CSWork := fun _ _ => ⟨0, 0⟩
  cMat := fun j => 1500 + j
  czMat := fun j => j / 10
  cMat3 := fun _ => 0
  czMat3 := fun _ => 0
  Seg := ⟨fun i => 100 * i, fun _ => 0, fun _ => 0, fun _ => 0⟩
  Type_ := kind
  AttenUnit := fun _ => 'W'

/-- A reflection-coefficient file with the header count 2 and the records
`(0, 1, 90)` and `(90, 1/2, 180)`, phases in degrees. -/
def exRCFile : RCFile ℚ := ⟨2, [(0, 1, 90), (90, 1 / 2, 180)]⟩

/-- The values of `(iLeft, iRight)` each time the condition of the
`while(iLeft != iRight - 1)` loop of `InterpolateReflectionCoefficient` is
evaluated, in order; `fuel` bounds the number of iterations as in
`bisectLoop`. -/
def bisectStates {K : Type} [LinearOrderedField K] (rtb : ReflectionInfoTopBot K)
    (thetaIntr : K) : Nat → Int → Int → List (Int × Int)
  | 0, iLeft, iRight => [(iLeft, iRight)]
  | fuel + 1, iLeft, iRight =>
    if iLeft ≠ iRight - 1 then
      let iMid := Int.tdiv (iLeft + iRight) 2
      match rtb.entry iMid with
      | .error _ => [(iLeft, iRight)]
      | .ok m =>
        if m.theta > thetaIntr then (iLeft, iRight) :: bisectStates rtb thetaIntr fuel iLeft iMid
        else (iLeft, iRight) :: bisectStates rtb thetaIntr fuel iMid iRight
    else [(iLeft, iRight)]

/-- One pass through the body of the `while` loop of
`InterpolateReflectionCoefficient`, from the state `(iLeft, iRight)`. -/
def bisectBody {K : Type} [LinearOrderedField K] (rtb : ReflectionInfoTopBot K)
    (thetaIntr : K) (iLeft iRight : Int) : Except Fault (Int × Int) :=
  let iMid := Int.tdiv (iLeft + iRight) 2
  match rtb.entry iMid with
  | .error e => .error e
  | .ok m => if m.theta > thetaIntr then .ok (iLeft, iMid) else .ok (iMid, iRight)

/-! ## The segment searches with a bound on the iterations -/

/-- The loop `while(cond(i) && i > 0) --i;` allowed `n` decrements: `none`
when the loop would go on after them. -/
def whileDecF (cond : Int → Prop) [DecidablePred cond] : Nat → Int → Option Int
  | 0, i => if cond i ∧ i > 0 then none else some i
  | n + 1, i => if cond i ∧ i > 0 then whileDecF cond n (i - 1) else some i

/-- The loop `while(cond(i) && i < hi) ++i;` allowed `n` increments: `none`
when the loop would go on after them. -/
def whileIncF (cond : Int → Prop) [DecidablePred cond] (hi : Int) : Nat → Int → Option Int
  | 0, i => if cond i ∧ i < hi then none else some i
  | n + 1, i => if cond i ∧ i < hi then whileIncF cond hi n (i + 1) else some i

/-- The function `UpdateDepthSegmentT` of `ssp.hpp` with each of its loops
allowed `n` iterations; `none` when a loop would go on after them. -/
def UpdateDepthSegmentT_fuel {K : Type} [LinearOrderedField K] (n : Nat) (x t : Vec2 K)
    (ssp : SSPStructure K) (iSegz : Int) : Option Int :=
  if t.y ≥ 0 then
    (whileDecF (fun i => x.y < ssp.z i) n iSegz).bind
      (fun iSegz => whileIncF (fun i => x.y ≥ ssp.z (i + 1)) (ssp.NPts - 2) n iSegz)
  else
    (whileIncF (fun i => x.y > ssp.z (i + 1)) (ssp.NPts - 2) n iSegz).bind
      (fun iSegz => whileDecF (fun i => x.y ≤ ssp.z i) n iSegz)

/-- The function `UpdateRangeSegmentT` of `ssp.hpp` with each of its loops
allowed `n` iterations; `none` when a loop would go on after them. -/
def UpdateRangeSegmentT_fuel {K : Type} [LinearOrderedField K] (n : Nat) (x t : Vec2 K)
    (ssp : SSPStructure K) (iSegr : Int) : Option Int :=
  if t.x ≥ 0 then
    (whileDecF (fun i => x.x < ssp.Seg.r i) n iSegr).bind
      (fun iSegr => whileIncF (fun i => x.x ≥ ssp.Seg.r (i + 1)) (ssp.Nr - 2) n iSegr)
  else
    (whileIncF (fun i => x.x > ssp.Seg.r (i + 1)) (ssp.Nr - 2) n iSegr).bind
      (fun iSegr => whileDecF (fun i => x.x ≤ ssp.Seg.r i) n iSegr)

/-! ## Eigenray post-processing (`eigenrays.cpp`) -/

/-- The members of the struct `EigenHit` that `EigenModePostWorker` reads:
the step count `is` and the launch indices. -/
structure EigenHit where
  is : Int
  isx : Int
  isy : Int
  isz : Int
  ialpha : Int
  ibeta : Int
deriving DecidableEq

/-- The members of the struct `RayInitInfo` that `EigenModePostWorker`
sets. -/
structure RayInitInfo where
  isx : Int
  isy : Int
  isz : Int
  ialpha : Int
  ibeta : Int
deriving DecidableEq

/-- The members of `outputs.eigen` that `EigenModePostWorker` reads. The
array `hits` is a map from the index to the value stored there. -/
structure EigenInfo where
  neigen : Int
  memsize : Int
  hits : Int → EigenHit

/-- One call `RunRay(outputs.rayinfo, params, job, worker, rinit, Nsteps,
errState)` and the `bool` it returned. -/
structure RunRayCall where
  job : Int
  worker : Int
  rinit : RayInitInfo
  Nsteps : Int
  ok : Bool
deriving DecidableEq

/-- What `EigenModePostWorker` works on: the shared counter `sharedJobID`,
the data `RunRay` writes (`outputs.rayinfo` and `*errState`, of a type `S`
left open), and, for the statements about the run, the indices at which
`hits` was read and the calls of `RunRay`, in order. -/
structure PostState (S : Type) where
  sharedJobID : Int
  rayinfo : S
  reads : List Int
  calls : List RunRayCall

/-- The state in which `PostProcessEigenrays` starts its workers: line 83
sets `sharedJobID = 0`. -/
def PostState.start {S : Type} (rayinfo : S) : PostState S := ⟨0, rayinfo, [], []⟩

/-- The call of `RunRay` that lines 35-44 of `EigenModePostWorker` make for
the job `job`, with the `bool` `ok` it returned: `rinit` and `Nsteps` are
read from `hits[job]`. -/
def workerCall (eigen : EigenInfo) (worker job : Int) (ok : Bool) : RunRayCall :=
  ⟨job, worker,
    ⟨(eigen.hits job).isx, (eigen.hits job).isy, (eigen.hits job).isz,
      (eigen.hits job).ialpha, (eigen.hits job).ibeta⟩,
    (eigen.hits job).is, ok⟩

/-- The function `EigenModePostWorker` of `eigenrays.cpp`, run by one
thread. `RunRay` is not among the sources and is a parameter: from the
data it writes and its arguments `job`, `worker`, `rinit`, `Nsteps` it gives
the new data and the `bool` it returns. `fuel` bounds the number of passes
through the `while(true)` loop; `none` when the loop is still running after
them. -/
def EigenModePostWorker {S : Type} (RunRay : S → Int → Int → RayInitInfo → Int → S × Bool)
    (eigen : EigenInfo) (worker : Int) : Nat → PostState S → Option (PostState S)
  | 0, _ => none
  | fuel + 1, s =>
    let job := s.sharedJobID
    let s := { s with sharedJobID := s.sharedJobID + 1 }
    if job ≥ min eigen.neigen eigen.memsize then some s
    else
      let hit := eigen.hits job
      let s := { s with reads := s.reads ++ [job] }
      let Nsteps := hit.is
      let rinit : RayInitInfo := ⟨hit.isx, hit.isy, hit.isz, hit.ialpha, hit.ibeta⟩
      let r := RunRay s.rayinfo job worker rinit Nsteps
      let s := { s with rayinfo := r.1,
                        calls := s.calls ++ [⟨job, worker, rinit, Nsteps, r.2⟩] }
      if !r.2 then some s
      else EigenModePostWorker RunRay eigen worker fuel s

/-- A stand-in for `RunRay` that counts the rays traced and fails at the
job `failAt`. -/
def exRunRay (failAt : Int) : Nat → Int → Int → RayInitInfo → Int → Nat × Bool :=
  fun n job _ _ _ => (n + 1, decide (job ≠ failAt))

/-- Three recorded hits in a store with room for two: `neigen = 3`,
`memsize = 2`, `hits[j]` with the step count `10 + j` and the launch angle
index `j`. -/
def exEigen : EigenInfo := ⟨3, 2, fun j => ⟨10 + j, 0, 0, 0, j, 0⟩⟩

/-! ## Source coordinates (`module/sxsy.hpp`) -/

/-- The members of `params.Pos` that the module `SxSy` reads and writes:
the source counts, the coordinate arrays `Sx`, `Sy` (maps from the index to
the value stored there) and the flag `SxSyInKm`. -/
structure Position (K : Type) where
  NSx : Int
  NSy : Int
  NSz : Int
  Sx : Int → K
  Sy : Int → K
  SxSyInKm : Bool

/-- The routines of the setup code that `SxSy` calls and that are not among
the sources. `ToMeters(x, N)` gives the new contents of the array;
`ValidateVector(params, x, N, Description)` is `true` when it raises no
error; `EchoVectorWDescr(params, x, N, scale, Description, Units)` gives the
lines it prints and is taken to leave `params` alone. -/
structure SxSyLib (K : Type) where
  ToMeters : (Int → K) → Int → (Int → K)
  ValidateVector : (Int → K) → Int → List Char → Bool
  EchoVectorWDescr : (Int → K) → Int → K → List Char → List Char → List (List Char)

/-- The errors that `SxSy::Validate` raises through `EXTERR`. -/
inductive SxSyFault where
  /-- "Invalid number of sources: %d x %d y %d z". -/
  | invalidNumberOfSources
  /-- An error raised inside `ValidateVector` for the vector `description`. -/
  | vector (description : List Char)
deriving DecidableEq

/-- An `int32_t` result: the value reduced to `-2^31 .. 2^31 - 1`. -/
def wrapInt32 (v : Int) : Int := (v + 2 ^ 31) % 2 ^ 32 - 2 ^ 31

namespace SxSy

/-- The constant `DescriptionX`. -/
def DescriptionX : List Char := "Source   x-coordinates, Sx".toList

/-- The constant `DescriptionY`. -/
def DescriptionY : List Char := "Source   y-coordinates, Sy".toList

/-- The constant `Units`. -/
def Units : List Char := "km".toList

variable {K : Type} [LinearOrderedField K]

/-- The method `SxSy::SetupPre`. -/
def SetupPre (Pos : Position K) : Position K :=
  { Pos with SxSyInKm := true, NSx := 1, NSy := 1 }

/-- The method `SxSy::Preprocess`. -/
def Preprocess (lib : SxSyLib K) (Pos : Position K) : Position K :=
  if !Pos.SxSyInKm then Pos
  else
    let Pos := { Pos with Sx := lib.ToMeters Pos.Sx Pos.NSx }
    let Pos := { Pos with Sy := lib.ToMeters Pos.Sy Pos.NSy }
    { Pos with SxSyInKm := false }

/-- The method `SxSy::Echo`: the new `params.Pos` and the lines printed. -/
def Echo (lib : SxSyLib K) (Pos : Position K) : Position K × List (List Char) :=
  let Pos := Preprocess lib Pos
  (Pos, lib.EchoVectorWDescr Pos.Sx Pos.NSx 0.001 DescriptionX Units
    ++ lib.EchoVectorWDescr Pos.Sy Pos.NSy 0.001 DescriptionY Units)

/-- The method `SxSy::Validate`; `EXTERR` raises the error and does not
return. The product is an `int32_t` product, taken with wrap-around. -/
def Validate (lib : SxSyLib K) (Pos : Position K) : Except SxSyFault Unit :=
  if wrapInt32 (wrapInt32 (Pos.NSx * Pos.NSy) * Pos.NSz) ≤ 0 then
    .error .invalidNumberOfSources
  else if !lib.ValidateVector Pos.Sx Pos.NSx DescriptionX then .error (.vector DescriptionX)
  else if !lib.ValidateVector Pos.Sy Pos.NSy DescriptionY then .error (.vector DescriptionY)
  else .ok ()

end SxSy

/-- Stand-ins for the setup routines: `ToMeters` multiplies the first `N`
entries by 1000, `ValidateVector` accepts a vector with `N > 0`,
`EchoVectorWDescr` prints the description. -/
def exSxSyLib : SxSyLib ℚ where
  ToMeters := fun x N i => if 0 ≤ i ∧ i < N then 1000 * x i else x i
  ValidateVector := fun _ N _ => decide (0 < N)
  EchoVectorWDescr := fun _ _ _ d _ => [d]

/-- Two sources at `x = 1, 2` km and `y = 3, 4` km, one source depth,
coordinates still in km. -/
def exPos : Position ℚ :=
  ⟨2, 2, 1, fun i => i + 1, fun i => i + 3, true⟩

/-! ## Example inputs for a 3D reflection from a wall -/

/-- The stand-ins `exSTD` with the square roots that the wall example takes
made exact: `sqrt (16/625) = 4/25`, `sqrt (4/49) = 2/7`, and the complex
`sqrt (-1296) = 36 i`. -/
def exSTDwall : STD ℚ :=
  { exSTD with
    sqrt := fun a => if a = 16 / 625 then 4 / 25 else if a = 4 / 49 then 2 / 7 else a
    csqrt := fun a => if a = ⟨-1296, 0⟩ then ⟨0, 36⟩ else a }

/-- A 3D ray point travelling in the `x`-`z` plane, `|t| = 1/c` with
`c = 5`, amplitude 1. -/
def exPoint3 : rayPt3 ℚ ℚ where
  NumTopBnc := 0
  NumBotBnc := 0
  x := ⟨100, 0, 50⟩
  t := ⟨3 / 25, 0, 4 / 25⟩
  p := 1
  q := 0
  c := 5
  Amp := 1
  Phase := 0
  tau := ⟨1, 0⟩
  phi := 0

/-- A fluid half-space with the sound speed of the water, `cP = 5`, and the
density `9/5`. -/
def exHSsame : HSInfo ℚ := { exHS 'A' with cP := ⟨5, 0⟩ }

/-! ## Example inputs over any field -/

/-- Stand-ins for the library routines over any field, with the exponential
function handed in: `pi` is 3, the other routines are the identity or 0. -/
def exSTDexp {K : Type} [LinearOrderedField K] (exp : K → K) : STD K where
  pi := 3
  minpos := 0
  sqrt := fun a => a
  atan2 := fun _ _ => 0
  atan := fun _ => 0
  cos := fun _ => 1
  sin := fun _ => 0
  csqrt := fun a => a
  exp := exp

/-- A profile record of kind `kind` over any field, with three nodes at the
depths 0, 10, 20 and every table constant (`Analytic` reads none of them). -/
def exProfileOf (K : Type) [LinearOrderedField K] (kind : Char) : SSPStructure K where
  NPts := 3
  Nr := 2
  Nx := 0
  Ny := 0
  Nz := 3
  z := fun i => 10 * (i : K)
  rho := fun _ => 1
  c := fun _ => ⟨1500, 0⟩
  cz := fun _ => ⟨0, 0⟩
  n2 := fun _ => ⟨1, 0⟩
  n2z := fun _ => ⟨0, 0⟩
  cSpline := fun _ _ => ⟨0, 0⟩
  cCoef := fun _ _ => ⟨0, 0⟩
  CSWork := fun _ _ => ⟨0, 0⟩
  cMat := fun _ => 1500
  czMat := fun _ => 0
  cMat3 := fun _ => 0
  czMat3 := fun _ => 0
  Seg := ⟨fun i => 100 * (i : K), fun _ => 0, fun _ => 0, fun _ => 0⟩
  Type_ := kind
  AttenUnit := fun _ => 'W'

/-! ## Options with a value, as section 6.2 of the spec lists them -/

/-- The option `--gpu=<int>` of section 6.2 of the spec, in the form the
spec lists it and with a single leading dash, with a value that the parser
takes: one that `isInt` accepts and `std::stoi` reads. -/
def spec_isGpuOption (lib : CmdLib) (a : List Char) : Bool :=
  (decide (a.take 6 = "--gpu=".toList) && lib.isInt (a.drop 6) false
      && (lib.stoi (a.drop 6)).isSome)
  || (decide (a.take 5 = "-gpu=".toList) && lib.isInt (a.drop 5) false
      && (lib.stoi (a.drop 5)).isSome)

/-- A value of the memory option that lines 67-92 of `main` take: after the
suffixes are cut off, `isInt` accepts the rest and `std::stoi` reads it. -/
def spec_memValueTaken (lib : CmdLib) (value : List Char) : Bool :=
  match parseMemory lib ⟨⟨[], 0, 0, 0⟩, 0, []⟩ value with
  | .ok _ => true
  | .error _ => false

/-- The option `--mem=<N>[k|K|M|G][i][B|b]` of section 6.2 of the spec, in
the form the spec lists it and with a single leading dash, with a value
that the parser takes. -/
def spec_isMemOption (lib : CmdLib) (a : List Char) : Bool :=
  (decide (a.take 6 = "--mem=".toList) && spec_memValueTaken lib (a.drop 6))
  || (decide (a.take 5 = "-mem=".toList) && spec_memValueTaken lib (a.drop 5))

end bhc

namespace bhc

/-! ## Lemmas -/

theorem entry_ok {K : Type} (rtb : ReflectionInfoTopBot K) (i : Int) (h0 : 0 ≤ i)
    (h1 : i < rtb.r.length) : ∃ e, rtb.entry i = .ok e ∧ rtb.r[i.toNat]? = some e := by
  have h : i.toNat < rtb.r.length := (Int.toNat_lt h0).2 h1
  refine ⟨rtb.r[i.toNat], ?_, List.getElem?_eq_getElem h⟩
  simp [ReflectionInfoTopBot.entry, h0, List.getElem?_eq_getElem h]

theorem entry_nat {K : Type} (rtb : ReflectionInfoTopBot K) (n : Nat) (e : ReflectionCoef K)
    (h : rtb.r[n]? = some e) : rtb.entry (n : Int) = .ok e := by
  simp [ReflectionInfoTopBot.entry, h]

theorem entry_ok_inv {K : Type} (rtb : ReflectionInfoTopBot K) (i : Int) (e : ReflectionCoef K)
    (h : rtb.entry i = .ok e) : 0 ≤ i ∧ i < rtb.r.length ∧ rtb.r[i.toNat]? = some e := by
  unfold ReflectionInfoTopBot.entry at h
  split_ifs at h with h0
  cases hq : rtb.r[i.toNat]? with
  | none => simp [hq] at h
  | some a =>
    simp [hq] at h
    subst h
    obtain ⟨hl, -⟩ := List.getElem?_eq_some.1 hq
    exact ⟨h0, (Int.toNat_lt h0).1 hl, rfl⟩

theorem bisectLoop_spec {K : Type} [LinearOrderedField K] (rtb : ReflectionInfoTopBot K) (θ : K) :
    ∀ (fuel : Nat) (iL iR : Int) (eL0 : ReflectionCoef K), 0 ≤ iL → iL < iR →
      iR < rtb.r.length → iR - iL ≤ fuel + 1 → rtb.entry iL = .ok eL0 → eL0.theta ≤ θ →
      ∃ i eL eR, bisectLoop rtb θ fuel iL iR = .ok (i, i + 1) ∧ iL ≤ i ∧ i + 1 ≤ iR ∧
        rtb.entry i = .ok eL ∧ rtb.entry (i + 1) = .ok eR ∧ eL.theta ≤ θ ∧
        (θ < eR.theta ∨ i + 1 = iR) := by
  intro fuel
  induction fuel with
  | zero =>
    intro iL iR eL0 h0 hlt hlen hfuel hL hθ
    have hi : iL = iR - 1 := by omega
    obtain ⟨eR, heR, -⟩ := entry_ok rtb iR (by omega) hlen
    refine ⟨iL, eL0, eR, ?_, le_refl _, by omega, hL, ?_, hθ, Or.inr (by omega)⟩
    · simp [bisectLoop, hi]
    · rw [hi]; simpa using heR
  | succ n ih =>
    intro iL iR eL0 h0 hlt hlen hfuel hL hθ
    by_cases hi : iL = iR - 1
    · obtain ⟨eR, heR, -⟩ := entry_ok rtb iR (by omega) hlen
      refine ⟨iL, eL0, eR, ?_, le_refl _, by omega, hL, ?_, hθ, Or.inr (by omega)⟩
      · simp [bisectLoop, hi]
      · rw [hi]; simpa using heR
    · have hmid : Int.tdiv (iL + iR) 2 = (iL + iR) / 2 :=
        Int.tdiv_eq_ediv (by omega) (by norm_num)
      obtain ⟨eM, heM, -⟩ := entry_ok rtb ((iL + iR) / 2) (by omega) (by omega)
      by_cases hc : eM.theta > θ
      · obtain ⟨i, eL, eR, hb, h1, h2, h3, h4, h5, h6⟩ :=
          ih iL ((iL + iR) / 2) eL0 h0 (by omega) (by omega) (by omega) hL hθ
        refine ⟨i, eL, eR, ?_, h1, by omega, h3, h4, h5, ?_⟩
        · simp [bisectLoop, hi, hmid, heM, hc, hb]
        · rcases h6 with h6 | h6
          · exact Or.inl h6
          · left
            rw [h6, heM] at h4
            cases h4
            exact hc
      · obtain ⟨i, eL, eR, hb, h1, h2, h3, h4, h5, h6⟩ :=
          ih ((iL + iR) / 2) iR eM (by omega) (by omega) hlen (by omega) heM (not_lt.1 hc)
        refine ⟨i, eL, eR, ?_, by omega, h2, h3, h4, h5, h6⟩
        simp [bisectLoop, hi, hmid, heM, hc, hb]

theorem bisectLoop_fuel_succ {K : Type} [LinearOrderedField K]
    (rtb : ReflectionInfoTopBot K) (θ : K) :
    ∀ (fuel : Nat) (iL iR : Int) (v : Int × Int),
      bisectLoop rtb θ fuel iL iR = .ok v → bisectLoop rtb θ (fuel + 1) iL iR = .ok v := by
  intro fuel
  induction fuel with
  | zero =>
    intro iL iR v h
    by_cases hi : iL = iR - 1
    · simpa [bisectLoop, hi] using h
    · simp [bisectLoop, hi] at h
  | succ n ih =>
    intro iL iR v h
    by_cases hi : iL = iR - 1
    · simpa [bisectLoop, hi] using h
    · rw [bisectLoop] at h ⊢
      simp only [ne_eq, hi, not_false_eq_true, if_true] at h ⊢
      cases hm : rtb.entry (Int.tdiv (iL + iR) 2) with
      | error e => simp [hm] at h
      | ok eM =>
        simp only [hm] at h ⊢
        by_cases hc : eM.theta > θ
        · simp only [hc, if_true] at h ⊢
          exact ih _ _ _ h
        · simp only [hc, if_false] at h ⊢
          exact ih _ _ _ h

theorem bisectLoop_fuel_le {K : Type} [LinearOrderedField K]
    (rtb : ReflectionInfoTopBot K) (θ : K) (iL iR : Int) (v : Int × Int)
    (f g : Nat) (hfg : f ≤ g) (h : bisectLoop rtb θ f iL iR = .ok v) :
    bisectLoop rtb θ g iL iR = .ok v := by
  induction hfg with
  | refl => exact h
  | step _ ih => exact bisectLoop_fuel_succ rtb θ _ iL iR v ih

theorem interp_below {K : Type} [LinearOrderedField K] (fuel : Nat)
    (RInt : ReflectionCoef K) (rtb : ReflectionInfoTopBot K) (e0 : ReflectionCoef K)
    (h0 : rtb.r[0]? = some e0) (hlt : RInt.theta < e0.theta) :
    InterpolateReflectionCoefficient fuel RInt rtb =
      .ok ({ RInt with r := 0, phi := 0 }, [⟨RInt.theta, e0.theta⟩]) := by
  have h := entry_nat rtb 0 e0 h0
  simp only [Nat.cast_zero] at h
  simp [InterpolateReflectionCoefficient, h, hlt]

theorem interp_above {K : Type} [LinearOrderedField K] (fuel : Nat)
    (RInt : ReflectionCoef K) (rtb : ReflectionInfoTopBot K) (e0 eN : ReflectionCoef K)
    (hwf : rtb.NPts = rtb.r.length)
    (h0 : rtb.r[0]? = some e0) (hN : rtb.r[rtb.r.length - 1]? = some eN)
    (hge : ¬ RInt.theta < e0.theta) (hgt : RInt.theta > eN.theta) :
    InterpolateReflectionCoefficient fuel RInt rtb =
      .ok ({ RInt with r := 0, phi := 0 }, []) := by
  have h := entry_nat rtb 0 e0 h0
  simp only [Nat.cast_zero] at h
  have hpos : 0 < rtb.r.length := (List.getElem?_eq_some.1 h0).1
  have h2 := entry_nat rtb (rtb.r.length - 1) eN hN
  have hc : ((rtb.r.length - 1 : Nat) : Int) = rtb.NPts - 1 := by omega
  rw [hc] at h2
  simp [InterpolateReflectionCoefficient, h, h2, hge, hgt]

theorem interp_inside {K : Type} [LinearOrderedField K]
    (RInt : ReflectionCoef K) (rtb : ReflectionInfoTopBot K) (e0 eN : ReflectionCoef K)
    (hwf : rtb.NPts = rtb.r.length) (hN2 : 2 ≤ rtb.NPts)
    (h0 : rtb.r[0]? = some e0) (hN : rtb.r[rtb.r.length - 1]? = some eN)
    (hlo : e0.theta ≤ RInt.theta) (hhi : RInt.theta ≤ eN.theta) :
    ∃ (i : Nat) (eL eR : ReflectionCoef K),
      i + 1 < rtb.r.length ∧ rtb.r[i]? = some eL ∧ rtb.r[i + 1]? = some eR ∧
      eL.theta ≤ RInt.theta ∧ RInt.theta ≤ eR.theta ∧
      (RInt.theta < eR.theta ∨ i + 2 = rtb.r.length) ∧
      ∀ fuel : Nat, rtb.r.length ≤ fuel + 2 →
        bisectLoop rtb RInt.theta fuel 0 (rtb.NPts - 1) = .ok ((i : Int), (i : Int) + 1) ∧
        InterpolateReflectionCoefficient fuel RInt rtb =
          .ok ({ RInt with
                  r := (1 - (RInt.theta - eL.theta) / (eR.theta - eL.theta)) * eL.r
                    + (RInt.theta - eL.theta) / (eR.theta - eL.theta) * eR.r,
                  phi := (1 - (RInt.theta - eL.theta) / (eR.theta - eL.theta)) * eL.phi
                    + (RInt.theta - eL.theta) / (eR.theta - eL.theta) * eR.phi }, []) := by
  have h := entry_nat rtb 0 e0 h0
  simp only [Nat.cast_zero] at h
  have h2 := entry_nat rtb (rtb.r.length - 1) eN hN
  have hc : ((rtb.r.length - 1 : Nat) : Int) = rtb.NPts - 1 := by omega
  rw [hc] at h2
  obtain ⟨i, eL, eR, hb, hi0, hi1, hL, hR, hLθ, hor⟩ :=
    bisectLoop_spec rtb RInt.theta (rtb.r.length - 2) 0 (rtb.NPts - 1) e0 (le_refl _)
      (by omega) (by omega) (by omega) h hlo
  obtain ⟨-, -, hLq⟩ := entry_ok_inv rtb i eL hL
  obtain ⟨-, -, hRq⟩ := entry_ok_inv rtb (i + 1) eR hR
  have hRθ : RInt.theta ≤ eR.theta := by
    rcases hor with hor | hor
    · exact le_of_lt hor
    · rw [hor, h2] at hR
      cases hR
      exact hhi
  have hi1n : (i + 1).toNat = i.toNat + 1 := by omega
  rw [hi1n] at hRq
  have hcast : ((i.toNat : Nat) : Int) = i := Int.toNat_of_nonneg hi0
  refine ⟨i.toNat, eL, eR, by omega, hLq, hRq, hLθ, hRθ, ?_, ?_⟩
  · rcases hor with hor | hor
    · exact Or.inl hor
    · right; omega
  · intro fuel hfuel
    have hb2 := bisectLoop_fuel_le rtb RInt.theta 0 (rtb.NPts - 1) _ _ fuel (by omega) hb
    rw [hcast]
    refine ⟨hb2, ?_⟩
    simp [InterpolateReflectionCoefficient, h, h2, not_lt.2 hlo, not_lt.2 hhi, hb2, hL, hR]

theorem theta_lt_of_lt {K : Type} [LinearOrderedField K] (r : List (ReflectionCoef K))
    (hinc : r.Pairwise (fun a b => a.theta < b.theta)) (i j : Nat) (a b : ReflectionCoef K)
    (hi : r[i]? = some a) (hj : r[j]? = some b) (hij : i < j) : a.theta < b.theta := by
  obtain ⟨hi1, rfl⟩ := List.getElem?_eq_some.1 hi
  obtain ⟨hj1, rfl⟩ := List.getElem?_eq_some.1 hj
  exact List.pairwise_iff_getElem.1 hinc i j hi1 hj1 hij

theorem theta_le_of_le {K : Type} [LinearOrderedField K] (r : List (ReflectionCoef K))
    (hinc : r.Pairwise (fun a b => a.theta < b.theta)) (i j : Nat) (a b : ReflectionCoef K)
    (hi : r[i]? = some a) (hj : r[j]? = some b) (hij : i ≤ j) : a.theta ≤ b.theta := by
  rcases Nat.lt_or_eq_of_le hij with h | h
  · exact le_of_lt (theta_lt_of_lt r hinc i j a b hi hj h)
  · subst h
    rw [hi] at hj
    cases hj
    exact le_refl _

theorem queryWarnings_length {K : Type} [LinearOrderedField K] (fuel : Nat)
    (rtb : ReflectionInfoTopBot K) (e0 eN : ReflectionCoef K)
    (hwf : rtb.NPts = rtb.r.length)
    (h0 : rtb.r[0]? = some e0) (hN : rtb.r[rtb.r.length - 1]? = some eN) :
    ∀ thetas : List K, (∀ θ ∈ thetas, θ < e0.theta ∨ θ > eN.theta) →
      queryWarnings fuel rtb thetas
        = (thetas.filter (fun θ => θ < e0.theta)).map (fun θ => ⟨θ, e0.theta⟩) := by
  intro thetas
  induction thetas with
  | nil => intro _; rfl
  | cons θ rest ih =>
    intro hall
    have hrest := ih (fun x hx => hall x (List.mem_cons_of_mem _ hx))
    have hθ := hall θ (List.mem_cons_self _ _)
    by_cases hlt : θ < e0.theta
    · have := interp_below fuel ⟨θ, 0, 0⟩ rtb e0 h0 hlt
      simp [queryWarnings, this, hrest, hlt]
    · have hgt : θ > eN.theta := hθ.resolve_left hlt
      have := interp_above fuel ⟨θ, 0, 0⟩ rtb e0 eN hwf h0 hN hlt hgt
      simp [queryWarnings, this, hrest, hlt]

theorem interp_at_node {K : Type} [LinearOrderedField K]
    (RInt : ReflectionCoef K) (rtb : ReflectionInfoTopBot K) (i : Nat) (e : ReflectionCoef K)
    (hwf : rtb.NPts = rtb.r.length) (hN2 : 2 ≤ rtb.NPts)
    (hinc : rtb.r.Pairwise (fun a b => a.theta < b.theta))
    (hi : rtb.r[i]? = some e) (hθ : RInt.theta = e.theta)
    (fuel : Nat) (hfuel : rtb.r.length ≤ fuel + 2) :
    InterpolateReflectionCoefficient fuel RInt rtb
      = .ok ({ RInt with r := e.r, phi := e.phi }, []) := by
  have hilen := (List.getElem?_eq_some.1 hi).1
  have hlen0 : 0 < rtb.r.length := by omega
  have hlen1 : rtb.r.length - 1 < rtb.r.length := by omega
  have h0 := List.getElem?_eq_getElem hlen0
  have hN := List.getElem?_eq_getElem hlen1
  have hlo : (rtb.r[0]).theta ≤ RInt.theta := by
    rw [hθ]; exact theta_le_of_le rtb.r hinc 0 i _ e h0 hi (Nat.zero_le _)
  have hhi : RInt.theta ≤ (rtb.r[rtb.r.length - 1]).theta := by
    rw [hθ]; exact theta_le_of_le rtb.r hinc i _ e _ hi hN (by omega)
  obtain ⟨j, eL, eR, hj, hL, hR, hLθ, hRθ, hor, hrun⟩ :=
    interp_inside RInt rtb _ _ hwf hN2 h0 hN hlo hhi
  have hLR : eL.theta < eR.theta :=
    theta_lt_of_lt rtb.r hinc j (j + 1) eL eR hL hR (Nat.lt_succ_self j)
  have hne : eR.theta - eL.theta ≠ 0 := ne_of_gt (sub_pos.2 hLR)
  rw [(hrun fuel hfuel).2]
  by_cases hlt : RInt.theta < eR.theta
  · -- the bracket starts at the node
    have hji : j = i := by
      rcases Nat.lt_trichotomy j i with h | h | h
      · have := theta_le_of_le rtb.r hinc (j + 1) i eR e hR hi h
        rw [hθ] at hlt
        exact absurd (lt_of_lt_of_le hlt this) (lt_irrefl _)
      · exact h
      · have := theta_lt_of_lt rtb.r hinc i j e eL hi hL h
        rw [hθ] at hLθ
        exact absurd (lt_of_lt_of_le this hLθ) (lt_irrefl _)
    subst hji
    rw [hi] at hL
    cases hL
    simp [hθ]
  · -- the query is the last abscissa
    have heq : RInt.theta = eR.theta := le_antisymm hRθ (not_lt.1 hlt)
    have hji : i = j + 1 := by
      rcases Nat.lt_trichotomy i (j + 1) with h | h | h
      · have := theta_lt_of_lt rtb.r hinc i (j + 1) e eR hi hR h
        rw [← hθ, heq] at this
        exact absurd this (lt_irrefl _)
      · exact h
      · have := theta_lt_of_lt rtb.r hinc (j + 1) i eR e hR hi h
        rw [← hθ, heq] at this
        exact absurd this (lt_irrefl _)
    subst hji
    rw [hi] at hR
    cases hR
    have h1 : (RInt.theta - eL.theta) / (e.theta - eL.theta) = 1 := by
      rw [hθ]; exact div_self hne
    simp [h1]

@[simp]
theorem Vec2.add_x {K : Type} [LinearOrderedField K] (a b : Vec2 K) :
    (a + b).x = a.x + b.x := rfl

@[simp]
theorem Vec2.add_y {K : Type} [LinearOrderedField K] (a b : Vec2 K) :
    (a + b).y = a.y + b.y := rfl

@[simp]
theorem Vec2.sub_x {K : Type} [LinearOrderedField K] (a b : Vec2 K) :
    (a - b).x = a.x - b.x := rfl

@[simp]
theorem Vec2.sub_y {K : Type} [LinearOrderedField K] (a b : Vec2 K) :
    (a - b).y = a.y - b.y := rfl

@[simp]
theorem Vec2.neg_x {K : Type} [LinearOrderedField K] (a : Vec2 K) :
    (-a).x = -a.x := rfl

@[simp]
theorem Vec2.neg_y {K : Type} [LinearOrderedField K] (a : Vec2 K) :
    (-a).y = -a.y := rfl

@[simp]
theorem Vec2.smul_x {K : Type} [LinearOrderedField K] (s : K) (a : Vec2 K) :
    (s • a).x = s * a.x := rfl

@[simp]
theorem Vec2.smul_y {K : Type} [LinearOrderedField K] (s : K) (a : Vec2 K) :
    (s • a).y = s * a.y := rfl

@[simp]
theorem Cpx.add_re {K : Type} [LinearOrderedField K] (a b : Cpx K) :
    (a + b).re = a.re + b.re := rfl

@[simp]
theorem Cpx.add_im {K : Type} [LinearOrderedField K] (a b : Cpx K) :
    (a + b).im = a.im + b.im := rfl

@[simp]
theorem Cpx.sub_re {K : Type} [LinearOrderedField K] (a b : Cpx K) :
    (a - b).re = a.re - b.re := rfl

@[simp]
theorem Cpx.sub_im {K : Type} [LinearOrderedField K] (a b : Cpx K) :
    (a - b).im = a.im - b.im := rfl

@[simp]
theorem Cpx.neg_re {K : Type} [LinearOrderedField K] (a : Cpx K) :
    (-a).re = -a.re := rfl

@[simp]
theorem Cpx.neg_im {K : Type} [LinearOrderedField K] (a : Cpx K) :
    (-a).im = -a.im := rfl

@[simp]
theorem Cpx.mul_re {K : Type} [LinearOrderedField K] (a b : Cpx K) :
    (a * b).re = a.re * b.re - a.im * b.im := rfl

@[simp]
theorem Cpx.mul_im {K : Type} [LinearOrderedField K] (a b : Cpx K) :
    (a * b).im = a.re * b.im + a.im * b.re := rfl

@[simp]
theorem Cpx.div_re {K : Type} [LinearOrderedField K] (a b : Cpx K) :
    (a / b).re = (a.re * b.re + a.im * b.im) / (b.re * b.re + b.im * b.im) := rfl

@[simp]
theorem Cpx.div_im {K : Type} [LinearOrderedField K] (a b : Cpx K) :
    (a / b).im = (a.im * b.re - a.re * b.im) / (b.re * b.re + b.im * b.im) := rfl

@[simp]
theorem Cpx.smul_re {K : Type} [LinearOrderedField K] (s : K) (a : Cpx K) :
    (s • a).re = s * a.re := rfl

@[simp]
theorem Cpx.smul_im {K : Type} [LinearOrderedField K] (s : K) (a : Cpx K) :
    (s • a).im = s * a.im := rfl

@[simp]
theorem Cpx.ofReal_re {K : Type} [LinearOrderedField K] (a : K) :
    (Cpx.ofReal a).re = a := rfl

@[simp]
theorem Cpx.ofReal_im {K : Type} [LinearOrderedField K] (a : K) :
    (Cpx.ofReal a).im = 0 := rfl

@[simp]
theorem Cpx.J_re {K : Type} [LinearOrderedField K] :
    (Cpx.J : Cpx K).re = 0 := rfl

@[simp]
theorem Cpx.J_im {K : Type} [LinearOrderedField K] :
    (Cpx.J : Cpx K).im = 1 := rfl

theorem Cpx.ext_iff2 {K : Type} [LinearOrderedField K] (a b : Cpx K) :
    a = b ↔ a.re = b.re ∧ a.im = b.im := by
  cases a; cases b; simp

theorem ampPhase2_frame {K : Type} [LinearOrderedField K] {P : Type} [Add P] [SMul K P]
    (m : STD K) (O3D : Bool) (fuel : Nat)
    (oldPoint : rayPt2 K P) (hs : HSInfo K) (Th Tg : K) (tBdry : Vec2 K)
    (o : SSPOutputs2 K) (freq : K) (rtb : ReflectionInfoTopBot K)
    (Beam : BeamStructure) (np0 np : rayPt2 K P)
    (h : ampPhase2 m O3D fuel oldPoint hs Th Tg tBdry o freq rtb Beam np0 = .ok np) :
    np.NumTopBnc = np0.NumTopBnc ∧ np.NumBotBnc = np0.NumBotBnc ∧ np.t = np0.t ∧
      np.p = np0.p ∧ np.c = np0.c := by
  unfold ampPhase2 at h
  dsimp only at h
  split_ifs at h
  all_goals first
    | (cases h; simp [beamDisplacement])
    | (split at h
       · cases h
       · cases h; simp)

theorem ampPhase3_frame {K : Type} [LinearOrderedField K] {P : Type}
    (m : STD K) (fuel : Nat)
    (oldPoint : rayPt3 K P) (hs : HSInfo K) (Th Tg : K) (nBdry : Vec3 K)
    (o : SSPOutputs3 K) (freq : K) (rtb : ReflectionInfoTopBot K)
    (np0 np : rayPt3 K P)
    (h : ampPhase3 m fuel oldPoint hs Th Tg nBdry o freq rtb np0 = .ok np) :
    np.NumTopBnc = np0.NumTopBnc ∧ np.NumBotBnc = np0.NumBotBnc ∧ np.t = np0.t ∧
      np.p = np0.p ∧ np.q = np0.q ∧ np.c = np0.c ∧ np.x = np0.x ∧ np.tau = np0.tau ∧
      np.phi = np0.phi := by
  unfold ampPhase3 at h
  dsimp only at h
  split_ifs at h
  all_goals first
    | (cases h; simp)
    | (split at h
       · cases h
       · cases h; simp)

theorem ampPhase2_R {K : Type} [LinearOrderedField K] {P : Type} [Add P] [SMul K P]
    (m : STD K) (O3D : Bool) (fuel : Nat)
    (oldPoint : rayPt2 K P) (hs : HSInfo K) (Th Tg : K) (tBdry : Vec2 K)
    (o : SSPOutputs2 K) (freq : K) (rtb : ReflectionInfoTopBot K)
    (Beam : BeamStructure) (np0 : rayPt2 K P) (hbc : hs.bc = 'R') :
    ampPhase2 m O3D fuel oldPoint hs Th Tg tBdry o freq rtb Beam np0
      = .ok { np0 with Amp := oldPoint.Amp, Phase := oldPoint.Phase } := by
  simp [ampPhase2, hbc]

theorem ampPhase2_V {K : Type} [LinearOrderedField K] {P : Type} [Add P] [SMul K P]
    (m : STD K) (O3D : Bool) (fuel : Nat)
    (oldPoint : rayPt2 K P) (hs : HSInfo K) (Th Tg : K) (tBdry : Vec2 K)
    (o : SSPOutputs2 K) (freq : K) (rtb : ReflectionInfoTopBot K)
    (Beam : BeamStructure) (np0 : rayPt2 K P) (hbc : hs.bc = 'V') :
    ampPhase2 m O3D fuel oldPoint hs Th Tg tBdry o freq rtb Beam np0
      = .ok { np0 with Amp := oldPoint.Amp, Phase := oldPoint.Phase + m.pi } := by
  simp [ampPhase2, hbc]

theorem ampPhase2_F {K : Type} [LinearOrderedField K] {P : Type} [Add P] [SMul K P]
    (m : STD K) (O3D : Bool) (fuel : Nat)
    (oldPoint : rayPt2 K P) (hs : HSInfo K) (Th Tg : K) (tBdry : Vec2 K)
    (o : SSPOutputs2 K) (freq : K) (rtb : ReflectionInfoTopBot K)
    (Beam : BeamStructure) (np0 : rayPt2 K P) (hbc : hs.bc = 'F') :
    ampPhase2 m O3D fuel oldPoint hs Th Tg tBdry o freq rtb Beam np0
      = match InterpolateReflectionCoefficient fuel
          { theta := incidenceAngle m Th Tg, r := 0, phi := 0 } rtb with
        | .error e => .error e
        | .ok (RInt, _) =>
          .ok { np0 with Amp := oldPoint.Amp * RInt.r, Phase := oldPoint.Phase + RInt.phi } := by
  simp [ampPhase2, hbc]

theorem ampPhase2_AG {K : Type} [LinearOrderedField K] {P : Type} [Add P] [SMul K P]
    (m : STD K) (O3D : Bool) (fuel : Nat)
    (oldPoint : rayPt2 K P) (hs : HSInfo K) (Th Tg : K) (tBdry : Vec2 K)
    (o : SSPOutputs2 K) (freq : K) (rtb : ReflectionInfoTopBot K)
    (Beam : BeamStructure) (np0 : rayPt2 K P) (hbc : hs.bc = 'A' ∨ hs.bc = 'G')
    (Refl : Cpx K)
    (hRefl : Refl = if O3D then ReflCoefO3D m hs o.ccpx.re o.rho (2 * m.pi * freq) Tg
      else ReflCoef2D m hs o.rho (2 * m.pi * freq) Th Tg) :
    ∃ np, ampPhase2 m O3D fuel oldPoint hs Th Tg tBdry o freq rtb Beam np0 = .ok np ∧
      (m.cabs Refl < 1e-5 → np.Amp = 0 ∧ np.Phase = oldPoint.Phase) ∧
      (¬ m.cabs Refl < 1e-5 → np.Amp = m.cabs Refl * oldPoint.Amp ∧
        np.Phase = oldPoint.Phase + m.atan2 Refl.im Refl.re) := by
  have hR : hs.bc ≠ 'R' := by rcases hbc with h | h <;> rw [h] <;> decide
  have hV : hs.bc ≠ 'V' := by rcases hbc with h | h <;> rw [h] <;> decide
  have hF : hs.bc ≠ 'F' := by rcases hbc with h | h <;> rw [h] <;> decide
  unfold ampPhase2
  simp only [hR, hV, hF, hbc, if_false, if_true, ← hRefl]
  by_cases hk : m.cabs Refl < 1e-5
  · simp [hk]
  · by_cases hS : Beam.Type_ 3 = 'S'
    · simp [hk, hS, beamDisplacement]
    · simp [hk, hS]

theorem ampPhase3_R {K : Type} [LinearOrderedField K] {P : Type}
    (m : STD K) (fuel : Nat)
    (oldPoint : rayPt3 K P) (hs : HSInfo K) (Th Tg : K) (nBdry : Vec3 K)
    (o : SSPOutputs3 K) (freq : K) (rtb : ReflectionInfoTopBot K)
    (np0 : rayPt3 K P) (hbc : hs.bc = 'R') :
    ampPhase3 m fuel oldPoint hs Th Tg nBdry o freq rtb np0
      = .ok { np0 with Amp := oldPoint.Amp, Phase := oldPoint.Phase } := by
  simp [ampPhase3, hbc]

theorem ampPhase3_V {K : Type} [LinearOrderedField K] {P : Type}
    (m : STD K) (fuel : Nat)
    (oldPoint : rayPt3 K P) (hs : HSInfo K) (Th Tg : K) (nBdry : Vec3 K)
    (o : SSPOutputs3 K) (freq : K) (rtb : ReflectionInfoTopBot K)
    (np0 : rayPt3 K P) (hbc : hs.bc = 'V') :
    ampPhase3 m fuel oldPoint hs Th Tg nBdry o freq rtb np0
      = .ok { np0 with Amp := oldPoint.Amp, Phase := oldPoint.Phase + m.pi } := by
  simp [ampPhase3, hbc]

theorem ampPhase3_F {K : Type} [LinearOrderedField K] {P : Type}
    (m : STD K) (fuel : Nat)
    (oldPoint : rayPt3 K P) (hs : HSInfo K) (Th Tg : K) (nBdry : Vec3 K)
    (o : SSPOutputs3 K) (freq : K) (rtb : ReflectionInfoTopBot K)
    (np0 : rayPt3 K P) (hbc : hs.bc = 'F') :
    ampPhase3 m fuel oldPoint hs Th Tg nBdry o freq rtb np0
      = match InterpolateReflectionCoefficient fuel
          { theta := incidenceAngle m Th Tg, r := 0, phi := 0 } rtb with
        | .error e => .error e
        | .ok (RInt, _) =>
          .ok { np0 with Amp := oldPoint.Amp * RInt.r, Phase := oldPoint.Phase + RInt.phi } := by
  simp [ampPhase3, hbc]

theorem ampPhase3_AG {K : Type} [LinearOrderedField K] {P : Type}
    (m : STD K) (fuel : Nat)
    (oldPoint : rayPt3 K P) (hs : HSInfo K) (Th Tg : K) (nBdry : Vec3 K)
    (o : SSPOutputs3 K) (freq : K) (rtb : ReflectionInfoTopBot K)
    (np0 : rayPt3 K P) (hbc : hs.bc = 'A' ∨ hs.bc = 'G') (Refl : Cpx K)
    (hRefl : Refl = wallHack m nBdry (ReflCoefO3D m hs o.ccpx.re o.rho (2 * m.pi * freq) Tg)) :
    ∃ np, ampPhase3 m fuel oldPoint hs Th Tg nBdry o freq rtb np0 = .ok np ∧
      (m.cabs Refl < 1e-5 → np.Amp = 0 ∧ np.Phase = oldPoint.Phase) ∧
      (¬ m.cabs Refl < 1e-5 → np.Amp = m.cabs Refl * oldPoint.Amp ∧
        np.Phase = oldPoint.Phase + m.atan2 Refl.im Refl.re) := by
  have hR : hs.bc ≠ 'R' := by rcases hbc with h | h <;> rw [h] <;> decide
  have hV : hs.bc ≠ 'V' := by rcases hbc with h | h <;> rw [h] <;> decide
  have hF : hs.bc ≠ 'F' := by rcases hbc with h | h <;> rw [h] <;> decide
  unfold ampPhase3
  simp only [hR, hV, hF, hbc, if_false, if_true, ← hRefl]
  by_cases hk : m.cabs Refl < 1e-5
  · simp [hk]
  · simp [hk]

/-- The geometry half of `Reflect<false, false>`: everything before the
amplitude and phase change. -/
theorem Reflect2D_split {K : Type} [LinearOrderedField K] {P : Type} [Add P] [SMul K P]
    (m : STD K)
    (EvaluateSSP : Vec2 K → Vec2 K → SSPOutputs2 K) (fuel : Nat)
    (oldPoint newPoint : rayPt2 K P) (hs : HSInfo K) (isTop : Bool)
    (tBdry nBdry : Vec2 K) (rcurv : ReflCurvature2 K) (freq : K)
    (rtb : ReflectionInfoTopBot K) (Beam : BeamStructure) :
    ∃ np0 : rayPt2 K P,
      Reflect2D m EvaluateSSP fuel oldPoint newPoint hs isTop tBdry nBdry rcurv freq rtb Beam
        = ampPhase2 m false fuel oldPoint hs (Th2D oldPoint nBdry) (Tg2D oldPoint tBdry) tBdry
            (EvaluateSSP oldPoint.x oldPoint.t) freq rtb Beam np0 ∧
      np0.NumTopBnc = oldPoint.NumTopBnc + boolToInt isTop ∧
      np0.NumBotBnc = oldPoint.NumBotBnc + (1 - boolToInt isTop) ∧
      np0.x = oldPoint.x ∧
      np0.t = oldPoint.t - (2 * Vec2.dot oldPoint.t nBdry) • nBdry ∧
      np0.tau = oldPoint.tau ∧ np0.q = oldPoint.q ∧
      np0.c = (EvaluateSSP oldPoint.x oldPoint.t).ccpx.re :=
  ⟨_, rfl, rfl, rfl, rfl, rfl, rfl, rfl, rfl⟩

theorem ReflectNx2D_split {K : Type} [LinearOrderedField K] {P : Type} [Add P] [SMul K P]
    (m : STD K)
    (RayToOceanT : Vec3 K → Origin K → Vec2 K)
    (EvaluateSSP : Vec2 K → Vec2 K → SSPOutputs2 K) (fuel : Nat)
    (oldPoint newPoint : rayPt2 K P) (hs : HSInfo K) (isTop : Bool)
    (tBdry : Vec2 K) (nBdry : Vec3 K) (rcurv : ReflCurvature3 K) (freq : K)
    (rtb : ReflectionInfoTopBot K) (Beam : BeamStructure) (org : Origin K) :
    ∃ np0 : rayPt2 K P,
      ReflectNx2D m RayToOceanT EvaluateSSP fuel oldPoint newPoint hs isTop tBdry nBdry rcurv
          freq rtb Beam org
        = ampPhase2 m true fuel oldPoint hs (ThNx2D m RayToOceanT oldPoint nBdry org)
            (TgNx2D m RayToOceanT oldPoint nBdry org)
            (tBdryNx2D m RayToOceanT oldPoint nBdry org)
            (EvaluateSSP oldPoint.x (oldPoint.t - (2 * ThNx2D m RayToOceanT oldPoint nBdry org)
              • nBdry_rayNx2D m RayToOceanT nBdry org)) freq rtb Beam np0 ∧
      np0.NumTopBnc = oldPoint.NumTopBnc + boolToInt isTop ∧
      np0.NumBotBnc = oldPoint.NumBotBnc + (1 - boolToInt isTop) ∧
      np0.x = oldPoint.x ∧
      np0.t = oldPoint.t - (2 * ThNx2D m RayToOceanT oldPoint nBdry org)
              • nBdry_rayNx2D m RayToOceanT nBdry org ∧
      np0.tau = oldPoint.tau ∧ np0.q = oldPoint.q :=
  ⟨_, rfl, rfl, rfl, rfl, rfl, rfl, rfl⟩

theorem Reflect3D_split {K : Type} [LinearOrderedField K] {P : Type}
    (m : STD K) (ray : Ray3D K P)
    (EvaluateSSP : Vec3 K → Vec3 K → SSPOutputs3 K) (fuel : Nat)
    (oldPoint newPoint : rayPt3 K P) (hs : HSInfo K) (isTop : Bool)
    (tBdry : Vec3 K) (nBdry : Vec3 K) (rcurv : ReflCurvature3 K) (freq : K)
    (rtb : ReflectionInfoTopBot K) :
    ∃ np0 : rayPt3 K P,
      Reflect3D m ray EvaluateSSP fuel oldPoint newPoint hs isTop tBdry nBdry rcurv freq rtb
        = ampPhase3 m fuel oldPoint hs (Th3D oldPoint nBdry) (Tg3D m oldPoint nBdry) nBdry
            (EvaluateSSP oldPoint.x (oldPoint.t - (2 * Th3D oldPoint nBdry) • nBdry)) freq
            rtb np0 ∧
      np0.NumTopBnc = oldPoint.NumTopBnc + boolToInt isTop ∧
      np0.NumBotBnc = oldPoint.NumBotBnc + (1 - boolToInt isTop) ∧
      np0.x = oldPoint.x ∧
      np0.t = oldPoint.t - (2 * Th3D oldPoint nBdry) • nBdry ∧
      np0.tau = oldPoint.tau :=
  ⟨_, rfl, rfl, rfl, rfl, rfl, rfl⟩

theorem ampPhase2_ok_iff {K : Type} [LinearOrderedField K] {P : Type} [Add P] [SMul K P]
    (m : STD K) (O3D : Bool) (fuel : Nat)
    (oldPoint : rayPt2 K P) (hs : HSInfo K) (Th Tg : K) (tBdry : Vec2 K)
    (o : SSPOutputs2 K) (freq : K) (rtb : ReflectionInfoTopBot K)
    (Beam : BeamStructure) (np0 : rayPt2 K P) :
    (∃ np, ampPhase2 m O3D fuel oldPoint hs Th Tg tBdry o freq rtb Beam np0 = .ok np) ↔
      (hs.bc = 'R' ∨ hs.bc = 'V' ∨ hs.bc = 'A' ∨ hs.bc = 'G' ∨
        (hs.bc = 'F' ∧ ∃ out, InterpolateReflectionCoefficient fuel
          { theta := incidenceAngle m Th Tg, r := 0, phi := 0 } rtb = .ok out)) := by
  by_cases hR : hs.bc = 'R'
  · simp [ampPhase2_R _ _ _ _ _ _ _ _ _ _ _ _ _ hR, hR]
  by_cases hV : hs.bc = 'V'
  · simp [ampPhase2_V _ _ _ _ _ _ _ _ _ _ _ _ _ hV, hV]
  by_cases hF : hs.bc = 'F'
  · rw [ampPhase2_F _ _ _ _ _ _ _ _ _ _ _ _ _ hF]
    cases hq : InterpolateReflectionCoefficient fuel
          { theta := incidenceAngle m Th Tg, r := 0, phi := 0 } rtb with
    | error e => simp [hF]
    | ok out => simp [hF]
  by_cases hAG : hs.bc = 'A' ∨ hs.bc = 'G'
  · obtain ⟨np, hnp, -⟩ :=
      ampPhase2_AG m O3D fuel oldPoint hs Th Tg tBdry o freq rtb Beam np0 hAG _ rfl
    constructor
    · intro _
      rcases hAG with h | h
      · exact Or.inr (Or.inr (Or.inl h))
      · exact Or.inr (Or.inr (Or.inr (Or.inl h)))
    · intro _
      exact ⟨np, hnp⟩
  · have hA : hs.bc ≠ 'A' := fun h => hAG (Or.inl h)
    have hG : hs.bc ≠ 'G' := fun h => hAG (Or.inr h)
    simp [ampPhase2, hR, hV, hF, hA, hG]

theorem runSeq_counts {A Pt : Type} (step : A → Pt → Except Fault Pt)
    (isTop : A → Bool) (top bot : Pt → Int)
    (hstep : ∀ a p q, step a p = .ok q →
      top q = top p + boolToInt (isTop a) ∧ bot q = bot p + (1 - boolToInt (isTop a))) :
    ∀ (bs : List A) (p q : Pt), runSeq step bs p = .ok q →
      top q = top p + bs.countP (fun a => isTop a) ∧
      bot q = bot p + bs.countP (fun a => !isTop a) ∧
      top q + bot q = top p + bot p + bs.length := by
  intro bs
  induction bs with
  | nil =>
    intro p q h
    simp only [runSeq, Except.ok.injEq] at h
    subst h
    simp
  | cons a rest ih =>
    intro p q h
    rw [runSeq] at h
    cases hs : step a p with
    | error e => simp [hs] at h
    | ok p1 =>
      simp only [hs] at h
      obtain ⟨h1, h2, h3⟩ := ih p1 q h
      obtain ⟨s1, s2⟩ := hstep a p p1 hs
      cases hb : isTop a <;>
        simp [hb, boolToInt, List.countP_cons] at s1 s2 ⊢ <;>
        omega

theorem ampPhase3_ok_iff {K : Type} [LinearOrderedField K] {P : Type}
    (m : STD K) (fuel : Nat)
    (oldPoint : rayPt3 K P) (hs : HSInfo K) (Th Tg : K) (nBdry : Vec3 K)
    (o : SSPOutputs3 K) (freq : K) (rtb : ReflectionInfoTopBot K)
    (np0 : rayPt3 K P) :
    (∃ np, ampPhase3 m fuel oldPoint hs Th Tg nBdry o freq rtb np0 = .ok np) ↔
      (hs.bc = 'R' ∨ hs.bc = 'V' ∨ hs.bc = 'A' ∨ hs.bc = 'G' ∨
        (hs.bc = 'F' ∧ ∃ out, InterpolateReflectionCoefficient fuel
          { theta := incidenceAngle m Th Tg, r := 0, phi := 0 } rtb = .ok out)) := by
  by_cases hR : hs.bc = 'R'
  · simp [ampPhase3_R _ _ _ _ _ _ _ _ _ _ _ hR, hR]
  by_cases hV : hs.bc = 'V'
  · simp [ampPhase3_V _ _ _ _ _ _ _ _ _ _ _ hV, hV]
  by_cases hF : hs.bc = 'F'
  · rw [ampPhase3_F _ _ _ _ _ _ _ _ _ _ _ hF]
    cases hq : InterpolateReflectionCoefficient fuel
          { theta := incidenceAngle m Th Tg, r := 0, phi := 0 } rtb with
    | error e => simp [hF]
    | ok out => simp [hF]
  by_cases hAG : hs.bc = 'A' ∨ hs.bc = 'G'
  · obtain ⟨np, hnp, -⟩ := ampPhase3_AG m fuel oldPoint hs Th Tg nBdry o freq rtb np0 hAG _ rfl
    constructor
    · intro _
      rcases hAG with h | h
      · exact Or.inr (Or.inr (Or.inl h))
      · exact Or.inr (Or.inr (Or.inr (Or.inl h)))
    · intro _
      exact ⟨np, hnp⟩
  · have hA : hs.bc ≠ 'A' := fun h => hAG (Or.inl h)
    have hG : hs.bc ≠ 'G' := fun h => hAG (Or.inr h)
    simp [ampPhase3, hR, hV, hF, hA, hG]

theorem ampPhase2_F_ok {K : Type} [LinearOrderedField K] {P : Type} [Add P] [SMul K P]
    (m : STD K) (O3D : Bool) (fuel : Nat)
    (oldPoint : rayPt2 K P) (hs : HSInfo K) (Th Tg : K) (tBdry : Vec2 K)
    (o : SSPOutputs2 K) (freq : K) (rtb : ReflectionInfoTopBot K)
    (Beam : BeamStructure) (np0 : rayPt2 K P) (hbc : hs.bc = 'F')
    (RInt : ReflectionCoef K) (w : List (LogWarning K))
    (hq : InterpolateReflectionCoefficient fuel
      { theta := incidenceAngle m Th Tg, r := 0, phi := 0 } rtb = .ok (RInt, w)) :
    ∃ np, ampPhase2 m O3D fuel oldPoint hs Th Tg tBdry o freq rtb Beam np0 = .ok np ∧
      np.Amp = oldPoint.Amp * RInt.r ∧ np.Phase = oldPoint.Phase + RInt.phi := by
  rw [ampPhase2_F _ _ _ _ _ _ _ _ _ _ _ _ _ hbc, hq]
  exact ⟨_, rfl, rfl, rfl⟩

theorem ampPhase3_F_ok {K : Type} [LinearOrderedField K] {P : Type}
    (m : STD K) (fuel : Nat)
    (oldPoint : rayPt3 K P) (hs : HSInfo K) (Th Tg : K) (nBdry : Vec3 K)
    (o : SSPOutputs3 K) (freq : K) (rtb : ReflectionInfoTopBot K)
    (np0 : rayPt3 K P) (hbc : hs.bc = 'F')
    (RInt : ReflectionCoef K) (w : List (LogWarning K))
    (hq : InterpolateReflectionCoefficient fuel
      { theta := incidenceAngle m Th Tg, r := 0, phi := 0 } rtb = .ok (RInt, w)) :
    ∃ np, ampPhase3 m fuel oldPoint hs Th Tg nBdry o freq rtb np0 = .ok np ∧
      np.Amp = oldPoint.Amp * RInt.r ∧ np.Phase = oldPoint.Phase + RInt.phi := by
  rw [ampPhase3_F _ _ _ _ _ _ _ _ _ _ _ hbc, hq]
  exact ⟨_, rfl, rfl, rfl⟩

theorem incidenceAngle_eq {K : Type} [LinearOrderedField K] (m : STD K) (Th Tg : K) :
    incidenceAngle m Th Tg =
      if |m.atan2 Th Tg| * 180 / m.pi ≤ 90 then |m.atan2 Th Tg| * 180 / m.pi
      else 180 - |m.atan2 Th Tg| * 180 / m.pi := by
  have h : m.RadDeg * |m.atan2 Th Tg| = |m.atan2 Th Tg| * 180 / m.pi := by
    unfold STD.RadDeg; ring
  unfold incidenceAngle
  simp only [h]
  by_cases hc : |m.atan2 Th Tg| * 180 / m.pi ≤ 90
  · simp [hc, not_lt.2 hc]
  · simp [hc, not_le.1 hc]

theorem incidenceAngle_range {K : Type} [LinearOrderedField K] (m : STD K)
    (hpi : 0 < m.pi) (hatan : ∀ y x, |m.atan2 y x| ≤ m.pi) (Th Tg : K) :
    0 ≤ incidenceAngle m Th Tg ∧ incidenceAngle m Th Tg ≤ 90 := by
  have h0 : 0 ≤ |m.atan2 Th Tg| * 180 / m.pi :=
    div_nonneg (mul_nonneg (abs_nonneg _) (by norm_num)) (le_of_lt hpi)
  have h1 : |m.atan2 Th Tg| * 180 / m.pi ≤ 180 := by
    rw [div_le_iff₀ hpi]
    have := hatan Th Tg
    linarith
  rw [incidenceAngle_eq]
  split_ifs with hc
  · exact ⟨h0, hc⟩
  · constructor <;> linarith [not_le.1 hc]

theorem ampPhase2_F_outside {K : Type} [LinearOrderedField K] {P : Type} [Add P] [SMul K P]
    (m : STD K) (O3D : Bool) (fuel : Nat)
    (oldPoint : rayPt2 K P) (hs : HSInfo K) (Th Tg : K) (tBdry : Vec2 K)
    (o : SSPOutputs2 K) (freq : K) (rtb : ReflectionInfoTopBot K)
    (Beam : BeamStructure) (np0 : rayPt2 K P) (hbc : hs.bc = 'F')
    (e0 eN : ReflectionCoef K) (hwf : rtb.NPts = rtb.r.length)
    (h0 : rtb.r[0]? = some e0) (hN : rtb.r[rtb.r.length - 1]? = some eN)
    (hout : incidenceAngle m Th Tg < e0.theta ∨ incidenceAngle m Th Tg > eN.theta) :
    ∃ np, ampPhase2 m O3D fuel oldPoint hs Th Tg tBdry o freq rtb Beam np0 = .ok np ∧
      np.Amp = 0 ∧ np.Phase = oldPoint.Phase := by
  by_cases hlt : incidenceAngle m Th Tg < e0.theta
  · obtain ⟨np, h1, h2, h3⟩ :=
      ampPhase2_F_ok m O3D fuel oldPoint hs Th Tg tBdry o freq rtb Beam np0 hbc _ _
        (interp_below fuel ⟨incidenceAngle m Th Tg, 0, 0⟩ rtb e0 h0 hlt)
    exact ⟨np, h1, by simpa using h2, by simpa using h3⟩
  · obtain ⟨np, h1, h2, h3⟩ :=
      ampPhase2_F_ok m O3D fuel oldPoint hs Th Tg tBdry o freq rtb Beam np0 hbc _ _
        (interp_above fuel ⟨incidenceAngle m Th Tg, 0, 0⟩ rtb e0 eN hwf h0 hN hlt
          (hout.resolve_left hlt))
    exact ⟨np, h1, by simpa using h2, by simpa using h3⟩

theorem ampPhase3_F_outside {K : Type} [LinearOrderedField K] {P : Type}
    (m : STD K) (fuel : Nat)
    (oldPoint : rayPt3 K P) (hs : HSInfo K) (Th Tg : K) (nBdry : Vec3 K)
    (o : SSPOutputs3 K) (freq : K) (rtb : ReflectionInfoTopBot K)
    (np0 : rayPt3 K P) (hbc : hs.bc = 'F')
    (e0 eN : ReflectionCoef K) (hwf : rtb.NPts = rtb.r.length)
    (h0 : rtb.r[0]? = some e0) (hN : rtb.r[rtb.r.length - 1]? = some eN)
    (hout : incidenceAngle m Th Tg < e0.theta ∨ incidenceAngle m Th Tg > eN.theta) :
    ∃ np, ampPhase3 m fuel oldPoint hs Th Tg nBdry o freq rtb np0 = .ok np ∧
      np.Amp = 0 ∧ np.Phase = oldPoint.Phase := by
  by_cases hlt : incidenceAngle m Th Tg < e0.theta
  · obtain ⟨np, h1, h2, h3⟩ :=
      ampPhase3_F_ok m fuel oldPoint hs Th Tg nBdry o freq rtb np0 hbc _ _
        (interp_below fuel ⟨incidenceAngle m Th Tg, 0, 0⟩ rtb e0 h0 hlt)
    exact ⟨np, h1, by simpa using h2, by simpa using h3⟩
  · obtain ⟨np, h1, h2, h3⟩ :=
      ampPhase3_F_ok m fuel oldPoint hs Th Tg nBdry o freq rtb np0 hbc _ _
        (interp_above fuel ⟨incidenceAngle m Th Tg, 0, 0⟩ rtb e0 eN hwf h0 hN hlt
          (hout.resolve_left hlt))
    exact ⟨np, h1, by simpa using h2, by simpa using h3⟩

theorem ampPhase2_F_error {K : Type} [LinearOrderedField K] {P : Type} [Add P] [SMul K P]
    (m : STD K) (O3D : Bool) (fuel : Nat)
    (oldPoint : rayPt2 K P) (hs : HSInfo K) (Th Tg : K) (tBdry : Vec2 K)
    (o : SSPOutputs2 K) (freq : K) (rtb : ReflectionInfoTopBot K)
    (Beam : BeamStructure) (np0 : rayPt2 K P) (hbc : hs.bc = 'F') (e : Fault)
    (hq : InterpolateReflectionCoefficient fuel
      { theta := incidenceAngle m Th Tg, r := 0, phi := 0 } rtb = .error e) :
    ampPhase2 m O3D fuel oldPoint hs Th Tg tBdry o freq rtb Beam np0 = .error e := by
  rw [ampPhase2_F _ _ _ _ _ _ _ _ _ _ _ _ _ hbc, hq]

theorem ampPhase3_F_error {K : Type} [LinearOrderedField K] {P : Type}
    (m : STD K) (fuel : Nat)
    (oldPoint : rayPt3 K P) (hs : HSInfo K) (Th Tg : K) (nBdry : Vec3 K)
    (o : SSPOutputs3 K) (freq : K) (rtb : ReflectionInfoTopBot K)
    (np0 : rayPt3 K P) (hbc : hs.bc = 'F') (e : Fault)
    (hq : InterpolateReflectionCoefficient fuel
      { theta := incidenceAngle m Th Tg, r := 0, phi := 0 } rtb = .error e) :
    ampPhase3 m fuel oldPoint hs Th Tg nBdry o freq rtb np0 = .error e := by
  rw [ampPhase3_F _ _ _ _ _ _ _ _ _ _ _ hbc, hq]

theorem exSTD_atan2_range : ∀ y x : ℚ, |exSTD.atan2 y x| ≤ exSTD.pi := by
  intro y x
  simp only [exSTD]
  split_ifs <;> norm_num [abs_of_pos]

theorem exAngle :
    incidenceAngle exSTD (Th2D exPoint ⟨0, 1⟩) (Tg2D exPoint ⟨1, 0⟩) = 90 := by
  have h : |(3 / 2 : ℚ)| = 3 / 2 := abs_of_pos (by norm_num)
  norm_num [incidenceAngle, exSTD, STD.RadDeg, Th2D, Tg2D, Vec2.dot, exPoint, h]

theorem Reflect2D_AG {K : Type} [LinearOrderedField K] {P : Type} [Add P] [SMul K P]
    (m : STD K) (fuel : Nat) (freq : K) (rtb : ReflectionInfoTopBot K) (Beam : BeamStructure)
    (E2 : Vec2 K → Vec2 K → SSPOutputs2 K) (hs : HSInfo K) (isTop : Bool)
    (hbc : hs.bc = 'A' ∨ hs.bc = 'G')
    (oldPoint newPoint : rayPt2 K P) (tBdry nBdry : Vec2 K) (rcurv : ReflCurvature2 K) :
    ∃ np, Reflect2D m E2 fuel oldPoint newPoint hs isTop tBdry nBdry rcurv freq rtb Beam
        = .ok np ∧
      (m.cabs (Refl2D m E2 oldPoint hs tBdry nBdry freq) < 1e-5 →
        np.Amp = 0 ∧ np.Phase = oldPoint.Phase) ∧
      (¬ m.cabs (Refl2D m E2 oldPoint hs tBdry nBdry freq) < 1e-5 →
        np.Amp = m.cabs (Refl2D m E2 oldPoint hs tBdry nBdry freq) * oldPoint.Amp ∧
        np.Phase = oldPoint.Phase
          + m.atan2 (Refl2D m E2 oldPoint hs tBdry nBdry freq).im
              (Refl2D m E2 oldPoint hs tBdry nBdry freq).re) := by
  obtain ⟨np0, hsplit, -⟩ :=
    Reflect2D_split m E2 fuel oldPoint newPoint hs isTop tBdry nBdry rcurv freq rtb Beam
  rw [hsplit]
  exact ampPhase2_AG m false fuel oldPoint hs _ _ tBdry _ freq rtb Beam np0 hbc
    (Refl2D m E2 oldPoint hs tBdry nBdry freq)
    (by simp only [Refl2D, Bool.false_eq_true, if_false])

theorem Cpx.neg_div_eq {K : Type} [LinearOrderedField K] (a b : Cpx K) :
    (-a) / b = -(a / b) := by
  rw [Cpx.ext_iff2]
  constructor
  · simp only [Cpx.div_re, Cpx.neg_re, Cpx.neg_im]; ring
  · simp only [Cpx.div_im, Cpx.neg_re, Cpx.neg_im]; ring

theorem Cpx.normSq_neg {K : Type} [LinearOrderedField K] (a : Cpx K) :
    Cpx.normSq (-a) = Cpx.normSq a := by
  simp only [Cpx.normSq, Cpx.neg_re, Cpx.neg_im]; ring

theorem Cpx.SQ_ofReal {K : Type} [LinearOrderedField K] (a : K) :
    SQ (Cpx.ofReal a) = Cpx.ofReal (a ^ 2) := by
  rw [Cpx.ext_iff2]
  constructor
  · simp only [SQ, Cpx.mul_re, Cpx.ofReal_re, Cpx.ofReal_im]; ring
  · simp only [SQ, Cpx.mul_im, Cpx.ofReal_re, Cpx.ofReal_im]; ring

theorem Cpx.J_mul_ofReal_mul_ofReal {K : Type} [LinearOrderedField K] (a b : K) :
    Cpx.J * Cpx.ofReal a * Cpx.ofReal b = b • (Cpx.J * Cpx.ofReal a) := by
  rw [Cpx.ext_iff2]
  constructor
  · simp only [Cpx.mul_re, Cpx.mul_im, Cpx.smul_re, Cpx.ofReal_re, Cpx.ofReal_im, Cpx.J_re,
      Cpx.J_im]; ring
  · simp only [Cpx.mul_re, Cpx.mul_im, Cpx.smul_im, Cpx.ofReal_re, Cpx.ofReal_im, Cpx.J_re,
      Cpx.J_im]; ring

theorem Reflect2D_ok_iff {K : Type} [LinearOrderedField K] {P : Type} [Add P] [SMul K P]
    (m : STD K) (EvaluateSSP : Vec2 K → Vec2 K → SSPOutputs2 K) (fuel : Nat)
    (oldPoint newPoint : rayPt2 K P) (hs : HSInfo K) (isTop : Bool)
    (tBdry nBdry : Vec2 K) (rcurv : ReflCurvature2 K) (freq : K)
    (rtb : ReflectionInfoTopBot K) (Beam : BeamStructure) :
    (∃ np, Reflect2D m EvaluateSSP fuel oldPoint newPoint hs isTop tBdry nBdry rcurv freq
          rtb Beam = .ok np) ↔
      (hs.bc = 'R' ∨ hs.bc = 'V' ∨ hs.bc = 'A' ∨ hs.bc = 'G' ∨
        (hs.bc = 'F' ∧ ∃ out, InterpolateReflectionCoefficient fuel
          { theta := incidenceAngle m (Th2D oldPoint nBdry) (Tg2D oldPoint tBdry),
            r := 0, phi := 0 } rtb = .ok out)) := by
  obtain ⟨np0, hsplit, -⟩ :=
    Reflect2D_split m EvaluateSSP fuel oldPoint newPoint hs isTop tBdry nBdry rcurv freq rtb Beam
  rw [hsplit]
  exact ampPhase2_ok_iff _ _ _ _ _ _ _ _ _ _ _ _ _

theorem ReflectNx2D_ok_iff {K : Type} [LinearOrderedField K] {P : Type} [Add P] [SMul K P]
    (m : STD K) (RayToOceanT : Vec3 K → Origin K → Vec2 K)
    (EvaluateSSP : Vec2 K → Vec2 K → SSPOutputs2 K) (fuel : Nat)
    (oldPoint newPoint : rayPt2 K P) (hs : HSInfo K) (isTop : Bool)
    (tBdry : Vec2 K) (nBdry : Vec3 K) (rcurv : ReflCurvature3 K) (freq : K)
    (rtb : ReflectionInfoTopBot K) (Beam : BeamStructure) (org : Origin K) :
    (∃ np, ReflectNx2D m RayToOceanT EvaluateSSP fuel oldPoint newPoint hs isTop tBdry nBdry
          rcurv freq rtb Beam org = .ok np) ↔
      (hs.bc = 'R' ∨ hs.bc = 'V' ∨ hs.bc = 'A' ∨ hs.bc = 'G' ∨
        (hs.bc = 'F' ∧ ∃ out, InterpolateReflectionCoefficient fuel
          { theta := incidenceAngle m (ThNx2D m RayToOceanT oldPoint nBdry org)
              (TgNx2D m RayToOceanT oldPoint nBdry org), r := 0, phi := 0 } rtb = .ok out)) := by
  obtain ⟨np0, hsplit, -⟩ :=
    ReflectNx2D_split m RayToOceanT EvaluateSSP fuel oldPoint newPoint hs isTop tBdry nBdry
      rcurv freq rtb Beam org
  rw [hsplit]
  exact ampPhase2_ok_iff _ _ _ _ _ _ _ _ _ _ _ _ _

theorem Reflect3D_ok_iff {K : Type} [LinearOrderedField K] {P : Type}
    (m : STD K) (ray : Ray3D K P)
    (EvaluateSSP : Vec3 K → Vec3 K → SSPOutputs3 K) (fuel : Nat)
    (oldPoint newPoint : rayPt3 K P) (hs : HSInfo K) (isTop : Bool)
    (tBdry : Vec3 K) (nBdry : Vec3 K) (rcurv : ReflCurvature3 K) (freq : K)
    (rtb : ReflectionInfoTopBot K) :
    (∃ np, Reflect3D m ray EvaluateSSP fuel oldPoint newPoint hs isTop tBdry nBdry rcurv freq
          rtb = .ok np) ↔
      (hs.bc = 'R' ∨ hs.bc = 'V' ∨ hs.bc = 'A' ∨ hs.bc = 'G' ∨
        (hs.bc = 'F' ∧ ∃ out, InterpolateReflectionCoefficient fuel
          { theta := incidenceAngle m (Th3D oldPoint nBdry) (Tg3D m oldPoint nBdry),
            r := 0, phi := 0 } rtb = .ok out)) := by
  obtain ⟨np0, hsplit, -⟩ :=
    Reflect3D_split m ray EvaluateSSP fuel oldPoint newPoint hs isTop tBdry nBdry rcurv freq rtb
  rw [hsplit]
  exact ampPhase3_ok_iff _ _ _ _ _ _ _ _ _ _ _

theorem bc_known {bc : Char} (h : bc = 'R' ∨ bc = 'V' ∨ bc = 'A' ∨ bc = 'G') (q : Prop) :
    bc = 'R' ∨ bc = 'V' ∨ bc = 'A' ∨ bc = 'G' ∨ q := by
  rcases h with h | h | h | h
  · exact Or.inl h
  · exact Or.inr (Or.inl h)
  · exact Or.inr (Or.inr (Or.inl h))
  · exact Or.inr (Or.inr (Or.inr (Or.inl h)))

/-! ### Paraxial update, half-space coefficient, depth segments -/

/-- The geometry half of `Reflect<false, false>` with the paraxial update. -/
theorem Reflect2D_split_p {K : Type} [LinearOrderedField K] {P : Type} [Add P] [SMul K P]
    (m : STD K) (EvaluateSSP : Vec2 K → Vec2 K → SSPOutputs2 K) (fuel : Nat)
    (oldPoint newPoint : rayPt2 K P) (hs : HSInfo K) (isTop : Bool)
    (tBdry nBdry : Vec2 K) (rcurv : ReflCurvature2 K) (freq : K)
    (rtb : ReflectionInfoTopBot K) (Beam : BeamStructure) :
    ∃ np0 : rayPt2 K P,
      Reflect2D m EvaluateSSP fuel oldPoint newPoint hs isTop tBdry nBdry rcurv freq rtb Beam
        = ampPhase2 m false fuel oldPoint hs (Th2D oldPoint nBdry) (Tg2D oldPoint tBdry) tBdry
            (EvaluateSSP oldPoint.x oldPoint.t) freq rtb Beam np0 ∧
      np0.p = oldPoint.p
        + rnApplied Beam (rnBase2D EvaluateSSP oldPoint isTop tBdry nBdry rcurv) • oldPoint.q ∧
      np0.q = oldPoint.q ∧ np0.x = oldPoint.x ∧ np0.tau = oldPoint.tau ∧
      np0.t = tNew2D oldPoint nBdry :=
  ⟨_, rfl, rfl, rfl, rfl, rfl, rfl⟩

/-- The geometry half of `Reflect<true, false>` with the paraxial update. -/
theorem ReflectNx2D_split_p {K : Type} [LinearOrderedField K] {P : Type} [Add P] [SMul K P]
    (m : STD K) (RayToOceanT : Vec3 K → Origin K → Vec2 K)
    (EvaluateSSP : Vec2 K → Vec2 K → SSPOutputs2 K) (fuel : Nat)
    (oldPoint newPoint : rayPt2 K P) (hs : HSInfo K) (isTop : Bool)
    (tBdry : Vec2 K) (nBdry : Vec3 K) (rcurv : ReflCurvature3 K) (freq : K)
    (rtb : ReflectionInfoTopBot K) (Beam : BeamStructure) (org : Origin K) :
    ∃ np0 : rayPt2 K P,
      ReflectNx2D m RayToOceanT EvaluateSSP fuel oldPoint newPoint hs isTop tBdry nBdry rcurv
          freq rtb Beam org
        = ampPhase2 m true fuel oldPoint hs (ThNx2D m RayToOceanT oldPoint nBdry org)
            (TgNx2D m RayToOceanT oldPoint nBdry org)
            (tBdryNx2D m RayToOceanT oldPoint nBdry org)
            (EvaluateSSP oldPoint.x (tNewNx2D m RayToOceanT oldPoint nBdry org)) freq rtb Beam
            np0 ∧
      np0.p = oldPoint.p
        + rnApplied Beam (rnBaseNx2D m RayToOceanT EvaluateSSP oldPoint isTop nBdry rcurv org)
          • oldPoint.q ∧
      np0.q = oldPoint.q ∧ np0.x = oldPoint.x ∧ np0.tau = oldPoint.tau ∧
      np0.t = tNewNx2D m RayToOceanT oldPoint nBdry org :=
  ⟨_, rfl, rfl, rfl, rfl, rfl, rfl⟩

/-- Outside the beam-displacement branch the amplitude and phase change
leaves `q`, `x` and `tau` alone. -/
theorem ampPhase2_frame_q {K : Type} [LinearOrderedField K] {P : Type} [Add P] [SMul K P]
    (m : STD K) (O3D : Bool) (fuel : Nat)
    (oldPoint : rayPt2 K P) (hs : HSInfo K) (Th Tg : K) (tBdry : Vec2 K)
    (o : SSPOutputs2 K) (freq : K) (rtb : ReflectionInfoTopBot K)
    (Beam : BeamStructure) (np0 np : rayPt2 K P)
    (h : ampPhase2 m O3D fuel oldPoint hs Th Tg tBdry o freq rtb Beam np0 = .ok np)
    (hno : Beam.Type_ 3 ≠ 'S' ∨ ¬ (hs.bc = 'A' ∨ hs.bc = 'G') ∨
      m.cabs (if O3D then ReflCoefO3D m hs o.ccpx.re o.rho (2 * m.pi * freq) Tg
        else ReflCoef2D m hs o.rho (2 * m.pi * freq) Th Tg) < 1e-5) :
    np.q = np0.q ∧ np.x = np0.x ∧ np.tau = np0.tau := by
  unfold ampPhase2 at h
  dsimp only at h
  by_cases hR : hs.bc = 'R'
  · rw [if_pos hR] at h; cases h; exact ⟨rfl, rfl, rfl⟩
  rw [if_neg hR] at h
  by_cases hV : hs.bc = 'V'
  · rw [if_pos hV] at h; cases h; exact ⟨rfl, rfl, rfl⟩
  rw [if_neg hV] at h
  by_cases hF : hs.bc = 'F'
  · rw [if_pos hF] at h
    split at h
    · cases h
    · cases h; exact ⟨rfl, rfl, rfl⟩
  rw [if_neg hF] at h
  by_cases hAG : hs.bc = 'A' ∨ hs.bc = 'G'
  · rw [if_pos hAG] at h
    by_cases hk : m.cabs (if O3D then ReflCoefO3D m hs o.ccpx.re o.rho (2 * m.pi * freq) Tg
        else ReflCoef2D m hs o.rho (2 * m.pi * freq) Th Tg) < 1e-5
    · rw [if_pos hk] at h; cases h; exact ⟨rfl, rfl, rfl⟩
    · rw [if_neg hk] at h
      by_cases hS : Beam.Type_ 3 = 'S'
      · rcases hno with hno | hno | hno
        · exact absurd hS hno
        · exact absurd hAG hno
        · exact absurd hno hk
      · rw [if_neg hS] at h; cases h; exact ⟨rfl, rfl, rfl⟩
  · rw [if_neg hAG] at h; cases h

/-- In the beam-displacement branch `q` grows by `beamWidthChange` times
`oldPoint.p`. -/
theorem ampPhase2_q_displaced {K : Type} [LinearOrderedField K] {P : Type}
    [Add P] [SMul K P] (m : STD K) (O3D : Bool) (fuel : Nat)
    (oldPoint : rayPt2 K P) (hs : HSInfo K) (Th Tg : K) (tBdry : Vec2 K)
    (o : SSPOutputs2 K) (freq : K) (rtb : ReflectionInfoTopBot K)
    (Beam : BeamStructure) (np0 : rayPt2 K P)
    (hbc : hs.bc = 'A' ∨ hs.bc = 'G') (hS : Beam.Type_ 3 = 'S')
    (hk : ¬ m.cabs (if O3D then ReflCoefO3D m hs o.ccpx.re o.rho (2 * m.pi * freq) Tg
        else ReflCoef2D m hs o.rho (2 * m.pi * freq) Th Tg) < 1e-5) :
    ∃ np, ampPhase2 m O3D fuel oldPoint hs Th Tg tBdry o freq rtb Beam np0 = .ok np ∧
      np.q = np0.q + beamWidthChange m oldPoint hs o.ccpx (2 * m.pi * freq) • oldPoint.p ∧
      np.p = np0.p := by
  have hR : hs.bc ≠ 'R' := by rcases hbc with h | h <;> rw [h] <;> decide
  have hV : hs.bc ≠ 'V' := by rcases hbc with h | h <;> rw [h] <;> decide
  have hF : hs.bc ≠ 'F' := by rcases hbc with h | h <;> rw [h] <;> decide
  unfold ampPhase2
  simp only [hR, hV, hF, hbc, if_false, if_true, hk, hS]
  exact ⟨_, rfl, rfl, rfl⟩

/-- Every returning call of `Reflect<false, false>` ends with
`p = oldPoint.p + oldPoint.q * rn`, `rn` the adjusted curvature change. -/
theorem Reflect2D_p {K : Type} [LinearOrderedField K] {P : Type} [Add P] [SMul K P]
    (m : STD K) (EvaluateSSP : Vec2 K → Vec2 K → SSPOutputs2 K) (fuel : Nat)
    (oldPoint newPoint : rayPt2 K P) (hs : HSInfo K) (isTop : Bool)
    (tBdry nBdry : Vec2 K) (rcurv : ReflCurvature2 K) (freq : K)
    (rtb : ReflectionInfoTopBot K) (Beam : BeamStructure) (np : rayPt2 K P)
    (h : Reflect2D m EvaluateSSP fuel oldPoint newPoint hs isTop tBdry nBdry rcurv freq rtb
      Beam = .ok np) :
    np.p = oldPoint.p
        + rnApplied Beam (rnBase2D EvaluateSSP oldPoint isTop tBdry nBdry rcurv) • oldPoint.q ∧
      np.t = tNew2D oldPoint nBdry := by
  obtain ⟨np0, hsplit, hp, -, -, -, ht⟩ :=
    Reflect2D_split_p m EvaluateSSP fuel oldPoint newPoint hs isTop tBdry nBdry rcurv freq rtb
      Beam
  rw [hsplit] at h
  obtain ⟨-, -, h3, h4, -⟩ := ampPhase2_frame m false fuel oldPoint hs (Th2D oldPoint nBdry)
    (Tg2D oldPoint tBdry) tBdry (EvaluateSSP oldPoint.x oldPoint.t) freq rtb Beam np0 np h
  exact ⟨h4.trans hp, h3.trans ht⟩

/-- Every returning call of `Reflect<true, false>` ends with
`p = oldPoint.p + oldPoint.q * rn`, `rn` the adjusted curvature change. -/
theorem ReflectNx2D_p {K : Type} [LinearOrderedField K] {P : Type} [Add P] [SMul K P]
    (m : STD K) (RayToOceanT : Vec3 K → Origin K → Vec2 K)
    (EvaluateSSP : Vec2 K → Vec2 K → SSPOutputs2 K) (fuel : Nat)
    (oldPoint newPoint : rayPt2 K P) (hs : HSInfo K) (isTop : Bool)
    (tBdry : Vec2 K) (nBdry : Vec3 K) (rcurv : ReflCurvature3 K) (freq : K)
    (rtb : ReflectionInfoTopBot K) (Beam : BeamStructure) (org : Origin K) (np : rayPt2 K P)
    (h : ReflectNx2D m RayToOceanT EvaluateSSP fuel oldPoint newPoint hs isTop tBdry nBdry
      rcurv freq rtb Beam org = .ok np) :
    np.p = oldPoint.p
        + rnApplied Beam (rnBaseNx2D m RayToOceanT EvaluateSSP oldPoint isTop nBdry rcurv org)
          • oldPoint.q ∧
      np.t = tNewNx2D m RayToOceanT oldPoint nBdry org := by
  obtain ⟨np0, hsplit, hp, -, -, -, ht⟩ :=
    ReflectNx2D_split_p m RayToOceanT EvaluateSSP fuel oldPoint newPoint hs isTop tBdry nBdry
      rcurv freq rtb Beam org
  rw [hsplit] at h
  obtain ⟨-, -, h3, h4, -⟩ := ampPhase2_frame m true fuel oldPoint hs
    (ThNx2D m RayToOceanT oldPoint nBdry org) (TgNx2D m RayToOceanT oldPoint nBdry org)
    (tBdryNx2D m RayToOceanT oldPoint nBdry org)
    (EvaluateSSP oldPoint.x (tNewNx2D m RayToOceanT oldPoint nBdry org)) freq rtb Beam np0 np h
  exact ⟨h4.trans hp, h3.trans ht⟩

/-- Outside the beam-displacement branch a returning call of
`Reflect<false, false>` ends with `q`, `x` and `tau` of `oldPoint`. -/
theorem Reflect2D_q {K : Type} [LinearOrderedField K] {P : Type} [Add P] [SMul K P]
    (m : STD K) (EvaluateSSP : Vec2 K → Vec2 K → SSPOutputs2 K) (fuel : Nat)
    (oldPoint newPoint : rayPt2 K P) (hs : HSInfo K) (isTop : Bool)
    (tBdry nBdry : Vec2 K) (rcurv : ReflCurvature2 K) (freq : K)
    (rtb : ReflectionInfoTopBot K) (Beam : BeamStructure) (np : rayPt2 K P)
    (h : Reflect2D m EvaluateSSP fuel oldPoint newPoint hs isTop tBdry nBdry rcurv freq rtb
      Beam = .ok np)
    (hno : Beam.Type_ 3 ≠ 'S' ∨ ¬ (hs.bc = 'A' ∨ hs.bc = 'G') ∨
      m.cabs (Refl2D m EvaluateSSP oldPoint hs tBdry nBdry freq) < 1e-5) :
    np.q = oldPoint.q ∧ np.x = oldPoint.x ∧ np.tau = oldPoint.tau := by
  obtain ⟨np0, hsplit, -, hq, hx, htau, -⟩ :=
    Reflect2D_split_p m EvaluateSSP fuel oldPoint newPoint hs isTop tBdry nBdry rcurv freq rtb
      Beam
  rw [hsplit] at h
  have hno2 : Beam.Type_ 3 ≠ 'S' ∨ ¬ (hs.bc = 'A' ∨ hs.bc = 'G') ∨
      m.cabs (if false = true then ReflCoefO3D m hs (EvaluateSSP oldPoint.x oldPoint.t).ccpx.re
          (EvaluateSSP oldPoint.x oldPoint.t).rho (2 * m.pi * freq) (Tg2D oldPoint tBdry)
        else ReflCoef2D m hs (EvaluateSSP oldPoint.x oldPoint.t).rho (2 * m.pi * freq)
          (Th2D oldPoint nBdry) (Tg2D oldPoint tBdry)) < 1e-5 := by
    simpa only [Refl2D, Bool.false_eq_true, if_false] using hno
  obtain ⟨h1, h2, h3⟩ := ampPhase2_frame_q m false fuel oldPoint hs (Th2D oldPoint nBdry)
    (Tg2D oldPoint tBdry) tBdry (EvaluateSSP oldPoint.x oldPoint.t) freq rtb Beam np0 np h hno2
  exact ⟨h1.trans hq, h2.trans hx, h3.trans htau⟩

/-- Outside the beam-displacement branch a returning call of
`Reflect<true, false>` ends with `q`, `x` and `tau` of `oldPoint`. -/
theorem ReflectNx2D_q {K : Type} [LinearOrderedField K] {P : Type} [Add P] [SMul K P]
    (m : STD K) (RayToOceanT : Vec3 K → Origin K → Vec2 K)
    (EvaluateSSP : Vec2 K → Vec2 K → SSPOutputs2 K) (fuel : Nat)
    (oldPoint newPoint : rayPt2 K P) (hs : HSInfo K) (isTop : Bool)
    (tBdry : Vec2 K) (nBdry : Vec3 K) (rcurv : ReflCurvature3 K) (freq : K)
    (rtb : ReflectionInfoTopBot K) (Beam : BeamStructure) (org : Origin K) (np : rayPt2 K P)
    (h : ReflectNx2D m RayToOceanT EvaluateSSP fuel oldPoint newPoint hs isTop tBdry nBdry
      rcurv freq rtb Beam org = .ok np)
    (hno : Beam.Type_ 3 ≠ 'S' ∨ ¬ (hs.bc = 'A' ∨ hs.bc = 'G') ∨
      m.cabs (ReflNx2D m RayToOceanT EvaluateSSP oldPoint hs nBdry org freq) < 1e-5) :
    np.q = oldPoint.q ∧ np.x = oldPoint.x ∧ np.tau = oldPoint.tau := by
  obtain ⟨np0, hsplit, -, hq, hx, htau, -⟩ :=
    ReflectNx2D_split_p m RayToOceanT EvaluateSSP fuel oldPoint newPoint hs isTop tBdry nBdry
      rcurv freq rtb Beam org
  rw [hsplit] at h
  have hno2 : Beam.Type_ 3 ≠ 'S' ∨ ¬ (hs.bc = 'A' ∨ hs.bc = 'G') ∨
      m.cabs (if true = true then ReflCoefO3D m hs
          (EvaluateSSP oldPoint.x (tNewNx2D m RayToOceanT oldPoint nBdry org)).ccpx.re
          (EvaluateSSP oldPoint.x (tNewNx2D m RayToOceanT oldPoint nBdry org)).rho
          (2 * m.pi * freq) (TgNx2D m RayToOceanT oldPoint nBdry org)
        else ReflCoef2D m hs
          (EvaluateSSP oldPoint.x (tNewNx2D m RayToOceanT oldPoint nBdry org)).rho
          (2 * m.pi * freq) (ThNx2D m RayToOceanT oldPoint nBdry org)
          (TgNx2D m RayToOceanT oldPoint nBdry org)) < 1e-5 := by
    simpa only [ReflNx2D, tNewNx2D, if_true] using hno
  obtain ⟨h1, h2, h3⟩ := ampPhase2_frame_q m true fuel oldPoint hs
    (ThNx2D m RayToOceanT oldPoint nBdry org) (TgNx2D m RayToOceanT oldPoint nBdry org)
    (tBdryNx2D m RayToOceanT oldPoint nBdry org)
    (EvaluateSSP oldPoint.x (tNewNx2D m RayToOceanT oldPoint nBdry org)) freq rtb Beam np0 np h
    hno2
  exact ⟨h1.trans hq, h2.trans hx, h3.trans htau⟩

/-- The curvature change before the beam-type adjustment, written out for
the bottom boundary. -/
theorem rnBase_bottom {K : Type} [LinearOrderedField K] (c : K) (gradc t tNew : Vec2 K)
    (kappa Th Tg : K) :
    rnBase c gradc t tNew kappa Th Tg false
      = 2 * kappa / (c ^ 2 * Th)
        + Tg / Th * (2 * -Vec2.dot gradc
              (-(⟨-(c • tNew).y, (c • tNew).x⟩ : Vec2 K) - ⟨-(c • t).y, (c • t).x⟩)
            - Tg / Th * -Vec2.dot gradc (c • tNew - c • t)) / c ^ 2 := by
  simp only [rnBase, SQ, Bool.false_eq_true, if_false, div_div, pow_two]

/-- The top and the bottom value of the curvature change differ by more
than the sign: the along-ray jump `csjump` is not negated. -/
theorem rnBase_top {K : Type} [LinearOrderedField K] (c : K) (gradc t tNew : Vec2 K)
    (kappa Th Tg : K) :
    rnBase c gradc t tNew kappa Th Tg true
      = -rnBase c gradc t tNew kappa Th Tg false
        - 2 * (Tg / Th) ^ 2 * -Vec2.dot gradc (c • tNew - c • t) / c ^ 2 := by
  simp only [rnBase, SQ, Bool.false_eq_true, if_false, if_true]
  ring

/-- Two `vec2` with the same components are equal. -/
theorem Vec2.ext_xy {K : Type} (a b : Vec2 K) : a = b ↔ a.x = b.x ∧ a.y = b.y := by
  cases a; cases b; simp

/-- The beam-type adjustment of the curvature change, case by case. -/
theorem rnApplied_cases {K : Type} [LinearOrderedField K] (Beam : BeamStructure) (rn : K) :
    (Beam.Type_ 2 = 'D' → rnApplied Beam rn = 2 * rn) ∧
    (Beam.Type_ 2 = 'Z' → rnApplied Beam rn = 0) ∧
    (Beam.Type_ 2 ≠ 'D' → Beam.Type_ 2 ≠ 'Z' → rnApplied Beam rn = rn) := by
  refine ⟨fun h => ?_, fun h => ?_, fun h1 h2 => ?_⟩
  · simp only [rnApplied, h, if_true]; ring
  · have hD : Beam.Type_ 2 ≠ 'D' := by rw [h]; decide
    simp only [rnApplied, if_neg hD, if_pos h]
  · simp only [rnApplied, h1, h2, if_false]

/-- The coefficient of the half-space `exHSslow` for the ray `exPoint`. -/
theorem exRefl_slow :
    ReflCoef2D exSTDroot exHSslow (exSSP exPoint.x exPoint.t).rho (2 * exSTDroot.pi * 50)
      (Th2D exPoint ⟨0, 1⟩) (Tg2D exPoint ⟨1, 0⟩) = ⟨15 / 17, 8 / 17⟩ := by
  norm_num [ReflCoef2D, exSTDroot, exSTD, exHSslow, exHS, exSSP, exPoint, Th2D, Tg2D,
    Vec2.dot, SQ, Cpx.ext_iff2]

/-- The beam-width factor at the half-space `exHSslow` for the ray `exPoint`. -/
theorem exWidth_slow :
    beamWidthChange exSTDroot exPoint exHSslow (exSSP exPoint.x exPoint.t).ccpx
      (2 * exSTDroot.pi * 50) = 569023 / 5056344 := by
  have h : |(569023 / 20225376 : ℚ)| = 569023 / 20225376 := abs_of_pos (by norm_num)
  norm_num [beamWidthChange, exSTDroot, exSTD, exHSslow, exHS, exSSP, exPoint, SQ,
    Cpx.ext_iff2, Cpx.conj, h]

/-- The beam-type adjustment commutes with negation and subtraction. -/
theorem rnApplied_neg_sub {K : Type} [LinearOrderedField K] (Beam : BeamStructure) (a b : K) :
    rnApplied Beam (-a - b) = -rnApplied Beam a - rnApplied Beam b := by
  simp only [rnApplied]
  split_ifs <;> ring

/-- The guard of the wall hack is never true, so the hack changes nothing. -/
theorem wallHack_id {K : Type} [LinearOrderedField K] (m : STD K) (nBdry : Vec3 K)
    (Refl : Cpx K) : wallHack m nBdry Refl = Refl := by
  unfold wallHack
  rw [if_neg (not_lt.mpr (abs_nonneg _))]

/-- The instance `Reflect<true, false>` never reads `hs.cS`. -/
theorem ReflectNx2D_cS {K : Type} [LinearOrderedField K] {P : Type} [Add P] [SMul K P]
    (m : STD K) (RayToOceanT : Vec3 K → Origin K → Vec2 K)
    (EvaluateSSP : Vec2 K → Vec2 K → SSPOutputs2 K) (fuel : Nat)
    (oldPoint newPoint : rayPt2 K P) (hs : HSInfo K) (isTop : Bool)
    (tBdry : Vec2 K) (nBdry : Vec3 K) (rcurv : ReflCurvature3 K) (freq : K)
    (rtb : ReflectionInfoTopBot K) (Beam : BeamStructure) (org : Origin K) (cS : Cpx K) :
    ReflectNx2D m RayToOceanT EvaluateSSP fuel oldPoint newPoint { hs with cS := cS } isTop
        tBdry nBdry rcurv freq rtb Beam org
      = ReflectNx2D m RayToOceanT EvaluateSSP fuel oldPoint newPoint hs isTop tBdry nBdry
        rcurv freq rtb Beam org := by
  simp only [ReflectNx2D, ampPhase2, ReflCoefO3D, beamDisplacement, if_true]

/-- The instance `Reflect<true, true>` never reads `hs.cS`. -/
theorem Reflect3D_cS {K : Type} [LinearOrderedField K] {P : Type}
    (m : STD K) (ray : Ray3D K P)
    (EvaluateSSP : Vec3 K → Vec3 K → SSPOutputs3 K) (fuel : Nat)
    (oldPoint newPoint : rayPt3 K P) (hs : HSInfo K) (isTop : Bool)
    (tBdry nBdry : Vec3 K) (rcurv : ReflCurvature3 K) (freq : K)
    (rtb : ReflectionInfoTopBot K) (cS : Cpx K) :
    Reflect3D m ray EvaluateSSP fuel oldPoint newPoint { hs with cS := cS } isTop
        tBdry nBdry rcurv freq rtb
      = Reflect3D m ray EvaluateSSP fuel oldPoint newPoint hs isTop tBdry nBdry
        rcurv freq rtb := by
  simp only [Reflect3D, ampPhase3, ReflCoefO3D]

/-- The coefficient `Reflect<true, false>` uses at the half-space
`exHSshear`. -/
theorem exReflNx2D_shear :
    ReflNx2D exSTDroot exRayToOceanT exSSP exPoint exHSshear ⟨0, 0, 1⟩ exOrigin 50
      = ⟨15 / 17, 8 / 17⟩ := by
  norm_num [ReflNx2D, ReflCoefO3D, TgNx2D, tBdryNx2D, ThNx2D, nBdry_rayNx2D, STD.length2,
    exRayToOceanT, exSTDroot, exSTD, exHSshear, exHSslow, exHS, exSSP, exPoint,
    Vec2.dot, SQ, Cpx.ext_iff2]

/-- The shear formula of `Reflect<false, false>` at the half-space
`exHSshear` and the same wavenumbers. -/
theorem exRefl2D_shear :
    ReflCoef2D exSTDroot exHSshear 1 300 (4 / 25) (3 / 25)
      = ⟨2581233 / 9999983, 125000 / 1428569⟩ := by
  norm_num [ReflCoef2D, exSTDroot, exSTD, exHSshear, exHSslow, exHS,
    Vec2.dot, SQ, Cpx.ext_iff2]

/-- The loop `while(cond(i) && i > 0) --i;` started at `i ≥ 0` with enough
iterations allowed: where it stops, and every invariant it keeps. -/
theorem whileDec_spec (cond : Int → Prop) [DecidablePred cond] :
    ∀ (n : Nat) (i : Int), 0 ≤ i → i.toNat ≤ n →
      0 ≤ whileDec cond n i ∧ whileDec cond n i ≤ i ∧
      (¬ cond (whileDec cond n i) ∨ whileDec cond n i = 0) ∧
      ∀ Q : Int → Prop, Q i → (∀ k, 0 < k → k ≤ i → cond k → Q k → Q (k - 1)) →
        Q (whileDec cond n i) := by
  intro n
  induction n with
  | zero =>
    intro i h0 hn
    have e1 : i ≤ ((0 : Nat) : Int) := Int.toNat_le.mp hn
    have hi : i = 0 := by push_cast at e1; omega
    subst hi
    exact ⟨le_refl _, le_refl _, Or.inr rfl, fun Q hQ _ => hQ⟩
  | succ n ih =>
    intro i h0 hn
    unfold whileDec
    by_cases hc : cond i ∧ i > 0
    · rw [if_pos hc]
      have hpos := hc.2
      have e1 : i ≤ ((n + 1 : Nat) : Int) := Int.toNat_le.mp hn
      have e2 : (i - 1).toNat ≤ n := Int.toNat_le.mpr (by push_cast at e1; omega)
      obtain ⟨h1, h2, h3, h4⟩ := ih (i - 1) (by omega) e2
      refine ⟨h1, by omega, h3, fun Q hQ hstep => ?_⟩
      exact h4 Q (hstep i hc.2 (le_refl _) hc.1 hQ)
        (fun k hk hki hck hQk => hstep k hk (by omega) hck hQk)
    · rw [if_neg hc]
      refine ⟨h0, le_refl _, ?_, fun Q hQ _ => hQ⟩
      by_cases hci : cond i
      · have h5 : ¬ i > 0 := fun h => hc ⟨hci, h⟩
        exact Or.inr (by omega)
      · exact Or.inl hci

/-- The loop `while(cond(i) && i < hi) ++i;` started at `i ≤ hi` with enough
iterations allowed: where it stops, and every invariant it keeps. -/
theorem whileInc_spec (cond : Int → Prop) [DecidablePred cond] (hi : Int) :
    ∀ (n : Nat) (i : Int), i ≤ hi → (hi - i).toNat ≤ n →
      i ≤ whileInc cond hi n i ∧ whileInc cond hi n i ≤ hi ∧
      (¬ cond (whileInc cond hi n i) ∨ whileInc cond hi n i = hi) ∧
      ∀ Q : Int → Prop, Q i → (∀ k, i ≤ k → k < hi → cond k → Q k → Q (k + 1)) →
        Q (whileInc cond hi n i) := by
  intro n
  induction n with
  | zero =>
    intro i h0 hn
    have e1 : hi - i ≤ ((0 : Nat) : Int) := Int.toNat_le.mp hn
    have hi : i = hi := by push_cast at e1; omega
    subst hi
    exact ⟨le_refl _, le_refl _, Or.inr rfl, fun Q hQ _ => hQ⟩
  | succ n ih =>
    intro i h0 hn
    unfold whileInc
    by_cases hc : cond i ∧ i < hi
    · rw [if_pos hc]
      have hlt := hc.2
      have e1 : hi - i ≤ ((n + 1 : Nat) : Int) := Int.toNat_le.mp hn
      have e2 : (hi - (i + 1)).toNat ≤ n := Int.toNat_le.mpr (by push_cast at e1; omega)
      obtain ⟨h1, h2, h3, h4⟩ := ih (i + 1) (by omega) e2
      refine ⟨by omega, h2, h3, fun Q hQ hstep => ?_⟩
      exact h4 Q (hstep i (le_refl _) hc.2 hc.1 hQ)
        (fun k hk hki hck hQk => hstep k (by omega) hki hck hQk)
    · rw [if_neg hc]
      refine ⟨le_refl _, h0, ?_, fun Q hQ _ => hQ⟩
      by_cases hci : cond i
      · have h5 : ¬ i < hi := fun h => hc ⟨hci, h⟩
        exact Or.inr (by omega)
      · exact Or.inl hci

/-- A table that increases from each node to the next increases along the
whole index range. -/
theorem table_strictMono {K : Type} [LinearOrderedField K] (z : Int → K) (N : Int)
    (hz : ∀ i, 0 ≤ i → i + 1 ≤ N - 1 → z i < z (i + 1)) :
    ∀ (d : Nat) (i : Int), 0 ≤ i → i + d + 1 ≤ N - 1 → z i < z (i + d + 1) := by
  intro d
  induction d with
  | zero =>
    intro i h0 h1
    simpa using hz i h0 (by simpa using h1)
  | succ d ih =>
    intro i h0 h1
    have h2 := ih i h0 (by push_cast at h1; omega)
    have h3 := hz (i + d + 1) (by omega) (by push_cast at h1; omega)
    have h4 : i + (d + 1 : Nat) + 1 = i + d + 1 + 1 := by push_cast; ring
    rw [h4]
    exact lt_trans h2 h3

/-- The general form of `table_strictMono`. -/
theorem table_lt {K : Type} [LinearOrderedField K] (z : Int → K) (N : Int)
    (hz : ∀ i, 0 ≤ i → i + 1 ≤ N - 1 → z i < z (i + 1))
    (i j : Int) (h0 : 0 ≤ i) (hij : i < j) (hj : j ≤ N - 1) : z i < z j := by
  have h := table_strictMono z N hz (j - i - 1).toNat i h0 (by
    have : ((j - i - 1).toNat : Int) = j - i - 1 := Int.toNat_of_nonneg (by omega)
    omega)
  have h2 : i + ((j - i - 1).toNat : Int) + 1 = j := by
    have : ((j - i - 1).toNat : Int) = j - i - 1 := Int.toNat_of_nonneg (by omega)
    omega
  rwa [h2] at h

/-- The bracket `UpdateDepthSegmentT` leaves for a downward-going tangent. -/
theorem UpdateDepthSegmentT_down {K : Type} [LinearOrderedField K] (x t : Vec2 K)
    (ssp : SSPStructure K) (iSegz : Int) (ht : t.y ≥ 0)
    (h0 : 0 ≤ iSegz) (h1 : iSegz ≤ ssp.NPts - 2)
    (hlo : ssp.z 0 ≤ x.y) (hhi : x.y < ssp.z (ssp.NPts - 1)) :
    0 ≤ UpdateDepthSegmentT x t ssp iSegz ∧ UpdateDepthSegmentT x t ssp iSegz ≤ ssp.NPts - 2 ∧
    ssp.z (UpdateDepthSegmentT x t ssp iSegz) ≤ x.y ∧
    x.y < ssp.z (UpdateDepthSegmentT x t ssp iSegz + 1) := by
  unfold UpdateDepthSegmentT
  rw [if_pos ht]
  dsimp only
  obtain ⟨a1, a2, a3, -⟩ := whileDec_spec (fun i => x.y < ssp.z i) iSegz.toNat iSegz h0
    (le_refl _)
  set j := whileDec (fun i => x.y < ssp.z i) iSegz.toNat iSegz with hj
  have hzj : ssp.z j ≤ x.y := by
    rcases a3 with a3 | a3
    · exact not_lt.mp a3
    · rw [a3]; exact hlo
  obtain ⟨b1, b2, b3, b4⟩ := whileInc_spec (fun i => x.y ≥ ssp.z (i + 1)) (ssp.NPts - 2)
    (ssp.NPts - 2 - j).toNat j (by omega) (le_refl _)
  set k := whileInc (fun i => x.y ≥ ssp.z (i + 1)) (ssp.NPts - 2) (ssp.NPts - 2 - j).toNat j
    with hk
  refine ⟨by omega, b2, ?_, ?_⟩
  · exact b4 (fun i => ssp.z i ≤ x.y) hzj (fun i _ _ hc _ => hc)
  · rcases b3 with b3 | b3
    · exact not_le.mp b3
    · rw [b3]
      have : ssp.NPts - 2 + 1 = ssp.NPts - 1 := by ring
      rw [this]; exact hhi

/-- The bracket `UpdateDepthSegmentT` leaves for an upward-going tangent. -/
theorem UpdateDepthSegmentT_up {K : Type} [LinearOrderedField K] (x t : Vec2 K)
    (ssp : SSPStructure K) (iSegz : Int) (ht : t.y < 0)
    (h0 : 0 ≤ iSegz) (h1 : iSegz ≤ ssp.NPts - 2)
    (hlo : ssp.z 0 < x.y) (hhi : x.y ≤ ssp.z (ssp.NPts - 1)) :
    0 ≤ UpdateDepthSegmentT x t ssp iSegz ∧ UpdateDepthSegmentT x t ssp iSegz ≤ ssp.NPts - 2 ∧
    ssp.z (UpdateDepthSegmentT x t ssp iSegz) < x.y ∧
    x.y ≤ ssp.z (UpdateDepthSegmentT x t ssp iSegz + 1) := by
  unfold UpdateDepthSegmentT
  rw [if_neg (not_le.mpr ht)]
  dsimp only
  obtain ⟨a1, a2, a3, -⟩ := whileInc_spec (fun i => x.y > ssp.z (i + 1)) (ssp.NPts - 2)
    (ssp.NPts - 2 - iSegz).toNat iSegz h1 (le_refl _)
  set j := whileInc (fun i => x.y > ssp.z (i + 1)) (ssp.NPts - 2)
    (ssp.NPts - 2 - iSegz).toNat iSegz with hj
  have hzj : x.y ≤ ssp.z (j + 1) := by
    rcases a3 with a3 | a3
    · exact not_lt.mp a3
    · rw [a3]
      have : ssp.NPts - 2 + 1 = ssp.NPts - 1 := by ring
      rw [this]; exact hhi
  obtain ⟨b1, b2, b3, b4⟩ := whileDec_spec (fun i => x.y ≤ ssp.z i) j.toNat j (by omega)
    (le_refl _)
  set k := whileDec (fun i => x.y ≤ ssp.z i) j.toNat j with hk
  refine ⟨b1, by omega, ?_, ?_⟩
  · rcases b3 with b3 | b3
    · exact not_le.mp b3
    · rw [b3]; exact hlo
  · refine b4 (fun i => x.y ≤ ssp.z (i + 1)) hzj (fun i _ _ hc _ => ?_)
    have : i - 1 + 1 = i := by ring
    show x.y ≤ ssp.z (i - 1 + 1)
    rw [this]; exact hc

/-! ### Command line -/

/-- A flag that forces one worker sets `init.numThreads` and nothing else. -/
theorem parseArg_thread (lib : CmdLib) (st : MainState) (a : List Char)
    (h : spec_isThreadFlag a = true) :
    parseArg lib st a = .ok { st with init := { st.init with numThreads := 1 } } := by
  simp only [spec_isThreadFlag, decide_eq_true_eq] at h
  rcases h with h | h | h | h <;> subst h <;> simp [parseArg]

/-- A dimension flag sets `dimmode` and nothing else. -/
theorem parseArg_dim (lib : CmdLib) (st : MainState) (a : List Char) (d : Int)
    (h : spec_dimFlag a = some d) :
    parseArg lib st a = .ok { st with dimmode := d } := by
  unfold spec_dimFlag at h
  split_ifs at h with h1 h2 h3
  · cases h
    rcases h1 with h | h | h | h <;> subst h <;> simp [parseArg]
  · cases h
    rcases h2 with h | h | h | h | h | h | h | h <;> subst h <;> simp [parseArg]
  · cases h
    rcases h3 with h | h | h | h <;> subst h <;> simp [parseArg]

/-- An argument that does not start with a dash becomes `FileRoot` when
none was seen before. -/
theorem parseArg_root (lib : CmdLib) (st : MainState) (a : List Char)
    (h : a.head? ≠ some '-') (hst : st.FileRoot = []) :
    parseArg lib st a = .ok { st with FileRoot := a } := by
  simp [parseArg, h, hst]

/-- A recognised flag starts with a dash. -/
theorem flag_head (a : List Char)
    (h : spec_isThreadFlag a = true ∨ (spec_dimFlag a).isSome = true) :
    a.head? = some '-' := by
  rcases h with h | h
  · simp only [spec_isThreadFlag, decide_eq_true_eq] at h
    rcases h with h | h | h | h <;> subst h <;> rfl
  · unfold spec_dimFlag at h
    split_ifs at h with h1 h2 h3
    · rcases h1 with h | h | h | h <;> subst h <;> rfl
    · rcases h2 with h | h | h | h | h | h | h | h <;> subst h <;> rfl
    · rcases h3 with h | h | h | h <;> subst h <;> rfl
    · simp at h

/-- One or two leading dashes make no difference to the loop body, for
every argument whose text after the dashes does not start with a dash. -/
theorem parseArg_dashes (lib : CmdLib) (st : MainState) (f : List Char)
    (h : f.head? ≠ some '-') :
    parseArg lib st ('-' :: '-' :: f) = parseArg lib st ('-' :: f) := by
  cases f with
  | nil => simp [parseArg, strFind]
  | cons c f =>
    have hc : c ≠ '-' := by simpa using h
    simp [parseArg, hc]

/-- The last element of a list that starts with `d`, with a default. -/
theorem getLast_getD_cons {α : Type} (d x : α) (l : List α) :
    (d :: l).getLast?.getD x = l.getLast?.getD d := by
  induction l generalizing d x with
  | nil => rfl
  | cons b l ih =>
    rw [List.getLast?_cons_cons, ih b x, ih b d]

/-- A flag that forces one worker is not a dimension flag. -/
theorem thread_not_dim (a : List Char) (h : spec_isThreadFlag a = true) :
    spec_dimFlag a = none := by
  simp only [spec_isThreadFlag, decide_eq_true_eq] at h
  rcases h with h | h | h | h <;> subst h <;> decide

/-- A dimension flag is not a flag that forces one worker. -/
theorem dim_not_thread (a : List Char) (h : (spec_dimFlag a).isSome = true) :
    spec_isThreadFlag a = false := by
  cases ht : spec_isThreadFlag a with
  | false => rfl
  | true => rw [thread_not_dim a ht] at h; simp at h

/-- An argument that does not start with a dash is no flag. -/
theorem root_not_flag (a : List Char) (h : a.head? ≠ some '-') :
    spec_isThreadFlag a = false ∧ spec_dimFlag a = none := by
  constructor
  · cases ht : spec_isThreadFlag a with
    | false => rfl
    | true => exact absurd (flag_head a (Or.inl ht)) h
  · cases hd : spec_dimFlag a with
    | none => rfl
    | some d => exact absurd (flag_head a (Or.inr (by rw [hd]; rfl))) h

/-- The loop of `main` over arguments that are flags or the one `FileRoot`,
from any state. -/
theorem parseArgs_flags (lib : CmdLib) (root : List Char)
    (hroot : root.head? ≠ some '-') :
    ∀ (argv : List (List Char)) (st : MainState),
      (∀ a ∈ argv, a = root ∨ spec_isThreadFlag a = true ∨ (spec_dimFlag a).isSome = true) →
      argv.count root + (if st.FileRoot = [] then 0 else 1) ≤ 1 →
      ∃ st1, parseArgs lib st argv = .ok st1 ∧
        st1.dimmode = (argv.filterMap spec_dimFlag).getLast?.getD st.dimmode ∧
        st1.init.numThreads = (if argv.any spec_isThreadFlag then 1 else st.init.numThreads) ∧
        st1.init.gpuIndex = st.init.gpuIndex ∧ st1.init.maxMemory = st.init.maxMemory ∧
        st1.init.FileRoot = st.init.FileRoot ∧
        st1.FileRoot = (if root ∈ argv then root else st.FileRoot) := by
  intro argv
  induction argv with
  | nil =>
    intro st _ _
    exact ⟨st, rfl, rfl, rfl, rfl, rfl, rfl, by simp⟩
  | cons a rest ih =>
    intro st hargs hcount
    have hrest : ∀ a ∈ rest, a = root ∨ spec_isThreadFlag a = true ∨
        (spec_dimFlag a).isSome = true := fun x hx => hargs x (List.mem_cons_of_mem _ hx)
    rcases hargs a (List.mem_cons_self _ _) with ha | ha | ha
    · subst ha
      obtain ⟨hnt, hnd⟩ := root_not_flag a hroot
      have hc : (a :: rest).count a = rest.count a + 1 := List.count_cons_self a rest
      have hst : st.FileRoot = [] := by
        by_contra hne
        rw [hc, if_neg hne] at hcount
        omega
      rw [hc, if_pos hst] at hcount
      have hnot : a ∉ rest := by
        intro hmem
        have := List.count_pos_iff.mpr hmem
        omega
      cases hanil : a with
      | nil =>
        subst hanil
        obtain ⟨st1, h1, h2, h3, h4, h5, h6, h7⟩ := ih { st with FileRoot := [] } hrest (by
          simp only [if_true]; omega)
        refine ⟨st1, ?_, ?_, ?_, h4, h5, h6, ?_⟩
        · simp only [parseArgs, parseArg_root lib st [] hroot hst]; exact h1
        · rw [h2]; simp [List.filterMap_cons, hnd]
        · rw [h3]; simp [List.any_cons, hnt]
        · rw [h7]; simp [hnot, hst]
      | cons c cs =>
        rw [← hanil]
        have hne : a ≠ [] := by rw [hanil]; simp
        obtain ⟨st1, h1, h2, h3, h4, h5, h6, h7⟩ := ih { st with FileRoot := a } hrest (by
          simp only [if_neg hne]; omega)
        refine ⟨st1, ?_, ?_, ?_, h4, h5, h6, ?_⟩
        · simp only [parseArgs, parseArg_root lib st a hroot hst]; exact h1
        · rw [h2]; simp [List.filterMap_cons, hnd]
        · rw [h3]; simp [List.any_cons, hnt]
        · rw [h7]; simp [hnot]
    · have hd := thread_not_dim a ha
      have hne : a ≠ root := by
        intro he; rw [he] at ha; rw [(root_not_flag root hroot).1] at ha; cases ha
      have hc : (a :: rest).count root = rest.count root := List.count_cons_of_ne (Ne.symm hne) rest
      obtain ⟨st1, h1, h2, h3, h4, h5, h6, h7⟩ :=
        ih { st with init := { st.init with numThreads := 1 } } hrest (by rw [← hc]; exact hcount)
      refine ⟨st1, ?_, ?_, ?_, h4, h5, h6, ?_⟩
      · simp only [parseArgs, parseArg_thread lib st a ha]; exact h1
      · rw [h2]; simp [List.filterMap_cons, hd]
      · rw [h3]; simp [List.any_cons, ha]
      · rw [h7]; simp [List.mem_cons, Ne.symm hne]
    · obtain ⟨d, hd⟩ := Option.isSome_iff_exists.mp ha
      have hnt := dim_not_thread a ha
      have hne : a ≠ root := by
        intro he; rw [he] at hd; rw [(root_not_flag root hroot).2] at hd; cases hd
      have hc : (a :: rest).count root = rest.count root := List.count_cons_of_ne (Ne.symm hne) rest
      obtain ⟨st1, h1, h2, h3, h4, h5, h6, h7⟩ :=
        ih { st with dimmode := d } hrest (by rw [← hc]; exact hcount)
      refine ⟨st1, ?_, ?_, ?_, h4, h5, h6, ?_⟩
      · simp only [parseArgs, parseArg_dim lib st a d hd]; exact h1
      · rw [h2]; simp only [List.filterMap_cons, hd]; rw [getLast_getD_cons]
      · rw [h3]; simp [List.any_cons, hnt]
      · rw [h7]; simp [List.mem_cons, Ne.symm hne]

/-- The last character of a digit string is none of the suffix letters. -/
theorem digits_clean (ds : List Char) (hdig : ∀ c ∈ ds, c.isDigit = true) :
    ∀ c ∈ "BbikKMG".toList, ds.getLast? ≠ some c := by
  intro c hc hlast
  have hmem : c ∈ ds := List.mem_of_getLast?_eq_some hlast
  have hd := hdig c hmem
  revert hd
  simp only [String.toList, List.mem_cons, List.mem_singleton, List.not_mem_nil, or_false] at hc
  rcases hc with h | h | h | h | h | h | h <;> subst h <;> decide

/-- Taking the last character off `w ++ [c]` leaves `w`. -/
theorem take_concat (w : List Char) (c : Char) :
    (w ++ [c]).take ((w ++ [c]).length - 1) = w := by
  simp

/-- The test `endswith(w ++ [c], c)` succeeds. -/
theorem endswith_concat (lib : CmdLib)
    (hend : ∀ (s : List Char) (c : Char),
      lib.endswith s [c] = decide (s.getLast? = some c))
    (w : List Char) (c : Char) : lib.endswith (w ++ [c]) [c] = true := by
  rw [hend]; simp

/-- The test `endswith(w, c)` fails when `w` does not end in `c`. -/
theorem endswith_other (lib : CmdLib)
    (hend : ∀ (s : List Char) (c : Char),
      lib.endswith s [c] = decide (s.getLast? = some c))
    (w : List Char) (c : Char) (h : w.getLast? ≠ some c) : lib.endswith w [c] = false := by
  rw [hend]; simp [h]

/-- The option value `num ++ unit ++ bin ++ byte`, where `num` does not end
in a suffix letter: the suffixes are taken off from the right and leave
`num` with the multiplier `base ^ exponent`. -/
theorem parseMemory_strip (lib : CmdLib) (st : MainState) (num unit bin byte : List Char)
    (hend : ∀ (s : List Char) (c : Char),
      lib.endswith s [c] = decide (s.getLast? = some c))
    (hclean : ∀ c ∈ "BbikKMG".toList, num.getLast? ≠ some c)
    (hunit : unit = [] ∨ unit = ['k'] ∨ unit = ['K'] ∨ unit = ['M']
      ∨ unit = ['G'])
    (hbin : bin = [] ∨ bin = ['i'])
    (hbyte : byte = [] ∨ byte = ['B'] ∨ byte = ['b']) :
    parseMemory lib st (num ++ unit ++ bin ++ byte)
      = if ¬ lib.isInt num false then .error .invalidMemory
        else
          match lib.stoi num with
          | none => .error .stoiThrows
          | some v =>
            .ok { st with init := { st.init with
              maxMemory := spec_memBase bin ^ spec_unitExponent unit * toSizeT v % 2 ^ 64 } } := by
  have hB : num.getLast? ≠ some 'B' := hclean 'B' (by decide)
  have hb : num.getLast? ≠ some 'b' := hclean 'b' (by decide)
  have hi : num.getLast? ≠ some 'i' := hclean 'i' (by decide)
  have hk : num.getLast? ≠ some 'k' := hclean 'k' (by decide)
  have hK : num.getLast? ≠ some 'K' := hclean 'K' (by decide)
  have hM : num.getLast? ≠ some 'M' := hclean 'M' (by decide)
  have hG : num.getLast? ≠ some 'G' := hclean 'G' (by decide)
  -- the last character of `num ++ unit`
  have hu : ∀ c : Char, c ≠ 'k' → c ≠ 'K' → c ≠ 'M' → c ≠ 'G' → num.getLast? ≠ some c →
      (num ++ unit).getLast? ≠ some c := by
    intro c c1 c2 c3 c4 hc
    rcases hunit with h | h | h | h | h <;> subst h <;>
      simp [List.getLast?_append, hc, Ne.symm c1, Ne.symm c2, Ne.symm c3, Ne.symm c4]
  -- the last character of `num ++ unit ++ bin`
  have hub : ∀ c : Char, c ≠ 'k' → c ≠ 'K' → c ≠ 'M' → c ≠ 'G' → c ≠ 'i' →
      num.getLast? ≠ some c → (num ++ unit ++ bin).getLast? ≠ some c := by
    intro c c1 c2 c3 c4 c5 hc
    rcases hbin with h | h <;> subst h
    · rw [List.append_nil]; exact hu c c1 c2 c3 c4 hc
    · simp [List.getLast?_append, Ne.symm c5]
  -- stage 1: the trailing `B` or `b`
  have e1 : (if lib.endswith (num ++ unit ++ bin ++ byte) ['B'] = true ∨
        lib.endswith (num ++ unit ++ bin ++ byte) ['b'] = true then
        (num ++ unit ++ bin ++ byte).take ((num ++ unit ++ bin ++ byte).length - 1)
      else num ++ unit ++ bin ++ byte) = num ++ unit ++ bin := by
    rcases hbyte with h | h | h <;> subst h
    · have n1 := endswith_other lib hend (num ++ unit ++ bin) 'B'
        (hub 'B' (by decide) (by decide) (by decide) (by decide) (by decide) hB)
      have n2 := endswith_other lib hend (num ++ unit ++ bin) 'b'
        (hub 'b' (by decide) (by decide) (by decide) (by decide) (by decide) hb)
      rw [List.append_nil, if_neg]
      rintro (h | h)
      · exact absurd (n1 ▸ h) (by simp)
      · exact absurd (n2 ▸ h) (by simp)
    · rw [if_pos (Or.inl (endswith_concat lib hend (num ++ unit ++ bin) 'B'))]
      exact take_concat (num ++ unit ++ bin) 'B'
    · rw [if_pos (Or.inr (endswith_concat lib hend (num ++ unit ++ bin) 'b'))]
      exact take_concat (num ++ unit ++ bin) 'b'
  -- stage 2: the letter `i`
  have e2 : (if lib.endswith (num ++ unit ++ bin) ['i'] = true then
        ((1024 : Nat), (num ++ unit ++ bin).take ((num ++ unit ++ bin).length - 1))
      else ((1000 : Nat), num ++ unit ++ bin)) = (spec_memBase bin, num ++ unit) := by
    rcases hbin with h | h <;> subst h
    · have n1 := endswith_other lib hend (num ++ unit) 'i'
        (hu 'i' (by decide) (by decide) (by decide) (by decide) hi)
      rw [List.append_nil, if_neg (by rw [n1]; simp)]
      rfl
    · rw [if_pos (endswith_concat lib hend (num ++ unit) 'i')]
      rw [take_concat]
      rfl
  -- stage 3: the unit letter
  have e3 : ∀ base : Nat, base < 2 ^ 16 →
      (if lib.endswith (num ++ unit) ['k'] = true ∨
          lib.endswith (num ++ unit) ['K'] = true then
        (base, (num ++ unit).take ((num ++ unit).length - 1))
      else if lib.endswith (num ++ unit) ['M'] = true then
        (base * base % 2 ^ 64, (num ++ unit).take ((num ++ unit).length - 1))
      else if lib.endswith (num ++ unit) ['G'] = true then
        (base * base % 2 ^ 64 * base % 2 ^ 64, (num ++ unit).take ((num ++ unit).length - 1))
      else ((1 : Nat), num ++ unit)) = (base ^ spec_unitExponent unit, num) := by
    intro base hbase
    have hbb : base * base < 2 ^ 32 := by nlinarith
    have hbbb : base * base * base < 2 ^ 48 := by nlinarith
    have m2 : base * base % 2 ^ 64 = base * base := Nat.mod_eq_of_lt (by omega)
    have m3 : base * base * base % 2 ^ 64 = base * base * base := Nat.mod_eq_of_lt (by omega)
    have nk := endswith_other lib hend num 'k' hk
    have nK := endswith_other lib hend num 'K' hK
    have nM := endswith_other lib hend num 'M' hM
    have nG := endswith_other lib hend num 'G' hG
    rcases hunit with h | h | h | h | h <;> subst h
    · rw [List.append_nil]
      simp only [nk, nK, nM, nG]
      simp [spec_unitExponent]
    · rw [if_pos (Or.inl (endswith_concat lib hend num 'k')), take_concat]
      simp [spec_unitExponent]
    · rw [if_pos (Or.inr (endswith_concat lib hend num 'K')), take_concat]
      simp [spec_unitExponent]
    · have a1 := endswith_other lib hend (num ++ ['M']) 'k' (by simp)
      have a2 := endswith_other lib hend (num ++ ['M']) 'K' (by simp)
      simp only [a1, a2, endswith_concat lib hend num 'M',
        take_concat, m2]
      simp [spec_unitExponent, pow_two]
    · have a1 := endswith_other lib hend (num ++ ['G']) 'k' (by simp)
      have a2 := endswith_other lib hend (num ++ ['G']) 'K' (by simp)
      have a3 := endswith_other lib hend (num ++ ['G']) 'M' (by simp)
      simp only [a1, a2, a3,
        endswith_concat lib hend num 'G', take_concat, m2, m3]
      simp [spec_unitExponent, pow_succ]
  have hbase : spec_memBase bin < 2 ^ 16 := by
    unfold spec_memBase; split_ifs <;> norm_num
  unfold parseMemory
  simp only [show "B".toList = ['B'] from rfl, show "b".toList = ['b'] from rfl,
    show "i".toList = ['i'] from rfl, show "k".toList = ['k'] from rfl,
    show "K".toList = ['K'] from rfl, show "M".toList = ['M'] from rfl,
    show "G".toList = ['G'] from rfl, e1, e2, e3 (spec_memBase bin) hbase]

/-- The value of a dimension flag is 2, 4 or 3. -/
theorem spec_dimFlag_range (a : List Char) (d : Int) (h : spec_dimFlag a = some d) :
    d = 2 ∨ d = 4 ∨ d = 3 := by
  unfold spec_dimFlag at h
  split_ifs at h <;> cases h <;> simp

/-- The choice of `mainmain` for a build that supports the mode asked for. -/
theorem dispatch_supported (b : BuildConfig) (init : bhcInit) (d : Int)
    (hd : d = 2 ∨ d = 4 ∨ d = 3) (hb : b.BHC_DIM_ONLY ≤ 0 ∨ b.BHC_DIM_ONLY = d)
    (h2 : d = 2 → b.BHC_ENABLE_2D = true) (h4 : d = 4 → b.BHC_ENABLE_NX2D = true)
    (h3 : d = 3 → b.BHC_ENABLE_3D = true) :
    dispatch b init d = .ok ⟨decide (d ≠ 2), decide (d = 3), init⟩ := by
  have hchk : (if b.BHC_DIM_ONLY > 0 then
        (if d ≠ b.BHC_DIM_ONLY then (.error .dimNotSupported : Except CmdFault Int) else .ok d)
      else if d < 2 ∨ d > 4 then .ok 2 else .ok d) = .ok d := by
    by_cases hpos : b.BHC_DIM_ONLY > 0
    · have he : b.BHC_DIM_ONLY = d := by omega
      rw [if_pos hpos, if_neg (by rw [he]; simp)]
    · rw [if_neg hpos, if_neg (by omega)]
  unfold dispatch
  simp only [hchk]
  rcases hd with hd | hd | hd
  · subst hd; simp [h2 rfl]
  · subst hd; simp [h4 rfl]
  · subst hd; simp [h3 rfl]

/-- The options `--mem=value` and `-mem=value` reach the memory parser. -/
theorem parseArg_mem (lib : CmdLib) (st : MainState) (value : List Char) :
    parseArg lib st ("--mem=".toList ++ value) = parseMemory lib st value ∧
    parseArg lib st ("-mem=".toList ++ value) = parseMemory lib st value := by
  constructor <;> simp [parseArg, strFind]

/-- The size of a non-negative `int` times a power of the base fits in 64
bits. -/
theorem memory_value (N : Int) (h0 : 0 ≤ N) (hN : N < 2 ^ 31) (bin unit : List Char) :
    spec_memBase bin ^ spec_unitExponent unit * toSizeT N % 2 ^ 64
      = N.toNat * spec_memBase bin ^ spec_unitExponent unit := by
  have hs : toSizeT N = N.toNat := by
    unfold toSizeT
    rw [Int.emod_eq_of_lt h0 (by omega)]
  have hN2 : N.toNat < 2 ^ 31 := by
    have : (N.toNat : Int) = N := Int.toNat_of_nonneg h0
    omega
  have hp : spec_memBase bin ^ spec_unitExponent unit ≤ 2 ^ 30 := by
    unfold spec_memBase spec_unitExponent
    split_ifs <;> norm_num
  rw [hs, Nat.mod_eq_of_lt, Nat.mul_comm]
  calc spec_memBase bin ^ spec_unitExponent unit * N.toNat
      ≤ 2 ^ 30 * N.toNat := Nat.mul_le_mul_right _ hp
    _ < 2 ^ 30 * 2 ^ 31 := Nat.mul_lt_mul_of_pos_left hN2 (by norm_num)
    _ < 2 ^ 64 := by norm_num

/-- The stand-in `endswith` tests the last character. -/
theorem exCmdLib_endswith (s : List Char) (c : Char) :
    exCmdLib.endswith s [c] = decide (s.getLast? = some c) := by
  show List.isSuffixOf [c] s = decide (s.getLast? = some c)
  rw [Bool.eq_iff_iff, List.isSuffixOf_iff_suffix, decide_eq_true_eq]
  constructor
  · rintro ⟨t, rfl⟩; simp
  · intro h
    obtain ⟨t, rfl⟩ : ∃ t, s = t ++ [c] := by
      have hne : s ≠ [] := by rintro rfl; simp at h
      refine ⟨s.dropLast, ?_⟩
      have := List.dropLast_append_getLast hne
      rw [List.getLast?_eq_getLast _ hne] at h
      simp only [Option.some.injEq] at h
      rw [← h]; exact this.symm
    exact ⟨t, rfl⟩

/-! ### Profile nodes and the Quad grid -/

/-- At a node `x.y = z[k]` with `0 ≤ k ≤ NPts-2` a downward-going tangent
puts the cursor on segment `k`. -/
theorem UpdateDepthSegmentT_node_down {K : Type} [LinearOrderedField K] (x t : Vec2 K)
    (ssp : SSPStructure K) (iSegz k : Int)
    (hz : ∀ i, 0 ≤ i → i + 1 ≤ ssp.NPts - 1 → ssp.z i < ssp.z (i + 1))
    (h0 : 0 ≤ iSegz) (h1 : iSegz ≤ ssp.NPts - 2)
    (hk0 : 0 ≤ k) (hk1 : k ≤ ssp.NPts - 2) (hxk : x.y = ssp.z k) (ht : t.y ≥ 0) :
    UpdateDepthSegmentT x t ssp iSegz = k := by
  have hlt := table_lt ssp.z ssp.NPts hz
  obtain ⟨r0, r1, r2, r3⟩ := UpdateDepthSegmentT_down x t ssp iSegz ht h0 h1
    (by
      rw [hxk]
      rcases eq_or_lt_of_le hk0 with he | hl
      · rw [← he]
      · exact le_of_lt (hlt 0 k (le_refl _) hl (by omega)))
    (by rw [hxk]; exact hlt k (ssp.NPts - 1) hk0 (by omega) (le_refl _))
  rw [hxk] at r2 r3
  by_contra hne
  rcases lt_or_gt_of_ne hne with hlt1 | hgt1
  · have hle : ssp.z (UpdateDepthSegmentT x t ssp iSegz + 1) ≤ ssp.z k := by
      rcases eq_or_lt_of_le (show UpdateDepthSegmentT x t ssp iSegz + 1 ≤ k by omega)
        with he | hl
      · rw [he]
      · exact le_of_lt (hlt _ k (by omega) hl (by omega))
    exact absurd r3 (not_lt.mpr hle)
  · exact absurd r2 (not_le.mpr (hlt k _ hk0 hgt1 (by omega)))

/-- At a node `x.y = z[k]` with `1 ≤ k ≤ NPts-1` an upward-going tangent
puts the cursor on segment `k - 1`. -/
theorem UpdateDepthSegmentT_node_up {K : Type} [LinearOrderedField K] (x t : Vec2 K)
    (ssp : SSPStructure K) (iSegz k : Int)
    (hz : ∀ i, 0 ≤ i → i + 1 ≤ ssp.NPts - 1 → ssp.z i < ssp.z (i + 1))
    (h0 : 0 ≤ iSegz) (h1 : iSegz ≤ ssp.NPts - 2)
    (hk0 : 1 ≤ k) (hk1 : k ≤ ssp.NPts - 1) (hxk : x.y = ssp.z k) (ht : t.y < 0) :
    UpdateDepthSegmentT x t ssp iSegz = k - 1 := by
  have hlt := table_lt ssp.z ssp.NPts hz
  obtain ⟨r0, r1, r2, r3⟩ := UpdateDepthSegmentT_up x t ssp iSegz ht h0 h1
    (by rw [hxk]; exact hlt 0 k (le_refl _) (by omega) hk1)
    (by
      rw [hxk]
      rcases eq_or_lt_of_le hk1 with he | hl
      · rw [he]
      · exact le_of_lt (hlt k (ssp.NPts - 1) (by omega) hl (le_refl _)))
  rw [hxk] at r2 r3
  by_contra hne
  rcases lt_or_gt_of_ne hne with hlt1 | hgt1
  · exact absurd r3 (not_le.mpr (hlt _ k (by omega) (by omega) hk1))
  · have hle : ssp.z k ≤ ssp.z (UpdateDepthSegmentT x t ssp iSegz) := by
      rcases eq_or_lt_of_le (show k ≤ UpdateDepthSegmentT x t ssp iSegz by omega)
        with he | hl
      · rw [← he]
      · exact le_of_lt (hlt k _ (by omega) hl (by omega))
    exact absurd r2 (not_lt.mpr hle)

/-- At an interior node `x.y = z[k]` the cursor is `k` with weight 0 or
`k - 1` with weight 1, according to the direction of the tangent. -/
theorem node_weight {K : Type} [LinearOrderedField K] (x t : Vec2 K)
    (ssp : SSPStructure K) (iSegz k : Int)
    (hz : ∀ i, 0 ≤ i → i + 1 ≤ ssp.NPts - 1 → ssp.z i < ssp.z (i + 1))
    (h0 : 0 ≤ iSegz) (h1 : iSegz ≤ ssp.NPts - 2)
    (hk0 : 0 < k) (hk1 : k < ssp.NPts - 1) (hxk : x.y = ssp.z k) :
    (t.y ≥ 0 ∧ UpdateDepthSegmentT x t ssp iSegz = k ∧
      (x.y - ssp.z k) / (ssp.z (k + 1) - ssp.z k) = 0) ∨
    (t.y < 0 ∧ UpdateDepthSegmentT x t ssp iSegz = k - 1 ∧
      (x.y - ssp.z (k - 1)) / (ssp.z k - ssp.z (k - 1)) = 1) := by
  by_cases ht : t.y ≥ 0
  · left
    refine ⟨ht, UpdateDepthSegmentT_node_down x t ssp iSegz k hz h0 h1 (by omega) (by omega)
      hxk ht, ?_⟩
    rw [hxk, sub_self, zero_div]
  · right
    have ht2 : t.y < 0 := not_le.mp ht
    refine ⟨ht2, UpdateDepthSegmentT_node_up x t ssp iSegz k hz h0 h1 (by omega) (by omega)
      hxk ht2, ?_⟩
    have hk : k - 1 + 1 = k := by ring
    have hlt : ssp.z (k - 1) < ssp.z k := by
      have h := hz (k - 1) (by omega) (by omega)
      rwa [hk] at h
    rw [hxk]
    exact div_self (ne_of_gt (sub_pos.mpr hlt))

/-- At an interior node the density interpolated on the segment left by
`UpdateDepthSegmentT` is the node's density, for either direction of the
tangent. -/
theorem density_at_node {K : Type} [LinearOrderedField K] (x t : Vec2 K)
    (ssp : SSPStructure K) (iSegz k : Int)
    (hz : ∀ i, 0 ≤ i → i + 1 ≤ ssp.NPts - 1 → ssp.z i < ssp.z (i + 1))
    (h0 : 0 ≤ iSegz) (h1 : iSegz ≤ ssp.NPts - 2)
    (hk0 : 0 < k) (hk1 : k < ssp.NPts - 1) (hxk : x.y = ssp.z k) :
    (LinInterpDensity x ssp (UpdateDepthSegmentT x t ssp iSegz)).2 = ssp.rho k := by
  have hk : k - 1 + 1 = k := by ring
  rcases node_weight x t ssp iSegz k hz h0 h1 hk0 hk1 hxk with ⟨-, hi, hw⟩ | ⟨-, hi, hw⟩
  · rw [hi]; simp only [LinInterpDensity, hw]; ring
  · rw [hi]; simp only [LinInterpDensity, hw, hk]; ring

/-- `Quad`, case by case: the two `bail()` exits and the returning path. -/
theorem Quad_cases {K : Type} [LinearOrderedField K] (x t : Vec2 K) (freq : K)
    (ssp : SSPStructure K) (iSegz iSegr : Int) :
    ((x.x < ssp.Seg.r 0 ∨ x.x > ssp.Seg.r (ssp.Nr - 1)) →
      Quad x t freq ssp iSegz iSegr = .error .quadOutsideBox) ∧
    (¬ (x.x < ssp.Seg.r 0 ∨ x.x > ssp.Seg.r (ssp.Nr - 1)) →
      (UpdateDepthSegmentT x t ssp iSegz ≥ ssp.Nz - 1 ∨
        UpdateRangeSegmentT x t ssp iSegr ≥ ssp.Nr - 1) →
      Quad x t freq ssp iSegz iSegr = .error .quadSegError) ∧
    (¬ (x.x < ssp.Seg.r 0 ∨ x.x > ssp.Seg.r (ssp.Nr - 1)) →
      ¬ (UpdateDepthSegmentT x t ssp iSegz ≥ ssp.Nz - 1 ∨
        UpdateRangeSegmentT x t ssp iSegr ≥ ssp.Nr - 1) →
      ∃ res, Quad x t freq ssp iSegz iSegr = .ok res ∧
        res.iSegz = UpdateDepthSegmentT x t ssp iSegz ∧
        res.iSegr = UpdateRangeSegmentT x t ssp iSegr ∧
        res.o.ccpx.re
          = (1 - max (min ((x.x - ssp.Seg.r res.iSegr)
                / (ssp.Seg.r (res.iSegr + 1) - ssp.Seg.r res.iSegr)) 1) 0)
              * (ssp.cMat (res.iSegz * ssp.Nr + res.iSegr)
                + (x.y - ssp.z res.iSegz) * ssp.czMat (res.iSegz * ssp.Nr + res.iSegr))
            + max (min ((x.x - ssp.Seg.r res.iSegr)
                / (ssp.Seg.r (res.iSegr + 1) - ssp.Seg.r res.iSegr)) 1) 0
              * (ssp.cMat (res.iSegz * ssp.Nr + res.iSegr + 1)
                + (x.y - ssp.z res.iSegz)
                  * ssp.czMat (res.iSegz * ssp.Nr + res.iSegr + 1))) := by
  refine ⟨fun h => ?_, fun h1 h2 => ?_, fun h1 h2 => ?_⟩
  · unfold Quad; rw [if_pos h]
  · unfold Quad; dsimp only; rw [if_neg h1, if_pos h2]
  · unfold Quad; dsimp only; rw [if_neg h1, if_neg h2]
    exact ⟨_, rfl, rfl, rfl, rfl⟩

/-! ### Reading and searching the reflection table -/

/-- The reading loop of `reflect.hpp` from entry `itheta` on: the `n` entries
it visits hold the records with the phase converted, the others are left. -/
theorem readRecords_spec {K : Type} [LinearOrderedField K] (DegRad : K) (file : RCFile K) :
    ∀ (n itheta : Nat) (r : List (ReflectionCoef K)),
      itheta + n ≤ file.records.length → itheta + n ≤ r.length →
      ∃ r1, readRecords DegRad file n itheta r = .ok r1 ∧ r1.length = r.length ∧
        ∀ j : Nat,
          r1[j]? = if itheta ≤ j ∧ j < itheta + n then
              (file.records[j]?).map (fun rec => ⟨rec.1, rec.2.1, rec.2.2 * DegRad⟩)
            else r[j]? := by
  intro n
  induction n with
  | zero =>
    intro itheta r _ _
    refine ⟨r, rfl, rfl, fun j => ?_⟩
    rw [if_neg (by omega)]
  | succ n ih =>
    intro itheta r h1 h2
    have hlt : itheta < file.records.length := by omega
    obtain ⟨r1, e1, e2, e3⟩ := ih (itheta + 1)
      (r.set itheta ⟨file.records[itheta].1, file.records[itheta].2.1,
        file.records[itheta].2.2 * DegRad⟩) (by omega) (by rw [List.length_set]; omega)
    refine ⟨r1, ?_, by rw [e2, List.length_set], fun j => ?_⟩
    · rw [readRecords, List.getElem?_eq_getElem hlt]
      exact e1
    · rw [e3 j]
      by_cases hj : itheta + 1 ≤ j ∧ j < itheta + 1 + n
      · rw [if_pos hj, if_pos (by omega)]
      · rw [if_neg hj]
        by_cases he : j = itheta
        · subst he
          rw [if_pos (by omega), List.getElem?_set_self (by omega),
            List.getElem?_eq_getElem hlt]
          rfl
        · rw [if_neg (by omega), List.getElem?_set_ne (fun h => he h.symm)]

/-- The half of `ReadReflectionCoefficient` of `reflect.hpp` for the option
`'F'` and a file with its header count of records: every phase is converted
once. -/
theorem readTopBot_file {K : Type} [LinearOrderedField K] (m : STD K) (f : RCFile K)
    (rtb : ReflectionInfoTopBot K) (noFile : ReadFault)
    (hN : f.NPts = f.records.length) :
    readTopBot m 'F' (some f) rtb noFile
      = .ok { NPts := f.NPts,
              r := f.records.map (fun rec => ⟨rec.1, rec.2.1, rec.2.2 * m.DegRad⟩) } := by
  have hto : f.NPts.toNat = f.records.length := by rw [hN]; simp
  obtain ⟨r1, e1, e2, e3⟩ := readRecords_spec m.DegRad f f.records.length 0
    (allocateRC f.NPts) (by omega) (by simp [allocateRC, hto])
  have hr : r1 = f.records.map (fun rec => ⟨rec.1, rec.2.1, rec.2.2 * m.DegRad⟩) := by
    apply List.ext_getElem?
    intro j
    rw [e3 j, List.getElem?_map]
    by_cases hj : j < f.records.length
    · rw [if_pos ⟨Nat.zero_le _, by omega⟩]
    · have hal : (allocateRC f.NPts : List (ReflectionCoef K)).length
          = f.records.length := by simp [allocateRC, hto]
      rw [if_neg (by omega), List.getElem?_eq_none (by omega),
        List.getElem?_eq_none (by omega)]
      rfl
  simp only [readTopBot, if_true, hto, e1, hr]

/-- The bisection loop started with `0 ≤ iL < iR < length` and a width of
at most `2 ^ k` leaves within `k` iterations, with `iRight = iLeft + 1`, and
every state it goes through satisfies `iL ≤ iLeft < iRight ≤ iR`. -/
theorem bisectLoop_log {K : Type} [LinearOrderedField K] (rtb : ReflectionInfoTopBot K)
    (θ : K) :
    ∀ (k : Nat) (iL iR : Int), 0 ≤ iL → iL < iR → iR < rtb.r.length → iR - iL ≤ 2 ^ k →
      ∃ i, bisectLoop rtb θ k iL iR = .ok (i, i + 1) ∧ iL ≤ i ∧ i + 1 ≤ iR ∧
        (bisectStates rtb θ k iL iR).length ≤ k + 1 ∧
        (bisectStates rtb θ k iL iR).getLast? = some (i, i + 1) ∧
        ∀ s ∈ bisectStates rtb θ k iL iR, iL ≤ s.1 ∧ s.1 < s.2 ∧ s.2 ≤ iR := by
  intro k
  induction k with
  | zero =>
    intro iL iR h0 hlt hlen hw
    have hi : iL = iR - 1 := by simp at hw; omega
    refine ⟨iL, ?_, le_refl _, by omega, by simp [bisectStates], ?_, ?_⟩
    · simp [bisectLoop, hi]
    · simp [bisectStates, hi]
    · intro s hs
      simp only [bisectStates, List.mem_singleton] at hs
      subst hs
      exact ⟨le_refl _, hlt, le_refl _⟩
  | succ n ih =>
    intro iL iR h0 hlt hlen hw
    by_cases hi : iL = iR - 1
    · refine ⟨iL, ?_, le_refl _, by omega, by simp [bisectStates, hi], ?_, ?_⟩
      · simp [bisectLoop, hi]
      · simp [bisectStates, hi]
      · intro s hs
        simp only [bisectStates, hi, ne_eq, not_true_eq_false, if_false,
          List.mem_singleton] at hs
        subst hs
        exact ⟨by omega, by omega, le_refl _⟩
    · have hmid : Int.tdiv (iL + iR) 2 = (iL + iR) / 2 :=
        Int.tdiv_eq_ediv (by omega) (by norm_num)
      have hm0 : iL < (iL + iR) / 2 := by omega
      have hm1 : (iL + iR) / 2 < iR := by omega
      have hpow : (2 : Int) ^ (n + 1) = 2 * 2 ^ n := by rw [pow_succ]; ring
      rw [hpow] at hw
      obtain ⟨eM, heM, -⟩ := entry_ok rtb ((iL + iR) / 2) (by omega) (by omega)
      by_cases hc : eM.theta > θ
      · obtain ⟨i, e1, e2, e3, e4, e5, e6⟩ := ih iL ((iL + iR) / 2) h0 hm0 (by omega) (by omega)
        have hst : bisectStates rtb θ (n + 1) iL iR
            = (iL, iR) :: bisectStates rtb θ n iL ((iL + iR) / 2) := by
          rw [bisectStates]
          simp only [ne_eq, hi, not_false_eq_true, if_true, hmid, heM, hc]
        refine ⟨i, ?_, e2, by omega, ?_, ?_, ?_⟩
        · rw [bisectLoop]
          simp only [ne_eq, hi, not_false_eq_true, if_true, hmid, heM, hc]
          exact e1
        · rw [hst, List.length_cons]; omega
        · rw [hst, List.getLast?_cons, e5]; rfl
        · intro s hs
          rw [hst, List.mem_cons] at hs
          rcases hs with hs | hs
          · subst hs; exact ⟨le_refl _, hlt, le_refl _⟩
          · obtain ⟨a, b, c⟩ := e6 s hs
            exact ⟨a, b, by omega⟩
      · obtain ⟨i, e1, e2, e3, e4, e5, e6⟩ := ih ((iL + iR) / 2) iR (by omega) hm1 hlen
          (by omega)
        have hst : bisectStates rtb θ (n + 1) iL iR
            = (iL, iR) :: bisectStates rtb θ n ((iL + iR) / 2) iR := by
          rw [bisectStates]
          simp only [ne_eq, hi, not_false_eq_true, if_true, hmid, heM, hc, if_false]
        refine ⟨i, ?_, by omega, e3, ?_, ?_, ?_⟩
        · rw [bisectLoop]
          simp only [ne_eq, hi, not_false_eq_true, if_true, hmid, heM, hc, if_false]
          exact e1
        · rw [hst, List.length_cons]; omega
        · rw [hst, List.getLast?_cons, e5]; rfl
        · intro s hs
          rw [hst, List.mem_cons] at hs
          rcases hs with hs | hs
          · subst hs; exact ⟨le_refl _, hlt, le_refl _⟩
          · obtain ⟨a, b, c⟩ := e6 s hs
            exact ⟨by omega, b, c⟩

/-- The interpolator depends on the fuel only through the result of the
bisection loop. -/
theorem interp_fuel_congr {K : Type} [LinearOrderedField K] (f g : Nat)
    (RInt : ReflectionCoef K) (rtb : ReflectionInfoTopBot K)
    (h : bisectLoop rtb RInt.theta f 0 (rtb.NPts - 1)
      = bisectLoop rtb RInt.theta g 0 (rtb.NPts - 1)) :
    InterpolateReflectionCoefficient f RInt rtb
      = InterpolateReflectionCoefficient g RInt rtb := by
  simp only [InterpolateReflectionCoefficient, h]

/-- The bound `⌈log2 2⌉ = 1` for the table `exTable` of three entries. -/
theorem exTable_clog : Nat.clog 2 (exTable.NPts - 1).toNat = 1 := by
  have h : (exTable.NPts - 1).toNat = 2 := by decide
  rw [h, Nat.clog]
  simp

/-- One more iteration allowed: the loop tests its condition, runs the body
once and goes on from the state the body leaves. -/
theorem bisectLoop_succ {K : Type} [LinearOrderedField K] (rtb : ReflectionInfoTopBot K)
    (θ : K) (fuel : Nat) (iL iR : Int) :
    bisectLoop rtb θ (fuel + 1) iL iR
      = if iL ≠ iR - 1 then
          match bisectBody rtb θ iL iR with
          | .error e => .error e
          | .ok s => bisectLoop rtb θ fuel s.1 s.2
        else .ok (iL, iR) := by
  rw [bisectLoop]
  by_cases h : iL ≠ iR - 1
  · simp only [h, if_true, bisectBody, ne_eq, not_false_eq_true]
    cases rtb.entry (Int.tdiv (iL + iR) 2) with
    | error e => rfl
    | ok m =>
      by_cases hc : m.theta > θ
      · simp only [hc, if_true]
      · simp only [hc, if_false]
  · simp only [h, if_false]

/-- From the state `(0, 0)` with the query equal to the angle of entry 0 the
loop never leaves. -/
theorem bisectLoop_stuck {K : Type} [LinearOrderedField K] (rtb : ReflectionInfoTopBot K)
    (e : ReflectionCoef K) (hr : rtb.r[0]? = some e) :
    bisectBody rtb e.theta 0 0 = .ok (0, 0) ∧
    ∀ fuel, bisectLoop rtb e.theta fuel 0 0 = .error .loopFuel := by
  have he : rtb.entry 0 = .ok e := by
    have h := entry_nat rtb 0 e hr
    simpa using h
  have hb : bisectBody rtb e.theta 0 0 = .ok (0, 0) := by
    simp [bisectBody, he]
  refine ⟨hb, fun fuel => ?_⟩
  induction fuel with
  | zero => simp [bisectLoop]
  | succ n ih =>
    rw [bisectLoop_succ, if_pos (by decide), hb]
    exact ih

/-! ### Segment searches with any table -/

/-- With at least `i` decrements allowed the bounded loop ends by its own
test, where the loop of the model ends. -/
theorem whileDecF_eq (cond : Int → Prop) [DecidablePred cond] :
    ∀ (n : Nat) (i : Int), 0 ≤ i → i.toNat ≤ n →
      whileDecF cond n i = some (whileDec cond i.toNat i) := by
  intro n
  induction n with
  | zero =>
    intro i h0 hn
    have e1 : i ≤ ((0 : Nat) : Int) := Int.toNat_le.mp hn
    have hi : i = 0 := by push_cast at e1; omega
    subst hi
    simp [whileDecF, whileDec]
  | succ n ih =>
    intro i h0 hn
    unfold whileDecF
    by_cases hc : cond i ∧ i > 0
    · rw [if_pos hc]
      have e1 : i ≤ ((n + 1 : Nat) : Int) := Int.toNat_le.mp hn
      have e2 : (i - 1).toNat ≤ n := Int.toNat_le.mpr (by push_cast at e1; omega)
      rw [ih (i - 1) (by omega) e2]
      have e3 : i.toNat = (i - 1).toNat + 1 := by omega
      rw [e3, whileDec, if_pos hc]
    · rw [if_neg hc]
      cases hk : i.toNat with
      | zero => rfl
      | succ k => rw [whileDec, if_neg hc]

/-- With at least `hi - i` increments allowed the bounded loop ends by its
own test, where the loop of the model ends. -/
theorem whileIncF_eq (cond : Int → Prop) [DecidablePred cond] (hi : Int) :
    ∀ (n : Nat) (i : Int), i ≤ hi → (hi - i).toNat ≤ n →
      whileIncF cond hi n i = some (whileInc cond hi (hi - i).toNat i) := by
  intro n
  induction n with
  | zero =>
    intro i h0 hn
    have e1 : hi - i ≤ ((0 : Nat) : Int) := Int.toNat_le.mp hn
    have hi : i = hi := by push_cast at e1; omega
    subst hi
    simp [whileIncF, whileInc]
  | succ n ih =>
    intro i h0 hn
    unfold whileIncF
    by_cases hc : cond i ∧ i < hi
    · rw [if_pos hc]
      have e1 : hi - i ≤ ((n + 1 : Nat) : Int) := Int.toNat_le.mp hn
      have e2 : (hi - (i + 1)).toNat ≤ n := Int.toNat_le.mpr (by push_cast at e1; omega)
      rw [ih (i + 1) (by omega) e2]
      have e3 : (hi - i).toNat = (hi - (i + 1)).toNat + 1 := by omega
      rw [e3, whileInc, if_pos hc]
    · rw [if_neg hc]
      cases hk : (hi - i).toNat with
      | zero => rfl
      | succ k => rw [whileInc, if_neg hc]

/-- A table that does not decrease from a node to the next does not decrease
along the whole index range. -/
theorem table_mono {K : Type} [LinearOrderedField K] (z : Int → K) (N : Int)
    (hz : ∀ i, 0 ≤ i → i + 1 ≤ N - 1 → z i ≤ z (i + 1)) :
    ∀ (d : Nat) (i : Int), 0 ≤ i → i + d ≤ N - 1 → z i ≤ z (i + d) := by
  intro d
  induction d with
  | zero =>
    intro i _ _
    simp
  | succ d ih =>
    intro i h0 h1
    have h2 := ih i h0 (by push_cast at h1; omega)
    have h3 := hz (i + d) (by omega) (by push_cast at h1; omega)
    have h4 : i + ((d + 1 : Nat) : Int) = i + d + 1 := by push_cast; ring
    rw [h4]
    exact le_trans h2 h3

/-- The general form of `table_mono`. -/
theorem table_le {K : Type} [LinearOrderedField K] (z : Int → K) (N : Int)
    (hz : ∀ i, 0 ≤ i → i + 1 ≤ N - 1 → z i ≤ z (i + 1))
    (i j : Int) (h0 : 0 ≤ i) (hij : i ≤ j) (hj : j ≤ N - 1) : z i ≤ z j := by
  have e : ((j - i).toNat : Int) = j - i := Int.toNat_of_nonneg (by omega)
  have h := table_mono z N hz (j - i).toNat i h0 (by omega)
  have h2 : i + ((j - i).toNat : Int) = j := by omega
  rwa [h2] at h

/-- The pair of loops of a segment search for a tangent component `≥ 0`, on
any table `z` with `N` nodes: the cursor stays in `0 .. N-2`, both loops end
by their own tests within `N - 2` iterations, and on a table that does not
decrease a value below `z[0]` gives 0, a value above `z[N-1]` gives `N-2`. -/
theorem seg_down {K : Type} [LinearOrderedField K] (z : Int → K) (N : Int) (y : K) (i : Int)
    (h0 : 0 ≤ i) (h1 : i ≤ N - 2) :
    ∃ j k, j = whileDec (fun i => y < z i) i.toNat i ∧
      k = whileInc (fun i => y ≥ z (i + 1)) (N - 2) (N - 2 - j).toNat j ∧
      0 ≤ k ∧ k ≤ N - 2 ∧
      (∀ n, (N - 2).toNat ≤ n →
        (whileDecF (fun i => y < z i) n i).bind
          (fun j => whileIncF (fun i => y ≥ z (i + 1)) (N - 2) n j) = some k) ∧
      ((∀ i, 0 ≤ i → i + 1 ≤ N - 1 → z i ≤ z (i + 1)) →
        (y < z 0 → k = 0) ∧ (y > z (N - 1) → k = N - 2)) := by
  obtain ⟨a1, a2, a3, a4⟩ := whileDec_spec (fun i => y < z i) i.toNat i h0 (le_refl _)
  obtain ⟨b1, b2, b3, b4⟩ := whileInc_spec (fun i => y ≥ z (i + 1)) (N - 2)
    (N - 2 - whileDec (fun i => y < z i) i.toNat i).toNat
    (whileDec (fun i => y < z i) i.toNat i) (by omega) (le_refl _)
  refine ⟨_, _, rfl, rfl, by omega, b2, fun n hn => ?_, fun hz => ⟨fun hy => ?_, fun hy => ?_⟩⟩
  · have hn1 : i.toNat ≤ n := le_trans (Int.toNat_le_toNat h1) hn
    rw [whileDecF_eq _ n i h0 hn1, Option.some_bind]
    exact whileIncF_eq _ _ n _ (by omega)
      (le_trans (Int.toNat_le_toNat (by omega)) hn)
  · have hj : whileDec (fun i => y < z i) i.toNat i = 0 := by
      rcases a3 with a3 | a3
      · exfalso
        apply a3
        exact lt_of_lt_of_le hy (table_le z N hz 0 _ (le_refl _) a1 (by omega))
      · exact a3
    rw [hj] at b4 ⊢
    refine b4 (fun k => k = 0) rfl (fun k hk0 hk1 hc _ => ?_)
    exfalso
    have h := table_le z N hz 0 (k + 1) (le_refl _) (by omega) (by omega)
    exact absurd (lt_of_lt_of_le hy h) (not_lt.mpr hc)
  · have hj : whileDec (fun i => y < z i) i.toNat i = i := by
      refine a4 (fun k => k = i) rfl (fun k hk0 hk1 hc _ => ?_)
      exfalso
      have h := table_le z N hz k (N - 1) (by omega) (by omega) (le_refl _)
      exact absurd (lt_of_le_of_lt h hy) (not_lt.mpr (le_of_lt hc))
    rcases b3 with b3 | b3
    · exfalso
      apply b3
      have h := table_le z N hz
        (whileInc (fun i => y ≥ z (i + 1)) (N - 2)
          (N - 2 - whileDec (fun i => y < z i) i.toNat i).toNat
          (whileDec (fun i => y < z i) i.toNat i) + 1) (N - 1) (by omega) (by omega)
        (le_refl _)
      exact le_of_lt (lt_of_le_of_lt h hy)
    · exact b3

/-- The pair of loops of a segment search for a tangent component `< 0`, on
any table `z` with `N` nodes: the cursor stays in `0 .. N-2`, both loops end
by their own tests within `N - 2` iterations, and on a table that does not
decrease a value below `z[0]` gives 0, a value above `z[N-1]` gives `N-2`. -/
theorem seg_up {K : Type} [LinearOrderedField K] (z : Int → K) (N : Int) (y : K) (i : Int)
    (h0 : 0 ≤ i) (h1 : i ≤ N - 2) :
    ∃ j k, j = whileInc (fun i => y > z (i + 1)) (N - 2) (N - 2 - i).toNat i ∧
      k = whileDec (fun i => y ≤ z i) j.toNat j ∧
      0 ≤ k ∧ k ≤ N - 2 ∧
      (∀ n, (N - 2).toNat ≤ n →
        (whileIncF (fun i => y > z (i + 1)) (N - 2) n i).bind
          (fun j => whileDecF (fun i => y ≤ z i) n j) = some k) ∧
      ((∀ i, 0 ≤ i → i + 1 ≤ N - 1 → z i ≤ z (i + 1)) →
        (y < z 0 → k = 0) ∧ (y > z (N - 1) → k = N - 2)) := by
  obtain ⟨a1, a2, a3, a4⟩ := whileInc_spec (fun i => y > z (i + 1)) (N - 2)
    (N - 2 - i).toNat i h1 (le_refl _)
  obtain ⟨b1, b2, b3, b4⟩ := whileDec_spec (fun i => y ≤ z i)
    (whileInc (fun i => y > z (i + 1)) (N - 2) (N - 2 - i).toNat i).toNat
    (whileInc (fun i => y > z (i + 1)) (N - 2) (N - 2 - i).toNat i) (by omega) (le_refl _)
  refine ⟨_, _, rfl, rfl, b1, by omega, fun n hn => ?_, fun hz => ⟨fun hy => ?_, fun hy => ?_⟩⟩
  · have hn1 : (N - 2 - i).toNat ≤ n := le_trans (Int.toNat_le_toNat (by omega)) hn
    rw [whileIncF_eq _ _ n i h1 hn1, Option.some_bind]
    exact whileDecF_eq _ n _ (by omega) (le_trans (Int.toNat_le_toNat a2) hn)
  · rcases b3 with b3 | b3
    · exfalso
      apply b3
      have h := table_le z N hz 0
        (whileDec (fun i => y ≤ z i)
          (whileInc (fun i => y > z (i + 1)) (N - 2) (N - 2 - i).toNat i).toNat
          (whileInc (fun i => y > z (i + 1)) (N - 2) (N - 2 - i).toNat i))
        (le_refl _) b1 (by omega)
      exact le_of_lt (lt_of_lt_of_le hy h)
    · exact b3
  · have hj : whileInc (fun i => y > z (i + 1)) (N - 2) (N - 2 - i).toNat i = N - 2 := by
      rcases a3 with a3 | a3
      · exfalso
        apply a3
        have h := table_le z N hz
          (whileInc (fun i => y > z (i + 1)) (N - 2) (N - 2 - i).toNat i + 1) (N - 1)
          (by omega) (by omega) (le_refl _)
        exact lt_of_le_of_lt h hy
      · exact a3
    rw [hj] at b4 ⊢
    refine b4 (fun k => k = N - 2) rfl (fun k hk0 hk1 hc _ => ?_)
    exfalso
    have h := table_le z N hz k (N - 1) (by omega) (by omega) (le_refl _)
    exact absurd (lt_of_le_of_lt h hy) (not_lt.mpr hc)

/-- The depth cursor stays in `0 .. NPts-2`, whatever the table and the
position. -/
theorem UpdateDepthSegmentT_mem {K : Type} [LinearOrderedField K] (x t : Vec2 K)
    (ssp : SSPStructure K) (iSegz : Int) (h0 : 0 ≤ iSegz) (h1 : iSegz ≤ ssp.NPts - 2) :
    0 ≤ UpdateDepthSegmentT x t ssp iSegz ∧
      UpdateDepthSegmentT x t ssp iSegz ≤ ssp.NPts - 2 := by
  unfold UpdateDepthSegmentT
  by_cases ht : t.y ≥ 0
  · simp only [if_pos ht]
    obtain ⟨j, k, hj, hk, c1, c2, -, -⟩ := seg_down ssp.z ssp.NPts x.y iSegz h0 h1
    rw [← hj, ← hk]
    exact ⟨c1, c2⟩
  · simp only [if_neg ht]
    obtain ⟨j, k, hj, hk, c1, c2, -, -⟩ := seg_up ssp.z ssp.NPts x.y iSegz h0 h1
    rw [← hj, ← hk]
    exact ⟨c1, c2⟩

/-- The bracket `UpdateRangeSegmentT` leaves around a range inside the
closed box `[Seg.r[0], Seg.r[Nr-1]]`, for either sign of `t.x`. -/
theorem UpdateRangeSegmentT_bracket {K : Type} [LinearOrderedField K] (x t : Vec2 K)
    (ssp : SSPStructure K) (iSegr : Int) (h0 : 0 ≤ iSegr) (h1 : iSegr ≤ ssp.Nr - 2)
    (hlo : ssp.Seg.r 0 ≤ x.x) (hhi : x.x ≤ ssp.Seg.r (ssp.Nr - 1)) :
    0 ≤ UpdateRangeSegmentT x t ssp iSegr ∧ UpdateRangeSegmentT x t ssp iSegr ≤ ssp.Nr - 2 ∧
    ssp.Seg.r (UpdateRangeSegmentT x t ssp iSegr) ≤ x.x ∧
    x.x ≤ ssp.Seg.r (UpdateRangeSegmentT x t ssp iSegr + 1) := by
  have hN : ssp.Nr - 2 + 1 = ssp.Nr - 1 := by ring
  unfold UpdateRangeSegmentT
  by_cases ht : t.x ≥ 0
  · rw [if_pos ht]
    dsimp only
    obtain ⟨a1, a2, a3, -⟩ := whileDec_spec (fun i => x.x < ssp.Seg.r i) iSegr.toNat iSegr h0
      (le_refl _)
    set j := whileDec (fun i => x.x < ssp.Seg.r i) iSegr.toNat iSegr with hj
    have hzj : ssp.Seg.r j ≤ x.x := by
      rcases a3 with a3 | a3
      · exact not_lt.mp a3
      · rw [a3]; exact hlo
    obtain ⟨b1, b2, b3, b4⟩ := whileInc_spec (fun i => x.x ≥ ssp.Seg.r (i + 1)) (ssp.Nr - 2)
      (ssp.Nr - 2 - j).toNat j (by omega) (le_refl _)
    set k := whileInc (fun i => x.x ≥ ssp.Seg.r (i + 1)) (ssp.Nr - 2) (ssp.Nr - 2 - j).toNat j
      with hk
    refine ⟨by omega, b2, ?_, ?_⟩
    · exact b4 (fun i => ssp.Seg.r i ≤ x.x) hzj (fun i _ _ hc _ => hc)
    · rcases b3 with b3 | b3
      · exact le_of_lt (not_le.mp b3)
      · rw [b3, hN]; exact hhi
  · rw [if_neg ht]
    dsimp only
    obtain ⟨a1, a2, a3, -⟩ := whileInc_spec (fun i => x.x > ssp.Seg.r (i + 1)) (ssp.Nr - 2)
      (ssp.Nr - 2 - iSegr).toNat iSegr h1 (le_refl _)
    set j := whileInc (fun i => x.x > ssp.Seg.r (i + 1)) (ssp.Nr - 2)
      (ssp.Nr - 2 - iSegr).toNat iSegr with hj
    have hzj : x.x ≤ ssp.Seg.r (j + 1) := by
      rcases a3 with a3 | a3
      · exact not_lt.mp a3
      · rw [a3, hN]; exact hhi
    obtain ⟨b1, b2, b3, b4⟩ := whileDec_spec (fun i => x.x ≤ ssp.Seg.r i) j.toNat j (by omega)
      (le_refl _)
    set k := whileDec (fun i => x.x ≤ ssp.Seg.r i) j.toNat j with hk
    refine ⟨b1, by omega, ?_, ?_⟩
    · rcases b3 with b3 | b3
      · exact le_of_lt (not_le.mp b3)
      · rw [b3]; exact hlo
    · refine b4 (fun i => x.x ≤ ssp.Seg.r (i + 1)) hzj (fun i _ _ hc _ => ?_)
      have : i - 1 + 1 = i := by ring
      show x.x ≤ ssp.Seg.r (i - 1 + 1)
      rw [this]; exact hc

/-! ### Total reflection, the wall test and the boundary tags -/

/-- The quotient `-(conj d) / d` has modulus 1 when `d ≠ 0`. -/
theorem Cpx.normSq_neg_conj_div {K : Type} [LinearOrderedField K] (d : Cpx K)
    (hd : d.re ≠ 0) : Cpx.normSq ((-Cpx.conj d) / d) = 1 := by
  have hpos : 0 < d.re * d.re + d.im * d.im := by
    have h1 : 0 < d.re * d.re := mul_self_pos.mpr hd
    have h2 : 0 ≤ d.im * d.im := mul_self_nonneg _
    linarith
  have hne : d.re * d.re + d.im * d.im ≠ 0 := ne_of_gt hpos
  simp only [Cpx.normSq, Cpx.div_re, Cpx.div_im, Cpx.neg_re, Cpx.neg_im, Cpx.conj]
  field_simp
  ring

/-- The coefficient of a half-space without shear beyond the critical angle:
`f = kzP` is a positive real, so that the numerator of `Refl` is minus the
conjugate of its denominator `d = rho·f + i·kz·hs.rho`. -/
theorem ReflCoef2D_total {K : Type} [LinearOrderedField K] (m : STD K) (hs : HSInfo K)
    (rho omega Th Tg : K)
    (hsqrt : ∀ a : K, 0 < a → (m.csqrt ⟨a, 0⟩).im = 0 ∧ 0 < (m.csqrt ⟨a, 0⟩).re)
    (hcS : hs.cS.re ≤ 0) (hcP : hs.cP.im = 0)
    (hcrit : (omega * Tg) ^ 2 > (omega / hs.cP.re) ^ 2) :
    ∃ f : K, 0 < f ∧
      m.csqrt (SQ (Cpx.ofReal (omega * Tg)) - SQ (Cpx.ofReal omega / hs.cP)) = ⟨f, 0⟩ ∧
      ReflCoef2D m hs rho omega Th Tg
        = (-Cpx.conj ⟨rho * f, omega * Th * hs.rho⟩) / ⟨rho * f, omega * Th * hs.rho⟩ := by
  have harg : SQ (Cpx.ofReal (omega * Tg)) - SQ (Cpx.ofReal omega / hs.cP)
      = ⟨(omega * Tg) ^ 2 - (omega / hs.cP.re) ^ 2, 0⟩ := by
    rw [Cpx.ext_iff2]
    simp only [SQ, Cpx.sub_re, Cpx.sub_im, Cpx.mul_re, Cpx.mul_im, Cpx.div_re, Cpx.div_im,
      Cpx.ofReal_re, Cpx.ofReal_im, hcP]
    constructor
    · by_cases h0 : hs.cP.re = 0
      · simp [h0]; ring
      · field_simp
        ring
    · ring
  obtain ⟨him, hre⟩ := hsqrt ((omega * Tg) ^ 2 - (omega / hs.cP.re) ^ 2) (sub_pos.mpr hcrit)
  have hk : m.csqrt (SQ (Cpx.ofReal (omega * Tg)) - SQ (Cpx.ofReal omega / hs.cP))
      = ⟨(m.csqrt ⟨(omega * Tg) ^ 2 - (omega / hs.cP.re) ^ 2, 0⟩).re, 0⟩ := by
    rw [harg, Cpx.ext_iff2]
    exact ⟨rfl, him⟩
  refine ⟨_, hre, hk, ?_⟩
  have hbr : ¬ ((m.csqrt ⟨(omega * Tg) ^ 2 - (omega / hs.cP.re) ^ 2, 0⟩).re = 0 ∧
      (0 : K) < 0) := fun h => absurd h.2 (lt_irrefl _)
  unfold ReflCoef2D
  simp only [if_neg (not_lt.mpr hcS), hk, if_neg hbr]
  rw [Cpx.ext_iff2]
  simp only [Cpx.div_re, Cpx.div_im, Cpx.neg_re, Cpx.neg_im, Cpx.sub_re, Cpx.sub_im,
    Cpx.add_re, Cpx.add_im, Cpx.smul_re, Cpx.smul_im, Cpx.mul_re, Cpx.mul_im, Cpx.J_re,
    Cpx.J_im, Cpx.ofReal_re, Cpx.ofReal_im, Cpx.conj]
  constructor <;> ring_nf

/-- Components of a difference of `vec3`. -/
theorem vec3_sub {K : Type} [LinearOrderedField K] (a b : Vec3 K) :
    a - b = ⟨a.x - b.x, a.y - b.y, a.z - b.z⟩ := rfl

/-- Components of the product of a `real` and a `vec3`. -/
theorem vec3_smul {K : Type} [LinearOrderedField K] (s : K) (a : Vec3 K) :
    s • a = ⟨s * a.x, s * a.y, s * a.z⟩ := rfl

/-- A read of the table fails only as a read outside the table. -/
theorem entry_fault {K : Type} (rtb : ReflectionInfoTopBot K) (i : Int) (e : Fault)
    (h : rtb.entry i = .error e) : e = .outOfBounds := by
  unfold ReflectionInfoTopBot.entry at h
  split_ifs at h
  · split at h
    · cases h
    · cases h; rfl
  · cases h; rfl

/-- The bisection loop never ends in the "unknown boundary condition"
fault. -/
theorem bisectLoop_fault {K : Type} [LinearOrderedField K] (rtb : ReflectionInfoTopBot K)
    (θ : K) : ∀ (fuel : Nat) (iL iR : Int),
      bisectLoop rtb θ fuel iL iR ≠ .error .unknownBC := by
  intro fuel
  induction fuel with
  | zero =>
    intro iL iR h
    unfold bisectLoop at h
    split_ifs at h
    cases h
  | succ n ih =>
    intro iL iR h
    unfold bisectLoop at h
    split_ifs at h with h1
    dsimp only at h
    split at h
    · rename_i e he
      have := entry_fault rtb _ e he
      subst this
      cases h
    · split_ifs at h
      · exact ih _ _ h
      · exact ih _ _ h

/-- The interpolator never ends in the "unknown boundary condition" fault. -/
theorem interp_fault {K : Type} [LinearOrderedField K] (fuel : Nat) (RInt : ReflectionCoef K)
    (rtb : ReflectionInfoTopBot K) :
    InterpolateReflectionCoefficient fuel RInt rtb ≠ .error .unknownBC := by
  intro h
  unfold InterpolateReflectionCoefficient at h
  dsimp only at h
  split at h
  · rename_i e he
    have := entry_fault rtb _ e he
    subst this
    cases h
  · split_ifs at h
    split at h
    · rename_i e he
      have := entry_fault rtb _ e he
      subst this
      cases h
    · split_ifs at h
      split at h
      · rename_i e he
        cases h
        exact bisectLoop_fault rtb _ _ _ _ he
      · split at h
        · cases h
        · cases h

/-- The amplitude and phase block of a 2D ray ends in the "unknown boundary
condition" fault exactly for a tag outside `R`, `V`, `F`, `A`, `G`. -/
theorem ampPhase2_unknown_iff {K : Type} [LinearOrderedField K] {P : Type} [Add P]
    [SMul K P] (m : STD K) (O3D : Bool) (fuel : Nat)
    (oldPoint : rayPt2 K P) (hs : HSInfo K) (Th Tg : K) (tBdry : Vec2 K)
    (o : SSPOutputs2 K) (freq : K) (rtb : ReflectionInfoTopBot K)
    (Beam : BeamStructure) (np0 : rayPt2 K P) :
    ampPhase2 m O3D fuel oldPoint hs Th Tg tBdry o freq rtb Beam np0 = .error .unknownBC ↔
      ¬ (hs.bc = 'R' ∨ hs.bc = 'V' ∨ hs.bc = 'F' ∨ hs.bc = 'A' ∨ hs.bc = 'G') := by
  constructor
  · intro h hbc
    rcases hbc with hR | hV | hF | hA | hG
    · rw [ampPhase2_R m O3D fuel oldPoint hs Th Tg tBdry o freq rtb Beam np0 hR] at h
      cases h
    · obtain ⟨np, hnp⟩ := (ampPhase2_ok_iff m O3D fuel oldPoint hs Th Tg tBdry o freq rtb Beam
        np0).mpr (Or.inr (Or.inl hV))
      rw [hnp] at h
      cases h
    · rw [ampPhase2_F m O3D fuel oldPoint hs Th Tg tBdry o freq rtb Beam np0 hF] at h
      split at h
      · rename_i e he
        cases h
        exact interp_fault _ _ _ he
      · cases h
    · obtain ⟨np, hnp⟩ := (ampPhase2_ok_iff m O3D fuel oldPoint hs Th Tg tBdry o freq rtb Beam
        np0).mpr (Or.inr (Or.inr (Or.inl hA)))
      rw [hnp] at h
      cases h
    · obtain ⟨np, hnp⟩ := (ampPhase2_ok_iff m O3D fuel oldPoint hs Th Tg tBdry o freq rtb Beam
        np0).mpr (Or.inr (Or.inr (Or.inr (Or.inl hG))))
      rw [hnp] at h
      cases h
  · intro h
    have hR : hs.bc ≠ 'R' := fun e => h (Or.inl e)
    have hV : hs.bc ≠ 'V' := fun e => h (Or.inr (Or.inl e))
    have hF : hs.bc ≠ 'F' := fun e => h (Or.inr (Or.inr (Or.inl e)))
    have hAG : ¬ (hs.bc = 'A' ∨ hs.bc = 'G') := fun e => h (Or.inr (Or.inr (Or.inr e)))
    unfold ampPhase2
    rw [if_neg hR, if_neg hV, if_neg hF, if_neg hAG]

/-- The amplitude and phase block of a 3D ray ends in the "unknown boundary
condition" fault exactly for a tag outside `R`, `V`, `F`, `A`, `G`. -/
theorem ampPhase3_unknown_iff {K : Type} [LinearOrderedField K] {P : Type}
    (m : STD K) (fuel : Nat)
    (oldPoint : rayPt3 K P) (hs : HSInfo K) (Th Tg : K) (nBdry : Vec3 K)
    (o : SSPOutputs3 K) (freq : K) (rtb : ReflectionInfoTopBot K)
    (np0 : rayPt3 K P) :
    ampPhase3 m fuel oldPoint hs Th Tg nBdry o freq rtb np0 = .error .unknownBC ↔
      ¬ (hs.bc = 'R' ∨ hs.bc = 'V' ∨ hs.bc = 'F' ∨ hs.bc = 'A' ∨ hs.bc = 'G') := by
  constructor
  · intro h hbc
    by_cases hF : hs.bc = 'F'
    · have hR : hs.bc ≠ 'R' := by rw [hF]; decide
      have hV : hs.bc ≠ 'V' := by rw [hF]; decide
      unfold ampPhase3 at h
      rw [if_neg hR, if_neg hV, if_pos hF] at h
      split at h
      · rename_i e he
        cases h
        exact interp_fault _ _ _ he
      · cases h
    · have hk : hs.bc = 'R' ∨ hs.bc = 'V' ∨ hs.bc = 'A' ∨ hs.bc = 'G' := by
        rcases hbc with a | a | a | a | a
        · exact Or.inl a
        · exact Or.inr (Or.inl a)
        · exact absurd a hF
        · exact Or.inr (Or.inr (Or.inl a))
        · exact Or.inr (Or.inr (Or.inr a))
      obtain ⟨np, hnp⟩ := (ampPhase3_ok_iff m fuel oldPoint hs Th Tg nBdry o freq rtb
        np0).mpr (bc_known hk _)
      rw [hnp] at h
      cases h
  · intro h
    have hR : hs.bc ≠ 'R' := fun e => h (Or.inl e)
    have hV : hs.bc ≠ 'V' := fun e => h (Or.inr (Or.inl e))
    have hF : hs.bc ≠ 'F' := fun e => h (Or.inr (Or.inr (Or.inl e)))
    have hAG : ¬ (hs.bc = 'A' ∨ hs.bc = 'G') := fun e => h (Or.inr (Or.inr (Or.inr e)))
    unfold ampPhase3
    rw [if_neg hR, if_neg hV, if_neg hF, if_neg hAG]

/-- The amplitude and phase block of a 2D ray does for the tag `G` what it
does for the tag `A`. -/
theorem ampPhase2_G {K : Type} [LinearOrderedField K] {P : Type} [Add P]
    [SMul K P] (m : STD K) (O3D : Bool) (fuel : Nat)
    (oldPoint : rayPt2 K P) (hs : HSInfo K) (Th Tg : K) (tBdry : Vec2 K)
    (o : SSPOutputs2 K) (freq : K) (rtb : ReflectionInfoTopBot K)
    (Beam : BeamStructure) (np0 : rayPt2 K P) (hG : hs.bc = 'G') :
    ampPhase2 m O3D fuel oldPoint hs Th Tg tBdry o freq rtb Beam np0
      = ampPhase2 m O3D fuel oldPoint { hs with bc := 'A' } Th Tg tBdry o freq rtb Beam
          np0 := by
  have hR : hs.bc ≠ 'R' := by rw [hG]; decide
  have hV : hs.bc ≠ 'V' := by rw [hG]; decide
  have hF : hs.bc ≠ 'F' := by rw [hG]; decide
  have hAG : hs.bc = 'A' ∨ hs.bc = 'G' := Or.inr hG
  have hR2 : ¬ ('A' : Char) = 'R' := by decide
  have hV2 : ¬ ('A' : Char) = 'V' := by decide
  have hF2 : ¬ ('A' : Char) = 'F' := by decide
  have hAG2 : ('A' : Char) = 'A' ∨ ('A' : Char) = 'G' := Or.inl rfl
  simp only [ampPhase2, ReflCoef2D, ReflCoefO3D, beamDisplacement, if_neg hR, if_neg hV,
    if_neg hF, if_pos hAG, if_neg hR2, if_neg hV2, if_neg hF2, if_pos hAG2, true_or, if_true]

/-- The amplitude and phase block of a 3D ray does for the tag `G` what it
does for the tag `A`. -/
theorem ampPhase3_G {K : Type} [LinearOrderedField K] {P : Type}
    (m : STD K) (fuel : Nat)
    (oldPoint : rayPt3 K P) (hs : HSInfo K) (Th Tg : K) (nBdry : Vec3 K)
    (o : SSPOutputs3 K) (freq : K) (rtb : ReflectionInfoTopBot K)
    (np0 : rayPt3 K P) (hG : hs.bc = 'G') :
    ampPhase3 m fuel oldPoint hs Th Tg nBdry o freq rtb np0
      = ampPhase3 m fuel oldPoint { hs with bc := 'A' } Th Tg nBdry o freq rtb np0 := by
  have hR : hs.bc ≠ 'R' := by rw [hG]; decide
  have hV : hs.bc ≠ 'V' := by rw [hG]; decide
  have hF : hs.bc ≠ 'F' := by rw [hG]; decide
  have hAG : hs.bc = 'A' ∨ hs.bc = 'G' := Or.inr hG
  have hR2 : ¬ ('A' : Char) = 'R' := by decide
  have hV2 : ¬ ('A' : Char) = 'V' := by decide
  have hF2 : ¬ ('A' : Char) = 'F' := by decide
  have hAG2 : ('A' : Char) = 'A' ∨ ('A' : Char) = 'G' := Or.inl rfl
  simp only [ampPhase3, ReflCoefO3D, if_neg hR, if_neg hV, if_neg hF, if_pos hAG,
    if_neg hR2, if_neg hV2, if_neg hF2, if_pos hAG2, true_or, if_true]

/-! ### The eigenray worker and the source counts -/

/-- One pass through the loop of `EigenModePostWorker`. -/
theorem worker_step {S : Type} (RunRay : S → Int → Int → RayInitInfo → Int → S × Bool)
    (eigen : EigenInfo) (worker : Int) (fuel : Nat) (s : PostState S) :
    EigenModePostWorker RunRay eigen worker (fuel + 1) s
      = if s.sharedJobID ≥ min eigen.neigen eigen.memsize then
          some { s with sharedJobID := s.sharedJobID + 1 }
        else if (RunRay s.rayinfo s.sharedJobID worker
            (workerCall eigen worker s.sharedJobID true).rinit
            (workerCall eigen worker s.sharedJobID true).Nsteps).2 = false then
          some { sharedJobID := s.sharedJobID + 1,
                 rayinfo := (RunRay s.rayinfo s.sharedJobID worker
                   (workerCall eigen worker s.sharedJobID true).rinit
                   (workerCall eigen worker s.sharedJobID true).Nsteps).1,
                 reads := s.reads ++ [s.sharedJobID],
                 calls := s.calls ++ [workerCall eigen worker s.sharedJobID false] }
        else
          EigenModePostWorker RunRay eigen worker fuel
            { sharedJobID := s.sharedJobID + 1,
              rayinfo := (RunRay s.rayinfo s.sharedJobID worker
                (workerCall eigen worker s.sharedJobID true).rinit
                (workerCall eigen worker s.sharedJobID true).Nsteps).1,
              reads := s.reads ++ [s.sharedJobID],
              calls := s.calls ++ [workerCall eigen worker s.sharedJobID true] } := by
  by_cases hge : s.sharedJobID ≥ min eigen.neigen eigen.memsize
  · simp only [EigenModePostWorker, if_pos hge]
  · cases hr : (RunRay s.rayinfo s.sharedJobID worker
        (workerCall eigen worker s.sharedJobID true).rinit
        (workerCall eigen worker s.sharedJobID true).Nsteps).2 with
    | false =>
      simp only [workerCall] at hr
      simp only [EigenModePostWorker, if_neg hge, workerCall, hr, Bool.not_false, if_true]
    | true =>
      simp only [workerCall] at hr
      simp only [EigenModePostWorker, if_neg hge, workerCall, hr, Bool.not_true,
        Bool.false_eq_true, if_false, Bool.true_eq_false]

/-- The run of one worker from the counter value `j` with `n` jobs left
below `min(neigen, memsize)`: the calls it adds are for the jobs `j`, `j+1`,
... in order, every one but possibly the last returned `true`, and `n + 1`
passes through the loop are enough. -/
theorem worker_run {S : Type} (RunRay : S → Int → Int → RayInitInfo → Int → S × Bool)
    (eigen : EigenInfo) (worker : Int) :
    ∀ (n : Nat) (s : PostState S) (j : Nat), s.sharedJobID = j →
      (j : Int) + n = min eigen.neigen eigen.memsize →
      ∃ (final : PostState S) (Lok tail : List RunRayCall),
        (∀ fuel, n + 1 ≤ fuel →
          EigenModePostWorker RunRay eigen worker fuel s = some final) ∧
        final.calls = s.calls ++ (Lok ++ tail) ∧
        final.reads = s.reads ++ (Lok ++ tail).map (fun c => c.job) ∧
        (Lok ++ tail).map (fun c => c.job)
          = List.map Int.ofNat (List.range' j (Lok ++ tail).length) ∧
        (Lok ++ tail).length ≤ n ∧
        (∀ c ∈ Lok ++ tail, c = workerCall eigen worker c.job c.ok) ∧
        (∀ c ∈ Lok, c.ok = true) ∧
        ((tail = [] ∧ final.sharedJobID = j + (Lok ++ tail).length + 1 ∧
            (Lok ++ tail).length = n) ∨
          (∃ c, tail = [c] ∧ c.ok = false ∧
            final.sharedJobID = j + (Lok ++ tail).length)) := by
  intro n
  induction n with
  | zero =>
    intro s j hs hM
    refine ⟨{ s with sharedJobID := s.sharedJobID + 1 }, [], [], fun fuel hf => ?_, by simp,
      by simp, by simp, by simp, by simp, by simp, Or.inl ⟨rfl, by simp [hs], rfl⟩⟩
    obtain ⟨f, rfl⟩ : ∃ f, fuel = f + 1 := ⟨fuel - 1, by omega⟩
    have hge : s.sharedJobID ≥ min eigen.neigen eigen.memsize := by
      rw [← hM, hs]; simp
    rw [worker_step, if_pos hge]
  | succ n ih =>
    intro s j hs hM
    have hlt : ¬ s.sharedJobID ≥ min eigen.neigen eigen.memsize := by
      rw [← hM, hs]; push_cast; omega
    by_cases hr : (RunRay s.rayinfo s.sharedJobID worker
        (workerCall eigen worker s.sharedJobID true).rinit
        (workerCall eigen worker s.sharedJobID true).Nsteps).2 = false
    · refine ⟨{ sharedJobID := s.sharedJobID + 1,
                 rayinfo := (RunRay s.rayinfo s.sharedJobID worker
                   (workerCall eigen worker s.sharedJobID true).rinit
                   (workerCall eigen worker s.sharedJobID true).Nsteps).1,
                 reads := s.reads ++ [s.sharedJobID],
                 calls := s.calls ++ [workerCall eigen worker s.sharedJobID false] },
        [], [workerCall eigen worker s.sharedJobID false], fun fuel hf => ?_, rfl, rfl, ?_,
        by simp, ?_, by simp, Or.inr ⟨_, rfl, rfl, ?_⟩⟩
      · obtain ⟨f, rfl⟩ : ∃ f, fuel = f + 1 := ⟨fuel - 1, by omega⟩
        rw [worker_step, if_neg hlt, if_pos hr]
      · simp [hs, workerCall]
      · intro c hc
        simp only [List.nil_append, List.mem_singleton] at hc
        subst hc
        rfl
      · simp [hs]
    · obtain ⟨final, Lok, tail, h1, h2, h3, h4, h5, h6, h7, h8⟩ :=
        ih { sharedJobID := s.sharedJobID + 1,
             rayinfo := (RunRay s.rayinfo s.sharedJobID worker
               (workerCall eigen worker s.sharedJobID true).rinit
               (workerCall eigen worker s.sharedJobID true).Nsteps).1,
             reads := s.reads ++ [s.sharedJobID],
             calls := s.calls ++ [workerCall eigen worker s.sharedJobID true] }
          (j + 1) (by simp [hs]) (by push_cast at hM ⊢; omega)
      refine ⟨final, workerCall eigen worker s.sharedJobID true :: Lok,
        tail, fun fuel hf => ?_, ?_, ?_, ?_, ?_, ?_, ?_, ?_⟩
      · obtain ⟨f, rfl⟩ : ∃ f, fuel = f + 1 := ⟨fuel - 1, by omega⟩
        rw [worker_step, if_neg hlt, if_neg hr]
        exact h1 f (by omega)
      · rw [h2]; simp
      · rw [h3]; simp [workerCall]
      · simp only [List.cons_append, List.map_cons, List.length_cons, List.range'_succ]
        rw [h4, hs]
        rfl
      · simp only [List.cons_append, List.length_cons]; omega
      · intro c hc
        simp only [List.cons_append, List.mem_cons] at hc
        rcases hc with hc | hc
        · subst hc
          rfl
        · exact h6 c hc
      · intro c hc
        simp only [List.mem_cons] at hc
        rcases hc with hc | hc
        · subst hc; rfl
        · exact h7 c hc
      · rcases h8 with ⟨a, b, c⟩ | ⟨c, a, b, d⟩
        · refine Or.inl ⟨a, ?_, ?_⟩
          · rw [b]; simp only [List.cons_append, List.length_cons]; push_cast; ring
          · simp only [List.cons_append, List.length_cons]; omega
        · refine Or.inr ⟨c, a, b, ?_⟩
          rw [d]; simp only [List.cons_append, List.length_cons]; push_cast; ring

/-- An `int32_t` value is left as it is by the reduction to 32 bits. -/
theorem wrapInt32_id (v : Int) (h0 : -2 ^ 31 ≤ v) (h1 : v < 2 ^ 31) : wrapInt32 v = v := by
  unfold wrapInt32
  have h : (v + 2 ^ 31) % 2 ^ 32 = v + 2 ^ 31 :=
    Int.emod_eq_of_lt (by omega) (by omega)
  rw [h]
  ring

/-! ### Options with a value and the data of the eigenray worker -/

/-- The options `--gpu=value` and `-gpu=value`, with a value that `isInt`
accepts and `std::stoi` reads as `v`, set `init.gpuIndex = v` and nothing
else. -/
theorem parseArg_gpu (lib : CmdLib) (st : MainState) (value : List Char) (v : Int)
    (hi : lib.isInt value false = true) (hv : lib.stoi value = some v) :
    parseArg lib st ("--gpu=".toList ++ value)
      = .ok { st with init := { st.init with gpuIndex := v } } ∧
    parseArg lib st ("-gpu=".toList ++ value)
      = .ok { st with init := { st.init with gpuIndex := v } } := by
  constructor <;> simp [parseArg, strFind, hi, hv]

/-- Whether the memory parser takes a value does not depend on the state,
and it writes `init.maxMemory` only. -/
theorem parseMemory_frame (lib : CmdLib) (st0 st : MainState) (value : List Char)
    (st1 : MainState) (h : parseMemory lib st0 value = .ok st1) :
    parseMemory lib st value
      = .ok { st with init := { st.init with maxMemory := st1.init.maxMemory } } := by
  unfold parseMemory at h ⊢
  revert h
  lift_lets
  intro m b v1 bv b2 v2 mv m2 v3 src
  clear_value m2 v3
  by_cases hi : lib.isInt v3 false = true
  · simp only [hi, not_true_eq_false, if_false]
    cases hs : lib.stoi v3 with
    | none => intro h; cases h
    | some v =>
      intro h
      cases h
      rfl
  · simp only [hi, not_false_eq_true, if_true]
    intro h
    cases h

/-- A `gpu` option with a value the parser takes sets `init.gpuIndex` and
nothing else. -/
theorem parseArg_gpuOption (lib : CmdLib) (st : MainState) (a : List Char)
    (h : spec_isGpuOption lib a = true) :
    ∃ v, parseArg lib st a = .ok { st with init := { st.init with gpuIndex := v } } := by
  simp only [spec_isGpuOption, Bool.or_eq_true, Bool.and_eq_true, decide_eq_true_eq,
    Option.isSome_iff_exists] at h
  rcases h with ⟨⟨ht, hi⟩, v, hv⟩ | ⟨⟨ht, hi⟩, v, hv⟩
  · have ha : a = "--gpu=".toList ++ a.drop 6 := by
      rw [← ht]; exact (List.take_append_drop 6 a).symm
    rw [ha]
    exact ⟨v, (parseArg_gpu lib st _ v hi hv).1⟩
  · have ha : a = "-gpu=".toList ++ a.drop 5 := by
      rw [← ht]; exact (List.take_append_drop 5 a).symm
    rw [ha]
    exact ⟨v, (parseArg_gpu lib st _ v hi hv).2⟩

/-- A `mem` option with a value the parser takes sets `init.maxMemory` and
nothing else. -/
theorem parseArg_memOption (lib : CmdLib) (st : MainState) (a : List Char)
    (h : spec_isMemOption lib a = true) :
    ∃ M, parseArg lib st a = .ok { st with init := { st.init with maxMemory := M } } := by
  have hval : ∀ value, spec_memValueTaken lib value = true →
      ∃ M, parseMemory lib st value
        = .ok { st with init := { st.init with maxMemory := M } } := by
    intro value hv
    unfold spec_memValueTaken at hv
    split at hv
    · rename_i st1 h1
      exact ⟨_, parseMemory_frame lib _ st value st1 h1⟩
    · cases hv
  simp only [spec_isMemOption, Bool.or_eq_true, Bool.and_eq_true, decide_eq_true_eq] at h
  rcases h with ⟨ht, hv⟩ | ⟨ht, hv⟩
  · have ha : a = "--mem=".toList ++ a.drop 6 := by
      rw [← ht]; exact (List.take_append_drop 6 a).symm
    rw [ha, (parseArg_mem lib st _).1]
    exact hval _ hv
  · have ha : a = "-mem=".toList ++ a.drop 5 := by
      rw [← ht]; exact (List.take_append_drop 5 a).symm
    rw [ha, (parseArg_mem lib st _).2]
    exact hval _ hv

/-- An option with a value starts with a dash and is neither a thread flag
nor a dimension flag. -/
theorem valueOption_not_flag (lib : CmdLib) (a : List Char)
    (h : spec_isGpuOption lib a = true ∨ spec_isMemOption lib a = true) :
    a.head? = some '-' ∧ spec_isThreadFlag a = false ∧ spec_dimFlag a = none := by
  have hpre : a.take 5 = "--gpu".toList ∨ a.take 5 = "-gpu=".toList
      ∨ a.take 5 = "--mem".toList ∨ a.take 5 = "-mem=".toList := by
    rcases h with h | h
    · simp only [spec_isGpuOption, Bool.or_eq_true, Bool.and_eq_true, decide_eq_true_eq] at h
      rcases h with ⟨⟨ht, -⟩, -⟩ | ⟨⟨ht, -⟩, -⟩
      · left
        have := congrArg (List.take 5) ht
        simpa [List.take_take] using this
      · exact Or.inr (Or.inl ht)
    · simp only [spec_isMemOption, Bool.or_eq_true, Bool.and_eq_true, decide_eq_true_eq] at h
      rcases h with ⟨ht, -⟩ | ⟨ht, -⟩
      · right; right; left
        have := congrArg (List.take 5) ht
        simpa [List.take_take] using this
      · exact Or.inr (Or.inr (Or.inr ht))
  refine ⟨?_, ?_, ?_⟩
  · cases a with
    | nil => rcases hpre with h | h | h | h <;> simp at h
    | cons c cs =>
      rcases hpre with h | h | h | h <;>
      · simp only [List.take_succ_cons] at h
        have := (List.cons.inj h).1
        simp [this]
  · cases ht : spec_isThreadFlag a with
    | false => rfl
    | true =>
      exfalso
      simp only [spec_isThreadFlag, decide_eq_true_eq] at ht
      rcases ht with ht | ht | ht | ht <;> subst ht <;>
        rcases hpre with h | h | h | h <;> revert h <;> decide
  · cases hd : spec_dimFlag a with
    | none => rfl
    | some d =>
      exfalso
      unfold spec_dimFlag at hd
      split_ifs at hd with h1 h2 h3
      · rcases h1 with ht | ht | ht | ht <;> subst ht <;>
          rcases hpre with h | h | h | h <;> revert h <;> decide
      · rcases h2 with ht | ht | ht | ht | ht | ht | ht | ht <;> subst ht <;>
          rcases hpre with h | h | h | h <;> revert h <;> decide
      · rcases h3 with ht | ht | ht | ht <;> subst ht <;>
          rcases hpre with h | h | h | h <;> revert h <;> decide

/-- The loop body of `main` for one argument that is the `FileRoot` (none
seen before), a thread flag, a dimension flag or an option with a value the
parser takes: it returns, and what it changes. -/
theorem parseArg_recognised (lib : CmdLib) (root : List Char)
    (hroot : root.head? ≠ some '-') (st : MainState) (a : List Char)
    (ha : a = root ∨ spec_isThreadFlag a = true ∨ (spec_dimFlag a).isSome = true ∨
      spec_isGpuOption lib a = true ∨ spec_isMemOption lib a = true)
    (hfirst : a = root → st.FileRoot = []) :
    ∃ st1, parseArg lib st a = .ok st1 ∧
      st1.dimmode = (spec_dimFlag a).getD st.dimmode ∧
      st1.init.numThreads = (if spec_isThreadFlag a then 1 else st.init.numThreads) ∧
      st1.init.FileRoot = st.init.FileRoot ∧
      st1.FileRoot = (if a = root then root else st.FileRoot) ∧
      (spec_isGpuOption lib a = false → st1.init.gpuIndex = st.init.gpuIndex) ∧
      (spec_isMemOption lib a = false → st1.init.maxMemory = st.init.maxMemory) := by
  rcases ha with ha | ha | ha | ha | ha
  · subst ha
    obtain ⟨hnt, hnd⟩ := root_not_flag a hroot
    refine ⟨_, parseArg_root lib st a hroot (hfirst rfl), ?_, ?_, rfl, ?_, fun _ => rfl,
      fun _ => rfl⟩
    · rw [hnd]; rfl
    · rw [hnt]; rfl
    · simp
  · have hne : a ≠ root := by
      intro he; rw [he] at ha; rw [(root_not_flag root hroot).1] at ha; cases ha
    refine ⟨_, parseArg_thread lib st a ha, ?_, ?_, rfl, ?_, fun _ => rfl, fun _ => rfl⟩
    · rw [thread_not_dim a ha]; rfl
    · rw [ha]; rfl
    · rw [if_neg hne]
  · obtain ⟨d, hd⟩ := Option.isSome_iff_exists.mp ha
    have hne : a ≠ root := by
      intro he; rw [he] at hd; rw [(root_not_flag root hroot).2] at hd; cases hd
    refine ⟨_, parseArg_dim lib st a d hd, ?_, ?_, rfl, ?_, fun _ => rfl, fun _ => rfl⟩
    · rw [hd]; rfl
    · rw [dim_not_thread a ha]; rfl
    · rw [if_neg hne]
  · obtain ⟨hh, hnt, hnd⟩ := valueOption_not_flag lib a (Or.inl ha)
    have hne : a ≠ root := fun he => hroot (he ▸ hh)
    obtain ⟨v, hv⟩ := parseArg_gpuOption lib st a ha
    refine ⟨_, hv, ?_, ?_, rfl, ?_, fun h => ?_, fun _ => rfl⟩
    · rw [hnd]; rfl
    · rw [hnt]; rfl
    · rw [if_neg hne]
    · rw [ha] at h; cases h
  · obtain ⟨hh, hnt, hnd⟩ := valueOption_not_flag lib a (Or.inr ha)
    have hne : a ≠ root := fun he => hroot (he ▸ hh)
    obtain ⟨M, hM⟩ := parseArg_memOption lib st a ha
    refine ⟨_, hM, ?_, ?_, rfl, ?_, fun _ => rfl, fun h => ?_⟩
    · rw [hnd]; rfl
    · rw [hnt]; rfl
    · rw [if_neg hne]
    · rw [ha] at h; cases h

/-- The loop of `main` over arguments that are the one `FileRoot`, thread
flags, dimension flags and options with a value the parser takes, from any
state: the options with a value leave `dimmode`, `numThreads` and both
`FileRoot`s alone. -/
theorem parseArgs_recognised (lib : CmdLib) (root : List Char)
    (hroot : root ≠ [] ∧ root.head? ≠ some '-') :
    ∀ (argv : List (List Char)) (st : MainState),
      (∀ a ∈ argv, a = root ∨ spec_isThreadFlag a = true ∨ (spec_dimFlag a).isSome = true ∨
        spec_isGpuOption lib a = true ∨ spec_isMemOption lib a = true) →
      argv.count root + (if st.FileRoot = [] then 0 else 1) ≤ 1 →
      ∃ st1, parseArgs lib st argv = .ok st1 ∧
        st1.dimmode = (argv.filterMap spec_dimFlag).getLast?.getD st.dimmode ∧
        st1.init.numThreads
          = (if argv.any spec_isThreadFlag then 1 else st.init.numThreads) ∧
        st1.init.FileRoot = st.init.FileRoot ∧
        st1.FileRoot = (if root ∈ argv then root else st.FileRoot) ∧
        ((∀ a ∈ argv, spec_isGpuOption lib a = false) →
          st1.init.gpuIndex = st.init.gpuIndex) ∧
        ((∀ a ∈ argv, spec_isMemOption lib a = false) →
          st1.init.maxMemory = st.init.maxMemory) := by
  intro argv
  induction argv with
  | nil =>
    intro st _ _
    exact ⟨st, rfl, rfl, rfl, rfl, by simp, fun _ => rfl, fun _ => rfl⟩
  | cons a rest ih =>
    intro st hargs hcount
    have hrest : ∀ a ∈ rest, a = root ∨ spec_isThreadFlag a = true ∨
        (spec_dimFlag a).isSome = true ∨ spec_isGpuOption lib a = true ∨
        spec_isMemOption lib a = true := fun x hx => hargs x (List.mem_cons_of_mem _ hx)
    have hfirst : a = root → st.FileRoot = [] := by
      intro he
      by_contra hne
      rw [he, List.count_cons_self, if_neg hne] at hcount
      omega
    obtain ⟨st0, p1, p2, p3, p4, p5, p6, p7⟩ :=
      parseArg_recognised lib root hroot.2 st a (hargs a (List.mem_cons_self _ _)) hfirst
    have hcount0 : rest.count root + (if st0.FileRoot = [] then 0 else 1) ≤ 1 := by
      rw [p5]
      by_cases he : a = root
      · rw [if_pos he, if_neg hroot.1]
        rw [he, List.count_cons_self, if_pos (hfirst he)] at hcount
        omega
      · rw [if_neg he]
        rw [List.count_cons_of_ne (Ne.symm he)] at hcount
        exact hcount
    obtain ⟨st1, h1, h2, h3, h4, h5, h6, h7⟩ := ih st0 hrest hcount0
    refine ⟨st1, ?_, ?_, ?_, h4.trans p4, ?_, fun hg => ?_, fun hm => ?_⟩
    · simp only [parseArgs, p1]; exact h1
    · rw [h2, p2]
      cases hd : spec_dimFlag a with
      | none => simp [List.filterMap_cons, hd]
      | some d =>
        simp only [List.filterMap_cons, hd, Option.getD_some]
        rw [getLast_getD_cons]
    · rw [h3, p3]
      cases ht : spec_isThreadFlag a <;> cases hr : rest.any spec_isThreadFlag <;>
        simp [List.any_cons, ht, hr]
    · rw [h5, p5]
      by_cases he : a = root
      · simp [he]
      · by_cases hm : root ∈ rest
        · simp [hm]
        · simp [hm, he, Ne.symm he]
    · rw [h6 (fun x hx => hg x (List.mem_cons_of_mem _ hx)),
        p6 (hg a (List.mem_cons_self _ _))]
    · rw [h7 (fun x hx => hm x (List.mem_cons_of_mem _ hx)),
        p7 (hm a (List.mem_cons_self _ _))]

/-- The run of one worker from the counter value `j` with `n` jobs left
below `min(neigen, memsize)`, with the data `RunRay` works on: the data
states `sts` start at the data on entry and end at the data on return, call
`i` is made on state `i`, its flag is the `bool` that `RunRay` returned there
and state `i + 1` is the data `RunRay` left. -/
theorem worker_trace {S : Type} (RunRay : S → Int → Int → RayInitInfo → Int → S × Bool)
    (eigen : EigenInfo) (worker : Int) :
    ∀ (n : Nat) (s : PostState S) (j : Nat), s.sharedJobID = j →
      (j : Int) + n = min eigen.neigen eigen.memsize →
      ∃ (final : PostState S) (Lok tail : List RunRayCall) (sts : List S),
        (∀ fuel, n + 1 ≤ fuel →
          EigenModePostWorker RunRay eigen worker fuel s = some final) ∧
        final.calls = s.calls ++ (Lok ++ tail) ∧
        final.reads = s.reads ++ (Lok ++ tail).map (fun c => c.job) ∧
        (Lok ++ tail).map (fun c => c.job)
          = List.map Int.ofNat (List.range' j (Lok ++ tail).length) ∧
        (Lok ++ tail).length ≤ n ∧
        (∀ c ∈ Lok ++ tail, c = workerCall eigen worker c.job c.ok) ∧
        (∀ c ∈ Lok, c.ok = true) ∧
        ((tail = [] ∧ final.sharedJobID = j + (Lok ++ tail).length + 1 ∧
            (Lok ++ tail).length = n) ∨
          (∃ c, tail = [c] ∧ c.ok = false ∧
            final.sharedJobID = j + (Lok ++ tail).length)) ∧
        sts.length = (Lok ++ tail).length + 1 ∧
        sts[0]? = some s.rayinfo ∧
        sts[(Lok ++ tail).length]? = some final.rayinfo ∧
        (∀ (i : Nat) (c : RunRayCall) (st : S), (Lok ++ tail)[i]? = some c →
          sts[i]? = some st →
          c.ok = (RunRay st c.job worker c.rinit c.Nsteps).2 ∧
          sts[i + 1]? = some (RunRay st c.job worker c.rinit c.Nsteps).1) := by
  intro n
  induction n with
  | zero =>
    intro s j hs hM
    refine ⟨{ s with sharedJobID := s.sharedJobID + 1 }, [], [], [s.rayinfo],
      fun fuel hf => ?_, by simp, by simp, by simp, by simp, by simp, by simp,
      Or.inl ⟨rfl, by simp [hs], rfl⟩, rfl, rfl, rfl, ?_⟩
    · obtain ⟨f, rfl⟩ : ∃ f, fuel = f + 1 := ⟨fuel - 1, by omega⟩
      have hge : s.sharedJobID ≥ min eigen.neigen eigen.memsize := by
        rw [← hM, hs]; simp
      rw [worker_step, if_pos hge]
    · intro i c st hc
      simp at hc
  | succ n ih =>
    intro s j hs hM
    have hlt : ¬ s.sharedJobID ≥ min eigen.neigen eigen.memsize := by
      rw [← hM, hs]; push_cast; omega
    by_cases hr : (RunRay s.rayinfo s.sharedJobID worker
        (workerCall eigen worker s.sharedJobID true).rinit
        (workerCall eigen worker s.sharedJobID true).Nsteps).2 = false
    · refine ⟨{ sharedJobID := s.sharedJobID + 1,
                 rayinfo := (RunRay s.rayinfo s.sharedJobID worker
                   (workerCall eigen worker s.sharedJobID true).rinit
                   (workerCall eigen worker s.sharedJobID true).Nsteps).1,
                 reads := s.reads ++ [s.sharedJobID],
                 calls := s.calls ++ [workerCall eigen worker s.sharedJobID false] },
        [], [workerCall eigen worker s.sharedJobID false],
        [s.rayinfo, (RunRay s.rayinfo s.sharedJobID worker
                   (workerCall eigen worker s.sharedJobID true).rinit
                   (workerCall eigen worker s.sharedJobID true).Nsteps).1],
        fun fuel hf => ?_, rfl, rfl, ?_,
        by simp, ?_, by simp, Or.inr ⟨_, rfl, rfl, ?_⟩, rfl, rfl, rfl, ?_⟩
      · obtain ⟨f, rfl⟩ : ∃ f, fuel = f + 1 := ⟨fuel - 1, by omega⟩
        rw [worker_step, if_neg hlt, if_pos hr]
      · simp [hs, workerCall]
      · intro c hc
        simp only [List.nil_append, List.mem_singleton] at hc
        subst hc
        rfl
      · simp [hs]
      · intro i c st hc hst
        cases i with
        | zero =>
          simp only [List.nil_append, List.getElem?_cons_zero, Option.some.injEq] at hc hst
          subst hc
          subst hst
          exact ⟨hr.symm, rfl⟩
        | succ i => simp at hc
    · have hrt : (RunRay s.rayinfo s.sharedJobID worker
          (workerCall eigen worker s.sharedJobID true).rinit
          (workerCall eigen worker s.sharedJobID true).Nsteps).2 = true := by
        simpa using hr
      obtain ⟨final, Lok, tail, sts, h1, h2, h3, h4, h5, h6, h7, h8, h9, h10, h11, h12⟩ :=
        ih { sharedJobID := s.sharedJobID + 1,
             rayinfo := (RunRay s.rayinfo s.sharedJobID worker
               (workerCall eigen worker s.sharedJobID true).rinit
               (workerCall eigen worker s.sharedJobID true).Nsteps).1,
             reads := s.reads ++ [s.sharedJobID],
             calls := s.calls ++ [workerCall eigen worker s.sharedJobID true] }
          (j + 1) (by simp [hs]) (by push_cast at hM ⊢; omega)
      refine ⟨final, workerCall eigen worker s.sharedJobID true :: Lok,
        tail, s.rayinfo :: sts, fun fuel hf => ?_, ?_, ?_, ?_, ?_, ?_, ?_, ?_, ?_,
        List.getElem?_cons_zero, ?_, ?_⟩
      · obtain ⟨f, rfl⟩ : ∃ f, fuel = f + 1 := ⟨fuel - 1, by omega⟩
        rw [worker_step, if_neg hlt, if_neg hr]
        exact h1 f (by omega)
      · rw [h2]; simp
      · rw [h3]; simp [workerCall]
      · simp only [List.cons_append, List.map_cons, List.length_cons, List.range'_succ]
        rw [h4, hs]
        rfl
      · simp only [List.cons_append, List.length_cons]; omega
      · intro c hc
        simp only [List.cons_append, List.mem_cons] at hc
        rcases hc with hc | hc
        · subst hc
          rfl
        · exact h6 c hc
      · intro c hc
        simp only [List.mem_cons] at hc
        rcases hc with hc | hc
        · subst hc; rfl
        · exact h7 c hc
      · rcases h8 with ⟨a, b, c⟩ | ⟨c, a, b, d⟩
        · refine Or.inl ⟨a, ?_, ?_⟩
          · rw [b]; simp only [List.cons_append, List.length_cons]; push_cast; ring
          · simp only [List.cons_append, List.length_cons]; omega
        · refine Or.inr ⟨c, a, b, ?_⟩
          rw [d]; simp only [List.cons_append, List.length_cons]; push_cast; ring
      · simp only [List.cons_append, List.length_cons, h9]
      · simp only [List.cons_append, List.length_cons, List.getElem?_cons_succ]
        exact h11
      · intro i c st hc hst
        cases i with
        | zero =>
          simp only [List.cons_append, List.getElem?_cons_zero, Option.some.injEq] at hc hst
          subst hc
          subst hst
          refine ⟨hrt.symm, ?_⟩
          simp only [List.getElem?_cons_succ]
          exact h10
        | succ i =>
          simp only [List.cons_append, List.getElem?_cons_succ] at hc hst ⊢
          exact h12 i c st hc hst

/-! ## The claims -/

/-- C1: in 2D, with a unit boundary normal `n` and a boundary tangent
orthogonal to `n`, every returning call of `Reflect` gives
`newPoint.t = oldPoint.t - 2 (oldPoint.t · n) n`, so the normal component of
the tangent changes sign, the component along the boundary is kept and the
length of the tangent is unchanged; the call returns for each of the five
boundary conditions (for `'F'` when the table lookup returns). -/
theorem C1_reflection_law_2D {K : Type} [LinearOrderedField K] {P : Type} [Add P] [SMul K P]
    (m : STD K) (EvaluateSSP : Vec2 K → Vec2 K → SSPOutputs2 K) (fuel : Nat)
    (oldPoint newPoint : rayPt2 K P) (hs : HSInfo K) (isTop : Bool)
    (tBdry nBdry : Vec2 K) (rcurv : ReflCurvature2 K) (freq : K)
    (rtb : ReflectionInfoTopBot K) (Beam : BeamStructure)
    (hn : Vec2.dot nBdry nBdry = 1) (ht : Vec2.dot tBdry nBdry = 0) :
    (∀ np, Reflect2D m EvaluateSSP fuel oldPoint newPoint hs isTop tBdry nBdry rcurv freq
          rtb Beam = .ok np →
      np.t = oldPoint.t - (2 * Vec2.dot oldPoint.t nBdry) • nBdry ∧
      Vec2.dot np.t nBdry = -Vec2.dot oldPoint.t nBdry ∧
      Vec2.dot np.t tBdry = Vec2.dot oldPoint.t tBdry ∧
      Vec2.dot np.t np.t = Vec2.dot oldPoint.t oldPoint.t ∧
      m.length2 np.t = m.length2 oldPoint.t) ∧
    ((∃ np, Reflect2D m EvaluateSSP fuel oldPoint newPoint hs isTop tBdry nBdry rcurv freq
          rtb Beam = .ok np) ↔
      (hs.bc = 'R' ∨ hs.bc = 'V' ∨ hs.bc = 'A' ∨ hs.bc = 'G' ∨
        (hs.bc = 'F' ∧ ∃ out, InterpolateReflectionCoefficient fuel
          { theta := incidenceAngle m (Th2D oldPoint nBdry) (Tg2D oldPoint tBdry),
            r := 0, phi := 0 } rtb = .ok out))) := by
  obtain ⟨np0, hsplit, -, -, -, ht0, -, -, -⟩ :=
    Reflect2D_split m EvaluateSSP fuel oldPoint newPoint hs isTop tBdry nBdry rcurv freq rtb Beam
  rw [hsplit]
  refine ⟨?_, ampPhase2_ok_iff _ _ _ _ _ _ _ _ _ _ _ _ _⟩
  intro np hnp
  obtain ⟨-, -, hnt, -, -⟩ := ampPhase2_frame _ _ _ _ _ _ _ _ _ _ _ _ _ _ hnp
  have hnpt : np.t = oldPoint.t - (2 * Vec2.dot oldPoint.t nBdry) • nBdry := hnt.trans ht0
  have hdd : Vec2.dot np.t np.t = Vec2.dot oldPoint.t oldPoint.t := by
    rw [hnpt]
    simp only [Vec2.dot, Vec2.sub_x, Vec2.sub_y, Vec2.smul_x, Vec2.smul_y] at hn ⊢
    linear_combination
      (4 * (oldPoint.t.x * nBdry.x + oldPoint.t.y * nBdry.y) ^ 2) * hn
  refine ⟨hnpt, ?_, ?_, hdd, ?_⟩
  · rw [hnpt]
    simp only [Vec2.dot, Vec2.sub_x, Vec2.sub_y, Vec2.smul_x, Vec2.smul_y] at hn ⊢
    linear_combination (-2 * (oldPoint.t.x * nBdry.x + oldPoint.t.y * nBdry.y)) * hn
  · rw [hnpt]
    simp only [Vec2.dot, Vec2.sub_x, Vec2.sub_y, Vec2.smul_x, Vec2.smul_y] at ht ⊢
    linear_combination (-2 * (oldPoint.t.x * nBdry.x + oldPoint.t.y * nBdry.y)) * ht
  · simp only [STD.length2, hdd]

/-- C1 at a ray going down onto a flat rigid bottom. -/
theorem C1_witness :
    ∃ np, Reflect2D exSTD exSSP 0 exPoint exPoint (exHS 'R') false ⟨1, 0⟩ ⟨0, 1⟩ ⟨0⟩ 50
        exTable exBeam = .ok np ∧
      np.t = ⟨3 / 25, -(4 / 25)⟩ ∧
      Vec2.dot np.t ⟨0, 1⟩ = -Vec2.dot exPoint.t ⟨0, 1⟩ ∧
      Vec2.dot np.t ⟨1, 0⟩ = Vec2.dot exPoint.t ⟨1, 0⟩ := by
  have h := C1_reflection_law_2D exSTD exSSP 0 exPoint exPoint (exHS 'R') false
    ⟨1, 0⟩ ⟨0, 1⟩ ⟨0⟩ 50 exTable exBeam (by norm_num [Vec2.dot]) (by norm_num [Vec2.dot])
  obtain ⟨np, hnp⟩ := h.2.2 (Or.inl rfl)
  obtain ⟨h1, h2, h3, -, -⟩ := h.1 np hnp
  refine ⟨np, hnp, ?_, h2, h3⟩
  rw [h1]
  rw [Vec2.mk.injEq]
  norm_num [Vec2.dot, exPoint]

/-- C2: every returning call of `Reflect`, in each of the three
instantiations and for every boundary condition, adds 1 to `NumTopBnc` and
leaves `NumBotBnc` alone when `isTop`, and the other way round otherwise
(and the call does return for the conditions `'R'`, `'V'`, `'A'`, `'G'`);
hence a sequence of `k` returning reflections, each applied to the point
the previous one returned, adds `k` to `NumTopBnc + NumBotBnc`, which is `k`
when the counters start at `(0, 0)`. -/
theorem C2_bounce_counters {K : Type} [LinearOrderedField K] {P : Type} [Add P] [SMul K P]
    (m : STD K) (fuel : Nat) (freq : K) (rtb : ReflectionInfoTopBot K) (Beam : BeamStructure)
    (E2 : Vec2 K → Vec2 K → SSPOutputs2 K) (E3 : Vec3 K → Vec3 K → SSPOutputs3 K)
    (RayToOceanT : Vec3 K → Origin K → Vec2 K) (org : Origin K) (ray : Ray3D K P) :
    (∀ (oldPoint newPoint : rayPt2 K P) (hs : HSInfo K) (isTop : Bool)
        (tBdry nBdry : Vec2 K) (rcurv : ReflCurvature2 K),
      (∀ np, Reflect2D m E2 fuel oldPoint newPoint hs isTop tBdry nBdry rcurv freq rtb Beam
          = .ok np →
        (isTop = true → np.NumTopBnc = oldPoint.NumTopBnc + 1 ∧
          np.NumBotBnc = oldPoint.NumBotBnc) ∧
        (isTop = false → np.NumBotBnc = oldPoint.NumBotBnc + 1 ∧
          np.NumTopBnc = oldPoint.NumTopBnc)) ∧
      ((hs.bc = 'R' ∨ hs.bc = 'V' ∨ hs.bc = 'A' ∨ hs.bc = 'G') →
        ∃ np, Reflect2D m E2 fuel oldPoint newPoint hs isTop tBdry nBdry rcurv freq rtb Beam
          = .ok np)) ∧
    (∀ (oldPoint newPoint : rayPt2 K P) (hs : HSInfo K) (isTop : Bool)
        (tBdry : Vec2 K) (nBdry : Vec3 K) (rcurv : ReflCurvature3 K),
      (∀ np, ReflectNx2D m RayToOceanT E2 fuel oldPoint newPoint hs isTop tBdry nBdry rcurv
          freq rtb Beam org = .ok np →
        (isTop = true → np.NumTopBnc = oldPoint.NumTopBnc + 1 ∧
          np.NumBotBnc = oldPoint.NumBotBnc) ∧
        (isTop = false → np.NumBotBnc = oldPoint.NumBotBnc + 1 ∧
          np.NumTopBnc = oldPoint.NumTopBnc)) ∧
      ((hs.bc = 'R' ∨ hs.bc = 'V' ∨ hs.bc = 'A' ∨ hs.bc = 'G') →
        ∃ np, ReflectNx2D m RayToOceanT E2 fuel oldPoint newPoint hs isTop tBdry nBdry rcurv
          freq rtb Beam org = .ok np)) ∧
    (∀ (oldPoint newPoint : rayPt3 K P) (hs : HSInfo K) (isTop : Bool)
        (tBdry nBdry : Vec3 K) (rcurv : ReflCurvature3 K),
      (∀ np, Reflect3D m ray E3 fuel oldPoint newPoint hs isTop tBdry nBdry rcurv freq rtb
          = .ok np →
        (isTop = true → np.NumTopBnc = oldPoint.NumTopBnc + 1 ∧
          np.NumBotBnc = oldPoint.NumBotBnc) ∧
        (isTop = false → np.NumBotBnc = oldPoint.NumBotBnc + 1 ∧
          np.NumTopBnc = oldPoint.NumTopBnc)) ∧
      ((hs.bc = 'R' ∨ hs.bc = 'V' ∨ hs.bc = 'A' ∨ hs.bc = 'G') →
        ∃ np, Reflect3D m ray E3 fuel oldPoint newPoint hs isTop tBdry nBdry rcurv freq rtb
          = .ok np)) ∧
    (∀ (bs : List (Bounce2D K)) (p0 pk : rayPt2 K P),
      runSeq (fun b p => Reflect2D m E2 fuel p p b.hs b.isTop b.tBdry b.nBdry b.rcurv freq
          rtb Beam) bs p0 = .ok pk →
        pk.NumTopBnc + pk.NumBotBnc = p0.NumTopBnc + p0.NumBotBnc + bs.length ∧
        (p0.NumTopBnc = 0 → p0.NumBotBnc = 0 → pk.NumTopBnc + pk.NumBotBnc = bs.length)) ∧
    (∀ (bs : List (Bounce3D K)) (p0 pk : rayPt2 K P),
      runSeq (fun b p => ReflectNx2D m RayToOceanT E2 fuel p p b.hs b.isTop ⟨0, 0⟩ b.nBdry
          b.rcurv freq rtb Beam org) bs p0 = .ok pk →
        pk.NumTopBnc + pk.NumBotBnc = p0.NumTopBnc + p0.NumBotBnc + bs.length ∧
        (p0.NumTopBnc = 0 → p0.NumBotBnc = 0 → pk.NumTopBnc + pk.NumBotBnc = bs.length)) ∧
    (∀ (bs : List (Bounce3D K)) (p0 pk : rayPt3 K P),
      runSeq (fun b p => Reflect3D m ray E3 fuel p p b.hs b.isTop ⟨0, 0, 0⟩ b.nBdry
          b.rcurv freq rtb) bs p0 = .ok pk →
        pk.NumTopBnc + pk.NumBotBnc = p0.NumTopBnc + p0.NumBotBnc + bs.length ∧
        (p0.NumTopBnc = 0 → p0.NumBotBnc = 0 → pk.NumTopBnc + pk.NumBotBnc = bs.length)) := by
  have h2 : ∀ (oldPoint newPoint np : rayPt2 K P) (hs : HSInfo K) (isTop : Bool)
      (tBdry nBdry : Vec2 K) (rcurv : ReflCurvature2 K),
      Reflect2D m E2 fuel oldPoint newPoint hs isTop tBdry nBdry rcurv freq rtb Beam = .ok np →
      np.NumTopBnc = oldPoint.NumTopBnc + boolToInt isTop ∧
        np.NumBotBnc = oldPoint.NumBotBnc + (1 - boolToInt isTop) := by
    intro oldPoint newPoint np hs isTop tBdry nBdry rcurv h
    obtain ⟨np0, hsplit, ha, hb, -⟩ :=
      Reflect2D_split m E2 fuel oldPoint newPoint hs isTop tBdry nBdry rcurv freq rtb Beam
    rw [hsplit] at h
    obtain ⟨f1, f2, -⟩ := ampPhase2_frame _ _ _ _ _ _ _ _ _ _ _ _ _ _ h
    exact ⟨f1.trans ha, f2.trans hb⟩
  have hN : ∀ (oldPoint newPoint np : rayPt2 K P) (hs : HSInfo K) (isTop : Bool)
      (tBdry : Vec2 K) (nBdry : Vec3 K) (rcurv : ReflCurvature3 K),
      ReflectNx2D m RayToOceanT E2 fuel oldPoint newPoint hs isTop tBdry nBdry rcurv freq rtb
          Beam org = .ok np →
      np.NumTopBnc = oldPoint.NumTopBnc + boolToInt isTop ∧
        np.NumBotBnc = oldPoint.NumBotBnc + (1 - boolToInt isTop) := by
    intro oldPoint newPoint np hs isTop tBdry nBdry rcurv h
    obtain ⟨np0, hsplit, ha, hb, -⟩ :=
      ReflectNx2D_split m RayToOceanT E2 fuel oldPoint newPoint hs isTop tBdry nBdry rcurv
        freq rtb Beam org
    rw [hsplit] at h
    obtain ⟨f1, f2, -⟩ := ampPhase2_frame _ _ _ _ _ _ _ _ _ _ _ _ _ _ h
    exact ⟨f1.trans ha, f2.trans hb⟩
  have h3 : ∀ (oldPoint newPoint np : rayPt3 K P) (hs : HSInfo K) (isTop : Bool)
      (tBdry nBdry : Vec3 K) (rcurv : ReflCurvature3 K),
      Reflect3D m ray E3 fuel oldPoint newPoint hs isTop tBdry nBdry rcurv freq rtb = .ok np →
      np.NumTopBnc = oldPoint.NumTopBnc + boolToInt isTop ∧
        np.NumBotBnc = oldPoint.NumBotBnc + (1 - boolToInt isTop) := by
    intro oldPoint newPoint np hs isTop tBdry nBdry rcurv h
    obtain ⟨np0, hsplit, ha, hb, -⟩ :=
      Reflect3D_split m ray E3 fuel oldPoint newPoint hs isTop tBdry nBdry rcurv freq rtb
    rw [hsplit] at h
    obtain ⟨f1, f2, -⟩ := ampPhase3_frame _ _ _ _ _ _ _ _ _ _ _ _ h
    exact ⟨f1.trans ha, f2.trans hb⟩
  have fin : ∀ (a b c d : Int) (isTop : Bool),
      a = c + boolToInt isTop ∧ b = d + (1 - boolToInt isTop) →
      (isTop = true → a = c + 1 ∧ b = d) ∧ (isTop = false → b = d + 1 ∧ a = c) := by
    intro a b c d isTop h
    cases isTop <;> simp [boolToInt] at h ⊢ <;> omega
  refine ⟨?_, ?_, ?_, ?_, ?_, ?_⟩
  · intro oldPoint newPoint hs isTop tBdry nBdry rcurv
    exact ⟨fun np h => fin _ _ _ _ _ (h2 _ _ _ _ _ _ _ _ h),
      fun hbc => (Reflect2D_ok_iff m E2 fuel oldPoint newPoint hs isTop tBdry nBdry rcurv freq
        rtb Beam).2 (bc_known hbc _)⟩
  · intro oldPoint newPoint hs isTop tBdry nBdry rcurv
    exact ⟨fun np h => fin _ _ _ _ _ (hN _ _ _ _ _ _ _ _ h),
      fun hbc => (ReflectNx2D_ok_iff m RayToOceanT E2 fuel oldPoint newPoint hs isTop tBdry
        nBdry rcurv freq rtb Beam org).2 (bc_known hbc _)⟩
  · intro oldPoint newPoint hs isTop tBdry nBdry rcurv
    exact ⟨fun np h => fin _ _ _ _ _ (h3 _ _ _ _ _ _ _ _ h),
      fun hbc => (Reflect3D_ok_iff m ray E3 fuel oldPoint newPoint hs isTop tBdry nBdry rcurv
        freq rtb).2 (bc_known hbc _)⟩
  · intro bs p0 pk h
    have := (runSeq_counts _ (fun b : Bounce2D K => b.isTop)
      (fun p : rayPt2 K P => p.NumTopBnc) (fun p => p.NumBotBnc)
      (fun a p q hq => h2 _ _ _ _ _ _ _ _ hq) bs p0 pk h).2.2
    exact ⟨this, fun z1 z2 => by rw [this, z1, z2]; simp⟩
  · intro bs p0 pk h
    have := (runSeq_counts _ (fun b : Bounce3D K => b.isTop)
      (fun p : rayPt2 K P => p.NumTopBnc) (fun p => p.NumBotBnc)
      (fun a p q hq => hN _ _ _ _ _ _ _ _ hq) bs p0 pk h).2.2
    exact ⟨this, fun z1 z2 => by rw [this, z1, z2]; simp⟩
  · intro bs p0 pk h
    have := (runSeq_counts _ (fun b : Bounce3D K => b.isTop)
      (fun p : rayPt3 K P => p.NumTopBnc) (fun p => p.NumBotBnc)
      (fun a p q hq => h3 _ _ _ _ _ _ _ _ hq) bs p0 pk h).2.2
    exact ⟨this, fun z1 z2 => by rw [this, z1, z2]; simp⟩

/-- C3: for a rigid boundary (`hs.bc = 'R'`) every call of `Reflect`, in
each of the three instantiations, returns with `newPoint.Amp = oldPoint.Amp`
and `newPoint.Phase = oldPoint.Phase`; for a vacuum boundary
(`hs.bc = 'V'`) it returns with `newPoint.Amp = oldPoint.Amp` and
`newPoint.Phase = oldPoint.Phase + REAL_PI`. -/
theorem C3_rigid_and_vacuum {K : Type} [LinearOrderedField K] {P : Type} [Add P] [SMul K P]
    (m : STD K) (fuel : Nat) (freq : K) (rtb : ReflectionInfoTopBot K) (Beam : BeamStructure)
    (E2 : Vec2 K → Vec2 K → SSPOutputs2 K) (E3 : Vec3 K → Vec3 K → SSPOutputs3 K)
    (RayToOceanT : Vec3 K → Origin K → Vec2 K) (org : Origin K) (ray : Ray3D K P)
    (hs : HSInfo K) (isTop : Bool) :
    (∀ (oldPoint newPoint : rayPt2 K P) (tBdry nBdry : Vec2 K) (rcurv : ReflCurvature2 K),
      (hs.bc = 'R' → ∃ np, Reflect2D m E2 fuel oldPoint newPoint hs isTop tBdry nBdry rcurv
          freq rtb Beam = .ok np ∧ np.Amp = oldPoint.Amp ∧ np.Phase = oldPoint.Phase) ∧
      (hs.bc = 'V' → ∃ np, Reflect2D m E2 fuel oldPoint newPoint hs isTop tBdry nBdry rcurv
          freq rtb Beam = .ok np ∧ np.Amp = oldPoint.Amp ∧
          np.Phase = oldPoint.Phase + m.pi)) ∧
    (∀ (oldPoint newPoint : rayPt2 K P) (tBdry : Vec2 K) (nBdry : Vec3 K)
        (rcurv : ReflCurvature3 K),
      (hs.bc = 'R' → ∃ np, ReflectNx2D m RayToOceanT E2 fuel oldPoint newPoint hs isTop tBdry
          nBdry rcurv freq rtb Beam org = .ok np ∧
          np.Amp = oldPoint.Amp ∧ np.Phase = oldPoint.Phase) ∧
      (hs.bc = 'V' → ∃ np, ReflectNx2D m RayToOceanT E2 fuel oldPoint newPoint hs isTop tBdry
          nBdry rcurv freq rtb Beam org = .ok np ∧
          np.Amp = oldPoint.Amp ∧ np.Phase = oldPoint.Phase + m.pi)) ∧
    (∀ (oldPoint newPoint : rayPt3 K P) (tBdry nBdry : Vec3 K) (rcurv : ReflCurvature3 K),
      (hs.bc = 'R' → ∃ np, Reflect3D m ray E3 fuel oldPoint newPoint hs isTop tBdry nBdry
          rcurv freq rtb = .ok np ∧ np.Amp = oldPoint.Amp ∧ np.Phase = oldPoint.Phase) ∧
      (hs.bc = 'V' → ∃ np, Reflect3D m ray E3 fuel oldPoint newPoint hs isTop tBdry nBdry
          rcurv freq rtb = .ok np ∧ np.Amp = oldPoint.Amp ∧
          np.Phase = oldPoint.Phase + m.pi)) := by
  refine ⟨?_, ?_, ?_⟩
  · intro oldPoint newPoint tBdry nBdry rcurv
    obtain ⟨np0, hsplit, -⟩ :=
      Reflect2D_split m E2 fuel oldPoint newPoint hs isTop tBdry nBdry rcurv freq rtb Beam
    rw [hsplit]
    exact ⟨fun h => ⟨_, ampPhase2_R _ _ _ _ _ _ _ _ _ _ _ _ _ h, rfl, rfl⟩,
      fun h => ⟨_, ampPhase2_V _ _ _ _ _ _ _ _ _ _ _ _ _ h, rfl, rfl⟩⟩
  · intro oldPoint newPoint tBdry nBdry rcurv
    obtain ⟨np0, hsplit, -⟩ :=
      ReflectNx2D_split m RayToOceanT E2 fuel oldPoint newPoint hs isTop tBdry nBdry rcurv
        freq rtb Beam org
    rw [hsplit]
    exact ⟨fun h => ⟨_, ampPhase2_R _ _ _ _ _ _ _ _ _ _ _ _ _ h, rfl, rfl⟩,
      fun h => ⟨_, ampPhase2_V _ _ _ _ _ _ _ _ _ _ _ _ _ h, rfl, rfl⟩⟩
  · intro oldPoint newPoint tBdry nBdry rcurv
    obtain ⟨np0, hsplit, -⟩ :=
      Reflect3D_split m ray E3 fuel oldPoint newPoint hs isTop tBdry nBdry rcurv freq rtb
    rw [hsplit]
    exact ⟨fun h => ⟨_, ampPhase3_R _ _ _ _ _ _ _ _ _ _ _ h, rfl, rfl⟩,
      fun h => ⟨_, ampPhase3_V _ _ _ _ _ _ _ _ _ _ _ h, rfl, rfl⟩⟩

/-- C4: for a non-empty table and a query angle below `theta[0]` or above
`theta[NPts-1]`, `InterpolateReflectionCoefficient` (both versions) returns
`RInt.r = 0` and `RInt.phi = 0`; it does so for every fuel, zero included,
so the bisection loop is not entered, and only the first and the last entry
of the table take part. -/
theorem C4_outside_domain_returns_zero {K : Type} [LinearOrderedField K] (fuel : Nat)
    (RInt : ReflectionCoef K) (rtb : ReflectionInfoTopBot K) (e0 eN : ReflectionCoef K)
    (hwf : rtb.NPts = rtb.r.length)
    (h0 : rtb.r[0]? = some e0) (hN : rtb.r[rtb.r.length - 1]? = some eN)
    (hout : RInt.theta < e0.theta ∨ RInt.theta > eN.theta) :
    ∃ w, InterpolateReflectionCoefficient fuel RInt rtb
          = .ok ({ RInt with r := 0, phi := 0 }, w) ∧
      InterpolateReflectionCoefficient 0 RInt rtb
          = .ok ({ RInt with r := 0, phi := 0 }, w) ∧
      refcoef_InterpolateReflectionCoefficient fuel RInt rtb.r rtb.NPts
          = .ok ({ RInt with r := 0, phi := 0 }, w) := by
  by_cases hlt : RInt.theta < e0.theta
  · exact ⟨_, interp_below fuel RInt rtb e0 h0 hlt, interp_below 0 RInt rtb e0 h0 hlt,
      interp_below fuel RInt ⟨rtb.NPts, rtb.r⟩ e0 h0 hlt⟩
  · have hgt : RInt.theta > eN.theta := hout.resolve_left hlt
    exact ⟨_, interp_above fuel RInt rtb e0 eN hwf h0 hN hlt hgt,
      interp_above 0 RInt rtb e0 eN hwf h0 hN hlt hgt,
      interp_above fuel RInt ⟨rtb.NPts, rtb.r⟩ e0 eN hwf h0 hN hlt hgt⟩

/-- C4 at the query 91 against a table over 0 .. 90 degrees. -/
theorem C4_witness :
    ∃ w, InterpolateReflectionCoefficient 5 (⟨91, 7, 7⟩ : ReflectionCoef ℚ) exTable
          = .ok (⟨91, 0, 0⟩, w) ∧
      InterpolateReflectionCoefficient 0 (⟨91, 7, 7⟩ : ReflectionCoef ℚ) exTable
          = .ok (⟨91, 0, 0⟩, w) ∧
      refcoef_InterpolateReflectionCoefficient 5 (⟨91, 7, 7⟩ : ReflectionCoef ℚ)
          exTable.r exTable.NPts = .ok (⟨91, 0, 0⟩, w) :=
  C4_outside_domain_returns_zero 5 ⟨91, 7, 7⟩ exTable ⟨0, 1, 0⟩ ⟨90, 0, 2⟩ rfl rfl rfl
    (Or.inr (by norm_num))

/-- C5 (amended): for queries that all lie outside the tabulated domain,
the log receives one warning, with the angle and the lower limit `theta[0]`,
for each query below `theta[0]` and none for a query above `theta[NPts-1]`;
the number of warnings is the number of queries below the lower limit. -/
theorem C5_one_warning_per_query_below {K : Type} [LinearOrderedField K] (fuel : Nat)
    (rtb : ReflectionInfoTopBot K) (e0 eN : ReflectionCoef K) (thetas : List K)
    (hwf : rtb.NPts = rtb.r.length)
    (h0 : rtb.r[0]? = some e0) (hN : rtb.r[rtb.r.length - 1]? = some eN)
    (hout : ∀ θ ∈ thetas, θ < e0.theta ∨ θ > eN.theta) :
    queryWarnings fuel rtb thetas
        = (thetas.filter (fun θ => θ < e0.theta)).map (fun θ => ⟨θ, e0.theta⟩) ∧
    (queryWarnings fuel rtb thetas).length = thetas.countP (fun θ => θ < e0.theta) := by
  have h := queryWarnings_length fuel rtb e0 eN hwf h0 hN thetas hout
  refine ⟨h, ?_⟩
  rw [h, List.length_map, List.countP_eq_length_filter]

/-- C5 (amended) at four queries, two on each side of the domain. -/
theorem C5_witness :
    queryWarnings 0 exTable [-1, 91, -2, 100]
        = ([-1, 91, -2, 100].filter (fun θ => θ < (0 : ℚ))).map (fun θ => ⟨θ, 0⟩) ∧
    (queryWarnings 0 exTable [-1, 91, -2, 100]).length
        = [-1, 91, -2, 100].countP (fun θ => θ < (0 : ℚ)) :=
  C5_one_warning_per_query_below 0 exTable ⟨0, 1, 0⟩ ⟨90, 0, 2⟩ [-1, 91, -2, 100] rfl rfl rfl
    (by norm_num)

/-- C5 as stated fails: two queries below the domain log two warnings, and
a query above the domain logs none. -/
theorem C5_counterexample :
    ((-1 : ℚ) < 0 ∧ (-2 : ℚ) < 0 ∧ (queryWarnings 0 exTable [-1, -2]).length = 2) ∧
    ((91 : ℚ) > 90 ∧ (queryWarnings 0 exTable [91]).length = 0) := by
  refine ⟨⟨by norm_num, by norm_num, ?_⟩, by norm_num, ?_⟩
  · simp [queryWarnings, InterpolateReflectionCoefficient, ReflectionInfoTopBot.entry, exTable]
  · simp [queryWarnings, InterpolateReflectionCoefficient, ReflectionInfoTopBot.entry, exTable]
    norm_num

/-- C6: for a table of at least two entries with strictly increasing
`theta` and a query with `theta[0] ≤ theta ≤ theta[NPts-1]`, the search of
`InterpolateReflectionCoefficient` ends, for every fuel of at least
`NPts - 2` iterations, at the adjacent pair `(i, i+1)` that is the only one
with `theta[i] ≤ theta < theta[i+1]` (or `i = NPts-2` when
`theta = theta[NPts-1]`), and the routine returns
`r = (1-α)·r[i].r + α·r[i+1].r`, `phi = (1-α)·r[i].phi + α·r[i+1].phi` with
`α = (theta - theta[i]) / (theta[i+1] - theta[i])` in `[0, 1]`; the
`refcoef.hpp` version returns the same. -/
theorem C6_bracket_and_interpolate {K : Type} [LinearOrderedField K]
    (RInt : ReflectionCoef K) (rtb : ReflectionInfoTopBot K) (e0 eN : ReflectionCoef K)
    (hwf : rtb.NPts = rtb.r.length) (hN2 : 2 ≤ rtb.NPts)
    (hinc : rtb.r.Pairwise (fun a b => a.theta < b.theta))
    (h0 : rtb.r[0]? = some e0) (hN : rtb.r[rtb.r.length - 1]? = some eN)
    (hlo : e0.theta ≤ RInt.theta) (hhi : RInt.theta ≤ eN.theta) :
    ∃ (i : Nat) (eL eR : ReflectionCoef K),
      i + 1 < rtb.r.length ∧ rtb.r[i]? = some eL ∧ rtb.r[i + 1]? = some eR ∧
      ((eL.theta ≤ RInt.theta ∧ RInt.theta < eR.theta) ∨
        (i + 2 = rtb.r.length ∧ RInt.theta = eN.theta)) ∧
      (∀ (j : Nat) (a b : ReflectionCoef K), rtb.r[j]? = some a → rtb.r[j + 1]? = some b →
        a.theta ≤ RInt.theta → RInt.theta < b.theta → j = i) ∧
      0 ≤ (RInt.theta - eL.theta) / (eR.theta - eL.theta) ∧
      (RInt.theta - eL.theta) / (eR.theta - eL.theta) ≤ 1 ∧
      ∀ fuel : Nat, rtb.r.length ≤ fuel + 2 →
        bisectLoop rtb RInt.theta fuel 0 (rtb.NPts - 1) = .ok ((i : Int), (i : Int) + 1) ∧
        InterpolateReflectionCoefficient fuel RInt rtb =
          .ok ({ RInt with
                  r := (1 - (RInt.theta - eL.theta) / (eR.theta - eL.theta)) * eL.r
                    + (RInt.theta - eL.theta) / (eR.theta - eL.theta) * eR.r,
                  phi := (1 - (RInt.theta - eL.theta) / (eR.theta - eL.theta)) * eL.phi
                    + (RInt.theta - eL.theta) / (eR.theta - eL.theta) * eR.phi }, []) ∧
        refcoef_InterpolateReflectionCoefficient fuel RInt rtb.r rtb.NPts =
          InterpolateReflectionCoefficient fuel RInt rtb := by
  obtain ⟨i, eL, eR, hi, hL, hR, hLθ, hRθ, hor, hrun⟩ :=
    interp_inside RInt rtb e0 eN hwf hN2 h0 hN hlo hhi
  have hLR : eL.theta < eR.theta :=
    theta_lt_of_lt rtb.r hinc i (i + 1) eL eR hL hR (Nat.lt_succ_self i)
  refine ⟨i, eL, eR, hi, hL, hR, ?_, ?_, ?_, ?_, ?_⟩
  · by_cases hlt : RInt.theta < eR.theta
    · exact Or.inl ⟨hLθ, hlt⟩
    · rcases hor with hor | hor
      · exact absurd hor hlt
      · right
        refine ⟨hor, ?_⟩
        have hidx : i + 1 = rtb.r.length - 1 := by omega
        rw [hidx, hN] at hR
        cases hR
        exact le_antisymm hRθ (not_lt.1 hlt)
  · intro j a b hj hj1 ha hb
    rcases Nat.lt_trichotomy j i with h | h | h
    · have := theta_le_of_le rtb.r hinc (j + 1) i b eL hj1 hL h
      exact absurd (lt_of_le_of_lt (le_trans this hLθ) hb) (lt_irrefl _)
    · exact h
    · have h1 := theta_le_of_le rtb.r hinc (i + 1) j eR a hR hj h
      rcases hor with hor | hor
      · exact absurd (lt_of_lt_of_le hor (le_trans h1 ha)) (lt_irrefl _)
      · have hlen := (List.getElem?_eq_some.1 hj1).1
        omega
  · exact div_nonneg (sub_nonneg.2 hLθ) (le_of_lt (sub_pos.2 hLR))
  · rw [div_le_one (sub_pos.2 hLR)]
    exact sub_le_sub_right hRθ _
  · intro fuel hfuel
    exact ⟨(hrun fuel hfuel).1, (hrun fuel hfuel).2, rfl⟩

/-- C6 at the query 30 against the three-point table. -/
theorem C6_witness :
    ∃ (i : Nat) (eL eR : ReflectionCoef ℚ),
      i + 1 < exTable.r.length ∧ exTable.r[i]? = some eL ∧ exTable.r[i + 1]? = some eR ∧
      ((eL.theta ≤ 30 ∧ 30 < eR.theta) ∨ (i + 2 = exTable.r.length ∧ (30 : ℚ) = 90)) ∧
      (∀ (j : Nat) (a b : ReflectionCoef ℚ), exTable.r[j]? = some a →
        exTable.r[j + 1]? = some b → a.theta ≤ 30 → 30 < b.theta → j = i) ∧
      0 ≤ (30 - eL.theta) / (eR.theta - eL.theta) ∧
      (30 - eL.theta) / (eR.theta - eL.theta) ≤ 1 ∧
      ∀ fuel : Nat, exTable.r.length ≤ fuel + 2 →
        bisectLoop exTable 30 fuel 0 (exTable.NPts - 1) = .ok ((i : Int), (i : Int) + 1) ∧
        InterpolateReflectionCoefficient fuel ⟨30, 0, 0⟩ exTable =
          .ok (⟨30, (1 - (30 - eL.theta) / (eR.theta - eL.theta)) * eL.r
                    + (30 - eL.theta) / (eR.theta - eL.theta) * eR.r,
                (1 - (30 - eL.theta) / (eR.theta - eL.theta)) * eL.phi
                    + (30 - eL.theta) / (eR.theta - eL.theta) * eR.phi⟩, []) ∧
        refcoef_InterpolateReflectionCoefficient fuel ⟨30, 0, 0⟩ exTable.r exTable.NPts =
          InterpolateReflectionCoefficient fuel ⟨30, 0, 0⟩ exTable :=
  C6_bracket_and_interpolate ⟨30, 0, 0⟩ exTable ⟨0, 1, 0⟩ ⟨90, 0, 2⟩ rfl (by decide)
    (by norm_num [exTable]) rfl rfl (by norm_num) (by norm_num)

/-- C7: for a table of at least two entries with strictly increasing
`theta`, a query at exactly the tabulated angle `theta[i]` returns exactly
the tabulated pair `(r[i].r, r[i].phi)`, and no warning; consequently a
file-type reflection (`hs.bc = 'F'`), in each of the three instantiations,
whose incidence angle is the tabulated angle multiplies the amplitude by the
tabulated `R` and adds the tabulated `phi` to the phase. -/
theorem C7_exact_at_tabulated_angle {K : Type} [LinearOrderedField K]
    (rtb : ReflectionInfoTopBot K) (i : Nat) (e : ReflectionCoef K) (fuel : Nat)
    (hwf : rtb.NPts = rtb.r.length) (hN2 : 2 ≤ rtb.NPts)
    (hinc : rtb.r.Pairwise (fun a b => a.theta < b.theta))
    (hi : rtb.r[i]? = some e) (hfuel : rtb.r.length ≤ fuel + 2) :
    (∀ RInt : ReflectionCoef K, RInt.theta = e.theta →
      InterpolateReflectionCoefficient fuel RInt rtb
        = .ok ({ RInt with r := e.r, phi := e.phi }, []) ∧
      refcoef_InterpolateReflectionCoefficient fuel RInt rtb.r rtb.NPts
        = .ok ({ RInt with r := e.r, phi := e.phi }, [])) ∧
    (∀ {P : Type} [Add P] [SMul K P] (m : STD K) (E2 : Vec2 K → Vec2 K → SSPOutputs2 K)
        (oldPoint newPoint : rayPt2 K P) (hs : HSInfo K) (isTop : Bool)
        (tBdry nBdry : Vec2 K) (rcurv : ReflCurvature2 K) (freq : K) (Beam : BeamStructure),
      hs.bc = 'F' →
      incidenceAngle m (Th2D oldPoint nBdry) (Tg2D oldPoint tBdry) = e.theta →
      ∃ np, Reflect2D m E2 fuel oldPoint newPoint hs isTop tBdry nBdry rcurv freq rtb Beam
          = .ok np ∧
        np.Amp = oldPoint.Amp * e.r ∧ np.Phase = oldPoint.Phase + e.phi) ∧
    (∀ {P : Type} [Add P] [SMul K P] (m : STD K) (RayToOceanT : Vec3 K → Origin K → Vec2 K)
        (E2 : Vec2 K → Vec2 K → SSPOutputs2 K)
        (oldPoint newPoint : rayPt2 K P) (hs : HSInfo K) (isTop : Bool)
        (tBdry : Vec2 K) (nBdry : Vec3 K) (rcurv : ReflCurvature3 K) (freq : K)
        (Beam : BeamStructure) (org : Origin K),
      hs.bc = 'F' →
      incidenceAngle m (ThNx2D m RayToOceanT oldPoint nBdry org)
        (TgNx2D m RayToOceanT oldPoint nBdry org) = e.theta →
      ∃ np, ReflectNx2D m RayToOceanT E2 fuel oldPoint newPoint hs isTop tBdry nBdry rcurv
          freq rtb Beam org = .ok np ∧
        np.Amp = oldPoint.Amp * e.r ∧ np.Phase = oldPoint.Phase + e.phi) ∧
    (∀ {P : Type} (m : STD K) (ray : Ray3D K P) (E3 : Vec3 K → Vec3 K → SSPOutputs3 K)
        (oldPoint newPoint : rayPt3 K P) (hs : HSInfo K) (isTop : Bool)
        (tBdry nBdry : Vec3 K) (rcurv : ReflCurvature3 K) (freq : K),
      hs.bc = 'F' →
      incidenceAngle m (Th3D oldPoint nBdry) (Tg3D m oldPoint nBdry) = e.theta →
      ∃ np, Reflect3D m ray E3 fuel oldPoint newPoint hs isTop tBdry nBdry rcurv freq rtb
          = .ok np ∧
        np.Amp = oldPoint.Amp * e.r ∧ np.Phase = oldPoint.Phase + e.phi) := by
  have key : ∀ RInt : ReflectionCoef K, RInt.theta = e.theta →
      InterpolateReflectionCoefficient fuel RInt rtb
        = .ok ({ RInt with r := e.r, phi := e.phi }, []) :=
    fun RInt hθ => interp_at_node RInt rtb i e hwf hN2 hinc hi hθ fuel hfuel
  refine ⟨fun RInt hθ => ⟨key RInt hθ, ?_⟩, ?_, ?_, ?_⟩
  · exact interp_at_node RInt ⟨rtb.NPts, rtb.r⟩ i e hwf hN2 hinc hi hθ fuel hfuel
  · intro P _ _ m E2 oldPoint newPoint hs isTop tBdry nBdry rcurv freq Beam hbc hθ
    obtain ⟨np0, hsplit, -⟩ :=
      Reflect2D_split m E2 fuel oldPoint newPoint hs isTop tBdry nBdry rcurv freq rtb Beam
    rw [hsplit]
    obtain ⟨np, h1, h2, h3⟩ :=
      ampPhase2_F_ok m false fuel oldPoint hs _ _ tBdry (E2 oldPoint.x oldPoint.t) freq
        rtb Beam np0 hbc _ _ (key ⟨_, 0, 0⟩ hθ)
    exact ⟨np, h1, h2, h3⟩
  · intro P _ _ m RayToOceanT E2 oldPoint newPoint hs isTop tBdry nBdry rcurv freq Beam org
      hbc hθ
    obtain ⟨np0, hsplit, -⟩ :=
      ReflectNx2D_split m RayToOceanT E2 fuel oldPoint newPoint hs isTop tBdry nBdry rcurv
        freq rtb Beam org
    rw [hsplit]
    obtain ⟨np, h1, h2, h3⟩ :=
      ampPhase2_F_ok m true fuel oldPoint hs _ _ (tBdryNx2D m RayToOceanT oldPoint nBdry org)
        (E2 oldPoint.x (oldPoint.t - (2 * ThNx2D m RayToOceanT oldPoint nBdry org)
          • nBdry_rayNx2D m RayToOceanT nBdry org)) freq rtb Beam np0 hbc _ _
        (key ⟨_, 0, 0⟩ hθ)
    exact ⟨np, h1, h2, h3⟩
  · intro P m ray E3 oldPoint newPoint hs isTop tBdry nBdry rcurv freq hbc hθ
    obtain ⟨np0, hsplit, -⟩ :=
      Reflect3D_split m ray E3 fuel oldPoint newPoint hs isTop tBdry nBdry rcurv freq rtb
    rw [hsplit]
    obtain ⟨np, h1, h2, h3⟩ := ampPhase3_F_ok m fuel oldPoint hs _ _ nBdry
      (E3 oldPoint.x (oldPoint.t - (2 * Th3D oldPoint nBdry) • nBdry)) freq rtb np0 hbc _ _
      (key ⟨_, 0, 0⟩ hθ)
    exact ⟨np, h1, h2, h3⟩

/-- C7 at the interior node 45 and the last node 90 of the three-point table. -/
theorem C7_witness :
    InterpolateReflectionCoefficient 1 (⟨45, 0, 0⟩ : ReflectionCoef ℚ) exTable
      = .ok (⟨45, 1 / 2, 1⟩, []) ∧
    InterpolateReflectionCoefficient 1 (⟨90, 0, 0⟩ : ReflectionCoef ℚ) exTable
      = .ok (⟨90, 0, 2⟩, []) :=
  ⟨((C7_exact_at_tabulated_angle exTable 1 ⟨45, 1 / 2, 1⟩ 1 rfl (by decide)
      (by norm_num [exTable]) rfl (by decide)).1 ⟨45, 0, 0⟩ rfl).1,
   ((C7_exact_at_tabulated_angle exTable 2 ⟨90, 0, 2⟩ 1 rfl (by decide)
      (by norm_num [exTable]) rfl (by decide)).1 ⟨90, 0, 0⟩ rfl).1⟩

/-- C8: for `hs.bc = 'F'`, in each of the three instantiations, the angle
handed to the interpolator is `a' = a` if `a ≤ 90`, else `180 - a`, with
`a = |atan2(Th, Tg)| · 180 / pi`; it lies in `[0, 90]` (given that `atan2`
has values in `[-pi, pi]`); when the interpolator returns `(R, phi)` the
call returns with `newPoint.Amp = oldPoint.Amp · R` and
`newPoint.Phase = oldPoint.Phase + phi`, when it does not return neither
does `Reflect`; in particular `Amp` becomes 0 and `Phase` is unchanged when
`a'` is outside the tabulated domain. -/
theorem C8_file_reflection {K : Type} [LinearOrderedField K] {P : Type} [Add P] [SMul K P]
    (m : STD K) (fuel : Nat) (freq : K) (rtb : ReflectionInfoTopBot K) (Beam : BeamStructure)
    (E2 : Vec2 K → Vec2 K → SSPOutputs2 K) (E3 : Vec3 K → Vec3 K → SSPOutputs3 K)
    (RayToOceanT : Vec3 K → Origin K → Vec2 K) (org : Origin K) (ray : Ray3D K P)
    (hs : HSInfo K) (isTop : Bool)
    (hpi : 0 < m.pi) (hatan : ∀ y x, |m.atan2 y x| ≤ m.pi) (hbc : hs.bc = 'F') :
    (∀ Th Tg : K,
      incidenceAngle m Th Tg =
        (if |m.atan2 Th Tg| * 180 / m.pi ≤ 90 then |m.atan2 Th Tg| * 180 / m.pi
         else 180 - |m.atan2 Th Tg| * 180 / m.pi) ∧
      0 ≤ incidenceAngle m Th Tg ∧ incidenceAngle m Th Tg ≤ 90) ∧
    (∀ (oldPoint newPoint : rayPt2 K P) (tBdry nBdry : Vec2 K) (rcurv : ReflCurvature2 K),
      (∀ RInt w, InterpolateReflectionCoefficient fuel
          { theta := incidenceAngle m (Th2D oldPoint nBdry) (Tg2D oldPoint tBdry),
            r := 0, phi := 0 } rtb = .ok (RInt, w) →
        ∃ np, Reflect2D m E2 fuel oldPoint newPoint hs isTop tBdry nBdry rcurv freq rtb Beam
            = .ok np ∧
          np.Amp = oldPoint.Amp * RInt.r ∧ np.Phase = oldPoint.Phase + RInt.phi) ∧
      (∀ e, InterpolateReflectionCoefficient fuel
          { theta := incidenceAngle m (Th2D oldPoint nBdry) (Tg2D oldPoint tBdry),
            r := 0, phi := 0 } rtb = .error e →
        Reflect2D m E2 fuel oldPoint newPoint hs isTop tBdry nBdry rcurv freq rtb Beam
            = .error e) ∧
      (∀ e0 eN, rtb.NPts = rtb.r.length → rtb.r[0]? = some e0 →
        rtb.r[rtb.r.length - 1]? = some eN →
        (incidenceAngle m (Th2D oldPoint nBdry) (Tg2D oldPoint tBdry) < e0.theta ∨
          incidenceAngle m (Th2D oldPoint nBdry) (Tg2D oldPoint tBdry) > eN.theta) →
        ∃ np, Reflect2D m E2 fuel oldPoint newPoint hs isTop tBdry nBdry rcurv freq rtb Beam
            = .ok np ∧ np.Amp = 0 ∧ np.Phase = oldPoint.Phase)) ∧
    (∀ (oldPoint newPoint : rayPt2 K P) (tBdry : Vec2 K) (nBdry : Vec3 K)
        (rcurv : ReflCurvature3 K),
      (∀ RInt w, InterpolateReflectionCoefficient fuel
          { theta := incidenceAngle m (ThNx2D m RayToOceanT oldPoint nBdry org)
              (TgNx2D m RayToOceanT oldPoint nBdry org), r := 0, phi := 0 } rtb
            = .ok (RInt, w) →
        ∃ np, ReflectNx2D m RayToOceanT E2 fuel oldPoint newPoint hs isTop tBdry nBdry rcurv
            freq rtb Beam org = .ok np ∧
          np.Amp = oldPoint.Amp * RInt.r ∧ np.Phase = oldPoint.Phase + RInt.phi) ∧
      (∀ e, InterpolateReflectionCoefficient fuel
          { theta := incidenceAngle m (ThNx2D m RayToOceanT oldPoint nBdry org)
              (TgNx2D m RayToOceanT oldPoint nBdry org), r := 0, phi := 0 } rtb
            = .error e →
        ReflectNx2D m RayToOceanT E2 fuel oldPoint newPoint hs isTop tBdry nBdry rcurv
            freq rtb Beam org = .error e) ∧
      (∀ e0 eN, rtb.NPts = rtb.r.length → rtb.r[0]? = some e0 →
        rtb.r[rtb.r.length - 1]? = some eN →
        (incidenceAngle m (ThNx2D m RayToOceanT oldPoint nBdry org)
            (TgNx2D m RayToOceanT oldPoint nBdry org) < e0.theta ∨
          incidenceAngle m (ThNx2D m RayToOceanT oldPoint nBdry org)
            (TgNx2D m RayToOceanT oldPoint nBdry org) > eN.theta) →
        ∃ np, ReflectNx2D m RayToOceanT E2 fuel oldPoint newPoint hs isTop tBdry nBdry rcurv
            freq rtb Beam org = .ok np ∧ np.Amp = 0 ∧ np.Phase = oldPoint.Phase)) ∧
    (∀ (oldPoint newPoint : rayPt3 K P) (tBdry nBdry : Vec3 K) (rcurv : ReflCurvature3 K),
      (∀ RInt w, InterpolateReflectionCoefficient fuel
          { theta := incidenceAngle m (Th3D oldPoint nBdry) (Tg3D m oldPoint nBdry),
            r := 0, phi := 0 } rtb = .ok (RInt, w) →
        ∃ np, Reflect3D m ray E3 fuel oldPoint newPoint hs isTop tBdry nBdry rcurv freq rtb
            = .ok np ∧
          np.Amp = oldPoint.Amp * RInt.r ∧ np.Phase = oldPoint.Phase + RInt.phi) ∧
      (∀ e, InterpolateReflectionCoefficient fuel
          { theta := incidenceAngle m (Th3D oldPoint nBdry) (Tg3D m oldPoint nBdry),
            r := 0, phi := 0 } rtb = .error e →
        Reflect3D m ray E3 fuel oldPoint newPoint hs isTop tBdry nBdry rcurv freq rtb
            = .error e) ∧
      (∀ e0 eN, rtb.NPts = rtb.r.length → rtb.r[0]? = some e0 →
        rtb.r[rtb.r.length - 1]? = some eN →
        (incidenceAngle m (Th3D oldPoint nBdry) (Tg3D m oldPoint nBdry) < e0.theta ∨
          incidenceAngle m (Th3D oldPoint nBdry) (Tg3D m oldPoint nBdry) > eN.theta) →
        ∃ np, Reflect3D m ray E3 fuel oldPoint newPoint hs isTop tBdry nBdry rcurv freq rtb
            = .ok np ∧ np.Amp = 0 ∧ np.Phase = oldPoint.Phase)) := by
  refine ⟨fun Th Tg => ⟨incidenceAngle_eq m Th Tg, incidenceAngle_range m hpi hatan Th Tg⟩,
    ?_, ?_, ?_⟩
  · intro oldPoint newPoint tBdry nBdry rcurv
    obtain ⟨np0, hsplit, -⟩ :=
      Reflect2D_split m E2 fuel oldPoint newPoint hs isTop tBdry nBdry rcurv freq rtb Beam
    rw [hsplit]
    exact ⟨fun RInt w hq => ampPhase2_F_ok _ _ _ _ _ _ _ _ _ _ _ _ _ hbc RInt w hq,
      fun e hq => ampPhase2_F_error _ _ _ _ _ _ _ _ _ _ _ _ _ hbc e hq,
      fun e0 eN hwf h0 hN hout =>
        ampPhase2_F_outside _ _ _ _ _ _ _ _ _ _ _ _ _ hbc e0 eN hwf h0 hN hout⟩
  · intro oldPoint newPoint tBdry nBdry rcurv
    obtain ⟨np0, hsplit, -⟩ :=
      ReflectNx2D_split m RayToOceanT E2 fuel oldPoint newPoint hs isTop tBdry nBdry rcurv
        freq rtb Beam org
    rw [hsplit]
    exact ⟨fun RInt w hq => ampPhase2_F_ok _ _ _ _ _ _ _ _ _ _ _ _ _ hbc RInt w hq,
      fun e hq => ampPhase2_F_error _ _ _ _ _ _ _ _ _ _ _ _ _ hbc e hq,
      fun e0 eN hwf h0 hN hout =>
        ampPhase2_F_outside _ _ _ _ _ _ _ _ _ _ _ _ _ hbc e0 eN hwf h0 hN hout⟩
  · intro oldPoint newPoint tBdry nBdry rcurv
    obtain ⟨np0, hsplit, -⟩ :=
      Reflect3D_split m ray E3 fuel oldPoint newPoint hs isTop tBdry nBdry rcurv freq rtb
    rw [hsplit]
    exact ⟨fun RInt w hq => ampPhase3_F_ok _ _ _ _ _ _ _ _ _ _ _ hbc RInt w hq,
      fun e hq => ampPhase3_F_error _ _ _ _ _ _ _ _ _ _ _ hbc e hq,
      fun e0 eN hwf h0 hN hout =>
        ampPhase3_F_outside _ _ _ _ _ _ _ _ _ _ _ hbc e0 eN hwf h0 hN hout⟩

/-- C8 at a ray whose folded incidence angle is 90 degrees. -/
theorem C8_witness :
    ∃ np, Reflect2D exSTD exSSP 1 exPoint exPoint (exHS 'F') false ⟨1, 0⟩ ⟨0, 1⟩ ⟨0⟩ 50
        exTable exBeam = .ok np ∧
      np.Amp = exPoint.Amp * 0 ∧ np.Phase = exPoint.Phase + 2 :=
  ((C8_file_reflection exSTD 1 50 exTable exBeam exSSP
      exSSP3 exRayToOceanT exOrigin exRay3D
      (exHS 'F') false (by norm_num [exSTD]) exSTD_atan2_range rfl).2.1
    exPoint exPoint ⟨1, 0⟩ ⟨0, 1⟩ ⟨0⟩).1 ⟨90, 0, 2⟩ [] (by
      rw [exAngle]
      exact interp_at_node ⟨90, 0, 0⟩ exTable 2 ⟨90, 0, 2⟩ rfl (by decide)
        (by norm_num [exTable]) rfl rfl 1 (by decide))

/-- C9: for a half-space boundary (`hs.bc = 'A'` or `'G'`), in each of the
three instantiations, with `Refl` the complex coefficient the call computes:
the call returns, and if `|Refl| < 1e-5` then `newPoint.Amp = 0` and
`newPoint.Phase = oldPoint.Phase`, otherwise
`newPoint.Amp = |Refl| · oldPoint.Amp` and
`newPoint.Phase = oldPoint.Phase + atan2(Im Refl, Re Refl)`. -/
theorem C9_half_space_amplitude {K : Type} [LinearOrderedField K] {P : Type}
    [Add P] [SMul K P]
    (m : STD K) (fuel : Nat) (freq : K) (rtb : ReflectionInfoTopBot K) (Beam : BeamStructure)
    (E2 : Vec2 K → Vec2 K → SSPOutputs2 K) (E3 : Vec3 K → Vec3 K → SSPOutputs3 K)
    (RayToOceanT : Vec3 K → Origin K → Vec2 K) (org : Origin K) (ray : Ray3D K P)
    (hs : HSInfo K) (isTop : Bool) (hbc : hs.bc = 'A' ∨ hs.bc = 'G') :
    (∀ (oldPoint newPoint : rayPt2 K P) (tBdry nBdry : Vec2 K) (rcurv : ReflCurvature2 K),
      ∃ np, Reflect2D m E2 fuel oldPoint newPoint hs isTop tBdry nBdry rcurv freq rtb Beam
          = .ok np ∧
        (m.cabs (Refl2D m E2 oldPoint hs tBdry nBdry freq) < 1e-5 →
          np.Amp = 0 ∧ np.Phase = oldPoint.Phase) ∧
        (¬ m.cabs (Refl2D m E2 oldPoint hs tBdry nBdry freq) < 1e-5 →
          np.Amp = m.cabs (Refl2D m E2 oldPoint hs tBdry nBdry freq) * oldPoint.Amp ∧
          np.Phase = oldPoint.Phase
            + m.atan2 (Refl2D m E2 oldPoint hs tBdry nBdry freq).im
                (Refl2D m E2 oldPoint hs tBdry nBdry freq).re)) ∧
    (∀ (oldPoint newPoint : rayPt2 K P) (tBdry : Vec2 K) (nBdry : Vec3 K)
        (rcurv : ReflCurvature3 K),
      ∃ np, ReflectNx2D m RayToOceanT E2 fuel oldPoint newPoint hs isTop tBdry nBdry rcurv
          freq rtb Beam org = .ok np ∧
        (m.cabs (ReflNx2D m RayToOceanT E2 oldPoint hs nBdry org freq) < 1e-5 →
          np.Amp = 0 ∧ np.Phase = oldPoint.Phase) ∧
        (¬ m.cabs (ReflNx2D m RayToOceanT E2 oldPoint hs nBdry org freq) < 1e-5 →
          np.Amp = m.cabs (ReflNx2D m RayToOceanT E2 oldPoint hs nBdry org freq)
            * oldPoint.Amp ∧
          np.Phase = oldPoint.Phase
            + m.atan2 (ReflNx2D m RayToOceanT E2 oldPoint hs nBdry org freq).im
                (ReflNx2D m RayToOceanT E2 oldPoint hs nBdry org freq).re)) ∧
    (∀ (oldPoint newPoint : rayPt3 K P) (tBdry nBdry : Vec3 K) (rcurv : ReflCurvature3 K),
      ∃ np, Reflect3D m ray E3 fuel oldPoint newPoint hs isTop tBdry nBdry rcurv freq rtb
          = .ok np ∧
        (m.cabs (Refl3D m E3 oldPoint hs nBdry freq) < 1e-5 →
          np.Amp = 0 ∧ np.Phase = oldPoint.Phase) ∧
        (¬ m.cabs (Refl3D m E3 oldPoint hs nBdry freq) < 1e-5 →
          np.Amp = m.cabs (Refl3D m E3 oldPoint hs nBdry freq) * oldPoint.Amp ∧
          np.Phase = oldPoint.Phase
            + m.atan2 (Refl3D m E3 oldPoint hs nBdry freq).im
                (Refl3D m E3 oldPoint hs nBdry freq).re)) := by
  refine ⟨?_, ?_, ?_⟩
  · intro oldPoint newPoint tBdry nBdry rcurv
    exact Reflect2D_AG m fuel freq rtb Beam E2 hs isTop hbc oldPoint newPoint tBdry nBdry rcurv
  · intro oldPoint newPoint tBdry nBdry rcurv
    obtain ⟨np0, hsplit, -⟩ :=
      ReflectNx2D_split m RayToOceanT E2 fuel oldPoint newPoint hs isTop tBdry nBdry rcurv
        freq rtb Beam org
    rw [hsplit]
    exact ampPhase2_AG m true fuel oldPoint hs _ _ _ _ freq rtb Beam np0 hbc
      (ReflNx2D m RayToOceanT E2 oldPoint hs nBdry org freq)
      (by simp only [ReflNx2D, if_true])
  · intro oldPoint newPoint tBdry nBdry rcurv
    obtain ⟨np0, hsplit, -⟩ :=
      Reflect3D_split m ray E3 fuel oldPoint newPoint hs isTop tBdry nBdry rcurv freq rtb
    rw [hsplit]
    exact ampPhase3_AG m fuel oldPoint hs _ _ nBdry _ freq rtb np0 hbc
      (Refl3D m E3 oldPoint hs nBdry freq) (by simp only [Refl3D])

/-- C9 at an acousto-elastic bottom under a homogeneous medium. -/
theorem C9_witness :
    ∃ np, Reflect2D exSTD exSSP 0 exPoint exPoint (exHS 'A') false ⟨1, 0⟩ ⟨0, 1⟩ ⟨0⟩ 50
        exTable exBeam = .ok np ∧
      (exSTD.cabs (Refl2D exSTD exSSP exPoint (exHS 'A') ⟨1, 0⟩ ⟨0, 1⟩ 50) < 1e-5 →
        np.Amp = 0 ∧ np.Phase = exPoint.Phase) ∧
      (¬ exSTD.cabs (Refl2D exSTD exSSP exPoint (exHS 'A') ⟨1, 0⟩ ⟨0, 1⟩ 50) < 1e-5 →
        np.Amp = exSTD.cabs (Refl2D exSTD exSSP exPoint (exHS 'A') ⟨1, 0⟩ ⟨0, 1⟩ 50)
          * exPoint.Amp ∧
        np.Phase = exPoint.Phase
          + exSTD.atan2 (Refl2D exSTD exSSP exPoint (exHS 'A') ⟨1, 0⟩ ⟨0, 1⟩ 50).im
              (Refl2D exSTD exSSP exPoint (exHS 'A') ⟨1, 0⟩ ⟨0, 1⟩ 50).re) :=
  (C9_half_space_amplitude exSTD 0 50 exTable exBeam exSSP
      exSSP3 exRayToOceanT exOrigin exRay3D
      (exHS 'A') false (Or.inl rfl)).1 exPoint exPoint ⟨1, 0⟩ ⟨0, 1⟩ ⟨0⟩

/-- C10: in 2D, for a half-space without shear (`Re hs.cS ≤ 0`), the
coefficient computed by `Reflect` is
`Refl = -(ρ1·γ2 - ρ2·γ1) / (ρ1·γ2 + ρ2·γ1)` with `ρ1 = o.rho`, `ρ2 = hs.rho`,
`γ1 = i·ω·Th`, `γ2 = sqrt((ω·Tg)² - (ω/hs.cP)²)` on the branch with
non-negative imaginary part when the real part is 0, and `ω = 2·pi·freq`;
hence `|Refl| = |(ρ1·γ2 - ρ2·γ1) / (ρ1·γ2 + ρ2·γ1)|`, and this is the factor
applied to the amplitude of a ray that is not killed. -/
theorem C10_fluid_half_space_coefficient {K : Type} [LinearOrderedField K] {P : Type}
    [Add P] [SMul K P] (m : STD K) (E2 : Vec2 K → Vec2 K → SSPOutputs2 K) (fuel : Nat)
    (oldPoint newPoint : rayPt2 K P) (hs : HSInfo K) (isTop : Bool)
    (tBdry nBdry : Vec2 K) (rcurv : ReflCurvature2 K) (freq : K)
    (rtb : ReflectionInfoTopBot K) (Beam : BeamStructure)
    (omega rho1 rho2 : K) (gamma1 gamma2 root : Cpx K)
    (hcS : hs.cS.re ≤ 0)
    (homega : omega = 2 * m.pi * freq)
    (hrho1 : rho1 = (E2 oldPoint.x oldPoint.t).rho) (hrho2 : rho2 = hs.rho)
    (hgamma1 : gamma1 = Cpx.J * Cpx.ofReal (omega * Vec2.dot oldPoint.t nBdry))
    (hroot : root = m.csqrt (Cpx.ofReal ((omega * Vec2.dot oldPoint.t tBdry) ^ 2)
      - SQ (Cpx.ofReal omega / hs.cP)))
    (hgamma2 : gamma2 = if root.re = 0 ∧ root.im < 0 then -root else root) :
    Refl2D m E2 oldPoint hs tBdry nBdry freq
      = -((rho1 • gamma2 - rho2 • gamma1) / (rho1 • gamma2 + rho2 • gamma1)) ∧
    (gamma2.re = 0 → 0 ≤ gamma2.im) ∧
    m.cabs (Refl2D m E2 oldPoint hs tBdry nBdry freq)
      = m.cabs ((rho1 • gamma2 - rho2 • gamma1) / (rho1 • gamma2 + rho2 • gamma1)) ∧
    ((hs.bc = 'A' ∨ hs.bc = 'G') →
      ¬ m.cabs ((rho1 • gamma2 - rho2 • gamma1) / (rho1 • gamma2 + rho2 • gamma1)) < 1e-5 →
      ∃ np, Reflect2D m E2 fuel oldPoint newPoint hs isTop tBdry nBdry rcurv freq rtb Beam
          = .ok np ∧
        np.Amp = m.cabs ((rho1 • gamma2 - rho2 • gamma1) / (rho1 • gamma2 + rho2 • gamma1))
          * oldPoint.Amp) := by
  have hcS2 : ¬ hs.cS.re > 0 := not_lt.2 hcS
  have hR : Refl2D m E2 oldPoint hs tBdry nBdry freq
      = -((rho1 • gamma2 - rho2 • gamma1) / (rho1 • gamma2 + rho2 • gamma1)) := by
    rw [← Cpx.neg_div_eq]
    simp only [Refl2D, ReflCoef2D, Th2D, Tg2D, hcS2, if_false, Cpx.SQ_ofReal,
      Cpx.J_mul_ofReal_mul_ofReal]
    rw [hgamma2, hroot, hgamma1, hrho1, hrho2, homega]
  have habs : m.cabs (Refl2D m E2 oldPoint hs tBdry nBdry freq)
      = m.cabs ((rho1 • gamma2 - rho2 • gamma1) / (rho1 • gamma2 + rho2 • gamma1)) := by
    rw [hR]
    simp only [STD.cabs, Cpx.normSq_neg]
  refine ⟨hR, ?_, habs, ?_⟩
  · intro hre
    rw [hgamma2] at hre ⊢
    by_cases hc : root.re = 0 ∧ root.im < 0
    · simp only [hc, and_self, if_true, Cpx.neg_im]
      linarith [hc.2]
    · simp only [hc, if_false] at hre ⊢
      by_contra hneg
      exact hc ⟨hre, not_le.1 hneg⟩
  · intro hbc hkill
    obtain ⟨np, hnp, -, h2⟩ :=
      Reflect2D_AG m fuel freq rtb Beam E2 hs isTop hbc oldPoint newPoint tBdry nBdry rcurv
    rw [habs] at h2
    exact ⟨np, hnp, (h2 hkill).1⟩

/-- C10 at the same bottom: `ω = 300`, `γ1 = 48 i`, `γ2 = 331767/256`. -/
theorem C10_witness :
    Refl2D exSTD exSSP exPoint (exHS 'A') ⟨1, 0⟩ ⟨0, 1⟩ 50
      = -(((1 : ℚ) • (⟨331767 / 256, 0⟩ : Cpx ℚ) - (9 / 5 : ℚ) • (⟨0, 48⟩ : Cpx ℚ))
          / ((1 : ℚ) • (⟨331767 / 256, 0⟩ : Cpx ℚ) + (9 / 5 : ℚ) • (⟨0, 48⟩ : Cpx ℚ))) :=
  (C10_fluid_half_space_coefficient exSTD exSSP 0 exPoint exPoint (exHS 'A') false
    ⟨1, 0⟩ ⟨0, 1⟩ ⟨0⟩ 50 exTable exBeam 300 1 (9 / 5) ⟨0, 48⟩ ⟨331767 / 256, 0⟩
    ⟨331767 / 256, 0⟩ (by norm_num [exHS]) (by norm_num [exSTD]) rfl rfl
    (by norm_num [Cpx.ext_iff2, Vec2.dot, exPoint])
    (by norm_num [Cpx.ext_iff2, Vec2.dot, exPoint, exSTD, exHS, SQ])
    (by norm_num)).1

/-- C11 (amended): for a half-space boundary (`hs.bc` is `'A'` or `'G'`) only
the 2D instantiation has a shear formula: there `Refl` is
`-(ρ f - i kz g) / (ρ f + i kz g)` with `f = ω² y4`, `g = y2` built from
`kzS = sqrt(kx² - (ω/cS)²)`, `kzP = sqrt(kx² - (ω/cP)²)` and `μ = ρ_hs cS²` when
`Re hs.cS > 0`, and with `f = kzP`, `g = ρ_hs` otherwise. In Nx2D and 3D
`Refl = (ρ_hs γ1 - ρ γ2) / (ρ_hs γ1 + ρ γ2)` with `γ1`, `γ2` built from `c` and
`hs.cP`, whatever `hs.cS` is: the whole result of `Reflect` is the same for
every value of `hs.cS`. -/
theorem C11_shear_formula_only_in_2D {K : Type} [LinearOrderedField K] {P : Type}
    [Add P] [SMul K P]
    (m : STD K) (fuel : Nat) (freq : K) (rtb : ReflectionInfoTopBot K) (Beam : BeamStructure)
    (E2 : Vec2 K → Vec2 K → SSPOutputs2 K) (E3 : Vec3 K → Vec3 K → SSPOutputs3 K)
    (RayToOceanT : Vec3 K → Origin K → Vec2 K) (org : Origin K) (ray : Ray3D K P)
    (hs : HSInfo K) (isTop : Bool) (hbc : hs.bc = 'A' ∨ hs.bc = 'G') :
    (∀ (oldPoint newPoint : rayPt2 K P) (tBdry nBdry : Vec2 K) (rcurv : ReflCurvature2 K),
      (∃ np, Reflect2D m E2 fuel oldPoint newPoint hs isTop tBdry nBdry rcurv freq rtb Beam
          = .ok np ∧
        (¬ m.cabs (Refl2D m E2 oldPoint hs tBdry nBdry freq) < 1e-5 →
          np.Amp = m.cabs (Refl2D m E2 oldPoint hs tBdry nBdry freq) * oldPoint.Amp)) ∧
      ∃ (omega rho : K) (kx kz kx2 kzS2 kzP2 : Cpx K),
        omega = 2 * m.pi * freq ∧ rho = (E2 oldPoint.x oldPoint.t).rho ∧
        kx = Cpx.ofReal (omega * Vec2.dot oldPoint.t tBdry) ∧
        kz = Cpx.ofReal (omega * Vec2.dot oldPoint.t nBdry) ∧
        kx2 = kx * kx ∧
        kzS2 = kx2 - SQ (Cpx.ofReal omega / hs.cS) ∧
        kzP2 = kx2 - SQ (Cpx.ofReal omega / hs.cP) ∧
        (hs.cS.re > 0 →
          ∃ kzS kzP mu y2 y4 : Cpx K,
            kzS = m.csqrt kzS2 ∧ kzP = m.csqrt kzP2 ∧ mu = hs.rho • (hs.cS * hs.cS) ∧
            y2 = (SQ (kzS2 + kx2) - ((4 : K) • kzS) * kzP * kx2) * mu ∧
            y4 = kzP * (kx2 - kzS2) ∧
            Refl2D m E2 oldPoint hs tBdry nBdry freq
              = (-(rho • ((omega * omega) • y4) - Cpx.J * kz * y2))
                / (rho • ((omega * omega) • y4) + Cpx.J * kz * y2)) ∧
        (¬ hs.cS.re > 0 →
          ∃ kzP : Cpx K,
            kzP = (if (m.csqrt kzP2).re = 0 ∧ (m.csqrt kzP2).im < 0 then -m.csqrt kzP2
              else m.csqrt kzP2) ∧
            Refl2D m E2 oldPoint hs tBdry nBdry freq
              = (-(rho • kzP - Cpx.J * kz * Cpx.ofReal hs.rho))
                / (rho • kzP + Cpx.J * kz * Cpx.ofReal hs.rho))) ∧
    (∀ (oldPoint newPoint : rayPt2 K P) (tBdry : Vec2 K) (nBdry : Vec3 K)
        (rcurv : ReflCurvature3 K) (cS : Cpx K),
      ReflectNx2D m RayToOceanT E2 fuel oldPoint newPoint { hs with cS := cS } isTop
          tBdry nBdry rcurv freq rtb Beam org
        = ReflectNx2D m RayToOceanT E2 fuel oldPoint newPoint hs isTop tBdry nBdry
          rcurv freq rtb Beam org ∧
      ReflNx2D m RayToOceanT E2 oldPoint { hs with cS := cS } nBdry org freq
        = ReflNx2D m RayToOceanT E2 oldPoint hs nBdry org freq ∧
      ∃ (omega c rho : K) (gk gamma1 gamma2 : Cpx K),
        omega = 2 * m.pi * freq ∧
        c = (E2 oldPoint.x (tNewNx2D m RayToOceanT oldPoint nBdry org)).ccpx.re ∧
        rho = (E2 oldPoint.x (tNewNx2D m RayToOceanT oldPoint nBdry org)).rho ∧
        gk = Cpx.ofReal (omega * TgNx2D m RayToOceanT oldPoint nBdry org) ∧
        gamma1 = m.csqrt (-(Cpx.ofReal (SQ (omega / c)) - SQ gk - m.minpos • Cpx.J)) ∧
        gamma2 = m.csqrt (-(SQ (Cpx.ofReal omega / hs.cP) - SQ gk - m.minpos • Cpx.J)) ∧
        ReflNx2D m RayToOceanT E2 oldPoint hs nBdry org freq
          = (hs.rho • gamma1 - rho • gamma2) / (hs.rho • gamma1 + rho • gamma2)) ∧
    (∀ (oldPoint newPoint : rayPt3 K P) (tBdry nBdry : Vec3 K) (rcurv : ReflCurvature3 K)
        (cS : Cpx K),
      Reflect3D m ray E3 fuel oldPoint newPoint { hs with cS := cS } isTop
          tBdry nBdry rcurv freq rtb
        = Reflect3D m ray E3 fuel oldPoint newPoint hs isTop tBdry nBdry rcurv freq rtb ∧
      Refl3D m E3 oldPoint { hs with cS := cS } nBdry freq
        = Refl3D m E3 oldPoint hs nBdry freq ∧
      ∃ (omega c rho : K) (gk gamma1 gamma2 : Cpx K),
        omega = 2 * m.pi * freq ∧
        c = (E3 oldPoint.x (oldPoint.t - (2 * Th3D oldPoint nBdry) • nBdry)).ccpx.re ∧
        rho = (E3 oldPoint.x (oldPoint.t - (2 * Th3D oldPoint nBdry) • nBdry)).rho ∧
        gk = Cpx.ofReal (omega * Tg3D m oldPoint nBdry) ∧
        gamma1 = m.csqrt (-(Cpx.ofReal (SQ (omega / c)) - SQ gk - m.minpos • Cpx.J)) ∧
        gamma2 = m.csqrt (-(SQ (Cpx.ofReal omega / hs.cP) - SQ gk - m.minpos • Cpx.J)) ∧
        Refl3D m E3 oldPoint hs nBdry freq
          = (hs.rho • gamma1 - rho • gamma2) / (hs.rho • gamma1 + rho • gamma2)) := by
  refine ⟨?_, ?_, ?_⟩
  · intro oldPoint newPoint tBdry nBdry rcurv
    refine ⟨?_, _, _, _, _, _, _, _, rfl, rfl, rfl, rfl, rfl, rfl, rfl, ?_, ?_⟩
    · obtain ⟨np, hnp, -, h2⟩ := Reflect2D_AG m fuel freq rtb Beam E2 hs isTop hbc oldPoint
        newPoint tBdry nBdry rcurv
      exact ⟨np, hnp, fun hk => (h2 hk).1⟩
    · intro hcS
      refine ⟨_, _, _, _, _, rfl, rfl, rfl, rfl, rfl, ?_⟩
      simp only [Refl2D, ReflCoef2D, Th2D, Tg2D, if_pos hcS, SQ]
    · intro hcS
      refine ⟨_, rfl, ?_⟩
      simp only [Refl2D, ReflCoef2D, Th2D, Tg2D, if_neg hcS, SQ]
  · intro oldPoint newPoint tBdry nBdry rcurv cS
    refine ⟨ReflectNx2D_cS m RayToOceanT E2 fuel oldPoint newPoint hs isTop tBdry nBdry rcurv
      freq rtb Beam org cS, rfl, _, _, _, _, _, _, rfl, rfl, rfl, rfl, rfl, rfl, ?_⟩
    simp only [ReflNx2D, ReflCoefO3D, tNewNx2D]
  · intro oldPoint newPoint tBdry nBdry rcurv cS
    refine ⟨Reflect3D_cS m ray E3 fuel oldPoint newPoint hs isTop tBdry nBdry rcurv freq rtb cS,
      rfl, _, _, _, _, _, _, rfl, rfl, rfl, rfl, rfl, rfl, ?_⟩
    simp only [Refl3D, wallHack_id, ReflCoefO3D]

/-- C11 at the half-space `exHSshear` in Nx2D: the result of `Reflect` is the
one for `cS = 0`. -/
theorem C11_witness :
    (exHSshear.bc = 'A' ∨ exHSshear.bc = 'G') ∧
    ReflectNx2D exSTDroot exRayToOceanT exSSP 0 exPoint exPoint
        { exHSshear with cS := ⟨0, 0⟩ } false ⟨1, 0⟩ ⟨0, 0, 1⟩ ⟨0, 0, 0, 0, 0, 0⟩ 50 exTable
        exBeam exOrigin
      = ReflectNx2D exSTDroot exRayToOceanT exSSP 0 exPoint exPoint exHSshear false ⟨1, 0⟩
        ⟨0, 0, 1⟩ ⟨0, 0, 0, 0, 0, 0⟩ 50 exTable exBeam exOrigin :=
  ⟨Or.inl rfl,
    ((C11_shear_formula_only_in_2D exSTDroot 0 50 exTable exBeam exSSP exSSP3 exRayToOceanT
      exOrigin exRay3D exHSshear false (Or.inl rfl)).2.1 exPoint exPoint ⟨1, 0⟩ ⟨0, 0, 1⟩
      ⟨0, 0, 0, 0, 0, 0⟩ ⟨0, 0⟩).1⟩

/-- C11, the call that contradicts it: in Nx2D an acousto-elastic bottom
with `Re cS = 5 > 0` gets the coefficient `(15 + 8 i)/17` of the fluid
formula, the one of the same bottom with `cS = 0`, and not the value
`2581233/9999983 + (125000/1428569) i` of the shear formula; the returned
amplitude is `|(15 + 8 i)/17| · Amp`. -/
theorem C11_counterexample :
    exHSshear.bc = 'A' ∧ exHSshear.cS.re > 0 ∧
    ReflNx2D exSTDroot exRayToOceanT exSSP exPoint exHSshear ⟨0, 0, 1⟩ exOrigin 50
      = ⟨15 / 17, 8 / 17⟩ ∧
    ReflNx2D exSTDroot exRayToOceanT exSSP exPoint exHSshear ⟨0, 0, 1⟩ exOrigin 50
      = ReflNx2D exSTDroot exRayToOceanT exSSP exPoint exHSslow ⟨0, 0, 1⟩ exOrigin 50 ∧
    ReflCoef2D exSTDroot exHSshear 1 300 (4 / 25) (3 / 25)
      = ⟨2581233 / 9999983, 125000 / 1428569⟩ ∧
    ThNx2D exSTDroot exRayToOceanT exPoint ⟨0, 0, 1⟩ exOrigin = 4 / 25 ∧
    TgNx2D exSTDroot exRayToOceanT exPoint ⟨0, 0, 1⟩ exOrigin = 3 / 25 ∧
    ReflNx2D exSTDroot exRayToOceanT exSSP exPoint exHSshear ⟨0, 0, 1⟩ exOrigin 50
      ≠ ReflCoef2D exSTDroot exHSshear 1 300 (4 / 25) (3 / 25) ∧
    ∃ np, ReflectNx2D exSTDroot exRayToOceanT exSSP 0 exPoint exPoint exHSshear false ⟨1, 0⟩
        ⟨0, 0, 1⟩ ⟨0, 0, 0, 0, 0, 0⟩ 50 exTable exBeam exOrigin = .ok np ∧
      ReflectNx2D exSTDroot exRayToOceanT exSSP 0 exPoint exPoint exHSslow false ⟨1, 0⟩
        ⟨0, 0, 1⟩ ⟨0, 0, 0, 0, 0, 0⟩ 50 exTable exBeam exOrigin = .ok np ∧
      np.Amp = exSTDroot.cabs ⟨15 / 17, 8 / 17⟩ * exPoint.Amp := by
  have hTh : ThNx2D exSTDroot exRayToOceanT exPoint ⟨0, 0, 1⟩ exOrigin = 4 / 25 := by
    norm_num [ThNx2D, nBdry_rayNx2D, STD.length2, exRayToOceanT, exSTDroot, exSTD, exPoint,
      Vec2.dot]
  have hTg : TgNx2D exSTDroot exRayToOceanT exPoint ⟨0, 0, 1⟩ exOrigin = 3 / 25 := by
    norm_num [TgNx2D, tBdryNx2D, ThNx2D, nBdry_rayNx2D, STD.length2, exRayToOceanT,
      exSTDroot, exSTD, exPoint, Vec2.dot]
  refine ⟨rfl, by norm_num [exHSshear], exReflNx2D_shear, rfl, exRefl2D_shear, hTh, hTg, ?_, ?_⟩
  · rw [exReflNx2D_shear, exRefl2D_shear, Ne, Cpx.ext_iff2]
    norm_num
  · obtain ⟨np0, hsplit, -⟩ :=
      ReflectNx2D_split exSTDroot exRayToOceanT exSSP 0 exPoint exPoint exHSshear false ⟨1, 0⟩
        ⟨0, 0, 1⟩ ⟨0, 0, 0, 0, 0, 0⟩ 50 exTable exBeam exOrigin
    obtain ⟨np, hnp, -, h2⟩ := ampPhase2_AG exSTDroot true 0 exPoint exHSshear
      (ThNx2D exSTDroot exRayToOceanT exPoint ⟨0, 0, 1⟩ exOrigin)
      (TgNx2D exSTDroot exRayToOceanT exPoint ⟨0, 0, 1⟩ exOrigin)
      (tBdryNx2D exSTDroot exRayToOceanT exPoint ⟨0, 0, 1⟩ exOrigin)
      (exSSP exPoint.x (exPoint.t - (2 * ThNx2D exSTDroot exRayToOceanT exPoint ⟨0, 0, 1⟩
        exOrigin) • nBdry_rayNx2D exSTDroot exRayToOceanT ⟨0, 0, 1⟩ exOrigin)) 50 exTable
      exBeam np0 (Or.inl rfl)
      (ReflNx2D exSTDroot exRayToOceanT exSSP exPoint exHSshear ⟨0, 0, 1⟩ exOrigin 50)
      (by simp only [ReflNx2D, if_true])
    have hnp2 : ReflectNx2D exSTDroot exRayToOceanT exSSP 0 exPoint exPoint exHSshear false
        ⟨1, 0⟩ ⟨0, 0, 1⟩ ⟨0, 0, 0, 0, 0, 0⟩ 50 exTable exBeam exOrigin = .ok np := by
      rw [hsplit]; exact hnp
    refine ⟨np, hnp2, ?_, ?_⟩
    · rw [← hnp2]
      exact ReflectNx2D_cS exSTDroot exRayToOceanT exSSP 0 exPoint exPoint exHSshear false
        ⟨1, 0⟩ ⟨0, 0, 1⟩ ⟨0, 0, 0, 0, 0, 0⟩ 50 exTable exBeam exOrigin ⟨0, 0⟩
    · rw [exReflNx2D_shear] at h2
      exact (h2 (by norm_num [STD.cabs, exSTDroot, exSTD, Cpx.normSq])).1

/-- C12 (amended): `ReadReflectionCoefficient` (both versions) tests only
the bottom option, after both halves have run. With `BotRC = 'P'` the call
never returns normally, and it aborts with "Internal reflections not
supported" whenever the top half completes (always when `TopRC ≠ 'F'`). With
`BotRC` neither `'P'` nor `'F'` and `TopRC ≠ 'F'`, in particular with
`TopRC = 'P'`, the call returns normally with two one-entry tables. -/
theorem C12_internal_reflection_check {K : Type} [LinearOrderedField K]
    (m : STD K) (BRCFile TRCFile : Option (RCFile K)) (BotRC TopRC : Char)
    (refl : ReflectionInfo K) :
    (BotRC = 'P' →
      (∀ out, ReadReflectionCoefficient m BRCFile TRCFile BotRC TopRC refl ≠ .ok out) ∧
      (∀ top, readTopBot m TopRC TRCFile refl.top .cannotOpenTop = .ok top →
        ReadReflectionCoefficient m BRCFile TRCFile BotRC TopRC refl
          = .error .internalReflections) ∧
      (TopRC ≠ 'F' → ReadReflectionCoefficient m BRCFile TRCFile BotRC TopRC refl
          = .error .internalReflections) ∧
      (∀ out, refcoef_ReadReflectionCoefficient m BRCFile TRCFile BotRC TopRC refl
          ≠ .ok out) ∧
      (∀ top, refcoef_readTopBot m TopRC TRCFile refl.top .cannotOpenTop = .ok top →
        refcoef_ReadReflectionCoefficient m BRCFile TRCFile BotRC TopRC refl
          = .error .internalReflections) ∧
      (TopRC ≠ 'F' → refcoef_ReadReflectionCoefficient m BRCFile TRCFile BotRC TopRC refl
          = .error .internalReflections)) ∧
    (BotRC ≠ 'P' → BotRC ≠ 'F' → TopRC ≠ 'F' →
      ReadReflectionCoefficient m BRCFile TRCFile BotRC TopRC refl
        = .ok ⟨{ refl.bot with r := allocateRC 1 }, { refl.top with r := allocateRC 1 }⟩ ∧
      refcoef_ReadReflectionCoefficient m BRCFile TRCFile BotRC TopRC refl
        = .ok ⟨{ refl.bot with r := allocateRC 1 }, { refl.top with r := allocateRC 1 }⟩) := by
  refine ⟨fun hP => ?_, fun hP hF hT => ?_⟩
  · have hF : BotRC ≠ 'F' := by rw [hP]; decide
    refine ⟨?_, ?_, ?_, ?_, ?_, ?_⟩
    · intro out
      simp only [ReadReflectionCoefficient, readTopBot, if_neg hF, if_pos hP]
      split <;> simp
    · intro top htop
      simp only [ReadReflectionCoefficient, readTopBot, if_neg hF, if_pos hP] at htop ⊢
      rw [htop]
    · intro hT
      simp only [ReadReflectionCoefficient, readTopBot, if_neg hF, if_neg hT, if_pos hP]
    · intro out
      simp only [refcoef_ReadReflectionCoefficient, refcoef_readTopBot, if_neg hF, if_pos hP]
      split <;> simp
    · intro top htop
      simp only [refcoef_ReadReflectionCoefficient, refcoef_readTopBot, if_neg hF, if_pos hP]
        at htop ⊢
      rw [htop]
    · intro hT
      simp only [refcoef_ReadReflectionCoefficient, refcoef_readTopBot, if_neg hF, if_neg hT,
        if_pos hP]
  · constructor
    · simp only [ReadReflectionCoefficient, readTopBot, if_neg hF, if_neg hT, if_neg hP]
    · simp only [refcoef_ReadReflectionCoefficient, refcoef_readTopBot, if_neg hF, if_neg hT,
        if_neg hP]

/-- C12, the call that contradicts it: with the top option `'P'` and the
bottom option `'R'` both versions of the reader return normally. -/
theorem C12_counterexample :
    ReadReflectionCoefficient exSTD none none 'R' 'P' exReflInfo
      = .ok ⟨{ exReflInfo.bot with r := allocateRC 1 },
          { exReflInfo.top with r := allocateRC 1 }⟩ ∧
    refcoef_ReadReflectionCoefficient exSTD none none 'R' 'P' exReflInfo
      = .ok ⟨{ exReflInfo.bot with r := allocateRC 1 },
          { exReflInfo.top with r := allocateRC 1 }⟩ := by
  constructor
  · simp [ReadReflectionCoefficient, readTopBot]
  · simp [refcoef_ReadReflectionCoefficient, refcoef_readTopBot]

/-- C13 (amended): for every returning call of `Reflect` with 2D rays on the
bottom boundary with `Beam.Type[2]` neither `'D'` nor `'Z'` (and `Th ≠ 0`),
`newPoint.p = oldPoint.p + oldPoint.q * rn` with
`rn = 2κ/(c²·Th) + (Tg/Th)·(2·cnjump − (Tg/Th)·csjump)/c²`, where `c` and
`gradc` come from the SSP at `oldPoint.x`, `cnjump = −gradc·(rayn_tilde − rayn)`
and `csjump = −gradc·(rayt_tilde − rayt)` (in Nx2D `κ` is the projected
curvature); `newPoint.q = oldPoint.q` unless the beam-displacement branch
runs (`hs.bc` is `'A'` or `'G'`, `|Refl| ≥ 1e-5` and `Beam.Type[3] = 'S'`), and
then `newPoint.q = oldPoint.q + (sddelta·rddelta·si·c) * oldPoint.p`. The call
returns for the conditions `'R'`, `'V'`, `'A'`, `'G'`. -/
theorem C13_paraxial_update_bottom {K : Type} [LinearOrderedField K] {P : Type}
    [Add P] [SMul K P]
    (m : STD K) (fuel : Nat) (freq : K) (rtb : ReflectionInfoTopBot K) (Beam : BeamStructure)
    (E2 : Vec2 K → Vec2 K → SSPOutputs2 K) (RayToOceanT : Vec3 K → Origin K → Vec2 K)
    (org : Origin K) (hs : HSInfo K)
    (hD : Beam.Type_ 2 ≠ 'D') (hZ : Beam.Type_ 2 ≠ 'Z') :
    (∀ (oldPoint newPoint np : rayPt2 K P) (tBdry nBdry : Vec2 K) (rcurv : ReflCurvature2 K),
      Vec2.dot oldPoint.t nBdry ≠ 0 →
      Reflect2D m E2 fuel oldPoint newPoint hs false tBdry nBdry rcurv freq rtb Beam
        = .ok np →
      ∃ (c Th Tg cnjump csjump : K) (gradc rayt rayn rayt_tilde rayn_tilde : Vec2 K),
        c = (E2 oldPoint.x oldPoint.t).ccpx.re ∧ gradc = (E2 oldPoint.x oldPoint.t).gradc ∧
        Th = Vec2.dot oldPoint.t nBdry ∧ Tg = Vec2.dot oldPoint.t tBdry ∧
        np.t = oldPoint.t - (2 * Th) • nBdry ∧
        rayt = c • oldPoint.t ∧ rayn = ⟨-rayt.y, rayt.x⟩ ∧
        rayt_tilde = c • np.t ∧ rayn_tilde = -(⟨-rayt_tilde.y, rayt_tilde.x⟩ : Vec2 K) ∧
        cnjump = -Vec2.dot gradc (rayn_tilde - rayn) ∧
        csjump = -Vec2.dot gradc (rayt_tilde - rayt) ∧
        np.p = oldPoint.p
          + (2 * rcurv.kappa / (c ^ 2 * Th)
              + Tg / Th * (2 * cnjump - Tg / Th * csjump) / c ^ 2) • oldPoint.q ∧
        ((Beam.Type_ 3 ≠ 'S' ∨ ¬ (hs.bc = 'A' ∨ hs.bc = 'G') ∨
            m.cabs (Refl2D m E2 oldPoint hs tBdry nBdry freq) < 1e-5) →
          np.q = oldPoint.q) ∧
        (Beam.Type_ 3 = 'S' → (hs.bc = 'A' ∨ hs.bc = 'G') →
            ¬ m.cabs (Refl2D m E2 oldPoint hs tBdry nBdry freq) < 1e-5 →
          np.q = oldPoint.q
            + beamWidthChange m oldPoint hs (E2 oldPoint.x oldPoint.t).ccpx (2 * m.pi * freq)
              • oldPoint.p)) ∧
    (∀ (oldPoint newPoint np : rayPt2 K P) (tBdry : Vec2 K) (nBdry : Vec3 K)
        (rcurv : ReflCurvature3 K),
      ThNx2D m RayToOceanT oldPoint nBdry org ≠ 0 →
      ReflectNx2D m RayToOceanT E2 fuel oldPoint newPoint hs false tBdry nBdry rcurv freq rtb
        Beam org = .ok np →
      ∃ (c Th Tg cnjump csjump kappa : K) (gradc rayt rayn rayt_tilde rayn_tilde : Vec2 K),
        c = (E2 oldPoint.x np.t).ccpx.re ∧ gradc = (E2 oldPoint.x np.t).gradc ∧
        Th = ThNx2D m RayToOceanT oldPoint nBdry org ∧
        Tg = TgNx2D m RayToOceanT oldPoint nBdry org ∧
        kappa = rcurv.kappa_xx * org.tradial.x ^ 2
          + 2 * rcurv.kappa_xy * org.tradial.x * org.tradial.y
          + rcurv.kappa_yy * org.tradial.y ^ 2 ∧
        np.t = oldPoint.t - (2 * Th) • nBdry_rayNx2D m RayToOceanT nBdry org ∧
        rayt = c • oldPoint.t ∧ rayn = ⟨-rayt.y, rayt.x⟩ ∧
        rayt_tilde = c • np.t ∧ rayn_tilde = -(⟨-rayt_tilde.y, rayt_tilde.x⟩ : Vec2 K) ∧
        cnjump = -Vec2.dot gradc (rayn_tilde - rayn) ∧
        csjump = -Vec2.dot gradc (rayt_tilde - rayt) ∧
        np.p = oldPoint.p
          + (2 * kappa / (c ^ 2 * Th)
              + Tg / Th * (2 * cnjump - Tg / Th * csjump) / c ^ 2) • oldPoint.q ∧
        ((Beam.Type_ 3 ≠ 'S' ∨ ¬ (hs.bc = 'A' ∨ hs.bc = 'G') ∨
            m.cabs (ReflNx2D m RayToOceanT E2 oldPoint hs nBdry org freq) < 1e-5) →
          np.q = oldPoint.q) ∧
        (Beam.Type_ 3 = 'S' → (hs.bc = 'A' ∨ hs.bc = 'G') →
            ¬ m.cabs (ReflNx2D m RayToOceanT E2 oldPoint hs nBdry org freq) < 1e-5 →
          np.q = oldPoint.q
            + beamWidthChange m oldPoint hs (E2 oldPoint.x np.t).ccpx (2 * m.pi * freq)
              • oldPoint.p)) ∧
    ((hs.bc = 'R' ∨ hs.bc = 'V' ∨ hs.bc = 'A' ∨ hs.bc = 'G') →
      ∀ (oldPoint newPoint : rayPt2 K P) (tBdry nBdry : Vec2 K) (nBdry3 : Vec3 K)
        (rcurv : ReflCurvature2 K) (rcurv3 : ReflCurvature3 K),
      (∃ np, Reflect2D m E2 fuel oldPoint newPoint hs false tBdry nBdry rcurv freq rtb Beam
        = .ok np) ∧
      ∃ np, ReflectNx2D m RayToOceanT E2 fuel oldPoint newPoint hs false tBdry nBdry3 rcurv3
        freq rtb Beam org = .ok np) := by
  refine ⟨?_, ?_, ?_⟩
  · intro oldPoint newPoint np tBdry nBdry rcurv _ h
    obtain ⟨hp, ht⟩ := Reflect2D_p m E2 fuel oldPoint newPoint hs false tBdry nBdry rcurv freq
      rtb Beam np h
    refine ⟨_, _, _, _, _, _, _, _, _, _, rfl, rfl, rfl, rfl, ht, rfl, rfl, rfl, rfl, rfl, rfl,
      ?_, ?_, ?_⟩
    · rw [hp, (rnApplied_cases Beam _).2.2 hD hZ, rnBase2D, rnBase_bottom, ht]
      rfl
    · intro hno
      exact (Reflect2D_q m E2 fuel oldPoint newPoint hs false tBdry nBdry rcurv freq rtb Beam
        np h hno).1
    · intro hS hbc hk
      obtain ⟨np0, hsplit, -, hq0, -, -, -⟩ :=
        Reflect2D_split_p m E2 fuel oldPoint newPoint hs false tBdry nBdry rcurv freq rtb Beam
      have hk2 : ¬ m.cabs (if false = true then
            ReflCoefO3D m hs (E2 oldPoint.x oldPoint.t).ccpx.re (E2 oldPoint.x oldPoint.t).rho
              (2 * m.pi * freq) (Tg2D oldPoint tBdry)
          else ReflCoef2D m hs (E2 oldPoint.x oldPoint.t).rho (2 * m.pi * freq)
            (Th2D oldPoint nBdry) (Tg2D oldPoint tBdry)) < 1e-5 := by
        simpa only [Refl2D, Bool.false_eq_true, if_false] using hk
      obtain ⟨np1, hnp1, hq1, -⟩ := ampPhase2_q_displaced m false fuel oldPoint hs
        (Th2D oldPoint nBdry) (Tg2D oldPoint tBdry) tBdry (E2 oldPoint.x oldPoint.t) freq rtb
        Beam np0 hbc hS hk2
      rw [hsplit, hnp1] at h
      cases h
      rw [hq1, hq0]
  · intro oldPoint newPoint np tBdry nBdry rcurv _ h
    obtain ⟨hp, ht⟩ := ReflectNx2D_p m RayToOceanT E2 fuel oldPoint newPoint hs false tBdry
      nBdry rcurv freq rtb Beam org np h
    refine ⟨_, _, _, _, _, _, _, _, _, _, _, rfl, rfl, rfl, rfl, rfl, ht, rfl, rfl, rfl, rfl,
      rfl, rfl, ?_, ?_, ?_⟩
    · rw [hp, (rnApplied_cases Beam _).2.2 hD hZ, rnBaseNx2D, rnBase_bottom, ht]
      simp only [OceanToRayCurvatureNx2D, SQ, Bool.false_eq_true, if_false, pow_two]
    · intro hno
      exact (ReflectNx2D_q m RayToOceanT E2 fuel oldPoint newPoint hs false tBdry nBdry rcurv
        freq rtb Beam org np h hno).1
    · intro hS hbc hk
      obtain ⟨np0, hsplit, -, hq0, -, -, -⟩ :=
        ReflectNx2D_split_p m RayToOceanT E2 fuel oldPoint newPoint hs false tBdry nBdry rcurv
          freq rtb Beam org
      have hk2 : ¬ m.cabs (if true = true then ReflCoefO3D m hs
            (E2 oldPoint.x (tNewNx2D m RayToOceanT oldPoint nBdry org)).ccpx.re
            (E2 oldPoint.x (tNewNx2D m RayToOceanT oldPoint nBdry org)).rho
            (2 * m.pi * freq) (TgNx2D m RayToOceanT oldPoint nBdry org)
          else ReflCoef2D m hs
            (E2 oldPoint.x (tNewNx2D m RayToOceanT oldPoint nBdry org)).rho
            (2 * m.pi * freq) (ThNx2D m RayToOceanT oldPoint nBdry org)
            (TgNx2D m RayToOceanT oldPoint nBdry org)) < 1e-5 := by
        simpa only [ReflNx2D, tNewNx2D, if_true] using hk
      obtain ⟨np1, hnp1, hq1, -⟩ := ampPhase2_q_displaced m true fuel oldPoint hs
        (ThNx2D m RayToOceanT oldPoint nBdry org) (TgNx2D m RayToOceanT oldPoint nBdry org)
        (tBdryNx2D m RayToOceanT oldPoint nBdry org)
        (E2 oldPoint.x (tNewNx2D m RayToOceanT oldPoint nBdry org)) freq rtb Beam np0 hbc hS hk2
      rw [hsplit, hnp1] at h
      cases h
      rw [hq1, hq0, ht]
  · intro hbc oldPoint newPoint tBdry nBdry nBdry3 rcurv rcurv3
    exact ⟨(Reflect2D_ok_iff m E2 fuel oldPoint newPoint hs false tBdry nBdry rcurv freq rtb
        Beam).2 (bc_known hbc _),
      (ReflectNx2D_ok_iff m RayToOceanT E2 fuel oldPoint newPoint hs false tBdry nBdry3 rcurv3
        freq rtb Beam org).2 (bc_known hbc _)⟩

/-- C13 at a ray going down onto a flat rigid bottom in a medium with the
gradient `(0, 1)`: `cnjump = 6/5`, `csjump = 8/5`, `rn = 9/250`. -/
theorem C13_witness :
    exBeam.Type_ 2 ≠ 'D' ∧ exBeam.Type_ 2 ≠ 'Z' ∧
    ∃ np, Reflect2D exSTD exSSPgrad 0 exPointQ exPointQ (exHS 'R') false ⟨1, 0⟩ ⟨0, 1⟩ ⟨0⟩ 50
        exTable exBeam = .ok np ∧
      np.p = 259 / 250 ∧ np.q = 1 := by
  refine ⟨by decide, by decide, ?_⟩
  obtain ⟨np, hnp⟩ := ((C13_paraxial_update_bottom exSTD 0 50 exTable exBeam exSSPgrad
    exRayToOceanT exOrigin (exHS 'R') (by decide) (by decide)).2.2 (Or.inl rfl) exPointQ
    exPointQ ⟨1, 0⟩ ⟨0, 1⟩ ⟨0, 0, 1⟩ ⟨0⟩ ⟨0, 0, 0, 0, 0, 0⟩).1
  obtain ⟨c, Th, Tg, cnjump, csjump, gradc, rayt, rayn, rayt_tilde, rayn_tilde, h1, h2, h3,
    h4, h5, h6, h7, h8, h9, h10, h11, h12, h13, -⟩ :=
    (C13_paraxial_update_bottom exSTD 0 50 exTable exBeam exSSPgrad
      exRayToOceanT exOrigin (exHS 'R') (by decide) (by decide)).1
      exPointQ exPointQ np ⟨1, 0⟩ ⟨0, 1⟩ ⟨0⟩ (by norm_num [Vec2.dot, exPointQ, exPoint]) hnp
  refine ⟨np, hnp, ?_, ?_⟩
  · rw [h12, h10, h11, h9, h8, h7, h6, h5, h4, h3, h2, h1]
    norm_num [Vec2.dot, exPointQ, exPoint, exSSPgrad]
  · rw [h13 (Or.inr (Or.inl (by decide)))]
    rfl

/-- C13, the call that contradicts it: a bottom reflection in 2D with
`Th = 4/25`, beam options `GGGS` and an acousto-elastic bottom whose
coefficient has modulus 1 returns `q = 569023/5056344`, not `oldPoint.q = 0`. -/
theorem C13_counterexample :
    exBeamS.Type_ 2 ≠ 'D' ∧ exBeamS.Type_ 2 ≠ 'Z' ∧ Vec2.dot exPoint.t ⟨0, 1⟩ ≠ 0 ∧
    ∃ np, Reflect2D exSTDroot exSSP 0 exPoint exPoint exHSslow false ⟨1, 0⟩ ⟨0, 1⟩ ⟨0⟩ 50
        exTable exBeamS = .ok np ∧
      np.q = 569023 / 5056344 ∧ np.q ≠ exPoint.q := by
  refine ⟨by decide, by decide, by norm_num [Vec2.dot, exPoint], ?_⟩
  obtain ⟨np0, hsplit, -, hq0, -, -, -⟩ :=
    Reflect2D_split_p exSTDroot exSSP 0 exPoint exPoint exHSslow false ⟨1, 0⟩ ⟨0, 1⟩ ⟨0⟩ 50
      exTable exBeamS
  have hk : ¬ exSTDroot.cabs (if false = true then
        ReflCoefO3D exSTDroot exHSslow (exSSP exPoint.x exPoint.t).ccpx.re
          (exSSP exPoint.x exPoint.t).rho (2 * exSTDroot.pi * 50) (Tg2D exPoint ⟨1, 0⟩)
      else ReflCoef2D exSTDroot exHSslow (exSSP exPoint.x exPoint.t).rho
        (2 * exSTDroot.pi * 50) (Th2D exPoint ⟨0, 1⟩) (Tg2D exPoint ⟨1, 0⟩)) < 1e-5 := by
    rw [if_neg (by decide), exRefl_slow]
    norm_num [STD.cabs, exSTDroot, exSTD, Cpx.normSq]
  obtain ⟨np, hnp, hq, -⟩ := ampPhase2_q_displaced exSTDroot false 0 exPoint exHSslow
    (Th2D exPoint ⟨0, 1⟩) (Tg2D exPoint ⟨1, 0⟩) ⟨1, 0⟩ (exSSP exPoint.x exPoint.t) 50 exTable
    exBeamS np0 (Or.inl rfl) rfl hk
  rw [hsplit]
  have hval : np.q = 569023 / 5056344 := by
    rw [hq, hq0, exWidth_slow]
    norm_num [exPoint]
  refine ⟨np, hnp, hval, ?_⟩
  rw [hval]
  norm_num [exPoint]

/-- C14 (amended): in 2D the curvature change for the top boundary is
`rn_top = −rn_bottom − 2·(Tg/Th)²·csjump/c²` from the same inputs (the
curvature term and `cnjump` change sign, `csjump` does not), before and
after the beam-type adjustment; so for returning calls
`p'_top − p = −(p'_bottom − p) − q * adj(2·(Tg/Th)²·csjump/c²)`, and
`p'_top − p = −(p'_bottom − p)` when `Tg = 0`, `csjump = 0` or
`Beam.Type[2] = 'Z'`. The calls return for the conditions `'R'`, `'V'`,
`'A'`, `'G'`. -/
theorem C14_top_bottom_curvature_change {K : Type} [LinearOrderedField K] {P : Type}
    [AddCommGroup P] [Module K P]
    (m : STD K) (E2 : Vec2 K → Vec2 K → SSPOutputs2 K) (fuel : Nat)
    (oldPoint newPoint : rayPt2 K P) (hs : HSInfo K)
    (tBdry nBdry : Vec2 K) (rcurv : ReflCurvature2 K) (freq : K)
    (rtb : ReflectionInfoTopBot K) (Beam : BeamStructure) :
    rnBase2D E2 oldPoint true tBdry nBdry rcurv
      = -rnBase2D E2 oldPoint false tBdry nBdry rcurv
        - 2 * (Tg2D oldPoint tBdry / Th2D oldPoint nBdry) ^ 2 * csjump2D E2 oldPoint nBdry
          / (E2 oldPoint.x oldPoint.t).ccpx.re ^ 2 ∧
    rnApplied Beam (rnBase2D E2 oldPoint true tBdry nBdry rcurv)
      = -rnApplied Beam (rnBase2D E2 oldPoint false tBdry nBdry rcurv)
        - rnApplied Beam (2 * (Tg2D oldPoint tBdry / Th2D oldPoint nBdry) ^ 2
            * csjump2D E2 oldPoint nBdry / (E2 oldPoint.x oldPoint.t).ccpx.re ^ 2) ∧
    (∀ npT npB,
      Reflect2D m E2 fuel oldPoint newPoint hs true tBdry nBdry rcurv freq rtb Beam
        = .ok npT →
      Reflect2D m E2 fuel oldPoint newPoint hs false tBdry nBdry rcurv freq rtb Beam
        = .ok npB →
      npT.p - oldPoint.p = -(npB.p - oldPoint.p)
        - rnApplied Beam (2 * (Tg2D oldPoint tBdry / Th2D oldPoint nBdry) ^ 2
            * csjump2D E2 oldPoint nBdry / (E2 oldPoint.x oldPoint.t).ccpx.re ^ 2)
          • oldPoint.q ∧
      ((Tg2D oldPoint tBdry = 0 ∨ csjump2D E2 oldPoint nBdry = 0 ∨ Beam.Type_ 2 = 'Z') →
        npT.p - oldPoint.p = -(npB.p - oldPoint.p))) ∧
    ((hs.bc = 'R' ∨ hs.bc = 'V' ∨ hs.bc = 'A' ∨ hs.bc = 'G') →
      (∃ np, Reflect2D m E2 fuel oldPoint newPoint hs true tBdry nBdry rcurv freq rtb Beam
        = .ok np) ∧
      ∃ np, Reflect2D m E2 fuel oldPoint newPoint hs false tBdry nBdry rcurv freq rtb Beam
        = .ok np) := by
  have hbase : rnBase2D E2 oldPoint true tBdry nBdry rcurv
      = -rnBase2D E2 oldPoint false tBdry nBdry rcurv
        - 2 * (Tg2D oldPoint tBdry / Th2D oldPoint nBdry) ^ 2 * csjump2D E2 oldPoint nBdry
          / (E2 oldPoint.x oldPoint.t).ccpx.re ^ 2 := by
    simp only [rnBase2D, OceanToRayCurvature2D, csjump2D]
    exact rnBase_top _ _ _ _ _ _ _
  have happ : rnApplied Beam (rnBase2D E2 oldPoint true tBdry nBdry rcurv)
      = -rnApplied Beam (rnBase2D E2 oldPoint false tBdry nBdry rcurv)
        - rnApplied Beam (2 * (Tg2D oldPoint tBdry / Th2D oldPoint nBdry) ^ 2
            * csjump2D E2 oldPoint nBdry / (E2 oldPoint.x oldPoint.t).ccpx.re ^ 2) := by
    rw [hbase, rnApplied_neg_sub]
  refine ⟨hbase, happ, ?_, ?_⟩
  · intro npT npB hT hB
    obtain ⟨hpT, -⟩ := Reflect2D_p m E2 fuel oldPoint newPoint hs true tBdry nBdry rcurv freq
      rtb Beam npT hT
    obtain ⟨hpB, -⟩ := Reflect2D_p m E2 fuel oldPoint newPoint hs false tBdry nBdry rcurv freq
      rtb Beam npB hB
    have hmain : npT.p - oldPoint.p = -(npB.p - oldPoint.p)
        - rnApplied Beam (2 * (Tg2D oldPoint tBdry / Th2D oldPoint nBdry) ^ 2
            * csjump2D E2 oldPoint nBdry / (E2 oldPoint.x oldPoint.t).ccpx.re ^ 2)
          • oldPoint.q := by
      rw [hpT, hpB, add_sub_cancel_left, add_sub_cancel_left, happ, sub_smul, neg_smul]
    refine ⟨hmain, fun h0 => ?_⟩
    have hz : rnApplied Beam (2 * (Tg2D oldPoint tBdry / Th2D oldPoint nBdry) ^ 2
        * csjump2D E2 oldPoint nBdry / (E2 oldPoint.x oldPoint.t).ccpx.re ^ 2) = 0 := by
      rcases h0 with h0 | h0 | h0
      · rw [h0]
        simp only [rnApplied]
        split_ifs <;> simp
      · rw [h0]
        simp only [rnApplied]
        split_ifs <;> simp
      · exact (rnApplied_cases Beam _).2.1 h0
    rw [hmain, hz, zero_smul, sub_zero]
  · intro hbc
    exact ⟨(Reflect2D_ok_iff m E2 fuel oldPoint newPoint hs true tBdry nBdry rcurv freq rtb
        Beam).2 (bc_known hbc _),
      (Reflect2D_ok_iff m E2 fuel oldPoint newPoint hs false tBdry nBdry rcurv freq rtb
        Beam).2 (bc_known hbc _)⟩

/-- C14, the inputs that contradict it: for a ray with `Tg = 3/25`,
`Th = 4/25` at a flat rigid boundary in a medium with the gradient `(0, 1)`
the bottom call gives `rn = 9/250` and the top call `rn = -27/250`, so
`p'_top − p = -27/250` is not `−(p'_bottom − p) = -9/250`. -/
theorem C14_counterexample :
    rnBase2D exSSPgrad exPointQ false ⟨1, 0⟩ ⟨0, 1⟩ ⟨0⟩ = 9 / 250 ∧
    rnBase2D exSSPgrad exPointQ true ⟨1, 0⟩ ⟨0, 1⟩ ⟨0⟩ = -(27 / 250) ∧
    ∃ npT npB,
      Reflect2D exSTD exSSPgrad 0 exPointQ exPointQ (exHS 'R') true ⟨1, 0⟩ ⟨0, 1⟩ ⟨0⟩ 50
        exTable exBeam = .ok npT ∧
      Reflect2D exSTD exSSPgrad 0 exPointQ exPointQ (exHS 'R') false ⟨1, 0⟩ ⟨0, 1⟩ ⟨0⟩ 50
        exTable exBeam = .ok npB ∧
      npT.p - exPointQ.p = -(27 / 250) ∧ npB.p - exPointQ.p = 9 / 250 ∧
      npT.p - exPointQ.p ≠ -(npB.p - exPointQ.p) := by
  have hB : rnBase2D exSSPgrad exPointQ false ⟨1, 0⟩ ⟨0, 1⟩ ⟨0⟩ = 9 / 250 := by
    norm_num [rnBase2D, rnBase, tNew2D, Th2D, Tg2D, OceanToRayCurvature2D, Vec2.dot, SQ,
      exSSPgrad, exPointQ, exPoint]
  have hT : rnBase2D exSSPgrad exPointQ true ⟨1, 0⟩ ⟨0, 1⟩ ⟨0⟩ = -(27 / 250) := by
    norm_num [rnBase2D, rnBase, tNew2D, Th2D, Tg2D, OceanToRayCurvature2D, Vec2.dot, SQ,
      exSSPgrad, exPointQ, exPoint]
  refine ⟨hB, hT, ?_⟩
  obtain ⟨npT, hnpT⟩ := (Reflect2D_ok_iff exSTD exSSPgrad 0 exPointQ exPointQ (exHS 'R') true
    ⟨1, 0⟩ ⟨0, 1⟩ ⟨0⟩ 50 exTable exBeam).2 (Or.inl rfl)
  obtain ⟨npB, hnpB⟩ := (Reflect2D_ok_iff exSTD exSSPgrad 0 exPointQ exPointQ (exHS 'R') false
    ⟨1, 0⟩ ⟨0, 1⟩ ⟨0⟩ 50 exTable exBeam).2 (Or.inl rfl)
  obtain ⟨hpT, -⟩ := Reflect2D_p exSTD exSSPgrad 0 exPointQ exPointQ (exHS 'R') true
    ⟨1, 0⟩ ⟨0, 1⟩ ⟨0⟩ 50 exTable exBeam npT hnpT
  obtain ⟨hpB, -⟩ := Reflect2D_p exSTD exSSPgrad 0 exPointQ exPointQ (exHS 'R') false
    ⟨1, 0⟩ ⟨0, 1⟩ ⟨0⟩ 50 exTable exBeam npB hnpB
  have hra : ∀ r : ℚ, rnApplied exBeam r = r := fun r =>
    (rnApplied_cases exBeam r).2.2 (by decide) (by decide)
  rw [hT, hra] at hpT
  rw [hB, hra] at hpB
  have h1 : npT.p - exPointQ.p = -(27 / 250) := by
    rw [hpT]; norm_num [exPointQ, exPoint]
  have h2 : npB.p - exPointQ.p = 9 / 250 := by
    rw [hpB]; norm_num [exPointQ, exPoint]
  refine ⟨npT, npB, hnpT, hnpB, h1, h2, ?_⟩
  rw [h1, h2]
  norm_num

/-- C15: in every returning call of `Reflect` with 2D rays (2D and Nx2D)
`newPoint.p = oldPoint.p + oldPoint.q * rn` where the applied `rn` is twice
the base value when `Beam.Type[2]` is `'D'` (so `newPoint.p - oldPoint.p`
doubles), is `0` when it is `'Z'` (so `newPoint.p = oldPoint.p`, whatever the
curvature and the sound-speed gradient), and is the base value otherwise;
the call returns for the conditions `'R'`, `'V'`, `'A'`, `'G'`. -/
theorem C15_beam_type_adjustment {K : Type} [LinearOrderedField K] {P : Type}
    [AddCommGroup P] [Module K P]
    (m : STD K) (fuel : Nat) (freq : K) (rtb : ReflectionInfoTopBot K) (Beam : BeamStructure)
    (E2 : Vec2 K → Vec2 K → SSPOutputs2 K) (RayToOceanT : Vec3 K → Origin K → Vec2 K)
    (org : Origin K) (oldPoint newPoint : rayPt2 K P) (hs : HSInfo K) (isTop : Bool)
    (tBdry nBdry : Vec2 K) (nBdry3 : Vec3 K) (rcurv : ReflCurvature2 K)
    (rcurv3 : ReflCurvature3 K) :
    (∀ rn : K, (Beam.Type_ 2 = 'D' → rnApplied Beam rn = 2 * rn) ∧
      (Beam.Type_ 2 = 'Z' → rnApplied Beam rn = 0) ∧
      (Beam.Type_ 2 ≠ 'D' → Beam.Type_ 2 ≠ 'Z' → rnApplied Beam rn = rn)) ∧
    (∀ np, Reflect2D m E2 fuel oldPoint newPoint hs isTop tBdry nBdry rcurv freq rtb Beam
        = .ok np →
      np.p = oldPoint.p
        + rnApplied Beam (rnBase2D E2 oldPoint isTop tBdry nBdry rcurv) • oldPoint.q ∧
      (Beam.Type_ 2 = 'D' → np.p - oldPoint.p
        = (2 : K) • (rnBase2D E2 oldPoint isTop tBdry nBdry rcurv • oldPoint.q)) ∧
      (Beam.Type_ 2 = 'Z' → np.p = oldPoint.p) ∧
      (Beam.Type_ 2 ≠ 'D' → Beam.Type_ 2 ≠ 'Z' → np.p - oldPoint.p
        = rnBase2D E2 oldPoint isTop tBdry nBdry rcurv • oldPoint.q)) ∧
    (∀ np, ReflectNx2D m RayToOceanT E2 fuel oldPoint newPoint hs isTop tBdry nBdry3 rcurv3
        freq rtb Beam org = .ok np →
      np.p = oldPoint.p
        + rnApplied Beam (rnBaseNx2D m RayToOceanT E2 oldPoint isTop nBdry3 rcurv3 org)
          • oldPoint.q ∧
      (Beam.Type_ 2 = 'D' → np.p - oldPoint.p
        = (2 : K) • (rnBaseNx2D m RayToOceanT E2 oldPoint isTop nBdry3 rcurv3 org
          • oldPoint.q)) ∧
      (Beam.Type_ 2 = 'Z' → np.p = oldPoint.p) ∧
      (Beam.Type_ 2 ≠ 'D' → Beam.Type_ 2 ≠ 'Z' → np.p - oldPoint.p
        = rnBaseNx2D m RayToOceanT E2 oldPoint isTop nBdry3 rcurv3 org • oldPoint.q)) ∧
    ((hs.bc = 'R' ∨ hs.bc = 'V' ∨ hs.bc = 'A' ∨ hs.bc = 'G') →
      (∃ np, Reflect2D m E2 fuel oldPoint newPoint hs isTop tBdry nBdry rcurv freq rtb Beam
        = .ok np) ∧
      ∃ np, ReflectNx2D m RayToOceanT E2 fuel oldPoint newPoint hs isTop tBdry nBdry3 rcurv3
        freq rtb Beam org = .ok np) := by
  refine ⟨fun rn => rnApplied_cases Beam rn, ?_, ?_, ?_⟩
  · intro np h
    obtain ⟨hp, -⟩ := Reflect2D_p m E2 fuel oldPoint newPoint hs isTop tBdry nBdry rcurv freq
      rtb Beam np h
    obtain ⟨hD, hZ, hO⟩ := rnApplied_cases Beam (rnBase2D E2 oldPoint isTop tBdry nBdry rcurv)
    refine ⟨hp, fun h => ?_, fun h => ?_, fun h1 h2 => ?_⟩
    · rw [hp, hD h, add_sub_cancel_left, mul_smul]
    · rw [hp, hZ h, zero_smul, add_zero]
    · rw [hp, hO h1 h2, add_sub_cancel_left]
  · intro np h
    obtain ⟨hp, -⟩ := ReflectNx2D_p m RayToOceanT E2 fuel oldPoint newPoint hs isTop tBdry
      nBdry3 rcurv3 freq rtb Beam org np h
    obtain ⟨hD, hZ, hO⟩ := rnApplied_cases Beam
      (rnBaseNx2D m RayToOceanT E2 oldPoint isTop nBdry3 rcurv3 org)
    refine ⟨hp, fun h => ?_, fun h => ?_, fun h1 h2 => ?_⟩
    · rw [hp, hD h, add_sub_cancel_left, mul_smul]
    · rw [hp, hZ h, zero_smul, add_zero]
    · rw [hp, hO h1 h2, add_sub_cancel_left]
  · intro hbc
    exact ⟨(Reflect2D_ok_iff m E2 fuel oldPoint newPoint hs isTop tBdry nBdry rcurv freq rtb
        Beam).2 (bc_known hbc _),
      (ReflectNx2D_ok_iff m RayToOceanT E2 fuel oldPoint newPoint hs isTop tBdry nBdry3 rcurv3
        freq rtb Beam org).2 (bc_known hbc _)⟩

/-- C16: in Nx2D `OceanToRayCurvature` returns
`κ = κxx·tx² + 2·κxy·tx·ty + κyy·ty²` with `(tx, ty) = org.tradial` for the
bottom boundary and the negative of that value for the top boundary; in 2D
and in 3D it returns its curvature argument unchanged, whatever `isTop`. -/
theorem C16_curvature_projection {K : Type} [LinearOrderedField K]
    (rcurv2 : ReflCurvature2 K) (rcurv3 : ReflCurvature3 K) (org : Origin K)
    (isTop : Bool) :
    (OceanToRayCurvatureNx2D rcurv3 org false).kappa
        = rcurv3.kappa_xx * org.tradial.x ^ 2
          + 2 * rcurv3.kappa_xy * org.tradial.x * org.tradial.y
          + rcurv3.kappa_yy * org.tradial.y ^ 2 ∧
    (OceanToRayCurvatureNx2D rcurv3 org true).kappa
        = -(rcurv3.kappa_xx * org.tradial.x ^ 2
          + 2 * rcurv3.kappa_xy * org.tradial.x * org.tradial.y
          + rcurv3.kappa_yy * org.tradial.y ^ 2) ∧
    (OceanToRayCurvatureNx2D rcurv3 org true).kappa
        = -(OceanToRayCurvatureNx2D rcurv3 org false).kappa ∧
    OceanToRayCurvature2D rcurv2 isTop = rcurv2 ∧
    OceanToRayCurvature3D rcurv3 isTop = rcurv3 := by
  refine ⟨?_, ?_, ?_, rfl, rfl⟩
  · simp only [OceanToRayCurvatureNx2D, SQ, Bool.false_eq_true, if_false]; ring
  · simp only [OceanToRayCurvatureNx2D, SQ, if_true]; ring
  · simp only [OceanToRayCurvatureNx2D, SQ, Bool.false_eq_true, if_false, if_true]

/-- C17: a 2D ray that meets a flat (`κ = 0`) rigid boundary with unit
normal `n` and tangent orthogonal to `n` at normal incidence (non-zero
tangent `lam • n`) is returned on its own path: the call returns,
`newPoint.t = -oldPoint.t`, and `x`, `tau`, `Amp`, `Phase`, `p` and `q` are
those of `oldPoint`, for the top and the bottom boundary, every beam type and
every sound speed and gradient. -/
theorem C17_normal_incidence_returns {K : Type} [LinearOrderedField K] {P : Type}
    [AddCommGroup P] [Module K P]
    (m : STD K) (EvaluateSSP : Vec2 K → Vec2 K → SSPOutputs2 K) (fuel : Nat)
    (oldPoint newPoint : rayPt2 K P) (hs : HSInfo K) (isTop : Bool)
    (tBdry nBdry : Vec2 K) (rcurv : ReflCurvature2 K) (freq : K)
    (rtb : ReflectionInfoTopBot K) (Beam : BeamStructure) (lam : K)
    (hbc : hs.bc = 'R') (hflat : rcurv.kappa = 0)
    (hn : Vec2.dot nBdry nBdry = 1) (ht : Vec2.dot tBdry nBdry = 0)
    (_hlam : lam ≠ 0) (hpar : oldPoint.t = lam • nBdry) :
    ∃ np, Reflect2D m EvaluateSSP fuel oldPoint newPoint hs isTop tBdry nBdry rcurv freq rtb
        Beam = .ok np ∧
      np.t = -oldPoint.t ∧ np.x = oldPoint.x ∧ np.tau = oldPoint.tau ∧
      np.Amp = oldPoint.Amp ∧ np.Phase = oldPoint.Phase ∧
      np.p = oldPoint.p ∧ np.q = oldPoint.q := by
  obtain ⟨np0, hsplit, hp, hq, hx, htau, htn⟩ :=
    Reflect2D_split_p m EvaluateSSP fuel oldPoint newPoint hs isTop tBdry nBdry rcurv freq rtb
      Beam
  rw [hsplit, ampPhase2_R m false fuel oldPoint hs (Th2D oldPoint nBdry) (Tg2D oldPoint tBdry)
    tBdry (EvaluateSSP oldPoint.x oldPoint.t) freq rtb Beam np0 hbc]
  refine ⟨_, rfl, ?_, hx, htau, rfl, rfl, ?_, hq⟩
  · show np0.t = -oldPoint.t
    rw [htn, tNew2D, Th2D, hpar, Vec2.ext_xy]
    simp only [Vec2.dot, Vec2.sub_x, Vec2.sub_y, Vec2.smul_x, Vec2.smul_y, Vec2.neg_x,
      Vec2.neg_y] at hn ⊢
    constructor
    · linear_combination (-2 * lam * nBdry.x) * hn
    · linear_combination (-2 * lam * nBdry.y) * hn
  · show np0.p = oldPoint.p
    have hTg : Tg2D oldPoint tBdry = 0 := by
      rw [Tg2D, hpar]
      simp only [Vec2.dot, Vec2.smul_x, Vec2.smul_y] at ht ⊢
      linear_combination lam * ht
    have hrn : rnBase2D EvaluateSSP oldPoint isTop tBdry nBdry rcurv = 0 := by
      simp only [rnBase2D, rnBase, OceanToRayCurvature2D, hflat, hTg]
      cases isTop <;> simp
    have hra : rnApplied Beam (0 : K) = 0 := by
      simp only [rnApplied]
      split_ifs <;> simp
    rw [hp, hrn, hra, zero_smul, add_zero]

/-- C17 at a ray going straight down onto a flat rigid bottom in a medium
with a sound-speed gradient. -/
theorem C17_witness :
    ∃ np, Reflect2D exSTD exSSPgrad 0 exPointDown exPointDown (exHS 'R') false ⟨1, 0⟩ ⟨0, 1⟩
        ⟨0⟩ 50 exTable exBeam = .ok np ∧
      np.t = -exPointDown.t ∧ np.x = exPointDown.x ∧ np.tau = exPointDown.tau ∧
      np.Amp = exPointDown.Amp ∧ np.Phase = exPointDown.Phase ∧
      np.p = exPointDown.p ∧ np.q = exPointDown.q :=
  C17_normal_incidence_returns exSTD exSSPgrad 0 exPointDown exPointDown (exHS 'R') false
    ⟨1, 0⟩ ⟨0, 1⟩ ⟨0⟩ 50 exTable exBeam (1 / 5) rfl rfl (by norm_num [Vec2.dot])
    (by norm_num [Vec2.dot]) (by norm_num)
    (by rw [Vec2.ext_xy]; norm_num [exPointDown])

/-- C18: for a depth table `z[0..NPts-1]` with `NPts ≥ 2` that increases from
each node to the next and a cursor in `[0, NPts-2]`, `UpdateDepthSegmentT`
leaves the cursor `r` in `[0, NPts-2]` at the segment the ray is entering:
`z[r] ≤ x.y < z[r+1]` when `t.y ≥ 0` and `z[0] ≤ x.y < z[NPts-1]`,
`z[r] < x.y ≤ z[r+1]` when `t.y < 0` and `z[0] < x.y ≤ z[NPts-1]`; at an
interior node `x.y = z[k]` the result is `k` when `t.y ≥ 0` and `k - 1` when
`t.y < 0`, whatever the initial cursor. -/
theorem C18_depth_segment_entering {K : Type} [LinearOrderedField K] (x t : Vec2 K)
    (ssp : SSPStructure K) (iSegz : Int)
    (hN : ssp.NPts ≥ 2)
    (hz : ∀ i, 0 ≤ i → i + 1 ≤ ssp.NPts - 1 → ssp.z i < ssp.z (i + 1))
    (h0 : 0 ≤ iSegz) (h1 : iSegz ≤ ssp.NPts - 2) :
    (t.y ≥ 0 → ssp.z 0 ≤ x.y → x.y < ssp.z (ssp.NPts - 1) →
      0 ≤ UpdateDepthSegmentT x t ssp iSegz ∧
      UpdateDepthSegmentT x t ssp iSegz ≤ ssp.NPts - 2 ∧
      ssp.z (UpdateDepthSegmentT x t ssp iSegz) ≤ x.y ∧
      x.y < ssp.z (UpdateDepthSegmentT x t ssp iSegz + 1)) ∧
    (t.y < 0 → ssp.z 0 < x.y → x.y ≤ ssp.z (ssp.NPts - 1) →
      0 ≤ UpdateDepthSegmentT x t ssp iSegz ∧
      UpdateDepthSegmentT x t ssp iSegz ≤ ssp.NPts - 2 ∧
      ssp.z (UpdateDepthSegmentT x t ssp iSegz) < x.y ∧
      x.y ≤ ssp.z (UpdateDepthSegmentT x t ssp iSegz + 1)) ∧
    (∀ k, 0 < k → k < ssp.NPts - 1 → x.y = ssp.z k →
      (t.y ≥ 0 → UpdateDepthSegmentT x t ssp iSegz = k) ∧
      (t.y < 0 → UpdateDepthSegmentT x t ssp iSegz = k - 1)) := by
  have _ := hN
  refine ⟨fun ht hlo hhi => UpdateDepthSegmentT_down x t ssp iSegz ht h0 h1 hlo hhi,
    fun ht hlo hhi => UpdateDepthSegmentT_up x t ssp iSegz ht h0 h1 hlo hhi, ?_⟩
  intro k hk0 hk1 hxk
  have hlt := table_lt ssp.z ssp.NPts hz
  constructor
  · intro ht
    obtain ⟨r0, r1, r2, r3⟩ := UpdateDepthSegmentT_down x t ssp iSegz ht h0 h1
      (by rw [hxk]; exact le_of_lt (hlt 0 k (le_refl _) hk0 (by omega)))
      (by rw [hxk]; exact hlt k (ssp.NPts - 1) (by omega) hk1 (le_refl _))
    rw [hxk] at r2 r3
    by_contra hne
    rcases lt_or_gt_of_ne hne with hlt1 | hgt1
    · have hle : ssp.z (UpdateDepthSegmentT x t ssp iSegz + 1) ≤ ssp.z k := by
        rcases eq_or_lt_of_le (show UpdateDepthSegmentT x t ssp iSegz + 1 ≤ k by omega)
          with he | hl
        · rw [he]
        · exact le_of_lt (hlt _ k (by omega) hl (by omega))
      exact absurd r3 (not_lt.mpr hle)
    · exact absurd r2 (not_le.mpr (hlt k _ (by omega) hgt1 (by omega)))
  · intro ht
    obtain ⟨r0, r1, r2, r3⟩ := UpdateDepthSegmentT_up x t ssp iSegz ht h0 h1
      (by rw [hxk]; exact hlt 0 k (le_refl _) hk0 (by omega))
      (by rw [hxk]; exact le_of_lt (hlt k (ssp.NPts - 1) (by omega) hk1 (le_refl _)))
    rw [hxk] at r2 r3
    by_contra hne
    rcases lt_or_gt_of_ne hne with hlt1 | hgt1
    · exact absurd r3 (not_le.mpr (hlt _ k (by omega) (by omega) (by omega)))
    · have hle : ssp.z k ≤ ssp.z (UpdateDepthSegmentT x t ssp iSegz) := by
        rcases eq_or_lt_of_le (show k ≤ UpdateDepthSegmentT x t ssp iSegz by omega)
          with he | hl
        · rw [he]
        · exact le_of_lt (hlt k _ (by omega) hl (by omega))
      exact absurd r2 (not_lt.mpr hle)

/-- C18 at the middle node of a three-node table: a ray at depth `z[1] = 10`
is put in segment 1 when it goes down and in segment 0 when it goes up. -/
theorem C18_witness :
    UpdateDepthSegmentT (⟨0, 10⟩ : Vec2 ℚ) ⟨0, 1⟩ (exProfile 'C') 0 = 1 ∧
    UpdateDepthSegmentT (⟨0, 10⟩ : Vec2 ℚ) ⟨0, -1⟩ (exProfile 'C') 1 = 0 :=
  ⟨((C18_depth_segment_entering (⟨0, 10⟩ : Vec2 ℚ) ⟨0, 1⟩ (exProfile 'C') 0 (by decide)
      (fun i _ _ => by norm_num [exProfile]) (by decide) (by decide)).2.2 1 (by decide)
      (by decide) (by norm_num [exProfile])).1 (by norm_num),
   ((C18_depth_segment_entering (⟨0, 10⟩ : Vec2 ℚ) ⟨0, -1⟩ (exProfile 'C') 1 (by decide)
      (fun i _ _ => by norm_num [exProfile]) (by decide) (by decide)).2.2 1 (by decide)
      (by decide) (by norm_num [exProfile])).2 (by norm_num)⟩

/-- C19: for every input `n2Linear` returns, with `i` the segment chosen by
`UpdateDepthSegmentT` and `w = (x.y - z[i]) / (z[i+1] - z[i])`:
`ccpx = 1 / sqrt((1 - w) n2[i] + w n2[i+1])`,
`gradc = (0, -½ c³ Re(n2z[i]))` and `czz = 3 gradc.y² / c` with `c = Re(ccpx)`,
`crr = crz = 0`; the cursor it leaves is `i` and the density is the linear
interpolant. -/
theorem C19_n2Linear_outputs {K : Type} [LinearOrderedField K] (m : STD K) (x t : Vec2 K)
    (freq : K) (ssp : SSPStructure K) (iSegz iSegr : Int) :
    ∃ (i : Int) (w c : K),
      i = UpdateDepthSegmentT x t ssp iSegz ∧
      w = (x.y - ssp.z i) / (ssp.z (i + 1) - ssp.z i) ∧
      (n2Linear m x t freq ssp iSegz iSegr).o.ccpx
        = Cpx.ofReal 1 / m.csqrt ((1 - w) • ssp.n2 i + w • ssp.n2 (i + 1)) ∧
      c = (n2Linear m x t freq ssp iSegz iSegr).o.ccpx.re ∧
      (n2Linear m x t freq ssp iSegz iSegr).o.gradc
        = ⟨0, -(1 / 2) * c ^ 3 * (ssp.n2z i).re⟩ ∧
      (n2Linear m x t freq ssp iSegz iSegr).o.czz
        = 3 * (n2Linear m x t freq ssp iSegz iSegr).o.gradc.y ^ 2 / c ∧
      (n2Linear m x t freq ssp iSegz iSegr).o.crr = 0 ∧
      (n2Linear m x t freq ssp iSegz iSegr).o.crz = 0 ∧
      (n2Linear m x t freq ssp iSegz iSegr).iSegz = i ∧
      (n2Linear m x t freq ssp iSegz iSegr).iSegr = iSegr ∧
      (n2Linear m x t freq ssp iSegz iSegr).o.rho
        = (1 - w) * ssp.rho i + w * ssp.rho (i + 1) := by
  refine ⟨_, _, _, rfl, rfl, rfl, rfl, ?_, ?_, rfl, rfl, rfl, rfl, rfl⟩
  · simp only [n2Linear, LinInterpDensity, Vec2.ext_xy]
    refine ⟨trivial, ?_⟩
    have h : (-0.5 : K) = -(1 / 2) := by norm_num
    rw [h]
    ring
  · simp only [n2Linear, LinInterpDensity]
    ring

/-- C20 (amended): for the kinds `'N'`, `'C'`, `'P'`, `'S'` `EvaluateSSP`
returns, and for the kind `'Q'` whenever it returns (it does when the ray is
inside the box and the cursors are inside the grid), the returned density is
the depth-linear interpolant `(1 - w) rho[i] + w rho[i+1]` with `i` the depth
segment left by `UpdateDepthSegmentT` and `w = (x.y - z[i]) / (z[i+1] - z[i])`.
For the kind `'A'` it returns the density 1 and the depth cursor 0, whatever
the table holds. -/
theorem C20_density_interpolation {K : Type} [LinearOrderedField K] (m : STD K)
    (SplineALL : Cpx K → Cpx K → Cpx K → Cpx K → K → Cpx K × Cpx K × Cpx K)
    (x t : Vec2 K) (freq : K) (ssp : SSPStructure K) (iSegz iSegr : Int) :
    ((ssp.Type_ = 'N' ∨ ssp.Type_ = 'C' ∨ ssp.Type_ = 'P' ∨ ssp.Type_ = 'S') →
      ∃ res, EvaluateSSP m SplineALL x t freq ssp iSegz iSegr = .ok res ∧
        res.iSegz = UpdateDepthSegmentT x t ssp iSegz ∧
        res.o.rho
          = (1 - (x.y - ssp.z res.iSegz) / (ssp.z (res.iSegz + 1) - ssp.z res.iSegz))
              * ssp.rho res.iSegz
            + (x.y - ssp.z res.iSegz) / (ssp.z (res.iSegz + 1) - ssp.z res.iSegz)
              * ssp.rho (res.iSegz + 1)) ∧
    (ssp.Type_ = 'Q' →
      (∀ res, EvaluateSSP m SplineALL x t freq ssp iSegz iSegr = .ok res →
        res.iSegz = UpdateDepthSegmentT x t ssp iSegz ∧
        res.o.rho
          = (1 - (x.y - ssp.z res.iSegz) / (ssp.z (res.iSegz + 1) - ssp.z res.iSegz))
              * ssp.rho res.iSegz
            + (x.y - ssp.z res.iSegz) / (ssp.z (res.iSegz + 1) - ssp.z res.iSegz)
              * ssp.rho (res.iSegz + 1)) ∧
      (¬ (x.x < ssp.Seg.r 0 ∨ x.x > ssp.Seg.r (ssp.Nr - 1)) →
        ¬ (UpdateDepthSegmentT x t ssp iSegz ≥ ssp.Nz - 1 ∨
          UpdateRangeSegmentT x t ssp iSegr ≥ ssp.Nr - 1) →
        ∃ res, EvaluateSSP m SplineALL x t freq ssp iSegz iSegr = .ok res)) ∧
    (ssp.Type_ = 'A' →
      ∃ res, EvaluateSSP m SplineALL x t freq ssp iSegz iSegr = .ok res ∧
        res.o.rho = 1 ∧ res.iSegz = 0) := by
  refine ⟨?_, ?_, ?_⟩
  · intro h
    rcases h with h | h | h | h
    · exact ⟨n2Linear m x t freq ssp iSegz iSegr, by simp only [EvaluateSSP, if_pos h],
        rfl, rfl⟩
    · have hN : ssp.Type_ ≠ 'N' := by rw [h]; decide
      exact ⟨cLinear x t freq ssp iSegz iSegr,
        by simp only [EvaluateSSP, if_neg hN, if_pos h], rfl, rfl⟩
    · have hN : ssp.Type_ ≠ 'N' := by rw [h]; decide
      have hC : ssp.Type_ ≠ 'C' := by rw [h]; decide
      exact ⟨cPCHIP x t freq ssp iSegz iSegr,
        by simp only [EvaluateSSP, if_neg hN, if_neg hC, if_pos h], rfl, rfl⟩
    · have hN : ssp.Type_ ≠ 'N' := by rw [h]; decide
      have hC : ssp.Type_ ≠ 'C' := by rw [h]; decide
      have hP : ssp.Type_ ≠ 'P' := by rw [h]; decide
      exact ⟨cCubic SplineALL x t freq ssp iSegz iSegr,
        by simp only [EvaluateSSP, if_neg hN, if_neg hC, if_neg hP, if_pos h], rfl, rfl⟩
  · intro h
    have hN : ssp.Type_ ≠ 'N' := by rw [h]; decide
    have hC : ssp.Type_ ≠ 'C' := by rw [h]; decide
    have hP : ssp.Type_ ≠ 'P' := by rw [h]; decide
    have hS : ssp.Type_ ≠ 'S' := by rw [h]; decide
    have hE : EvaluateSSP m SplineALL x t freq ssp iSegz iSegr
        = Quad x t freq ssp iSegz iSegr := by
      simp only [EvaluateSSP, if_neg hN, if_neg hC, if_neg hP, if_neg hS, if_pos h]
    rw [hE]
    constructor
    · intro res hres
      unfold Quad at hres
      dsimp only at hres
      split_ifs at hres
      cases hres
      exact ⟨rfl, rfl⟩
    · intro hbox hseg
      unfold Quad
      dsimp only
      rw [if_neg hbox, if_neg hseg]
      exact ⟨_, rfl⟩
  · intro h
    have hN : ssp.Type_ ≠ 'N' := by rw [h]; decide
    have hC : ssp.Type_ ≠ 'C' := by rw [h]; decide
    have hP : ssp.Type_ ≠ 'P' := by rw [h]; decide
    have hS : ssp.Type_ ≠ 'S' := by rw [h]; decide
    have hQ : ssp.Type_ ≠ 'Q' := by rw [h]; decide
    exact ⟨Analytic m x t freq ssp iSegz iSegr,
      by simp only [EvaluateSSP, if_neg hN, if_neg hC, if_neg hP, if_neg hS,
        if_neg hQ, if_pos h], rfl, rfl⟩

/-- C20, the call that contradicts it: for the analytic kind `'A'` and a
table whose density is 2 at every node, at depth 5 between `z[0] = 0` and
`z[1] = 10` the call returns the density 1 (and the cursor 0), not the
interpolant `(1 - 1/2)·2 + (1/2)·2 = 2`. -/
theorem C20_counterexample :
    ∃ res, EvaluateSSP exSTD exSplineALL ⟨0, 5⟩ ⟨0, 1⟩ 50 (exProfile 'A') 0 0 = .ok res ∧
      res.iSegz = 0 ∧ res.o.rho = 1 ∧
      (1 - ((5 : ℚ) - (exProfile 'A').z 0) / ((exProfile 'A').z (0 + 1) - (exProfile 'A').z 0))
          * (exProfile 'A').rho 0
        + ((5 : ℚ) - (exProfile 'A').z 0) / ((exProfile 'A').z (0 + 1) - (exProfile 'A').z 0)
          * (exProfile 'A').rho (0 + 1) = 2 ∧
      (LinInterpDensity ⟨0, 5⟩ (exProfile 'A')
        (UpdateDepthSegmentT ⟨0, 5⟩ ⟨0, 1⟩ (exProfile 'A') 0)).2 = 2 ∧
      res.o.rho ≠ (LinInterpDensity ⟨0, 5⟩ (exProfile 'A') res.iSegz).2 := by
  have hI : ∀ i : Int, (LinInterpDensity (⟨0, 5⟩ : Vec2 ℚ) (exProfile 'A') i).2 = 2 := by
    intro i
    simp only [LinInterpDensity, exProfile]
    ring
  refine ⟨Analytic exSTD ⟨0, 5⟩ ⟨0, 1⟩ 50 (exProfile 'A') 0 0, ?_, rfl, rfl, ?_, hI _, ?_⟩
  · simp [EvaluateSSP, exProfile]
  · norm_num [exProfile]
  · rw [hI]
    norm_num [Analytic]

/-- C21: for a depth table that increases from node to node and an interior
node `z[k]`, what is returned at `x.y = z[k]` does not depend on the tangent
(nor on the cursor on entry): `n2Linear` returns `ccpx = 1 / sqrt(n2[k])`,
every tabulated kind returns the density `rho[k]` (`Quad` whenever it
returns), and `cLinear` returns `ccpx = c[k]` when
`cz[i] = (c[i+1] - c[i]) / (z[i+1] - z[i])` on every segment. -/
theorem C21_continuity_at_nodes {K : Type} [LinearOrderedField K] (m : STD K)
    (SplineALL : Cpx K → Cpx K → Cpx K → Cpx K → K → Cpx K × Cpx K × Cpx K)
    (x : Vec2 K) (freq : K) (ssp : SSPStructure K) (k : Int)
    (hz : ∀ i, 0 ≤ i → i + 1 ≤ ssp.NPts - 1 → ssp.z i < ssp.z (i + 1))
    (hk0 : 0 < k) (hk1 : k < ssp.NPts - 1) (hxk : x.y = ssp.z k) :
    (∀ (t : Vec2 K) (iSegz iSegr : Int), 0 ≤ iSegz → iSegz ≤ ssp.NPts - 2 →
      (n2Linear m x t freq ssp iSegz iSegr).o.ccpx = Cpx.ofReal 1 / m.csqrt (ssp.n2 k) ∧
      (n2Linear m x t freq ssp iSegz iSegr).o.rho = ssp.rho k ∧
      (cLinear x t freq ssp iSegz iSegr).o.rho = ssp.rho k ∧
      (cPCHIP x t freq ssp iSegz iSegr).o.rho = ssp.rho k ∧
      (cCubic SplineALL x t freq ssp iSegz iSegr).o.rho = ssp.rho k ∧
      (∀ res, Quad x t freq ssp iSegz iSegr = .ok res → res.o.rho = ssp.rho k) ∧
      ((∀ i, 0 ≤ i → i ≤ ssp.NPts - 2 →
          ssp.cz i = Cpx.divReal (ssp.c (i + 1) - ssp.c i) (ssp.z (i + 1) - ssp.z i)) →
        (cLinear x t freq ssp iSegz iSegr).o.ccpx = ssp.c k)) ∧
    (∀ (t1 t2 : Vec2 K) (i1 i2 r1 r2 : Int), 0 ≤ i1 → i1 ≤ ssp.NPts - 2 → 0 ≤ i2 →
      i2 ≤ ssp.NPts - 2 →
      (n2Linear m x t1 freq ssp i1 r1).o.ccpx = (n2Linear m x t2 freq ssp i2 r2).o.ccpx ∧
      (n2Linear m x t1 freq ssp i1 r1).o.rho = (n2Linear m x t2 freq ssp i2 r2).o.rho ∧
      (cLinear x t1 freq ssp i1 r1).o.rho = (cLinear x t2 freq ssp i2 r2).o.rho ∧
      (cPCHIP x t1 freq ssp i1 r1).o.rho = (cPCHIP x t2 freq ssp i2 r2).o.rho ∧
      (cCubic SplineALL x t1 freq ssp i1 r1).o.rho
        = (cCubic SplineALL x t2 freq ssp i2 r2).o.rho ∧
      (∀ res1 res2, Quad x t1 freq ssp i1 r1 = .ok res1 →
        Quad x t2 freq ssp i2 r2 = .ok res2 → res1.o.rho = res2.o.rho) ∧
      ((∀ i, 0 ≤ i → i ≤ ssp.NPts - 2 →
          ssp.cz i = Cpx.divReal (ssp.c (i + 1) - ssp.c i) (ssp.z (i + 1) - ssp.z i)) →
        (cLinear x t1 freq ssp i1 r1).o.ccpx = (cLinear x t2 freq ssp i2 r2).o.ccpx)) := by
  have hk : k - 1 + 1 = k := by ring
  have main : ∀ (t : Vec2 K) (iSegz iSegr : Int), 0 ≤ iSegz → iSegz ≤ ssp.NPts - 2 →
      (n2Linear m x t freq ssp iSegz iSegr).o.ccpx = Cpx.ofReal 1 / m.csqrt (ssp.n2 k) ∧
      (n2Linear m x t freq ssp iSegz iSegr).o.rho = ssp.rho k ∧
      (cLinear x t freq ssp iSegz iSegr).o.rho = ssp.rho k ∧
      (cPCHIP x t freq ssp iSegz iSegr).o.rho = ssp.rho k ∧
      (cCubic SplineALL x t freq ssp iSegz iSegr).o.rho = ssp.rho k ∧
      (∀ res, Quad x t freq ssp iSegz iSegr = .ok res → res.o.rho = ssp.rho k) ∧
      ((∀ i, 0 ≤ i → i ≤ ssp.NPts - 2 →
          ssp.cz i = Cpx.divReal (ssp.c (i + 1) - ssp.c i) (ssp.z (i + 1) - ssp.z i)) →
        (cLinear x t freq ssp iSegz iSegr).o.ccpx = ssp.c k) := by
    intro t iSegz iSegr h0 h1
    have hrho := density_at_node x t ssp iSegz k hz h0 h1 hk0 hk1 hxk
    refine ⟨?_, hrho, hrho, hrho, hrho, ?_, ?_⟩
    · have harg : (1 - (LinInterpDensity x ssp (UpdateDepthSegmentT x t ssp iSegz)).1)
            • ssp.n2 (UpdateDepthSegmentT x t ssp iSegz)
          + (LinInterpDensity x ssp (UpdateDepthSegmentT x t ssp iSegz)).1
            • ssp.n2 (UpdateDepthSegmentT x t ssp iSegz + 1) = ssp.n2 k := by
        rcases node_weight x t ssp iSegz k hz h0 h1 hk0 hk1 hxk with ⟨-, hi, hw⟩ | ⟨-, hi, hw⟩
        · rw [hi, Cpx.ext_iff2]
          simp [LinInterpDensity, hw]
        · rw [hi, Cpx.ext_iff2]
          simp [LinInterpDensity, hw, hk]
      show Cpx.ofReal 1 / m.csqrt _ = _
      rw [harg]
    · intro res hres
      unfold Quad at hres
      dsimp only at hres
      split_ifs at hres
      cases hres
      exact hrho
    · intro hcz
      show ssp.c (UpdateDepthSegmentT x t ssp iSegz)
        + (x.y - ssp.z (UpdateDepthSegmentT x t ssp iSegz))
          • ssp.cz (UpdateDepthSegmentT x t ssp iSegz) = ssp.c k
      rcases node_weight x t ssp iSegz k hz h0 h1 hk0 hk1 hxk with ⟨-, hi, -⟩ | ⟨-, hi, -⟩
      · rw [hi, hxk, Cpx.ext_iff2]
        simp
      · have hlt : ssp.z (k - 1) < ssp.z k := by
          have h := hz (k - 1) (by omega) (by omega)
          rwa [hk] at h
        have hne : ssp.z k - ssp.z (k - 1) ≠ 0 := ne_of_gt (sub_pos.mpr hlt)
        rw [hi, hxk, hcz (k - 1) (by omega) (by omega), hk, Cpx.ext_iff2]
        simp only [Cpx.add_re, Cpx.add_im, Cpx.smul_re, Cpx.smul_im, Cpx.divReal, Cpx.sub_re,
          Cpx.sub_im]
        constructor
        · field_simp
        · field_simp
  refine ⟨main, ?_⟩
  intro t1 t2 i1 i2 r1 r2 a1 a2 b1 b2
  obtain ⟨p1, p2, p3, p4, p5, p6, p7⟩ := main t1 i1 r1 a1 a2
  obtain ⟨q1, q2, q3, q4, q5, q6, q7⟩ := main t2 i2 r2 b1 b2
  refine ⟨p1.trans q1.symm, p2.trans q2.symm, p3.trans q3.symm, p4.trans q4.symm,
    p5.trans q5.symm, fun res1 res2 e1 e2 => (p6 res1 e1).trans (q6 res2 e2).symm,
    fun hcz => (p7 hcz).trans (q7 hcz).symm⟩

/-- C21 at the middle node of a three-node table with `rho = 1, 2, 3` and
`c = 1500, 1510, 1520`: going down or up through the depth 10 gives the
density 2 and the speed 1510. -/
theorem C21_witness :
    (n2Linear exSTD (⟨0, 10⟩ : Vec2 ℚ) ⟨0, 1⟩ 50 (exProfileVar 'N') 0 0).o.rho = 2 ∧
    (n2Linear exSTD (⟨0, 10⟩ : Vec2 ℚ) ⟨0, -1⟩ 50 (exProfileVar 'N') 1 0).o.rho = 2 ∧
    (cLinear (⟨0, 10⟩ : Vec2 ℚ) ⟨0, 1⟩ 50 (exProfileVar 'N') 0 0).o.ccpx = ⟨1510, 0⟩ ∧
    (cLinear (⟨0, 10⟩ : Vec2 ℚ) ⟨0, -1⟩ 50 (exProfileVar 'N') 1 0).o.ccpx = ⟨1510, 0⟩ := by
  have h := (C21_continuity_at_nodes exSTD exSplineALL (⟨0, 10⟩ : Vec2 ℚ) 50
    (exProfileVar 'N') 1 (fun i _ _ => by norm_num [exProfileVar]) (by decide) (by decide)
    (by norm_num [exProfileVar])).1
  have hcz : ∀ i : Int, 0 ≤ i → i ≤ (exProfileVar 'N').NPts - 2 →
      (exProfileVar 'N').cz i = Cpx.divReal ((exProfileVar 'N').c (i + 1)
        - (exProfileVar 'N').c i) ((exProfileVar 'N').z (i + 1) - (exProfileVar 'N').z i) := by
    intro i _ _
    rw [Cpx.ext_iff2]
    norm_num [exProfileVar, Cpx.divReal]
    ring_nf
  have hrho : (exProfileVar 'N').rho 1 = 2 := by norm_num [exProfileVar]
  have hc : (exProfileVar 'N').c 1 = ⟨1510, 0⟩ := by
    rw [Cpx.ext_iff2]; norm_num [exProfileVar]
  obtain ⟨-, a2, -, -, -, -, a7⟩ := h ⟨0, 1⟩ 0 0 (by decide) (by decide)
  obtain ⟨-, b2, -, -, -, -, b7⟩ := h ⟨0, -1⟩ 1 0 (by decide) (by decide)
  exact ⟨a2.trans hrho, b2.trans hrho, (a7 hcz).trans hc, (b7 hcz).trans hc⟩

/-- C22: with `i` the segment left by `UpdateDepthSegmentT`, `xt = x.y - z[i]`
and `aj = cCoef[j][i]`, `cPCHIP` returns
`ccpx = a0 + a1·xt + a2·xt² + a3·xt³`,
`gradc = (0, Re(a1 + 2·a2·xt + 3·a3·xt²))`, `czz = Re(2·a2 + 6·a3·xt)` and
`crr = crz = 0`; so `Re(ccpx)` is the value at `xt` of the cubic with the
coefficients `Re(aj)`, and `gradc.y` and `czz` are the values at `xt` of its
first and second derivative. -/
theorem C22_cPCHIP_cubic {K : Type} [LinearOrderedField K] (x t : Vec2 K) (freq : K)
    (ssp : SSPStructure K) (iSegz iSegr : Int) :
    ∃ (i : Int) (xt : K) (a0 a1 a2 a3 : Cpx K) (p : Polynomial K),
      i = UpdateDepthSegmentT x t ssp iSegz ∧ xt = x.y - ssp.z i ∧
      a0 = ssp.cCoef 0 i ∧ a1 = ssp.cCoef 1 i ∧ a2 = ssp.cCoef 2 i ∧ a3 = ssp.cCoef 3 i ∧
      p = Polynomial.C a0.re + Polynomial.C a1.re * Polynomial.X
        + Polynomial.C a2.re * Polynomial.X ^ 2 + Polynomial.C a3.re * Polynomial.X ^ 3 ∧
      (cPCHIP x t freq ssp iSegz iSegr).iSegz = i ∧
      (cPCHIP x t freq ssp iSegz iSegr).o.ccpx
        = a0 + xt • a1 + (xt ^ 2) • a2 + (xt ^ 3) • a3 ∧
      (cPCHIP x t freq ssp iSegz iSegr).o.gradc
        = ⟨0, (a1 + (2 * xt) • a2 + (3 * xt ^ 2) • a3).re⟩ ∧
      (cPCHIP x t freq ssp iSegz iSegr).o.czz = ((2 : K) • a2 + (6 * xt) • a3).re ∧
      (cPCHIP x t freq ssp iSegz iSegr).o.crr = 0 ∧
      (cPCHIP x t freq ssp iSegz iSegr).o.crz = 0 ∧
      (cPCHIP x t freq ssp iSegz iSegr).o.ccpx.re = p.eval xt ∧
      (cPCHIP x t freq ssp iSegz iSegr).o.gradc.y = (Polynomial.derivative p).eval xt ∧
      (cPCHIP x t freq ssp iSegz iSegr).o.czz
        = (Polynomial.derivative (Polynomial.derivative p)).eval xt := by
  refine ⟨_, _, _, _, _, _, _, rfl, rfl, rfl, rfl, rfl, rfl, rfl, rfl, ?_, ?_, ?_, rfl, rfl,
    ?_, ?_, ?_⟩
  · simp only [cPCHIP, Cpx.ext_iff2, Cpx.add_re, Cpx.add_im, Cpx.smul_re, Cpx.smul_im]
    constructor <;> ring
  · simp only [cPCHIP, Vec2.ext_xy, Cpx.add_re, Cpx.smul_re, true_and]
    ring
  · simp only [cPCHIP, Cpx.add_re, Cpx.smul_re]
    ring
  · simp only [cPCHIP, Cpx.add_re, Cpx.smul_re, Polynomial.eval_add, Polynomial.eval_mul,
      Polynomial.eval_C, Polynomial.eval_X, Polynomial.eval_pow]
    ring
  · simp only [cPCHIP, Cpx.add_re, Cpx.smul_re, Polynomial.derivative_add,
      Polynomial.derivative_mul, Polynomial.derivative_C, Polynomial.derivative_X,
      Polynomial.derivative_X_pow, Polynomial.eval_add, Polynomial.eval_mul,
      Polynomial.eval_C, Polynomial.eval_X, Polynomial.eval_pow, Polynomial.eval_one,
      Polynomial.eval_zero, Nat.cast_ofNat, map_natCast, Polynomial.eval_natCast]
    norm_num
    ring
  · simp only [cPCHIP, Cpx.add_re, Cpx.smul_re, Polynomial.derivative_add,
      Polynomial.derivative_mul, Polynomial.derivative_C, Polynomial.derivative_X,
      Polynomial.derivative_X_pow, Polynomial.derivative_one, Polynomial.derivative_zero,
      Polynomial.eval_add, Polynomial.eval_mul, Polynomial.eval_C, Polynomial.eval_X,
      Polynomial.eval_pow, Polynomial.eval_one, Polynomial.eval_zero, Nat.cast_ofNat,
      map_natCast, Polynomial.eval_natCast, Polynomial.derivative_natCast,
      Polynomial.derivative_ofNat]
    norm_num
    ring

/-- C23: for a depth table that increases from node to node whose PCHIP
coefficients satisfy `cCoef[0][k] = c[k]`, a node `0 ≤ k ≤ NPts-2` and a
downward-going tangent (`t.y ≥ 0`), `cPCHIP` at `x.y = z[k]` selects segment
`k` and returns `ccpx = c[k]`, `gradc.y = Re(cCoef[1][k])`,
`czz = Re(2·cCoef[2][k])` (and `gradc.x = crr = crz = 0`), whatever the cursor
on entry. -/
theorem C23_cPCHIP_at_node {K : Type} [LinearOrderedField K] (x t : Vec2 K) (freq : K)
    (ssp : SSPStructure K) (iSegz iSegr k : Int)
    (hz : ∀ i, 0 ≤ i → i + 1 ≤ ssp.NPts - 1 → ssp.z i < ssp.z (i + 1))
    (h0 : 0 ≤ iSegz) (h1 : iSegz ≤ ssp.NPts - 2)
    (hk0 : 0 ≤ k) (hk1 : k ≤ ssp.NPts - 2) (hxk : x.y = ssp.z k) (ht : t.y ≥ 0)
    (hc : ssp.cCoef 0 k = ssp.c k) :
    (cPCHIP x t freq ssp iSegz iSegr).iSegz = k ∧
    (cPCHIP x t freq ssp iSegz iSegr).o.ccpx = ssp.c k ∧
    (cPCHIP x t freq ssp iSegz iSegr).o.gradc = ⟨0, (ssp.cCoef 1 k).re⟩ ∧
    (cPCHIP x t freq ssp iSegz iSegr).o.czz = ((2 : K) • ssp.cCoef 2 k).re ∧
    (cPCHIP x t freq ssp iSegz iSegr).o.czz = 2 * (ssp.cCoef 2 k).re ∧
    (cPCHIP x t freq ssp iSegz iSegr).o.crr = 0 ∧
    (cPCHIP x t freq ssp iSegz iSegr).o.crz = 0 := by
  have hi := UpdateDepthSegmentT_node_down x t ssp iSegz k hz h0 h1 hk0 hk1 hxk ht
  refine ⟨hi, ?_, ?_, ?_, ?_, rfl, rfl⟩
  · simp only [cPCHIP, hi, hxk, sub_self, Cpx.ext_iff2, Cpx.add_re, Cpx.add_im, Cpx.smul_re,
      Cpx.smul_im, hc]
    constructor <;> ring
  · simp only [cPCHIP, hi, hxk, sub_self, Vec2.ext_xy, Cpx.add_re, Cpx.smul_re, true_and]
    ring
  · simp only [cPCHIP, hi, hxk, sub_self, Cpx.add_re, Cpx.smul_re]
    ring
  · simp only [cPCHIP, hi, hxk, sub_self, Cpx.add_re, Cpx.smul_re]
    ring

/-- C23 at the first two nodes of the same table, going down: the PCHIP
value is the node value `c[k]`, the slope is `Re(cCoef[1][k]) = 1` and the
curvature `Re(2·cCoef[2][k]) = 1`. -/
theorem C23_witness :
    (cPCHIP (⟨0, 10⟩ : Vec2 ℚ) ⟨0, 1⟩ 50 (exProfileVar 'P') 0 0).o.ccpx = ⟨1510, 0⟩ ∧
    (cPCHIP (⟨0, 10⟩ : Vec2 ℚ) ⟨0, 1⟩ 50 (exProfileVar 'P') 0 0).o.gradc = ⟨0, 1⟩ ∧
    (cPCHIP (⟨0, 10⟩ : Vec2 ℚ) ⟨0, 1⟩ 50 (exProfileVar 'P') 0 0).o.czz = 1 ∧
    (cPCHIP (⟨0, 0⟩ : Vec2 ℚ) ⟨0, 1⟩ 50 (exProfileVar 'P') 1 0).o.ccpx = ⟨1500, 0⟩ := by
  obtain ⟨-, a2, a3, -, a5, -⟩ := C23_cPCHIP_at_node (⟨0, 10⟩ : Vec2 ℚ) ⟨0, 1⟩ 50
    (exProfileVar 'P') 0 0 1 (fun i _ _ => by norm_num [exProfileVar]) (by decide) (by decide)
    (by decide) (by decide) (by norm_num [exProfileVar]) (by norm_num)
    (by rw [Cpx.ext_iff2]; norm_num [exProfileVar])
  obtain ⟨-, b2, -⟩ := C23_cPCHIP_at_node (⟨0, 0⟩ : Vec2 ℚ) ⟨0, 1⟩ 50
    (exProfileVar 'P') 1 0 0 (fun i _ _ => by norm_num [exProfileVar]) (by decide) (by decide)
    (by decide) (by decide) (by norm_num [exProfileVar]) (by norm_num)
    (by rw [Cpx.ext_iff2]; norm_num [exProfileVar])
  refine ⟨?_, ?_, ?_, ?_⟩
  · rw [a2, Cpx.ext_iff2]; norm_num [exProfileVar]
  · rw [a3, Vec2.ext_xy]; simp [exProfileVar]
  · rw [a5]; simp [exProfileVar]
  · rw [b2, Cpx.ext_iff2]; norm_num [exProfileVar]

/-- C24 (amended): `Quad` raises a fatal error for every position whose
range `x.x` lies outside `[Seg.r[0], Seg.r[Nr-1]]`, and inside it when the
cursors after the update satisfy `iSegz ≥ Nz - 1` or `iSegr ≥ Nr - 1`; for
every other position it returns, with `s1` clamped to `[0, 1]`. The same holds
for `EvaluateSSP` with the kind `'Q'`. -/
theorem C24_quad_errors {K : Type} [LinearOrderedField K] (m : STD K)
    (SplineALL : Cpx K → Cpx K → Cpx K → Cpx K → K → Cpx K × Cpx K × Cpx K)
    (x t : Vec2 K) (freq : K) (ssp : SSPStructure K) (iSegz iSegr : Int) :
    ((x.x < ssp.Seg.r 0 ∨ x.x > ssp.Seg.r (ssp.Nr - 1)) →
      Quad x t freq ssp iSegz iSegr = .error .quadOutsideBox) ∧
    (¬ (x.x < ssp.Seg.r 0 ∨ x.x > ssp.Seg.r (ssp.Nr - 1)) →
      (UpdateDepthSegmentT x t ssp iSegz ≥ ssp.Nz - 1 ∨
        UpdateRangeSegmentT x t ssp iSegr ≥ ssp.Nr - 1) →
      Quad x t freq ssp iSegz iSegr = .error .quadSegError) ∧
    (¬ (x.x < ssp.Seg.r 0 ∨ x.x > ssp.Seg.r (ssp.Nr - 1)) →
      ¬ (UpdateDepthSegmentT x t ssp iSegz ≥ ssp.Nz - 1 ∨
        UpdateRangeSegmentT x t ssp iSegr ≥ ssp.Nr - 1) →
      ∃ res, Quad x t freq ssp iSegz iSegr = .ok res ∧
        res.iSegz = UpdateDepthSegmentT x t ssp iSegz ∧
        res.iSegr = UpdateRangeSegmentT x t ssp iSegr ∧
        res.o.ccpx.re
          = (1 - max (min ((x.x - ssp.Seg.r res.iSegr)
                / (ssp.Seg.r (res.iSegr + 1) - ssp.Seg.r res.iSegr)) 1) 0)
              * (ssp.cMat (res.iSegz * ssp.Nr + res.iSegr)
                + (x.y - ssp.z res.iSegz) * ssp.czMat (res.iSegz * ssp.Nr + res.iSegr))
            + max (min ((x.x - ssp.Seg.r res.iSegr)
                / (ssp.Seg.r (res.iSegr + 1) - ssp.Seg.r res.iSegr)) 1) 0
              * (ssp.cMat (res.iSegz * ssp.Nr + res.iSegr + 1)
                + (x.y - ssp.z res.iSegz)
                  * ssp.czMat (res.iSegz * ssp.Nr + res.iSegr + 1))) ∧
    (ssp.Type_ = 'Q' →
      EvaluateSSP m SplineALL x t freq ssp iSegz iSegr = Quad x t freq ssp iSegz iSegr) := by
  obtain ⟨h1, h2, h3⟩ := Quad_cases x t freq ssp iSegz iSegr
  refine ⟨h1, h2, h3, fun h => ?_⟩
  have hN : ssp.Type_ ≠ 'N' := by rw [h]; decide
  have hC : ssp.Type_ ≠ 'C' := by rw [h]; decide
  have hP : ssp.Type_ ≠ 'P' := by rw [h]; decide
  have hS : ssp.Type_ ≠ 'S' := by rw [h]; decide
  simp only [EvaluateSSP, if_neg hN, if_neg hC, if_neg hP, if_neg hS, if_pos h]

/-- C24, the call that contradicts it: at the range 300, outside the box
`[0, 100]`, and the depth 5, where the depth cursor 0 is valid (`0 < Nz - 1`),
`Quad` ends in the fatal error "ray is outside the box where the soundspeed
is defined". -/
theorem C24_counterexample :
    (exProfileVar 'Q').Seg.r ((exProfileVar 'Q').Nr - 1) = 100 ∧
    UpdateDepthSegmentT (⟨300, 5⟩ : Vec2 ℚ) ⟨1, 1⟩ (exProfileVar 'Q') 0 = 0 ∧
    (0 : Int) < (exProfileVar 'Q').Nz - 1 ∧
    Quad (⟨300, 5⟩ : Vec2 ℚ) ⟨1, 1⟩ 50 (exProfileVar 'Q') 0 0 = .error .quadOutsideBox ∧
    EvaluateSSP exSTD exSplineALL (⟨300, 5⟩ : Vec2 ℚ) ⟨1, 1⟩ 50 (exProfileVar 'Q') 0 0
      = .error .quadOutsideBox := by
  have hq : Quad (⟨300, 5⟩ : Vec2 ℚ) ⟨1, 1⟩ 50 (exProfileVar 'Q') 0 0
      = .error .quadOutsideBox :=
    (Quad_cases (⟨300, 5⟩ : Vec2 ℚ) ⟨1, 1⟩ 50 (exProfileVar 'Q') 0 0).1
      (Or.inr (by norm_num [exProfileVar]))
  refine ⟨by norm_num [exProfileVar], ?_, by decide, hq, ?_⟩
  · norm_num [UpdateDepthSegmentT, whileDec, whileInc, exProfileVar]
  · rw [← hq]
    simp [EvaluateSSP, exProfileVar]

/-- C25: with `(iz, ir)` the cell the cursors select, for a position inside
the range box whose cursors are inside the grid and whose range lies in
`[r[ir], r[ir+1]]` (with `r[ir] < r[ir+1]`), `Quad` returns
`Re(ccpx) = (1-s1)·(cMat[iz,ir] + s2·czMat[iz,ir])
  + s1·(cMat[iz,ir+1] + s2·czMat[iz,ir+1])`
with `s1 = (x.x - r[ir]) / (r[ir+1] - r[ir])`, `s2 = x.y - z[iz]`,
`Im(ccpx) = Im((1-σ)·c[iz] + σ·c[iz+1])` with `σ = s2 / (z[iz+1] - z[iz])`,
`gradc = (cr, cz)` with `cr = (c2 - c1)/Δr`, `cz = (1-s1)·cz1 + s1·cz2`,
`crz = (cz2 - cz1)/Δr` and `crr = czz = 0`. These are the derivatives of the
real part inside the cell: as a function of the range it is the line `pr`
with slope `cr`, as a function of the depth the line `pz` with slope `cz`,
and `cz` as a function of the range is the line `pzr` with slope `crz`; the
second derivatives of `pr` and `pz` are 0. -/
theorem C25_quad_bilinear {K : Type} [LinearOrderedField K] (x t : Vec2 K) (freq : K)
    (ssp : SSPStructure K) (iSegz iSegr iz ir : Int)
    (hiz : iz = UpdateDepthSegmentT x t ssp iSegz)
    (hir : ir = UpdateRangeSegmentT x t ssp iSegr)
    (hbox : ¬ (x.x < ssp.Seg.r 0 ∨ x.x > ssp.Seg.r (ssp.Nr - 1)))
    (hseg : ¬ (iz ≥ ssp.Nz - 1 ∨ ir ≥ ssp.Nr - 1))
    (hr : ssp.Seg.r ir < ssp.Seg.r (ir + 1))
    (hlo : ssp.Seg.r ir ≤ x.x) (hhi : x.x ≤ ssp.Seg.r (ir + 1)) :
    ∃ (res : SSPResult K) (s1 s2 sigma c1 c2 cz1 cz2 dr : K)
      (pr pz pzr : Polynomial K),
      Quad x t freq ssp iSegz iSegr = .ok res ∧ res.iSegz = iz ∧ res.iSegr = ir ∧
      dr = ssp.Seg.r (ir + 1) - ssp.Seg.r ir ∧
      s1 = (x.x - ssp.Seg.r ir) / dr ∧ s2 = x.y - ssp.z iz ∧
      sigma = s2 / (ssp.z (iz + 1) - ssp.z iz) ∧
      cz1 = ssp.czMat (iz * ssp.Nr + ir) ∧ cz2 = ssp.czMat (iz * ssp.Nr + ir + 1) ∧
      c1 = ssp.cMat (iz * ssp.Nr + ir) + s2 * cz1 ∧
      c2 = ssp.cMat (iz * ssp.Nr + ir + 1) + s2 * cz2 ∧
      res.o.ccpx.re = (1 - s1) * c1 + s1 * c2 ∧
      res.o.ccpx.im = ((1 - sigma) • ssp.c iz + sigma • ssp.c (iz + 1)).im ∧
      res.o.gradc = ⟨(c2 - c1) / dr, (1 - s1) * cz1 + s1 * cz2⟩ ∧
      res.o.crz = (cz2 - cz1) / dr ∧ res.o.crr = 0 ∧ res.o.czz = 0 ∧
      pr = Polynomial.C c1
        + Polynomial.C ((c2 - c1) / dr) * (Polynomial.X - Polynomial.C (ssp.Seg.r ir)) ∧
      pz = Polynomial.C ((1 - s1) * ssp.cMat (iz * ssp.Nr + ir)
            + s1 * ssp.cMat (iz * ssp.Nr + ir + 1))
        + Polynomial.C ((1 - s1) * cz1 + s1 * cz2)
          * (Polynomial.X - Polynomial.C (ssp.z iz)) ∧
      pzr = Polynomial.C cz1
        + Polynomial.C ((cz2 - cz1) / dr) * (Polynomial.X - Polynomial.C (ssp.Seg.r ir)) ∧
      res.o.ccpx.re = pr.eval x.x ∧ res.o.ccpx.re = pz.eval x.y ∧
      res.o.gradc.y = pzr.eval x.x ∧
      res.o.gradc.x = (Polynomial.derivative pr).eval x.x ∧
      res.o.gradc.y = (Polynomial.derivative pz).eval x.y ∧
      res.o.crz = (Polynomial.derivative pzr).eval x.x ∧
      res.o.crr = (Polynomial.derivative (Polynomial.derivative pr)).eval x.x ∧
      res.o.czz = (Polynomial.derivative (Polynomial.derivative pz)).eval x.y := by
  have hdr : ssp.Seg.r (ir + 1) - ssp.Seg.r ir ≠ 0 := ne_of_gt (sub_pos.mpr hr)
  have hdpos : 0 < ssp.Seg.r (ir + 1) - ssp.Seg.r ir := sub_pos.mpr hr
  have hs0 : 0 ≤ (x.x - ssp.Seg.r ir) / (ssp.Seg.r (ir + 1) - ssp.Seg.r ir) :=
    div_nonneg (sub_nonneg.mpr hlo) (le_of_lt hdpos)
  have hs1 : (x.x - ssp.Seg.r ir) / (ssp.Seg.r (ir + 1) - ssp.Seg.r ir) ≤ 1 := by
    rw [div_le_one hdpos]; linarith
  have hclamp : max (min ((x.x - ssp.Seg.r ir) / (ssp.Seg.r (ir + 1) - ssp.Seg.r ir)) 1) 0
      = (x.x - ssp.Seg.r ir) / (ssp.Seg.r (ir + 1) - ssp.Seg.r ir) := by
    rw [min_eq_left hs1, max_eq_left hs0]
  have hq : Quad x t freq ssp iSegz iSegr = .ok
      { o := { ccpx := ⟨(1 - (x.x - ssp.Seg.r ir) / (ssp.Seg.r (ir + 1) - ssp.Seg.r ir))
                  * (ssp.cMat (iz * ssp.Nr + ir)
                    + (x.y - ssp.z iz) * ssp.czMat (iz * ssp.Nr + ir))
                + (x.x - ssp.Seg.r ir) / (ssp.Seg.r (ir + 1) - ssp.Seg.r ir)
                  * (ssp.cMat (iz * ssp.Nr + ir + 1)
                    + (x.y - ssp.z iz) * ssp.czMat (iz * ssp.Nr + ir + 1)),
                ((1 - (x.y - ssp.z iz) / (ssp.z (iz + 1) - ssp.z iz)) • ssp.c iz
                  + ((x.y - ssp.z iz) / (ssp.z (iz + 1) - ssp.z iz)) • ssp.c (iz + 1)).im⟩,
               gradc := ⟨((ssp.cMat (iz * ssp.Nr + ir + 1)
                      + (x.y - ssp.z iz) * ssp.czMat (iz * ssp.Nr + ir + 1))
                    - (ssp.cMat (iz * ssp.Nr + ir)
                      + (x.y - ssp.z iz) * ssp.czMat (iz * ssp.Nr + ir)))
                    / (ssp.Seg.r (ir + 1) - ssp.Seg.r ir),
                  (1 - (x.x - ssp.Seg.r ir) / (ssp.Seg.r (ir + 1) - ssp.Seg.r ir))
                    * ssp.czMat (iz * ssp.Nr + ir)
                  + (x.x - ssp.Seg.r ir) / (ssp.Seg.r (ir + 1) - ssp.Seg.r ir)
                    * ssp.czMat (iz * ssp.Nr + ir + 1)⟩,
               crr := 0,
               crz := (ssp.czMat (iz * ssp.Nr + ir + 1) - ssp.czMat (iz * ssp.Nr + ir))
                 / (ssp.Seg.r (ir + 1) - ssp.Seg.r ir),
               czz := 0,
               rho := (LinInterpDensity x ssp iz).2 },
        iSegz := iz, iSegr := ir } := by
    unfold Quad
    dsimp only
    rw [← hiz, ← hir, if_neg hbox, if_neg hseg, hclamp]
  refine ⟨_, _, _, _, _, _, _, _, _, _, _, _, hq, rfl, rfl, rfl, rfl, rfl, rfl, rfl, rfl, rfl,
    rfl, rfl, rfl, rfl, rfl, rfl, rfl, rfl, rfl, rfl, ?_, ?_, ?_, ?_, ?_, ?_, ?_, ?_⟩
  · simp only [Polynomial.eval_add, Polynomial.eval_mul, Polynomial.eval_C, Polynomial.eval_X,
      Polynomial.eval_sub]
    field_simp
    ring
  · simp only [Polynomial.eval_add, Polynomial.eval_mul, Polynomial.eval_C, Polynomial.eval_X,
      Polynomial.eval_sub]
    ring
  · simp only [Polynomial.eval_add, Polynomial.eval_mul, Polynomial.eval_C, Polynomial.eval_X,
      Polynomial.eval_sub]
    field_simp
    ring
  · simp [Polynomial.derivative_mul]
  · simp [Polynomial.derivative_mul]
  · simp [Polynomial.derivative_mul]
  · simp [Polynomial.derivative_mul]
  · simp [Polynomial.derivative_mul]

/-- C25 in the middle of the cell `(0, 0)` of a grid with `r = 0, 100` and
`z = 0, 10, 20`: at range 50 and depth 5, `s1 = 1/2`, `s2 = 5`,
`c1 = 1500`, `c2 = 3003/2`. -/
theorem C25_witness :
    ∃ res, Quad (⟨50, 5⟩ : Vec2 ℚ) ⟨1, 1⟩ 50 (exProfileVar 'Q') 0 0 = .ok res ∧
      res.o.ccpx.re = 6003 / 4 ∧ res.o.gradc = ⟨3 / 200, 1 / 20⟩ ∧
      res.o.crz = 1 / 1000 ∧ res.o.crr = 0 ∧ res.o.czz = 0 := by
  have hz : UpdateDepthSegmentT (⟨50, 5⟩ : Vec2 ℚ) ⟨1, 1⟩ (exProfileVar 'Q') 0 = 0 := by
    norm_num [UpdateDepthSegmentT, whileDec, whileInc, exProfileVar]
  have hr : UpdateRangeSegmentT (⟨50, 5⟩ : Vec2 ℚ) ⟨1, 1⟩ (exProfileVar 'Q') 0 = 0 := by
    norm_num [UpdateRangeSegmentT, whileDec, whileInc, exProfileVar]
  obtain ⟨res, s1, s2, sigma, c1, c2, cz1, cz2, dr, pr, pz, pzr, hq, -, -, e1, e2, e3, -, e5,
    e6, e7, e8, e9, -, e11, e12, e13, e14, -⟩ :=
    C25_quad_bilinear (⟨50, 5⟩ : Vec2 ℚ) ⟨1, 1⟩ 50 (exProfileVar 'Q') 0 0 0 0 hz.symm hr.symm
      (by norm_num [exProfileVar]) (by norm_num [exProfileVar]) (by norm_num [exProfileVar])
      (by norm_num [exProfileVar]) (by norm_num [exProfileVar])
  refine ⟨res, hq, ?_, ?_, ?_, e13, e14⟩
  · rw [e9, e7, e8, e5, e6, e3, e2, e1]
    norm_num [exProfileVar]
  · rw [e11, e7, e8, e5, e6, e3, e2, e1]
    norm_num [exProfileVar]
  · rw [e12, e5, e6, e1]
    norm_num [exProfileVar]

/-- C26: for an argument list made of exactly one `FileRoot`, flags of the
list `--1`, `--singlethread`, `--2`, `--2D`, `--Nx2D`, `--2D3D`, `--2.5D`,
`--4`, `--3`, `--3D` and options `--gpu=<int>`, `--mem=<N>...` with a value
the parser takes (each also with a single dash), the loop of `main` ends
with `numThreads = 1` when a thread flag occurs and with the initial value
otherwise, with `dimmode` the value of the last dimension flag (2 for 2D, 4
for Nx2D, 3 for 3D; the build symbol `BHC_DIM_ONLY` when there is none), with
`FileRoot` the one given; a `gpu` or `mem` option changes neither
`numThreads` nor `dimmode` nor `FileRoot`, without `gpu` option `gpuIndex` is
kept and without `mem` option `maxMemory` is kept; in a build that supports
the mode selected `main` then calls `mainmain<false,false>`,
`mainmain<true,false>` or `mainmain<true,true>` for 2, 4, 3; and the loop
body treats an argument the same with one and with two leading dashes. -/
theorem C26_command_line_flags (lib : CmdLib) (b : BuildConfig) (init0 : bhcInit)
    (argv : List (List Char)) (root : List Char)
    (hroot : root ≠ [] ∧ root.head? ≠ some '-')
    (hargs : ∀ a ∈ argv, a = root ∨ spec_isThreadFlag a = true ∨
      (spec_dimFlag a).isSome = true ∨ spec_isGpuOption lib a = true ∨
      spec_isMemOption lib a = true)
    (hone : argv.count root = 1) :
    (∃ st, parseArgs lib ⟨init0, b.BHC_DIM_ONLY, []⟩ argv = .ok st ∧
      st.FileRoot = root ∧
      st.init.numThreads = (if argv.any spec_isThreadFlag then 1 else init0.numThreads) ∧
      (st.init.numThreads = 1 ↔
        (argv.any spec_isThreadFlag = true ∨ init0.numThreads = 1)) ∧
      st.dimmode = (argv.filterMap spec_dimFlag).getLast?.getD b.BHC_DIM_ONLY ∧
      st.init.FileRoot = init0.FileRoot ∧
      ((∀ a ∈ argv, spec_isGpuOption lib a = false) →
        st.init.gpuIndex = init0.gpuIndex) ∧
      ((∀ a ∈ argv, spec_isMemOption lib a = false) →
        st.init.maxMemory = init0.maxMemory) ∧
      ((∀ a ∈ argv, spec_isGpuOption lib a = false ∧ spec_isMemOption lib a = false) →
        st.init = { init0 with
          numThreads := if argv.any spec_isThreadFlag then 1 else init0.numThreads }) ∧
      (∀ d, (argv.filterMap spec_dimFlag).getLast? = some d →
        (d = 2 ∨ d = 4 ∨ d = 3) ∧
        ((b.BHC_DIM_ONLY ≤ 0 ∨ b.BHC_DIM_ONLY = d) →
          (d = 2 → b.BHC_ENABLE_2D = true) → (d = 4 → b.BHC_ENABLE_NX2D = true) →
          (d = 3 → b.BHC_ENABLE_3D = true) →
          main lib b init0 argv = .ok ⟨decide (d ≠ 2), decide (d = 3),
            { st.init with FileRoot := root }⟩))) ∧
    (∀ (st : MainState) (a : List Char),
      spec_isGpuOption lib a = true ∨ spec_isMemOption lib a = true →
      ∃ st1, parseArg lib st a = .ok st1 ∧ st1.dimmode = st.dimmode ∧
        st1.init.numThreads = st.init.numThreads ∧ st1.FileRoot = st.FileRoot ∧
        st1.init.FileRoot = st.init.FileRoot) ∧
    (∀ (st : MainState) (f : List Char), f.head? ≠ some '-' →
      parseArg lib st ('-' :: '-' :: f) = parseArg lib st ('-' :: f)) := by
  obtain ⟨st, hst, hdim, hthr, hfr, hroot1, hgpu, hmem⟩ :=
    parseArgs_recognised lib root hroot argv ⟨init0, b.BHC_DIM_ONLY, []⟩ hargs (by
      simp only [if_true]; omega)
  have hmemr : root ∈ argv := List.count_pos_iff.mp (by omega)
  simp only [if_pos hmemr] at hroot1
  refine ⟨⟨st, hst, hroot1, hthr, ?_, hdim, hfr, hgpu, hmem, fun hno => ?_, ?_⟩,
    fun st a ha => ?_, fun st f h => parseArg_dashes lib st f h⟩
  · rw [hthr]
    by_cases hany : argv.any spec_isThreadFlag = true
    · simp [hany]
    · simp [hany]
  · have h1 := hgpu (fun a ha => (hno a ha).1)
    have h2 := hmem (fun a ha => (hno a ha).2)
    cases hi : st.init with
    | mk fr nt gi mm =>
      rw [hi] at hthr h1 h2 hfr
      simp only at hthr h1 h2 hfr
      rw [hthr, h1, h2, hfr]
  · intro d hd
    have hrange : d = 2 ∨ d = 4 ∨ d = 3 := by
      have hmem := List.mem_of_getLast?_eq_some hd
      obtain ⟨a, -, ha⟩ := List.mem_filterMap.mp hmem
      exact spec_dimFlag_range a d ha
    refine ⟨hrange, fun hb h2 h4 h3 => ?_⟩
    unfold main
    simp only [hst]
    rw [if_neg (by rw [hroot1]; exact hroot.1), hroot1, hdim, hd]
    exact dispatch_supported b _ d hrange hb h2 h4 h3
  · obtain ⟨hh, hnt, hnd⟩ := valueOption_not_flag lib a ha
    have hne : a ≠ root := fun he => hroot.2 (he ▸ hh)
    obtain ⟨st1, p1, p2, p3, p4, p5, -, -⟩ := parseArg_recognised lib root hroot.2 st a
      (Or.inr (Or.inr (Or.inr ha))) (fun he => absurd he hne)
    refine ⟨st1, p1, ?_, ?_, ?_, p4⟩
    · rw [p2, hnd]; rfl
    · rw [p3, hnt]; rfl
    · rw [p5, if_neg hne]

/-- C26 at the arguments `--2D -1 --gpu=1 run --mem=64M --3D` in a build
with every mode: the last dimension flag wins, the two options with a
value change neither the worker count nor the mode, and `main` calls
`mainmain<true,true>` with one worker. -/
theorem C26_witness :
    ∃ st, parseArgs exCmdLib ⟨exInit, exBuild.BHC_DIM_ONLY, []⟩
        ["--2D".toList, "-1".toList, "--gpu=1".toList, "run".toList, "--mem=64M".toList,
          "--3D".toList] = .ok st ∧
      st.init.numThreads = 1 ∧ st.dimmode = 3 ∧
      main exCmdLib exBuild exInit
          ["--2D".toList, "-1".toList, "--gpu=1".toList, "run".toList, "--mem=64M".toList,
            "--3D".toList]
        = .ok ⟨true, true, { st.init with FileRoot := "run".toList }⟩ := by
  obtain ⟨⟨st, h1, -, h3, -, h5, -, -, -, -, h10⟩, -⟩ :=
    C26_command_line_flags exCmdLib exBuild exInit
      ["--2D".toList, "-1".toList, "--gpu=1".toList, "run".toList, "--mem=64M".toList,
        "--3D".toList] "run".toList (by decide) (by decide) (by decide)
  refine ⟨st, h1, ?_, ?_, ?_⟩
  · rw [h3]; decide
  · rw [h5]; decide
  · exact (h10 3 (by decide)).2 (Or.inl (by decide)) (by decide) (by decide) (by decide)

/-- C27: for a non-negative decimal integer `N` that fits in an `int`,
written with the digits `ds`, the options `--mem=` and `-mem=` followed by
`ds`, an optional unit `k`, `K`, `M` or `G`, an optional `i` and an optional
`B` or `b` set `maxMemory = N · base ^ e` with `base` 1024 when the `i` is
there and 1000 otherwise and `e` 0, 1, 2, 3 for no unit, `k` or `K`, `M`, `G`,
and change nothing else; a value whose part before these suffixes is not
accepted by `isInt` is rejected with the "--memory argument is invalid"
abort. `endswith` is taken to test the last character. -/
theorem C27_memory_option (lib : CmdLib) (st : MainState) (unit bin byte : List Char)
    (hend : ∀ (s : List Char) (c : Char),
      lib.endswith s [c] = decide (s.getLast? = some c))
    (hunit : unit = [] ∨ unit = "k".toList ∨ unit = "K".toList ∨ unit = "M".toList
      ∨ unit = "G".toList)
    (hbin : bin = [] ∨ bin = "i".toList)
    (hbyte : byte = [] ∨ byte = "B".toList ∨ byte = "b".toList) :
    (∀ (ds : List Char) (N : Int), (∀ c ∈ ds, c.isDigit = true) →
      lib.isInt ds false = true → lib.stoi ds = some N → 0 ≤ N → N < 2 ^ 31 →
      parseArg lib st ("--mem=".toList ++ (ds ++ unit ++ bin ++ byte))
        = .ok { st with init := { st.init with
            maxMemory := N.toNat * spec_memBase bin ^ spec_unitExponent unit } } ∧
      parseArg lib st ("-mem=".toList ++ (ds ++ unit ++ bin ++ byte))
        = .ok { st with init := { st.init with
            maxMemory := N.toNat * spec_memBase bin ^ spec_unitExponent unit } }) ∧
    (∀ num : List Char, (∀ c ∈ "BbikKMG".toList, num.getLast? ≠ some c) →
      lib.isInt num false = false →
      parseArg lib st ("--mem=".toList ++ (num ++ unit ++ bin ++ byte))
        = .error .invalidMemory ∧
      parseArg lib st ("-mem=".toList ++ (num ++ unit ++ bin ++ byte))
        = .error .invalidMemory) := by
  constructor
  · intro ds N hdig hint hstoi h0 hN
    have h := parseMemory_strip lib st ds unit bin byte hend (digits_clean ds hdig) hunit hbin
      hbyte
    simp only [hint, hstoi, memory_value N h0 hN bin unit] at h
    rw [(parseArg_mem lib st _).1, (parseArg_mem lib st _).2, h]
    exact ⟨by simp, by simp⟩
  · intro num hclean hint
    have h := parseMemory_strip lib st num unit bin byte hend hclean hunit hbin hbyte
    simp only [hint] at h
    rw [(parseArg_mem lib st _).1, (parseArg_mem lib st _).2, h]
    exact ⟨by simp, by simp⟩

/-- C27 at the two options of the claim: `--mem=64M` gives 64,000,000 and
`--mem=64MiB` gives 67,108,864. -/
theorem C27_witness :
    parseArg exCmdLib ⟨exInit, 0, []⟩ "--mem=64M".toList
      = .ok ⟨{ exInit with maxMemory := 64000000 }, 0, []⟩ ∧
    parseArg exCmdLib ⟨exInit, 0, []⟩ "--mem=64MiB".toList
      = .ok ⟨{ exInit with maxMemory := 67108864 }, 0, []⟩ := by
  have h1 := (C27_memory_option exCmdLib ⟨exInit, 0, []⟩ "M".toList [] [] exCmdLib_endswith
    (by decide) (by decide) (by decide)).1 "64".toList 64 (by decide) (by decide) (by decide)
    (by decide) (by decide)
  have h2 := (C27_memory_option exCmdLib ⟨exInit, 0, []⟩ "M".toList "i".toList "B".toList
    exCmdLib_endswith (by decide) (by decide) (by decide)).1 "64".toList 64 (by decide)
    (by decide) (by decide) (by decide) (by decide)
  exact ⟨h1.1, h2.1⟩

/-- C28: the reader of `reflect.hpp`, for the option `'F'` and a file with
header count `N` and `N` records, leaves `NPts = N` and in entry `i` the
angle and modulus of record `i` and its phase times `DegRad = π/180`. The
reader of `refcoef.hpp` does not: it multiplies the phase of entry 0 by
`DegRad` once for every record and leaves the other phases in degrees. For the
file with the records `(0, 1, 90)`, `(90, 1/2, 180)` and `DegRad = 1/60` the
first returns the phases `3/2` and `3`, the second `1/40` and `180`. -/
theorem C28_reader_phase_conversion {K : Type} [LinearOrderedField K] (m : STD K)
    (f : RCFile K) (refl : ReflectionInfo K) (TopRC : Char) :
    (f.NPts = f.records.length → TopRC ≠ 'F' →
      ReadReflectionCoefficient m (some f) none 'F' TopRC refl
        = .ok ⟨{ NPts := f.NPts,
                 r := f.records.map (fun rec => ⟨rec.1, rec.2.1, rec.2.2 * m.DegRad⟩) },
               { refl.top with r := allocateRC 1 }⟩) ∧
    (f.NPts = f.records.length → TopRC ≠ 'F' →
      ReadReflectionCoefficient m none (some f) 'R' 'F' refl
        = .ok ⟨{ refl.bot with r := allocateRC 1 },
               { NPts := f.NPts,
                 r := f.records.map (fun rec => ⟨rec.1, rec.2.1, rec.2.2 * m.DegRad⟩) }⟩) ∧
    exSTD.DegRad = 1 / 60 ∧
    ReadReflectionCoefficient exSTD (some exRCFile) none 'F' 'R' exReflInfo
      = .ok ⟨⟨2, [⟨0, 1, 3 / 2⟩, ⟨90, 1 / 2, 3⟩]⟩,
             { exReflInfo.top with r := allocateRC 1 }⟩ ∧
    refcoef_ReadReflectionCoefficient exSTD (some exRCFile) none 'F' 'R' exReflInfo
      = .ok ⟨⟨2, [⟨0, 1, 1 / 40⟩, ⟨90, 1 / 2, 180⟩]⟩,
             { exReflInfo.top with r := allocateRC 1 }⟩ := by
  refine ⟨fun hN hT => ?_, fun hN _ => ?_, by norm_num [STD.DegRad, exSTD], ?_, ?_⟩
  · have hb := readTopBot_file m f refl.bot .cannotOpenBottom hN
    have ht : readTopBot m TopRC none refl.top .cannotOpenTop
        = .ok { refl.top with r := allocateRC 1 } := by
      simp only [readTopBot, if_neg hT]
    simp only [ReadReflectionCoefficient, hb, ht]
    rfl
  · have ht := readTopBot_file m f refl.top .cannotOpenTop hN
    have hb : readTopBot m 'R' none refl.bot .cannotOpenBottom
        = .ok { refl.bot with r := allocateRC 1 } := by
      simp [readTopBot]
    simp only [ReadReflectionCoefficient, hb, ht]
    rfl
  · have hb := readTopBot_file exSTD exRCFile exReflInfo.bot .cannotOpenBottom rfl
    have ht : readTopBot exSTD 'R' none exReflInfo.top .cannotOpenTop
        = .ok { exReflInfo.top with r := allocateRC 1 } := by
      simp [readTopBot]
    simp only [ReadReflectionCoefficient, hb, ht]
    simp [exRCFile, STD.DegRad, exSTD]
    norm_num
  · simp [refcoef_ReadReflectionCoefficient, refcoef_readTopBot, refcoef_readRecords,
      exRCFile, allocateRC, STD.DegRad, exSTD, List.replicate]
    norm_num

/-- C29: for a table with `NPts ≥ 2` entries (sorted or not) the bisection
loop of `InterpolateReflectionCoefficient`, started at `(0, NPts-1)`, leaves
within `⌈log2(NPts-1)⌉` iterations with `iRight = iLeft + 1`; every state it
goes through has `0 ≤ iLeft < iRight ≤ NPts-1`, so every table access is in
bounds (and `iLeft + iRight` fits in an `int32_t` when `NPts ≤ 2^30`); and
for a query with `θ[0] ≤ θ ≤ θ[NPts-1]` the function returns with
that many iterations allowed. -/
theorem C29_bisection_terminates {K : Type} [LinearOrderedField K]
    (RInt : ReflectionCoef K) (rtb : ReflectionInfoTopBot K)
    (hwf : rtb.NPts = rtb.r.length) (hN2 : 2 ≤ rtb.NPts) :
    (∃ i, bisectLoop rtb RInt.theta (Nat.clog 2 (rtb.NPts - 1).toNat) 0 (rtb.NPts - 1)
        = .ok (i, i + 1) ∧ 0 ≤ i ∧ i + 1 ≤ rtb.NPts - 1 ∧
      (∀ fuel, Nat.clog 2 (rtb.NPts - 1).toNat ≤ fuel →
        bisectLoop rtb RInt.theta fuel 0 (rtb.NPts - 1) = .ok (i, i + 1)) ∧
      (bisectStates rtb RInt.theta (Nat.clog 2 (rtb.NPts - 1).toNat) 0
        (rtb.NPts - 1)).length ≤ Nat.clog 2 (rtb.NPts - 1).toNat + 1 ∧
      (bisectStates rtb RInt.theta (Nat.clog 2 (rtb.NPts - 1).toNat) 0
        (rtb.NPts - 1)).getLast? = some (i, i + 1) ∧
      ∀ s ∈ bisectStates rtb RInt.theta (Nat.clog 2 (rtb.NPts - 1).toNat) 0 (rtb.NPts - 1),
        0 ≤ s.1 ∧ s.1 < s.2 ∧ s.2 ≤ rtb.NPts - 1 ∧
        (∃ e, rtb.entry (Int.tdiv (s.1 + s.2) 2) = .ok e) ∧
        (rtb.NPts ≤ 2 ^ 30 → s.1 + s.2 < 2 ^ 31)) ∧
    (∀ e0 eN : ReflectionCoef K, rtb.r[0]? = some e0 →
      rtb.r[rtb.r.length - 1]? = some eN → e0.theta ≤ RInt.theta → RInt.theta ≤ eN.theta →
      ∀ fuel, Nat.clog 2 (rtb.NPts - 1).toNat ≤ fuel →
        ∃ out, InterpolateReflectionCoefficient fuel RInt rtb = .ok out) := by
  have hto : (((rtb.NPts - 1).toNat : Nat) : Int) = rtb.NPts - 1 :=
    Int.toNat_of_nonneg (by omega)
  have hpow : rtb.NPts - 1 - 0 ≤ (2 : Int) ^ Nat.clog 2 (rtb.NPts - 1).toNat := by
    have h := Nat.le_pow_clog (by norm_num : 1 < 2) (rtb.NPts - 1).toNat
    have h2 : (((rtb.NPts - 1).toNat : Nat) : Int)
        ≤ ((2 ^ Nat.clog 2 (rtb.NPts - 1).toNat : Nat) : Int) := by exact_mod_cast h
    rw [hto] at h2
    push_cast at h2
    omega
  obtain ⟨i, e1, e2, e3, e4, e5, e6⟩ := bisectLoop_log rtb RInt.theta
    (Nat.clog 2 (rtb.NPts - 1).toNat) 0 (rtb.NPts - 1) (le_refl _) (by omega) (by omega) hpow
  have hfuel : ∀ fuel, Nat.clog 2 (rtb.NPts - 1).toNat ≤ fuel →
      bisectLoop rtb RInt.theta fuel 0 (rtb.NPts - 1) = .ok (i, i + 1) := fun fuel hf =>
    bisectLoop_fuel_le rtb RInt.theta 0 (rtb.NPts - 1) (i, i + 1) _ fuel hf e1
  refine ⟨⟨i, e1, e2, e3, hfuel, e4, e5, fun s hs => ?_⟩, ?_⟩
  · obtain ⟨a, b, c⟩ := e6 s hs
    refine ⟨a, b, c, ?_, fun h => by omega⟩
    have hmid : Int.tdiv (s.1 + s.2) 2 = (s.1 + s.2) / 2 :=
      Int.tdiv_eq_ediv (by omega) (by norm_num)
    rw [hmid]
    obtain ⟨e, he, -⟩ := entry_ok rtb ((s.1 + s.2) / 2) (by omega) (by omega)
    exact ⟨e, he⟩
  · intro e0 eN h0 hN hlo hhi fuel hf
    obtain ⟨j, eL, eR, -, -, -, -, -, -, hbig⟩ :=
      interp_inside RInt rtb e0 eN hwf hN2 h0 hN hlo hhi
    obtain ⟨hb, hI⟩ := hbig (max fuel rtb.r.length) (by omega)
    have hb2 := hfuel (max fuel rtb.r.length) (by omega)
    rw [interp_fuel_congr fuel (max fuel rtb.r.length) RInt rtb
      ((hfuel fuel hf).trans hb2.symm)]
    exact ⟨_, hI⟩

/-- C29 at a table with three entries: one iteration, `⌈log2 2⌉ = 1`, is
enough for the query 50 between the angles 0 and 90. -/
theorem C29_witness :
    Nat.clog 2 (exTable.NPts - 1).toNat = 1 ∧
    ∃ out, InterpolateReflectionCoefficient 1 ⟨50, 0, 0⟩ exTable = .ok out :=
  ⟨exTable_clog,
    (C29_bisection_terminates ⟨50, 0, 0⟩ exTable rfl (by decide)).2 ⟨0, 1, 0⟩ ⟨90, 0, 2⟩ rfl rfl
      (by norm_num) (by norm_num) 1 (le_of_eq exTable_clog)⟩

/-- C30: for a table with `NPts = 1` and a query equal to the angle of its
entry, `InterpolateReflectionCoefficient` (both versions) enters the
bisection loop with `iLeft = iRight = 0`; the loop body maps the state
`(0, 0)` to `(0, 0)`, which does not satisfy the exit condition
`iLeft = iRight - 1`; so the loop is still running after every number of
iterations, and the function does not return. -/
theorem C30_single_entry_never_returns {K : Type} [LinearOrderedField K]
    (RInt : ReflectionCoef K) (rtb : ReflectionInfoTopBot K) (e : ReflectionCoef K)
    (hN : rtb.NPts = 1) (hr : rtb.r[0]? = some e) (hθ : RInt.theta = e.theta) :
    bisectBody rtb RInt.theta 0 (rtb.NPts - 1) = .ok (0, rtb.NPts - 1) ∧
    (0 : Int) ≠ (rtb.NPts - 1) - 1 ∧
    (∀ fuel, bisectLoop rtb RInt.theta fuel 0 (rtb.NPts - 1) = .error .loopFuel) ∧
    (∀ fuel, InterpolateReflectionCoefficient fuel RInt rtb = .error .loopFuel) ∧
    (∀ fuel, refcoef_InterpolateReflectionCoefficient fuel RInt rtb.r rtb.NPts
      = .error .loopFuel) ∧
    (∀ fuel out, InterpolateReflectionCoefficient fuel RInt rtb ≠ .ok out) := by
  have he : rtb.entry 0 = .ok e := by
    have h := entry_nat rtb 0 e hr
    simpa using h
  obtain ⟨hb, hl⟩ := bisectLoop_stuck rtb e hr
  have h0 : rtb.NPts - 1 = 0 := by omega
  have hI : ∀ fuel, InterpolateReflectionCoefficient fuel RInt rtb = .error .loopFuel := by
    intro fuel
    simp only [InterpolateReflectionCoefficient, h0, he, hθ, lt_irrefl, if_false, gt_iff_lt,
      hl fuel]
  rw [h0, hθ]
  refine ⟨hb, by decide, hl, hI, fun fuel => ?_, fun fuel out h => ?_⟩
  · have h := hI fuel
    unfold refcoef_InterpolateReflectionCoefficient
    exact h
  · rw [hI fuel] at h
    cases h

/-- C30 at the table with the single entry `(0, 1, 0)` and the query 0:
four iterations do not end the loop. -/
theorem C30_witness :
    InterpolateReflectionCoefficient 4 ⟨0, 0, 0⟩ exTable1 = .error .loopFuel :=
  (C30_single_entry_never_returns ⟨0, 0, 0⟩ exTable1 ⟨0, 1, 0⟩ rfl rfl rfl).2.2.2.1 4

/-- C31: for every table, position and tangent and every cursor in
`0 .. NPts-2` on entry (so `NPts ≥ 2`), `UpdateDepthSegmentT` ends, each loop
by its own test within `NPts - 2` iterations, with the cursor in
`0 .. NPts-2`; when `z` does not decrease from node to node, `x.y < z[0]`
gives 0 and `x.y > z[NPts-1]` gives `NPts-2`. The same holds for
`UpdateRangeSegmentT` with `Seg.r`, `Nr` and `x.x`. -/
theorem C31_segment_cursor_in_range {K : Type} [LinearOrderedField K] (x t : Vec2 K)
    (ssp : SSPStructure K) (iSegz iSegr : Int)
    (hz0 : 0 ≤ iSegz) (hz1 : iSegz ≤ ssp.NPts - 2)
    (hr0 : 0 ≤ iSegr) (hr1 : iSegr ≤ ssp.Nr - 2) :
    (0 ≤ UpdateDepthSegmentT x t ssp iSegz ∧
      UpdateDepthSegmentT x t ssp iSegz ≤ ssp.NPts - 2 ∧
      (∀ n, (ssp.NPts - 2).toNat ≤ n →
        UpdateDepthSegmentT_fuel n x t ssp iSegz = some (UpdateDepthSegmentT x t ssp iSegz)) ∧
      ((∀ i, 0 ≤ i → i + 1 ≤ ssp.NPts - 1 → ssp.z i ≤ ssp.z (i + 1)) →
        (x.y < ssp.z 0 → UpdateDepthSegmentT x t ssp iSegz = 0) ∧
        (x.y > ssp.z (ssp.NPts - 1) → UpdateDepthSegmentT x t ssp iSegz = ssp.NPts - 2))) ∧
    (0 ≤ UpdateRangeSegmentT x t ssp iSegr ∧
      UpdateRangeSegmentT x t ssp iSegr ≤ ssp.Nr - 2 ∧
      (∀ n, (ssp.Nr - 2).toNat ≤ n →
        UpdateRangeSegmentT_fuel n x t ssp iSegr = some (UpdateRangeSegmentT x t ssp iSegr)) ∧
      ((∀ i, 0 ≤ i → i + 1 ≤ ssp.Nr - 1 → ssp.Seg.r i ≤ ssp.Seg.r (i + 1)) →
        (x.x < ssp.Seg.r 0 → UpdateRangeSegmentT x t ssp iSegr = 0) ∧
        (x.x > ssp.Seg.r (ssp.Nr - 1) → UpdateRangeSegmentT x t ssp iSegr = ssp.Nr - 2))) := by
  constructor
  · unfold UpdateDepthSegmentT UpdateDepthSegmentT_fuel
    by_cases ht : t.y ≥ 0
    · simp only [if_pos ht]
      obtain ⟨j, k, hj, hk, c1, c2, c3, c4⟩ := seg_down ssp.z ssp.NPts x.y iSegz hz0 hz1
      rw [← hj, ← hk]
      exact ⟨c1, c2, c3, c4⟩
    · simp only [if_neg ht]
      obtain ⟨j, k, hj, hk, c1, c2, c3, c4⟩ := seg_up ssp.z ssp.NPts x.y iSegz hz0 hz1
      rw [← hj, ← hk]
      exact ⟨c1, c2, c3, c4⟩
  · unfold UpdateRangeSegmentT UpdateRangeSegmentT_fuel
    by_cases ht : t.x ≥ 0
    · simp only [if_pos ht]
      obtain ⟨j, k, hj, hk, c1, c2, c3, c4⟩ := seg_down ssp.Seg.r ssp.Nr x.x iSegr hr0 hr1
      rw [← hj, ← hk]
      exact ⟨c1, c2, c3, c4⟩
    · simp only [if_neg ht]
      obtain ⟨j, k, hj, hk, c1, c2, c3, c4⟩ := seg_up ssp.Seg.r ssp.Nr x.x iSegr hr0 hr1
      rw [← hj, ← hk]
      exact ⟨c1, c2, c3, c4⟩

/-- C31 at the table `z = 0, 10, 20`, `r = 0, 100`: the depth 25 below the
last node leaves the depth cursor at `NPts - 2 = 1`, the range `-5` before
the first node leaves the range cursor at 0, and one iteration per loop is
enough. -/
theorem C31_witness :
    UpdateDepthSegmentT (⟨-5, 25⟩ : Vec2 ℚ) ⟨1, 1⟩ (exProfileVar 'N') 0 = 1 ∧
    UpdateDepthSegmentT_fuel 1 (⟨-5, 25⟩ : Vec2 ℚ) ⟨1, 1⟩ (exProfileVar 'N') 0
      = some (UpdateDepthSegmentT (⟨-5, 25⟩ : Vec2 ℚ) ⟨1, 1⟩ (exProfileVar 'N') 0) ∧
    UpdateRangeSegmentT (⟨-5, 25⟩ : Vec2 ℚ) ⟨1, 1⟩ (exProfileVar 'N') 0 = 0 := by
  have h := C31_segment_cursor_in_range (⟨-5, 25⟩ : Vec2 ℚ) ⟨1, 1⟩ (exProfileVar 'N') 0 0
    (by decide) (by decide) (by decide) (by decide)
  refine ⟨?_, h.1.2.2.1 1 (by decide), ?_⟩
  · exact (h.1.2.2.2 (fun i _ _ => by norm_num [exProfileVar])).2
      (by norm_num [exProfileVar])
  · exact (h.2.2.2.2 (fun i _ _ => by norm_num [exProfileVar])).1
      (by norm_num [exProfileVar])

/-- C32: for a `Quad` evaluation with `Seg.r` increasing from node to node,
`Nz = NPts`, cursors on entry in `0 .. NPts-2` and `0 .. Nr-2` (so `Nr ≥ 2`),
and a position with `Seg.r[0] ≤ x.x ≤ Seg.r[Nr-1]`: the test of the "iSeg
error" branch is false, `Quad` returns, the range segment `ir` it selects
brackets `x.x`, and `s1 = (x.x - r[ir]) / (r[ir+1] - r[ir])` lies in `[0, 1]`,
so that the clamp `max(min(s1, 1), 0)` gives `s1` itself. -/
theorem C32_quad_clamp_inactive {K : Type} [LinearOrderedField K] (x t : Vec2 K) (freq : K)
    (ssp : SSPStructure K) (iSegz iSegr : Int)
    (hr : ∀ i, 0 ≤ i → i + 1 ≤ ssp.Nr - 1 → ssp.Seg.r i < ssp.Seg.r (i + 1))
    (hNz : ssp.Nz = ssp.NPts)
    (hz0 : 0 ≤ iSegz) (hz1 : iSegz ≤ ssp.NPts - 2)
    (hr0 : 0 ≤ iSegr) (hr1 : iSegr ≤ ssp.Nr - 2)
    (hlo : ssp.Seg.r 0 ≤ x.x) (hhi : x.x ≤ ssp.Seg.r (ssp.Nr - 1)) :
    ¬ (UpdateDepthSegmentT x t ssp iSegz ≥ ssp.Nz - 1 ∨
        UpdateRangeSegmentT x t ssp iSegr ≥ ssp.Nr - 1) ∧
    Quad x t freq ssp iSegz iSegr ≠ .error .quadSegError ∧
    ∃ (res : SSPResult K) (ir : Int) (s1 : K),
      Quad x t freq ssp iSegz iSegr = .ok res ∧
      ir = UpdateRangeSegmentT x t ssp iSegr ∧ res.iSegr = ir ∧
      s1 = (x.x - ssp.Seg.r ir) / (ssp.Seg.r (ir + 1) - ssp.Seg.r ir) ∧
      ssp.Seg.r ir ≤ x.x ∧ x.x ≤ ssp.Seg.r (ir + 1) ∧
      0 ≤ s1 ∧ s1 ≤ 1 ∧ min s1 1 = s1 ∧ max (min s1 1) 0 = s1 ∧
      res.o.ccpx.re
        = (1 - s1) * (ssp.cMat (res.iSegz * ssp.Nr + ir)
              + (x.y - ssp.z res.iSegz) * ssp.czMat (res.iSegz * ssp.Nr + ir))
          + s1 * (ssp.cMat (res.iSegz * ssp.Nr + ir + 1)
              + (x.y - ssp.z res.iSegz) * ssp.czMat (res.iSegz * ssp.Nr + ir + 1)) := by
  obtain ⟨d1, d2⟩ := UpdateDepthSegmentT_mem x t ssp iSegz hz0 hz1
  obtain ⟨r1, r2, r3, r4⟩ := UpdateRangeSegmentT_bracket x t ssp iSegr hr0 hr1 hlo hhi
  have hbox : ¬ (x.x < ssp.Seg.r 0 ∨ x.x > ssp.Seg.r (ssp.Nr - 1)) := by
    rintro (h | h)
    · exact absurd hlo (not_le.mpr h)
    · exact absurd hhi (not_le.mpr h)
  have hseg : ¬ (UpdateDepthSegmentT x t ssp iSegz ≥ ssp.Nz - 1 ∨
      UpdateRangeSegmentT x t ssp iSegr ≥ ssp.Nr - 1) := by
    rw [hNz]
    rintro (h | h) <;> omega
  obtain ⟨res, hres, e1, e2, e3⟩ := (Quad_cases x t freq ssp iSegz iSegr).2.2 hbox hseg
  have hd : 0 < ssp.Seg.r (UpdateRangeSegmentT x t ssp iSegr + 1)
      - ssp.Seg.r (UpdateRangeSegmentT x t ssp iSegr) :=
    sub_pos.mpr (hr _ r1 (by omega))
  have hs0 : 0 ≤ (x.x - ssp.Seg.r (UpdateRangeSegmentT x t ssp iSegr))
      / (ssp.Seg.r (UpdateRangeSegmentT x t ssp iSegr + 1)
        - ssp.Seg.r (UpdateRangeSegmentT x t ssp iSegr)) :=
    div_nonneg (sub_nonneg.mpr r3) (le_of_lt hd)
  have hs1 : (x.x - ssp.Seg.r (UpdateRangeSegmentT x t ssp iSegr))
      / (ssp.Seg.r (UpdateRangeSegmentT x t ssp iSegr + 1)
        - ssp.Seg.r (UpdateRangeSegmentT x t ssp iSegr)) ≤ 1 := by
    rw [div_le_one hd]
    exact sub_le_sub_right r4 _
  refine ⟨hseg, ?_, res, _, _, hres, rfl, e2, rfl, r3, r4, hs0, hs1, min_eq_left hs1, ?_, ?_⟩
  · rw [hres]
    intro h
    cases h
  · rw [min_eq_left hs1, max_eq_left hs0]
  · rw [e3, e2, min_eq_left hs1, max_eq_left hs0]

/-- C32 at the right edge of the box of the grid `r = 0, 100`,
`z = 0, 10, 20`: at the range 100 and the depth 5 `Quad` returns with the
range segment 0 (where `s1 = 1`). -/
theorem C32_witness :
    UpdateRangeSegmentT (⟨100, 5⟩ : Vec2 ℚ) ⟨1, 1⟩ (exProfileVar 'Q') 0 = 0 ∧
    ∃ res, Quad (⟨100, 5⟩ : Vec2 ℚ) ⟨1, 1⟩ 50 (exProfileVar 'Q') 0 0 = .ok res ∧
      res.iSegr = 0 := by
  have hu : UpdateRangeSegmentT (⟨100, 5⟩ : Vec2 ℚ) ⟨1, 1⟩ (exProfileVar 'Q') 0 = 0 := by
    norm_num [UpdateRangeSegmentT, whileDec, whileInc, exProfileVar]
  obtain ⟨-, -, res, ir, s1, hq, hir, hres, -⟩ :=
    C32_quad_clamp_inactive (⟨100, 5⟩ : Vec2 ℚ) ⟨1, 1⟩ 50 (exProfileVar 'Q') 0 0
      (fun i _ _ => by norm_num [exProfileVar]) rfl (by decide) (by decide) (by decide)
      (by decide) (by norm_num [exProfileVar]) (by norm_num [exProfileVar])
  exact ⟨hu, res, hq, by rw [hres, hir, hu]⟩

/-- C33: in 2D, for a half-space `'A'` or `'G'` without shear
(`Re hs.cS ≤ 0`), a real `hs.cP`, a positive density in the water and a
tangent beyond the critical angle (`(ω·Tg)² > (ω/hs.cP)²`), with `STD::sqrt`
of a positive real a positive real and `sqrt(1) = 1`: `kzP = f` is a positive
real, the numerator of `Refl` is minus the conjugate of its denominator
`d = o.rho·f + i·kz·hs.rho`, so `|Refl|² = 1` and `|Refl| = 1`; the ray is not
killed and `Reflect` returns with `newPoint.Amp = oldPoint.Amp`. (Positivity
of `hs.cP`, `hs.rho` and `ω` is not needed.) -/
theorem C33_total_reflection {K : Type} [LinearOrderedField K] {P : Type} [Add P] [SMul K P]
    (m : STD K) (EvaluateSSP : Vec2 K → Vec2 K → SSPOutputs2 K) (fuel : Nat)
    (oldPoint newPoint : rayPt2 K P) (hs : HSInfo K) (isTop : Bool)
    (tBdry nBdry : Vec2 K) (rcurv : ReflCurvature2 K) (freq : K)
    (rtb : ReflectionInfoTopBot K) (Beam : BeamStructure)
    (hsqrt : ∀ a : K, 0 < a → (m.csqrt ⟨a, 0⟩).im = 0 ∧ 0 < (m.csqrt ⟨a, 0⟩).re)
    (hone : m.sqrt 1 = 1)
    (hbc : hs.bc = 'A' ∨ hs.bc = 'G') (hcS : hs.cS.re ≤ 0) (hcP : hs.cP.im = 0)
    (hrho : 0 < (EvaluateSSP oldPoint.x oldPoint.t).rho)
    (hcrit : (2 * m.pi * freq * Tg2D oldPoint tBdry) ^ 2
      > (2 * m.pi * freq / hs.cP.re) ^ 2) :
    ∃ (f : K) (d : Cpx K), 0 < f ∧
      m.csqrt (SQ (Cpx.ofReal (2 * m.pi * freq * Tg2D oldPoint tBdry))
        - SQ (Cpx.ofReal (2 * m.pi * freq) / hs.cP)) = ⟨f, 0⟩ ∧
      d = (EvaluateSSP oldPoint.x oldPoint.t).rho • (⟨f, 0⟩ : Cpx K)
        + Cpx.J * Cpx.ofReal (2 * m.pi * freq * Th2D oldPoint nBdry) * Cpx.ofReal hs.rho ∧
      Refl2D m EvaluateSSP oldPoint hs tBdry nBdry freq = (-Cpx.conj d) / d ∧
      Cpx.normSq (Refl2D m EvaluateSSP oldPoint hs tBdry nBdry freq) = 1 ∧
      m.cabs (Refl2D m EvaluateSSP oldPoint hs tBdry nBdry freq) = 1 ∧
      ¬ m.cabs (Refl2D m EvaluateSSP oldPoint hs tBdry nBdry freq) < 1e-5 ∧
      ∃ np, Reflect2D m EvaluateSSP fuel oldPoint newPoint hs isTop tBdry nBdry rcurv freq
          rtb Beam = .ok np ∧ np.Amp = oldPoint.Amp := by
  obtain ⟨f, hf, hk, hR⟩ := ReflCoef2D_total m hs (EvaluateSSP oldPoint.x oldPoint.t).rho
    (2 * m.pi * freq) (Th2D oldPoint nBdry) (Tg2D oldPoint tBdry) hsqrt hcS hcP hcrit
  have hd : (EvaluateSSP oldPoint.x oldPoint.t).rho • (⟨f, 0⟩ : Cpx K)
        + Cpx.J * Cpx.ofReal (2 * m.pi * freq * Th2D oldPoint nBdry) * Cpx.ofReal hs.rho
      = ⟨(EvaluateSSP oldPoint.x oldPoint.t).rho * f,
          2 * m.pi * freq * Th2D oldPoint nBdry * hs.rho⟩ := by
    rw [Cpx.ext_iff2]
    simp only [Cpx.add_re, Cpx.add_im, Cpx.smul_re, Cpx.smul_im, Cpx.mul_re, Cpx.mul_im,
      Cpx.J_re, Cpx.J_im, Cpx.ofReal_re, Cpx.ofReal_im]
    constructor <;> ring
  have hRefl : Refl2D m EvaluateSSP oldPoint hs tBdry nBdry freq
      = (-Cpx.conj ((EvaluateSSP oldPoint.x oldPoint.t).rho • (⟨f, 0⟩ : Cpx K)
          + Cpx.J * Cpx.ofReal (2 * m.pi * freq * Th2D oldPoint nBdry) * Cpx.ofReal hs.rho))
        / ((EvaluateSSP oldPoint.x oldPoint.t).rho • (⟨f, 0⟩ : Cpx K)
          + Cpx.J * Cpx.ofReal (2 * m.pi * freq * Th2D oldPoint nBdry)
            * Cpx.ofReal hs.rho) := by
    rw [hd]
    exact hR
  have hn : Cpx.normSq (Refl2D m EvaluateSSP oldPoint hs tBdry nBdry freq) = 1 := by
    rw [hRefl, hd]
    exact Cpx.normSq_neg_conj_div _ (ne_of_gt (mul_pos hrho hf))
  have hab : m.cabs (Refl2D m EvaluateSSP oldPoint hs tBdry nBdry freq) = 1 := by
    rw [STD.cabs, hn, hone]
  have hnk : ¬ m.cabs (Refl2D m EvaluateSSP oldPoint hs tBdry nBdry freq) < 1e-5 := by
    rw [hab]
    norm_num
  obtain ⟨np, hnp, -, h2⟩ := Reflect2D_AG m fuel freq rtb Beam EvaluateSSP hs isTop hbc
    oldPoint newPoint tBdry nBdry rcurv
  refine ⟨f, _, hf, hk, rfl, hRefl, hn, hab, hnk, np, hnp, ?_⟩
  rw [(h2 hnk).1, hab, one_mul]

/-- C33 for a ray with the tangent `(3/25, 4/25)` on a flat bottom with
`cP = 1600` and no shear, at `ω = 6`: `(ω·Tg)² = (18/25)²` exceeds
`(ω/cP)² = (3/800)²`, and the amplitude 1 is kept. -/
theorem C33_witness :
    ∃ np, Reflect2D exSTD exSSP 0 exPoint exPoint (exHS 'A') false ⟨1, 0⟩ ⟨0, 1⟩ ⟨0⟩ 1
        exTable exBeam = .ok np ∧ np.Amp = 1 := by
  obtain ⟨f, d, -, -, -, -, -, -, -, np, h1, h2⟩ :=
    C33_total_reflection exSTD exSSP 0 exPoint exPoint (exHS 'A') false ⟨1, 0⟩ ⟨0, 1⟩ ⟨0⟩ 1
      exTable exBeam (fun a ha => ⟨rfl, ha⟩) rfl (Or.inl rfl) (le_refl _) rfl
      (by norm_num [exSSP]) (by norm_num [exSTD, exPoint, exHS, Tg2D, Vec2.dot])
  exact ⟨np, h1, h2⟩

/-- C34: what `Reflect<true, true>` does at a wall. The test of the hack,
`abs(RadDeg * atan2(nBdry.z, |nBdry.xy|)) < 0`, is false for every boundary
normal, so the coefficient is never overridden: for a half-space `'A'` or
`'G'` the amplitude is `|Refl| · oldPoint.Amp` (0 when `|Refl| < 1e-5`) with
`Refl` the half-space coefficient, whatever the slope. At the vertical wall
`nBdry = (1, 0, 0)`, with the tangent `(3/25, 0, 4/25)`, `c = cP = 5`,
densities 1 and `9/5` and `ω = 300`, the coefficient is `2/7` and the
amplitude 1 becomes `2/7`, whatever the 3D ray routines do. -/
theorem C34_wall_hack_never_fires :
    (∀ {K : Type} [LinearOrderedField K] (m : STD K) (nBdry : Vec3 K) (Refl : Cpx K),
      ¬ (|m.RadDeg * m.atan2 nBdry.z (m.length2 ⟨nBdry.x, nBdry.y⟩)| < 0) ∧
      wallHack m nBdry Refl = Refl) ∧
    (∀ {K : Type} [LinearOrderedField K] {P : Type} (m : STD K) (ray : Ray3D K P)
      (EvaluateSSP : Vec3 K → Vec3 K → SSPOutputs3 K) (fuel : Nat)
      (oldPoint newPoint : rayPt3 K P) (hs : HSInfo K) (isTop : Bool)
      (tBdry nBdry : Vec3 K) (rcurv : ReflCurvature3 K) (freq : K)
      (rtb : ReflectionInfoTopBot K), hs.bc = 'A' ∨ hs.bc = 'G' →
      ∃ (np : rayPt3 K P) (Refl : Cpx K),
        Refl = ReflCoefO3D m hs
          (EvaluateSSP oldPoint.x (oldPoint.t - (2 * Th3D oldPoint nBdry) • nBdry)).ccpx.re
          (EvaluateSSP oldPoint.x (oldPoint.t - (2 * Th3D oldPoint nBdry) • nBdry)).rho
          (2 * m.pi * freq) (Tg3D m oldPoint nBdry) ∧
        Reflect3D m ray EvaluateSSP fuel oldPoint newPoint hs isTop tBdry nBdry rcurv freq
          rtb = .ok np ∧
        (m.cabs Refl < 1e-5 → np.Amp = 0 ∧ np.Phase = oldPoint.Phase) ∧
        (¬ m.cabs Refl < 1e-5 → np.Amp = m.cabs Refl * oldPoint.Amp ∧
          np.Phase = oldPoint.Phase + m.atan2 Refl.im Refl.re)) ∧
    (∀ ray : Ray3D ℚ ℚ, ∃ np,
      Reflect3D exSTDwall ray exSSP3 0 exPoint3 exPoint3 exHSsame false ⟨0, 0, 1⟩ ⟨1, 0, 0⟩
        ⟨0, 0, 0, 0, 0, 0⟩ 50 exTable = .ok np ∧
      np.Amp = 2 / 7 ∧ np.Amp ≠ exPoint3.Amp) := by
  have hgen : ∀ {K : Type} [LinearOrderedField K] {P : Type} (m : STD K) (ray : Ray3D K P)
      (EvaluateSSP : Vec3 K → Vec3 K → SSPOutputs3 K) (fuel : Nat)
      (oldPoint newPoint : rayPt3 K P) (hs : HSInfo K) (isTop : Bool)
      (tBdry nBdry : Vec3 K) (rcurv : ReflCurvature3 K) (freq : K)
      (rtb : ReflectionInfoTopBot K), hs.bc = 'A' ∨ hs.bc = 'G' →
      ∃ (np : rayPt3 K P) (Refl : Cpx K),
        Refl = ReflCoefO3D m hs
          (EvaluateSSP oldPoint.x (oldPoint.t - (2 * Th3D oldPoint nBdry) • nBdry)).ccpx.re
          (EvaluateSSP oldPoint.x (oldPoint.t - (2 * Th3D oldPoint nBdry) • nBdry)).rho
          (2 * m.pi * freq) (Tg3D m oldPoint nBdry) ∧
        Reflect3D m ray EvaluateSSP fuel oldPoint newPoint hs isTop tBdry nBdry rcurv freq
          rtb = .ok np ∧
        (m.cabs Refl < 1e-5 → np.Amp = 0 ∧ np.Phase = oldPoint.Phase) ∧
        (¬ m.cabs Refl < 1e-5 → np.Amp = m.cabs Refl * oldPoint.Amp ∧
          np.Phase = oldPoint.Phase + m.atan2 Refl.im Refl.re) := by
    intro K _ P m ray EvaluateSSP fuel oldPoint newPoint hs isTop tBdry nBdry rcurv freq rtb
      hbc
    obtain ⟨np0, h0, -⟩ := Reflect3D_split m ray EvaluateSSP fuel oldPoint newPoint hs isTop
      tBdry nBdry rcurv freq rtb
    obtain ⟨np, h1, h2, h3⟩ := ampPhase3_AG m fuel oldPoint hs (Th3D oldPoint nBdry)
      (Tg3D m oldPoint nBdry) nBdry
      (EvaluateSSP oldPoint.x (oldPoint.t - (2 * Th3D oldPoint nBdry) • nBdry)) freq rtb np0
      hbc _ (wallHack_id m nBdry _).symm
    exact ⟨np, _, rfl, h0.trans h1, h2, h3⟩
  refine ⟨fun m nBdry Refl => ⟨not_lt.mpr (abs_nonneg _), wallHack_id m nBdry Refl⟩,
    hgen, fun ray => ?_⟩
  obtain ⟨np, R, hR, hnp, -, h2⟩ := hgen exSTDwall ray exSSP3 0 exPoint3 exPoint3 exHSsame
    false ⟨0, 0, 1⟩ ⟨1, 0, 0⟩ ⟨0, 0, 0, 0, 0, 0⟩ 50 exTable (Or.inl rfl)
  have hTg : Tg3D exSTDwall exPoint3 ⟨1, 0, 0⟩ = 4 / 25 := by
    norm_num [Tg3D, tBdry3D, Th3D, exPoint3, exSTDwall, exSTD, STD.length3, Vec3.dot,
      vec3_sub, vec3_smul]
  have hRv : R = ⟨2 / 7, 0⟩ := by
    rw [hR, hTg]
    norm_num [ReflCoefO3D, exSTDwall, exSTD, exSSP3, exHSsame, exHS, SQ, Cpx.ext_iff2,
      Cpx.ofReal, Cpx.J, Cpx.div_re, Cpx.div_im, Cpx.sub_re, Cpx.sub_im, Cpx.add_re,
      Cpx.add_im, Cpx.mul_re, Cpx.mul_im, Cpx.smul_re, Cpx.smul_im, Cpx.neg_re, Cpx.neg_im]
  have hab : exSTDwall.cabs R = 2 / 7 := by
    rw [hRv]
    norm_num [STD.cabs, Cpx.normSq, exSTDwall, exSTD]
  have hk : ¬ exSTDwall.cabs R < 1e-5 := by
    rw [hab]; norm_num
  have hamp : np.Amp = 2 / 7 := by
    rw [(h2 hk).1, hab]
    norm_num [exPoint3]
  refine ⟨np, hnp, hamp, ?_⟩
  rw [hamp]
  norm_num [exPoint3]

/-- C35: each instance of `Reflect` ends in the "Unknown boundary condition
type" bail exactly when `hs.bc` is none of `R`, `V`, `F`, `A`, `G`; so a
half-space tagged `P` always ends there, and for the tag `G` the call does
what it does for the same half-space tagged `A`. -/
theorem C35_unknown_boundary_condition {K : Type} [LinearOrderedField K] {P : Type}
    [Add P] [SMul K P]
    (m : STD K) (fuel : Nat) (freq : K) (rtb : ReflectionInfoTopBot K) (Beam : BeamStructure)
    (E2 : Vec2 K → Vec2 K → SSPOutputs2 K) (E3 : Vec3 K → Vec3 K → SSPOutputs3 K)
    (RayToOceanT : Vec3 K → Origin K → Vec2 K) (org : Origin K) (ray : Ray3D K P)
    (hs : HSInfo K) (isTop : Bool) :
    (∀ (oldPoint newPoint : rayPt2 K P) (tBdry nBdry : Vec2 K) (rcurv : ReflCurvature2 K),
      (Reflect2D m E2 fuel oldPoint newPoint hs isTop tBdry nBdry rcurv freq rtb Beam
          = .error .unknownBC ↔
        ¬ (hs.bc = 'R' ∨ hs.bc = 'V' ∨ hs.bc = 'F' ∨ hs.bc = 'A' ∨ hs.bc = 'G')) ∧
      (hs.bc = 'P' →
        Reflect2D m E2 fuel oldPoint newPoint hs isTop tBdry nBdry rcurv freq rtb Beam
          = .error .unknownBC) ∧
      (hs.bc = 'G' →
        Reflect2D m E2 fuel oldPoint newPoint hs isTop tBdry nBdry rcurv freq rtb Beam
          = Reflect2D m E2 fuel oldPoint newPoint { hs with bc := 'A' } isTop tBdry nBdry
              rcurv freq rtb Beam)) ∧
    (∀ (oldPoint newPoint : rayPt2 K P) (tBdry : Vec2 K) (nBdry : Vec3 K)
        (rcurv : ReflCurvature3 K),
      (ReflectNx2D m RayToOceanT E2 fuel oldPoint newPoint hs isTop tBdry nBdry rcurv freq
          rtb Beam org = .error .unknownBC ↔
        ¬ (hs.bc = 'R' ∨ hs.bc = 'V' ∨ hs.bc = 'F' ∨ hs.bc = 'A' ∨ hs.bc = 'G')) ∧
      (hs.bc = 'P' →
        ReflectNx2D m RayToOceanT E2 fuel oldPoint newPoint hs isTop tBdry nBdry rcurv freq
          rtb Beam org = .error .unknownBC) ∧
      (hs.bc = 'G' →
        ReflectNx2D m RayToOceanT E2 fuel oldPoint newPoint hs isTop tBdry nBdry rcurv freq
            rtb Beam org
          = ReflectNx2D m RayToOceanT E2 fuel oldPoint newPoint { hs with bc := 'A' } isTop
              tBdry nBdry rcurv freq rtb Beam org)) ∧
    (∀ (oldPoint newPoint : rayPt3 K P) (tBdry nBdry : Vec3 K) (rcurv : ReflCurvature3 K),
      (Reflect3D m ray E3 fuel oldPoint newPoint hs isTop tBdry nBdry rcurv freq rtb
          = .error .unknownBC ↔
        ¬ (hs.bc = 'R' ∨ hs.bc = 'V' ∨ hs.bc = 'F' ∨ hs.bc = 'A' ∨ hs.bc = 'G')) ∧
      (hs.bc = 'P' →
        Reflect3D m ray E3 fuel oldPoint newPoint hs isTop tBdry nBdry rcurv freq rtb
          = .error .unknownBC) ∧
      (hs.bc = 'G' →
        Reflect3D m ray E3 fuel oldPoint newPoint hs isTop tBdry nBdry rcurv freq rtb
          = Reflect3D m ray E3 fuel oldPoint newPoint { hs with bc := 'A' } isTop tBdry nBdry
              rcurv freq rtb)) := by
  have hP : hs.bc = 'P' →
      ¬ (hs.bc = 'R' ∨ hs.bc = 'V' ∨ hs.bc = 'F' ∨ hs.bc = 'A' ∨ hs.bc = 'G') := by
    intro h
    rw [h]
    decide
  refine ⟨fun oldPoint newPoint tBdry nBdry rcurv => ?_,
    fun oldPoint newPoint tBdry nBdry rcurv => ?_,
    fun oldPoint newPoint tBdry nBdry rcurv => ?_⟩
  · obtain ⟨np0, h0, -⟩ := Reflect2D_split m E2 fuel oldPoint newPoint hs isTop tBdry nBdry
      rcurv freq rtb Beam
    have hiff := ampPhase2_unknown_iff m false fuel oldPoint hs (Th2D oldPoint nBdry)
      (Tg2D oldPoint tBdry) tBdry (E2 oldPoint.x oldPoint.t) freq rtb Beam np0
    rw [← h0] at hiff
    refine ⟨hiff, fun h => hiff.mpr (hP h), fun hG => ?_⟩
    simp only [Reflect2D]
    exact ampPhase2_G m false fuel oldPoint hs _ _ tBdry _ freq rtb Beam _ hG
  · obtain ⟨np0, h0, -⟩ := ReflectNx2D_split m RayToOceanT E2 fuel oldPoint newPoint hs isTop
      tBdry nBdry rcurv freq rtb Beam org
    have hiff := ampPhase2_unknown_iff m true fuel oldPoint hs
      (ThNx2D m RayToOceanT oldPoint nBdry org) (TgNx2D m RayToOceanT oldPoint nBdry org)
      (tBdryNx2D m RayToOceanT oldPoint nBdry org)
      (E2 oldPoint.x (oldPoint.t - (2 * ThNx2D m RayToOceanT oldPoint nBdry org)
        • nBdry_rayNx2D m RayToOceanT nBdry org)) freq rtb Beam np0
    rw [← h0] at hiff
    refine ⟨hiff, fun h => hiff.mpr (hP h), fun hG => ?_⟩
    simp only [ReflectNx2D]
    exact ampPhase2_G m true fuel oldPoint hs _ _ _ _ freq rtb Beam _ hG
  · obtain ⟨np0, h0, -⟩ := Reflect3D_split m ray E3 fuel oldPoint newPoint hs isTop tBdry
      nBdry rcurv freq rtb
    have hiff := ampPhase3_unknown_iff m fuel oldPoint hs (Th3D oldPoint nBdry)
      (Tg3D m oldPoint nBdry) nBdry
      (E3 oldPoint.x (oldPoint.t - (2 * Th3D oldPoint nBdry) • nBdry)) freq rtb np0
    rw [← h0] at hiff
    refine ⟨hiff, fun h => hiff.mpr (hP h), fun hG => ?_⟩
    simp only [Reflect3D]
    exact ampPhase3_G m fuel oldPoint hs _ _ nBdry _ freq rtb _ hG

/-- C36: one worker started with `sharedJobID = 0`, with
`M = min(neigen, memsize)` and non-negative counts. With `M + 1` passes
through the loop allowed (or more) `EigenModePostWorker` returns. It calls
`RunRay` for the jobs `0, 1, ..., k-1` in this order, each once, with `k ≤ M`,
passing `hits[job]`'s `(isx, isy, isz, ialpha, ibeta)` and
`Nsteps = hits[job].is`; it reads `hits` at these indices only, all below
`neigen` and below `memsize`. The data `RunRay` works on goes through the
states `sts[0], ..., sts[k]`, from the data on entry to the data on return:
call `i` is `RunRay` on `sts[i]` for the job `i`, its flag is the `bool` that
this call of `RunRay` returned and `sts[i+1]` is the data it left. Every call
before the last returned `true`; either all `M` jobs ran and the counter
ends at `M + 1`, or the last call returned `false` (the worker stops at the
first job for which `RunRay` fails) and the counter ends at `k`; so the
counter was incremented at most `M + 1` times. -/
theorem C36_eigenray_post_worker {S : Type}
    (RunRay : S → Int → Int → RayInitInfo → Int → S × Bool)
    (eigen : EigenInfo) (worker : Int) (rayinfo : S)
    (hn : 0 ≤ eigen.neigen) (hm : 0 ≤ eigen.memsize) :
    ∃ (final : PostState S) (k : Nat) (sts : List S),
      (∀ fuel, (min eigen.neigen eigen.memsize).toNat + 1 ≤ fuel →
        EigenModePostWorker RunRay eigen worker fuel (PostState.start rayinfo)
          = some final) ∧
      (k : Int) ≤ min eigen.neigen eigen.memsize ∧
      final.calls.length = k ∧
      final.calls.map (fun c => c.job) = List.map Int.ofNat (List.range k) ∧
      final.reads = List.map Int.ofNat (List.range k) ∧
      (∀ c ∈ final.calls, c = workerCall eigen worker c.job c.ok) ∧
      (∀ j ∈ final.reads, 0 ≤ j ∧ j < eigen.neigen ∧ j < eigen.memsize) ∧
      sts.length = k + 1 ∧ sts[0]? = some rayinfo ∧ sts[k]? = some final.rayinfo ∧
      (∀ (i : Nat) (c : RunRayCall) (st : S), final.calls[i]? = some c → sts[i]? = some st →
        c.job = (i : Int) ∧
        c.rinit = ⟨(eigen.hits i).isx, (eigen.hits i).isy, (eigen.hits i).isz,
          (eigen.hits i).ialpha, (eigen.hits i).ibeta⟩ ∧
        c.Nsteps = (eigen.hits i).is ∧
        c.ok = (RunRay st i worker c.rinit c.Nsteps).2 ∧
        sts[i + 1]? = some (RunRay st i worker c.rinit c.Nsteps).1) ∧
      (∀ c ∈ final.calls.dropLast, c.ok = true) ∧
      ((final.sharedJobID = k + 1 ∧ (k : Int) = min eigen.neigen eigen.memsize ∧
          ∀ c ∈ final.calls, c.ok = true) ∨
        (final.sharedJobID = k ∧ ∃ c, final.calls.getLast? = some c ∧ c.ok = false)) ∧
      final.sharedJobID ≤ min eigen.neigen eigen.memsize + 1 := by
  have hM0 : 0 ≤ min eigen.neigen eigen.memsize := le_min hn hm
  have hto : (((min eigen.neigen eigen.memsize).toNat : Nat) : Int)
      = min eigen.neigen eigen.memsize := Int.toNat_of_nonneg hM0
  obtain ⟨final, Lok, tail, sts, h1, h2, h3, h4, h5, h6, h7, h8, h9, h10, h11, h12⟩ :=
    worker_trace RunRay eigen worker (min eigen.neigen eigen.memsize).toNat
      (PostState.start rayinfo) 0 rfl (by rw [hto]; simp)
  have hc : final.calls = Lok ++ tail := by rw [h2]; rfl
  have hr : final.reads = List.map Int.ofNat (List.range (Lok ++ tail).length) := by
    rw [h3, h4, List.range_eq_range']; rfl
  have hk : ((Lok ++ tail).length : Int) ≤ min eigen.neigen eigen.memsize := by
    rw [← hto]; exact_mod_cast h5
  have hjobs : (Lok ++ tail).map (fun c => c.job)
      = List.map Int.ofNat (List.range (Lok ++ tail).length) := by
    rw [h4, List.range_eq_range']
  refine ⟨final, (Lok ++ tail).length, sts, h1, hk, by rw [hc], by rw [hc]; exact hjobs, hr,
    by rw [hc]; exact h6, ?_, h9, h10, h11, ?_, ?_, ?_, ?_⟩
  · intro j hj
    rw [hr] at hj
    obtain ⟨i, hi, rfl⟩ := List.mem_map.mp hj
    have hi2 : i < (Lok ++ tail).length := List.mem_range.mp hi
    have hi3 : (i : Int) < min eigen.neigen eigen.memsize :=
      lt_of_lt_of_le (by exact_mod_cast hi2) hk
    exact ⟨Int.ofNat_nonneg i, lt_of_lt_of_le hi3 (min_le_left _ _),
      lt_of_lt_of_le hi3 (min_le_right _ _)⟩
  · intro i c st hci hst
    rw [hc] at hci
    have hjob : c.job = (i : Int) := by
      have e1 : ((Lok ++ tail).map (fun c => c.job))[i]? = some c.job := by
        rw [List.getElem?_map, hci]; rfl
      have hi : i < (Lok ++ tail).length := by
        by_contra hge
        have := List.getElem?_eq_none (Nat.le_of_not_lt hge)
        rw [this] at hci
        cases hci
      rw [hjobs, List.getElem?_map, List.getElem?_range hi] at e1
      simp only [Option.map_some', Option.some.injEq] at e1
      exact e1.symm
    have hw := h6 c (List.getElem?_mem hci)
    obtain ⟨a, b⟩ := h12 i c st hci hst
    rw [hjob] at a b hw
    refine ⟨hjob, ?_, ?_, a, b⟩
    · rw [hw]; rfl
    · rw [hw]; rfl
  · intro c hcm
    rw [hc] at hcm
    rcases h8 with ⟨a, -, -⟩ | ⟨d, a, -, -⟩
    · rw [a, List.append_nil] at hcm
      exact h7 c (List.dropLast_subset _ hcm)
    · rw [a, List.dropLast_concat] at hcm
      exact h7 c hcm
  · rcases h8 with ⟨a, b, c⟩ | ⟨d, a, b, c⟩
    · refine Or.inl ⟨by rw [b]; simp, by rw [← hto]; exact_mod_cast c, fun x hx => ?_⟩
      rw [hc, a, List.append_nil] at hx
      exact h7 x hx
    · refine Or.inr ⟨by rw [c]; simp, d, ?_, b⟩
      rw [hc, a]
      simp
  · rcases h8 with ⟨a, b, c⟩ | ⟨d, a, b, c⟩
    · rw [b]
      have : ((Lok ++ tail).length : Int) = min eigen.neigen eigen.memsize := by
        rw [← hto]; exact_mod_cast c
      omega
    · rw [c]
      omega

/-- C36 for three recorded hits in a store of two (`M = 2`): with `RunRay`
succeeding, the worker traces the jobs 0 and 1 with the data of `hits[0]`
and `hits[1]`, reads no other entry and leaves the counter at 3; with
`RunRay` failing at job 0 it stops after that one call. -/
theorem C36_witness :
    EigenModePostWorker (exRunRay 5) exEigen 0 3 (PostState.start 0)
      = some ⟨3, 2, [0, 1], [workerCall exEigen 0 0 true, workerCall exEigen 0 1 true]⟩ ∧
    EigenModePostWorker (exRunRay 0) exEigen 0 3 (PostState.start 0)
      = some ⟨1, 1, [0], [workerCall exEigen 0 0 false]⟩ ∧
    ∃ (final : PostState Nat) (k : Nat),
      EigenModePostWorker (exRunRay 5) exEigen 0 3 (PostState.start 0) = some final ∧
      (k : Int) ≤ 2 ∧ final.reads = List.map Int.ofNat (List.range k) := by
  refine ⟨rfl, rfl, ?_⟩
  obtain ⟨final, k, sts, h1, h2, -, -, h5, -⟩ := C36_eigenray_post_worker (exRunRay 5)
    exEigen 0 (0 : Nat) (by decide) (by decide)
  exact ⟨final, k, h1 3 (by decide), h2, h5⟩

/-- C37: `SxSy::Preprocess` is idempotent. With `ToMeters` multiplying the
first `N` entries by 1000: on `params` with `SxSyInKm = true` the first call
replaces every `Sx[i]`, `Sy[i]` by `1000·Sx[i]`, `1000·Sy[i]`, clears
`SxSyInKm` and changes nothing else; a call with `SxSyInKm = false` changes
nothing; so `Preprocess ∘ Preprocess = Preprocess`, `Echo` leaves what one
`Preprocess` leaves, and `Preprocess` after `Echo` changes nothing: the
entries stay at `1000·Sx[i]`, `1000·Sy[i]`. After `SetupPre` the flag is
set and the first call converts. -/
theorem C37_preprocess_idempotent {K : Type} [LinearOrderedField K] (lib : SxSyLib K)
    (Pos : Position K)
    (hTM : ∀ (x : Int → K) (N i : Int), 0 ≤ i → i < N → lib.ToMeters x N i = 1000 * x i) :
    SxSy.Preprocess lib (SxSy.Preprocess lib Pos) = SxSy.Preprocess lib Pos ∧
    (SxSy.Preprocess lib Pos).SxSyInKm = false ∧
    (Pos.SxSyInKm = false → SxSy.Preprocess lib Pos = Pos) ∧
    (Pos.SxSyInKm = true →
      SxSy.Preprocess lib Pos
        = { Pos with Sx := lib.ToMeters Pos.Sx Pos.NSx, Sy := lib.ToMeters Pos.Sy Pos.NSy,
                     SxSyInKm := false } ∧
      (∀ i, 0 ≤ i → i < Pos.NSx → (SxSy.Preprocess lib Pos).Sx i = 1000 * Pos.Sx i) ∧
      (∀ i, 0 ≤ i → i < Pos.NSy → (SxSy.Preprocess lib Pos).Sy i = 1000 * Pos.Sy i) ∧
      (∀ i, 0 ≤ i → i < Pos.NSx →
        (SxSy.Preprocess lib (SxSy.Echo lib Pos).1).Sx i = 1000 * Pos.Sx i) ∧
      (∀ i, 0 ≤ i → i < Pos.NSy →
        (SxSy.Preprocess lib (SxSy.Echo lib Pos).1).Sy i = 1000 * Pos.Sy i)) ∧
    (SxSy.Echo lib Pos).1 = SxSy.Preprocess lib Pos ∧
    SxSy.Preprocess lib (SxSy.Echo lib Pos).1 = (SxSy.Echo lib Pos).1 ∧
    (SxSy.Echo lib (SxSy.Echo lib Pos).1).1 = (SxSy.Echo lib Pos).1 ∧
    (SxSy.SetupPre Pos).SxSyInKm = true ∧ (SxSy.SetupPre Pos).NSx = 1 ∧
    (SxSy.SetupPre Pos).NSy = 1 ∧
    (SxSy.Preprocess lib (SxSy.SetupPre Pos)).Sx 0 = 1000 * Pos.Sx 0 ∧
    (SxSy.Preprocess lib (SxSy.SetupPre Pos)).Sy 0 = 1000 * Pos.Sy 0 := by
  have hfalse : ∀ q : Position K, q.SxSyInKm = false → SxSy.Preprocess lib q = q := by
    intro q hq
    simp [SxSy.Preprocess, hq]
  have hclear : (SxSy.Preprocess lib Pos).SxSyInKm = false := by
    cases h : Pos.SxSyInKm <;> simp [SxSy.Preprocess, h]
  have htrue : Pos.SxSyInKm = true → SxSy.Preprocess lib Pos
      = { Pos with Sx := lib.ToMeters Pos.Sx Pos.NSx, Sy := lib.ToMeters Pos.Sy Pos.NSy,
                   SxSyInKm := false } := by
    intro h
    simp [SxSy.Preprocess, h]
  have hidem := hfalse _ hclear
  have hecho : (SxSy.Echo lib Pos).1 = SxSy.Preprocess lib Pos := rfl
  refine ⟨hidem, hclear, hfalse Pos, fun h => ⟨htrue h, ?_, ?_, ?_, ?_⟩, hecho, ?_, ?_, rfl,
    rfl, rfl, ?_, ?_⟩
  · intro i h0 h1
    rw [htrue h]
    exact hTM _ _ _ h0 h1
  · intro i h0 h1
    rw [htrue h]
    exact hTM _ _ _ h0 h1
  · intro i h0 h1
    rw [hecho, hidem, htrue h]
    exact hTM _ _ _ h0 h1
  · intro i h0 h1
    rw [hecho, hidem, htrue h]
    exact hTM _ _ _ h0 h1
  · rw [hecho]; exact hidem
  · show SxSy.Preprocess lib (SxSy.Echo lib Pos).1 = (SxSy.Echo lib Pos).1
    rw [hecho]; exact hidem
  · have : SxSy.Preprocess lib (SxSy.SetupPre Pos)
        = { SxSy.SetupPre Pos with
            Sx := lib.ToMeters (SxSy.SetupPre Pos).Sx (SxSy.SetupPre Pos).NSx,
            Sy := lib.ToMeters (SxSy.SetupPre Pos).Sy (SxSy.SetupPre Pos).NSy,
            SxSyInKm := false } := by
      simp [SxSy.Preprocess, SxSy.SetupPre]
    rw [this]
    exact hTM _ _ _ (le_refl _) (show (0 : Int) < 1 by decide)
  · have : SxSy.Preprocess lib (SxSy.SetupPre Pos)
        = { SxSy.SetupPre Pos with
            Sx := lib.ToMeters (SxSy.SetupPre Pos).Sx (SxSy.SetupPre Pos).NSx,
            Sy := lib.ToMeters (SxSy.SetupPre Pos).Sy (SxSy.SetupPre Pos).NSy,
            SxSyInKm := false } := by
      simp [SxSy.Preprocess, SxSy.SetupPre]
    rw [this]
    exact hTM _ _ _ (le_refl _) (show (0 : Int) < 1 by decide)

/-- C37 for two sources at `x = 1, 2` km: one call gives `Sx[1] = 2000`, and
so does a call after `Echo`. -/
theorem C37_witness :
    (SxSy.Preprocess exSxSyLib exPos).Sx 1 = 2000 ∧
    (SxSy.Preprocess exSxSyLib (SxSy.Echo exSxSyLib exPos).1).Sx 1 = 2000 ∧
    SxSy.Preprocess exSxSyLib (SxSy.Preprocess exSxSyLib exPos)
      = SxSy.Preprocess exSxSyLib exPos := by
  obtain ⟨h1, -, -, h4, -⟩ := C37_preprocess_idempotent exSxSyLib exPos
    (fun x N i h0 h1 => by simp [exSxSyLib, h0, h1])
  obtain ⟨-, a, -, c, -⟩ := h4 rfl
  refine ⟨?_, ?_, h1⟩
  · rw [a 1 (by decide) (by decide)]
    norm_num [exPos]
  · rw [c 1 (by decide) (by decide)]
    norm_num [exPos]

/-- C38 (amended): `SxSy::Validate` raises "Invalid number of sources"
exactly when the `int32_t` product `NSx * NSy * NSz` is `≤ 0`. When the
products fit in 32 bits this is the sign of the exact product: the error is
raised when a count is 0 and when the exact product is negative (one count
or all three negative), and it is not raised when all three counts are
positive, nor when two counts are negative and the third is positive. -/
theorem C38_validate_source_counts {K : Type} [LinearOrderedField K] (lib : SxSyLib K)
    (Pos : Position K) :
    (SxSy.Validate lib Pos = .error .invalidNumberOfSources ↔
      wrapInt32 (wrapInt32 (Pos.NSx * Pos.NSy) * Pos.NSz) ≤ 0) ∧
    (-2 ^ 31 ≤ Pos.NSx * Pos.NSy → Pos.NSx * Pos.NSy < 2 ^ 31 →
      -2 ^ 31 ≤ Pos.NSx * Pos.NSy * Pos.NSz → Pos.NSx * Pos.NSy * Pos.NSz < 2 ^ 31 →
      (SxSy.Validate lib Pos = .error .invalidNumberOfSources ↔
        Pos.NSx * Pos.NSy * Pos.NSz ≤ 0) ∧
      (0 < Pos.NSx → 0 < Pos.NSy → 0 < Pos.NSz →
        SxSy.Validate lib Pos ≠ .error .invalidNumberOfSources) ∧
      (Pos.NSx = 0 ∨ Pos.NSy = 0 ∨ Pos.NSz = 0 →
        SxSy.Validate lib Pos = .error .invalidNumberOfSources) ∧
      (Pos.NSx * Pos.NSy * Pos.NSz < 0 →
        SxSy.Validate lib Pos = .error .invalidNumberOfSources) ∧
      ((Pos.NSx < 0 ∧ Pos.NSy < 0 ∧ 0 < Pos.NSz) ∨ (Pos.NSx < 0 ∧ 0 < Pos.NSy ∧ Pos.NSz < 0) ∨
          (0 < Pos.NSx ∧ Pos.NSy < 0 ∧ Pos.NSz < 0) →
        SxSy.Validate lib Pos ≠ .error .invalidNumberOfSources)) := by
  have hiff : SxSy.Validate lib Pos = .error .invalidNumberOfSources ↔
      wrapInt32 (wrapInt32 (Pos.NSx * Pos.NSy) * Pos.NSz) ≤ 0 := by
    unfold SxSy.Validate
    constructor
    · intro h
      by_contra hc
      rw [if_neg hc] at h
      split_ifs at h
      · cases h
      · cases h
    · intro h
      rw [if_pos h]
  refine ⟨hiff, fun a1 a2 a3 a4 => ?_⟩
  have hw : wrapInt32 (wrapInt32 (Pos.NSx * Pos.NSy) * Pos.NSz)
      = Pos.NSx * Pos.NSy * Pos.NSz := by
    rw [wrapInt32_id _ a1 a2, wrapInt32_id _ a3 a4]
  rw [hw] at hiff
  refine ⟨hiff, fun b1 b2 b3 => ?_, fun b => ?_, fun b => hiff.mpr (le_of_lt b), fun b => ?_⟩
  · rw [Ne, hiff, not_le]
    exact mul_pos (mul_pos b1 b2) b3
  · apply hiff.mpr
    rcases b with b | b | b <;> simp [b]
  · rw [Ne, hiff, not_le]
    rcases b with ⟨c1, c2, c3⟩ | ⟨c1, c2, c3⟩ | ⟨c1, c2, c3⟩
    · exact mul_pos (mul_pos_of_neg_of_neg c1 c2) c3
    · exact mul_pos_of_neg_of_neg (mul_neg_of_neg_of_pos c1 c2) c3
    · exact mul_pos_of_neg_of_neg (mul_neg_of_pos_of_neg c1 c2) c3

/-- C38, the input that contradicts it: with `NSx = NSy = -1` and `NSz = 1`
two counts are not positive, the product is 1, and `Validate` does not raise
"Invalid number of sources", whatever `ValidateVector` does; with the
stand-in `ValidateVector` the error comes from there. -/
theorem C38_counterexample :
    (∀ lib : SxSyLib ℚ,
      SxSy.Validate lib ⟨-1, -1, 1, fun _ => 0, fun _ => 0, false⟩
        ≠ .error .invalidNumberOfSources) ∧
    SxSy.Validate exSxSyLib ⟨-1, -1, 1, fun _ => 0, fun _ => 0, false⟩
      = .error (.vector SxSy.DescriptionX) := by
  constructor
  · intro lib h
    unfold SxSy.Validate at h
    rw [if_neg (by decide)] at h
    split_ifs at h
    · cases h
    · cases h
  · rfl

/-- C39: over the reals, with `STD::exp` the exponential function, the
`Analytic` profile at the depth `z` returns
`c(z) = 1500·(1 + 0.00737·(ξ − 1 + e^(−ξ)))`, `ξ = 2(z − 1300)/1300`, with
imaginary part 0, `rho = 1`, `iSegz = 0` and `gradc.x = crr = crz = 0`; the
returned `gradc.y` is the derivative of `c` with respect to `z` and the
returned `czz` the derivative of `gradc.y`; `c(1300) = 1500`,
`gradc.y(1300) = 0`, `czz(z) > 0`, and `c(z) ≥ 1500` with equality exactly at
`z = 1300`. -/
theorem C39_analytic_profile (m : STD ℝ) (hexp : m.exp = Real.exp) (r : ℝ) (t : Vec2 ℝ)
    (freq : ℝ) (ssp : SSPStructure ℝ) (iSegz iSegr : Int) :
    (∀ z : ℝ,
      (Analytic m ⟨r, z⟩ t freq ssp iSegz iSegr).o.ccpx
        = ⟨1500 * (1 + 0.00737 * (2 * (z - 1300) / 1300 - 1
            + Real.exp (-(2 * (z - 1300) / 1300)))), 0⟩ ∧
      (Analytic m ⟨r, z⟩ t freq ssp iSegz iSegr).o.rho = 1 ∧
      (Analytic m ⟨r, z⟩ t freq ssp iSegz iSegr).iSegz = 0 ∧
      (Analytic m ⟨r, z⟩ t freq ssp iSegz iSegr).o.gradc.x = 0 ∧
      (Analytic m ⟨r, z⟩ t freq ssp iSegz iSegr).o.crr = 0 ∧
      (Analytic m ⟨r, z⟩ t freq ssp iSegz iSegr).o.crz = 0 ∧
      HasDerivAt (fun y => (Analytic m ⟨r, y⟩ t freq ssp iSegz iSegr).o.ccpx.re)
        (Analytic m ⟨r, z⟩ t freq ssp iSegz iSegr).o.gradc.y z ∧
      HasDerivAt (fun y => (Analytic m ⟨r, y⟩ t freq ssp iSegz iSegr).o.gradc.y)
        (Analytic m ⟨r, z⟩ t freq ssp iSegz iSegr).o.czz z ∧
      0 < (Analytic m ⟨r, z⟩ t freq ssp iSegz iSegr).o.czz ∧
      1500 ≤ (Analytic m ⟨r, z⟩ t freq ssp iSegz iSegr).o.ccpx.re ∧
      ((Analytic m ⟨r, z⟩ t freq ssp iSegz iSegr).o.ccpx.re = 1500 ↔ z = 1300)) ∧
    (Analytic m ⟨r, 1300⟩ t freq ssp iSegz iSegr).o.ccpx.re = 1500 ∧
    (Analytic m ⟨r, 1300⟩ t freq ssp iSegz iSegr).o.gradc.y = 0 := by
  have hc : ∀ y : ℝ, (Analytic m ⟨r, y⟩ t freq ssp iSegz iSegr).o.ccpx.re
      = 1500 * (1 + 0.00737 * (2 * (y - 1300) / 1300 - 1
          + Real.exp (-(2 * (y - 1300) / 1300)))) := by
    intro y
    simp only [Analytic, hexp]
  have hg : ∀ y : ℝ, (Analytic m ⟨r, y⟩ t freq ssp iSegz iSegr).o.gradc.y
      = 1500 * 0.00737 * (1 - Real.exp (-(2 * (y - 1300) / 1300))) * (2 / 1300) := by
    intro y
    simp only [Analytic, hexp]
  have hzz : ∀ y : ℝ, (Analytic m ⟨r, y⟩ t freq ssp iSegz iSegr).o.czz
      = 1500 * 0.00737 * Real.exp (-(2 * (y - 1300) / 1300)) * SQ ((2 : ℝ) / 1300) := by
    intro y
    simp only [Analytic, hexp]
  have hxi : ∀ z : ℝ, HasDerivAt (fun y : ℝ => 2 * (y - 1300) / 1300) (2 / 1300) z := by
    intro z
    have h1 : HasDerivAt (fun y : ℝ => y - 1300) 1 z := (hasDerivAt_id z).sub_const 1300
    have h2 := (h1.const_mul (2 : ℝ)).div_const 1300
    simpa using h2
  have hex : ∀ z : ℝ, HasDerivAt (fun y : ℝ => Real.exp (-(2 * (y - 1300) / 1300)))
      (Real.exp (-(2 * (z - 1300) / 1300)) * -(2 / 1300)) z := by
    intro z
    exact (hxi z).neg.exp
  refine ⟨fun z => ⟨?_, rfl, rfl, rfl, rfl, rfl, ?_, ?_, ?_, ?_, ?_⟩, ?_, ?_⟩
  · simp only [Analytic, hexp]
  · rw [hg z]
    have h := (((hxi z).sub_const 1).add (hex z)).const_mul (0.00737 : ℝ)
    have h2 := (h.const_add 1).const_mul (1500 : ℝ)
    have hfun : (fun y => (Analytic m ⟨r, y⟩ t freq ssp iSegz iSegr).o.ccpx.re)
        = fun y : ℝ => 1500 * (1 + 0.00737 * (2 * (y - 1300) / 1300 - 1
          + Real.exp (-(2 * (y - 1300) / 1300)))) := funext hc
    rw [hfun]
    convert h2 using 1
    ring
  · rw [hzz z]
    have h := (((hex z).const_sub 1).const_mul ((1500 : ℝ) * 0.00737)).mul_const
      ((2 : ℝ) / 1300)
    have hfun : (fun y => (Analytic m ⟨r, y⟩ t freq ssp iSegz iSegr).o.gradc.y)
        = fun y : ℝ => 1500 * 0.00737 * (1 - Real.exp (-(2 * (y - 1300) / 1300)))
          * (2 / 1300) := funext hg
    rw [hfun]
    convert h using 1
    simp only [SQ]
    ring
  · rw [hzz z]
    have := Real.exp_pos (-(2 * (z - 1300) / 1300))
    simp only [SQ]
    positivity
  · rw [hc z]
    have h := Real.add_one_le_exp (-(2 * (z - 1300) / 1300))
    nlinarith
  · rw [hc z]
    constructor
    · intro h
      by_contra hne
      have hx : -(2 * (z - 1300) / 1300) ≠ 0 := by
        intro h0
        apply hne
        linarith
      have h2 := Real.add_one_lt_exp hx
      nlinarith
    · intro h
      rw [h]
      norm_num
  · rw [hc 1300]
    norm_num
  · rw [hg 1300]
    norm_num

/-- C39 at the depth 1300 with the real exponential: the speed is 1500 and
the slope 0. -/
theorem C39_witness :
    (Analytic (exSTDexp Real.exp) (⟨0, 1300⟩ : Vec2 ℝ) ⟨0, 1⟩ 50 (exProfileOf ℝ 'A')
      0 0).o.ccpx.re = 1500 ∧
    (Analytic (exSTDexp Real.exp) (⟨0, 1300⟩ : Vec2 ℝ) ⟨0, 1⟩ 50 (exProfileOf ℝ 'A')
      0 0).o.gradc.y = 0 :=
  (C39_analytic_profile (exSTDexp Real.exp) rfl 0 ⟨0, 1⟩ 50 (exProfileOf ℝ 'A') 0 0).2

/-- C40: a call of `Reflect` that returns leaves `newPoint.x = oldPoint.x`
and `newPoint.tau = oldPoint.tau`, and for 2D rays `newPoint.q = oldPoint.q`,
unless it is a 2D-ray call (`R3D` false) with `hs.bc` `'A'` or `'G'`,
`Beam.Type[3] = 'S'` and `|Refl| ≥ 1e-5`; in 3D there is no exception. Every
call with `hs.bc` one of `R`, `V`, `A`, `G` returns (with `F` it returns when
the interpolator does). -/
theorem C40_position_and_delay_kept {K : Type} [LinearOrderedField K] {P : Type}
    [Add P] [SMul K P]
    (m : STD K) (fuel : Nat) (freq : K) (rtb : ReflectionInfoTopBot K) (Beam : BeamStructure)
    (E2 : Vec2 K → Vec2 K → SSPOutputs2 K) (E3 : Vec3 K → Vec3 K → SSPOutputs3 K)
    (RayToOceanT : Vec3 K → Origin K → Vec2 K) (org : Origin K) (ray : Ray3D K P)
    (hs : HSInfo K) (isTop : Bool) :
    (∀ (oldPoint newPoint : rayPt2 K P) (tBdry nBdry : Vec2 K) (rcurv : ReflCurvature2 K),
      (hs.bc = 'R' ∨ hs.bc = 'V' ∨ hs.bc = 'A' ∨ hs.bc = 'G' →
        ∃ np, Reflect2D m E2 fuel oldPoint newPoint hs isTop tBdry nBdry rcurv freq rtb Beam
          = .ok np) ∧
      ∀ np, Reflect2D m E2 fuel oldPoint newPoint hs isTop tBdry nBdry rcurv freq rtb Beam
          = .ok np →
        ¬ ((hs.bc = 'A' ∨ hs.bc = 'G') ∧ Beam.Type_ 3 = 'S' ∧
          1e-5 ≤ m.cabs (Refl2D m E2 oldPoint hs tBdry nBdry freq)) →
        np.x = oldPoint.x ∧ np.tau = oldPoint.tau ∧ np.q = oldPoint.q) ∧
    (∀ (oldPoint newPoint : rayPt2 K P) (tBdry : Vec2 K) (nBdry : Vec3 K)
        (rcurv : ReflCurvature3 K),
      (hs.bc = 'R' ∨ hs.bc = 'V' ∨ hs.bc = 'A' ∨ hs.bc = 'G' →
        ∃ np, ReflectNx2D m RayToOceanT E2 fuel oldPoint newPoint hs isTop tBdry nBdry rcurv
          freq rtb Beam org = .ok np) ∧
      ∀ np, ReflectNx2D m RayToOceanT E2 fuel oldPoint newPoint hs isTop tBdry nBdry rcurv
          freq rtb Beam org = .ok np →
        ¬ ((hs.bc = 'A' ∨ hs.bc = 'G') ∧ Beam.Type_ 3 = 'S' ∧
          1e-5 ≤ m.cabs (ReflNx2D m RayToOceanT E2 oldPoint hs nBdry org freq)) →
        np.x = oldPoint.x ∧ np.tau = oldPoint.tau ∧ np.q = oldPoint.q) ∧
    (∀ (oldPoint newPoint : rayPt3 K P) (tBdry nBdry : Vec3 K) (rcurv : ReflCurvature3 K),
      (hs.bc = 'R' ∨ hs.bc = 'V' ∨ hs.bc = 'A' ∨ hs.bc = 'G' →
        ∃ np, Reflect3D m ray E3 fuel oldPoint newPoint hs isTop tBdry nBdry rcurv freq rtb
          = .ok np) ∧
      ∀ np, Reflect3D m ray E3 fuel oldPoint newPoint hs isTop tBdry nBdry rcurv freq rtb
          = .ok np →
        np.x = oldPoint.x ∧ np.tau = oldPoint.tau) := by
  have hcase : ∀ (c : K), ¬ ((hs.bc = 'A' ∨ hs.bc = 'G') ∧ Beam.Type_ 3 = 'S' ∧ 1e-5 ≤ c) →
      Beam.Type_ 3 ≠ 'S' ∨ ¬ (hs.bc = 'A' ∨ hs.bc = 'G') ∨ c < 1e-5 := by
    intro c h
    by_cases h1 : Beam.Type_ 3 = 'S'
    · by_cases h2 : hs.bc = 'A' ∨ hs.bc = 'G'
      · by_cases h3 : c < 1e-5
        · exact Or.inr (Or.inr h3)
        · exact absurd ⟨h2, h1, not_lt.mp h3⟩ h
      · exact Or.inr (Or.inl h2)
    · exact Or.inl h1
  refine ⟨fun oldPoint newPoint tBdry nBdry rcurv => ⟨fun hbc => ?_, fun np hnp hno => ?_⟩,
    fun oldPoint newPoint tBdry nBdry rcurv => ⟨fun hbc => ?_, fun np hnp hno => ?_⟩,
    fun oldPoint newPoint tBdry nBdry rcurv => ⟨fun hbc => ?_, fun np hnp => ?_⟩⟩
  · exact (Reflect2D_ok_iff m E2 fuel oldPoint newPoint hs isTop tBdry nBdry rcurv freq rtb
      Beam).mpr (bc_known hbc _)
  · obtain ⟨a, b, c⟩ := Reflect2D_q m E2 fuel oldPoint newPoint hs isTop tBdry nBdry rcurv
      freq rtb Beam np hnp (hcase _ hno)
    exact ⟨b, c, a⟩
  · exact (ReflectNx2D_ok_iff m RayToOceanT E2 fuel oldPoint newPoint hs isTop tBdry nBdry
      rcurv freq rtb Beam org).mpr (bc_known hbc _)
  · obtain ⟨a, b, c⟩ := ReflectNx2D_q m RayToOceanT E2 fuel oldPoint newPoint hs isTop tBdry
      nBdry rcurv freq rtb Beam org np hnp (hcase _ hno)
    exact ⟨b, c, a⟩
  · exact (Reflect3D_ok_iff m ray E3 fuel oldPoint newPoint hs isTop tBdry nBdry rcurv freq
      rtb).mpr (bc_known hbc _)
  · obtain ⟨np0, h0, -, -, hx, -, htau⟩ := Reflect3D_split m ray E3 fuel oldPoint newPoint hs
      isTop tBdry nBdry rcurv freq rtb
    rw [h0] at hnp
    obtain ⟨-, -, -, -, -, -, fx, ftau, -⟩ := ampPhase3_frame m fuel oldPoint hs _ _ nBdry _
      freq rtb np0 np hnp
    exact ⟨fx.trans hx, ftau.trans htau⟩

end bhc
